import Mathlib

/-!
# Verification of the graph-dag DAG-to-text renderer

A shallow embedding of `src/dag/context.rs`, `src/dag/adapter.rs`,
`src/dag/mod.rs` and `src/screen.rs` (crate `graph-dag`), together with
proofs about the embedded pipeline
`parse -> toposort -> complete -> build_layers -> resolve_crossings ->
layout -> render`.

Modelling conventions:

* Rust `HashSet<usize>` fields are modelled as duplicate-free `List Nat`
  in insertion order; `insert` appends when absent, `remove` erases.
  Where the **iteration order** of a hash set can influence the result
  (the scan order of `downward` clones in `Context::complete`, and the
  connection-id assignment scans in `Context::layout`), the iterating
  function takes an explicit reordering parameter `rho`; Rust's
  `RandomState`-seeded iteration order corresponds to an arbitrary
  permutation, and two separate `Context::process` calls may observe
  different orders.  The canonical instantiation `rho = id` (iteration
  in insertion order) is used for the claims that do not concern
  iteration order.
* Rust `i32` geometry fields (`x`, `width`, `padding`, costs) are
  modelled by `Nat`: in every execution these fields only ever hold
  nonnegative values far below `2^31`.  The two subtraction sites are
  annotated where Nat truncation is shown to agree with `i32`.
* Rust `f32` arithmetic in `optimize_row_order` is modelled by exact
  fraction arithmetic (`Frac`, kept unnormalized so that every operation
  kernel-reduces); the formulas are translated verbatim (`0.01` becomes
  `1/100`, `15.0` becomes `15`).
* Rust `String` values (labels, map keys) are modelled by their
  character sequences `List Char`, and the string helpers of `parse`
  (`split`, `trim`) are re-implemented structurally on `List Char`,
  because the corresponding Lean `String` functions are defined by
  well-founded recursion and do not kernel-reduce.
* Loops without a syntactic bound (`Context::complete`, the Dijkstra
  queue loop and the back-trace loop in `Adapter::construct`) take fuel;
  exhaustion is recorded in a `diverged`/`stuck` flag so that genuine
  nontermination of the Rust source is observable in the model.
-/

namespace GraphDag

/-! ## Generic list helpers -/

/-- Replace the element at index `i` (no-op out of range).  Defined by
an explicit recursor so that kernel reduction stays lightweight. -/
def updN (i : Nat) (f : α → α) (l : List α) : List α :=
  @List.rec α (fun _ => Nat → List α)
    (fun _ => [])
    (fun a l ih i =>
      match i with
      | 0 => f a :: l
      | i + 1 => a :: ih i)
    l i

/-- Indexing with a default (`Vec` indexing), recursor-style. -/
def getIdx (d : α) (l : List α) (i : Nat) : α :=
  @List.rec α (fun _ => Nat → α)
    (fun _ => d)
    (fun a _ ih i =>
      match i with
      | 0 => a
      | i + 1 => ih i)
    l i

/-- `HashSet::insert` on an insertion-ordered duplicate-free list. -/
def sinsert (v : Nat) (l : List Nat) : List Nat :=
  if v ∈ l then l else l ++ [v]

/-- `HashSet::remove` on an insertion-ordered duplicate-free list. -/
def sremove (v : Nat) (l : List Nat) : List Nat :=
  l.filter (fun x => x ≠ v)

/-- Stable insertion step for `sortByKey`. -/
def insertByKey (key : α → β) (le : β → β → Bool) (a : α) : List α → List α
  | [] => [a]
  | b :: l => if le (key b) (key a) then b :: insertByKey key le a l else a :: b :: l

/-- Stable sort by key, modelling Rust `sort_by_key` (a stable sort). -/
def sortByKey (key : α → β) (le : β → β → Bool) : List α → List α
  | [] => []
  | a :: l => insertByKey key le a (sortByKey key le l)

/-- Exact fractions standing in for `f32`.  Denominators are positive
in every use below and are not normalized, keeping all operations
structural. -/
structure Frac where
  num : Int
  den : Int
deriving Repr, DecidableEq

namespace Frac

/-- Embed a natural number. -/
def ofNat (n : Nat) : Frac := ⟨n, 1⟩

/-- Fraction addition. -/
def add (a b : Frac) : Frac := ⟨a.num * b.den + b.num * a.den, a.den * b.den⟩

/-- Fraction subtraction. -/
def sub (a b : Frac) : Frac := ⟨a.num * b.den - b.num * a.den, a.den * b.den⟩

/-- Fraction multiplication. -/
def mul (a b : Frac) : Frac := ⟨a.num * b.num, a.den * b.den⟩

/-- Fraction division (used only with positive divisors). -/
def div (a b : Frac) : Frac := ⟨a.num * b.den, a.den * b.num⟩

/-- Strict comparison, valid for positive denominators. -/
def blt (a b : Frac) : Bool := a.num * b.den < b.num * a.den

end Frac

/-! ## Character-list string helpers

`Context::parse` uses `str::split` and `str::trim`; they are modelled
on `List Char`.  `is_whitespace` is restricted to ASCII whitespace (the
inputs of the claims contain no exotic whitespace). -/

/-- ASCII whitespace. -/
def isWsp (c : Char) : Bool := c == ' ' || c == '\t' || c == '\n' || c == '\r'

/-- `str::trim` on a character list. -/
def trimChars (s : List Char) : List Char :=
  ((s.dropWhile isWsp).reverse.dropWhile isWsp).reverse

/-- `str::split` with the one-character pattern `"\n"`. -/
def splitNl (acc : List Char) : List Char → List (List Char)
  | [] => [acc.reverse]
  | c :: rest =>
    if c == '\n' then acc.reverse :: splitNl [] rest else splitNl (c :: acc) rest

/-- `str::split` with the two-character pattern `"->"`. -/
def splitArrow (acc : List Char) : List Char → List (List Char)
  | [] => [acc.reverse]
  | '-' :: '>' :: rest => acc.reverse :: splitArrow [] rest
  | c :: rest => splitArrow (c :: acc) rest

/-! ## Data model (`src/dag/mod.rs`) -/

/-- `struct Node` of `src/dag/mod.rs`. -/
structure Node where
  upward : List Nat := []
  downward : List Nat := []
  is_connector : Bool := false
  padding : Nat := 0
  layer : Nat := 0
  row : Nat := 0
  downward_closure : List Nat := []
  upward_sorted : List Nat := []
  downward_sorted : List Nat := []
  width : Nat := 0
  height : Nat := 0
  x : Nat := 0
  y : Nat := 0
deriving Repr, DecidableEq

/-- `struct Edge` of `src/dag/mod.rs`. -/
structure Edge where
  up : Nat
  down : Nat
  x : Nat
  y : Nat
deriving Repr, DecidableEq

/-- `struct Adapter` of `src/dag/adapter.rs` (connection-id sets are
`HashSet<i32>` with ids `≥ 1`, modelled as `List Nat`). -/
structure Adapter where
  enabled : Bool := false
  inputs : List (List Nat) := []
  outputs : List (List Nat) := []
  height : Nat := 0
  y : Nat := 0
  rendering : List (List Char) := []
deriving Repr, DecidableEq

/-- `struct Layer` of `src/dag/mod.rs`. -/
structure Layer where
  nodes : List Nat := []
  edges : List Edge := []
  adapter : Adapter := {}
deriving Repr, DecidableEq

/-- `struct Context` of `src/dag/context.rs`.  The `id` map
(`HashMap<String, usize>`) is modelled as an association list. -/
structure Context where
  labels : List (List Char) := []
  id : List (List Char × Nat) := []
  nodes : List Node := []
  layers : List Layer := []
deriving Repr, DecidableEq

/-- `enum ProcessingError` of `src/dag/context.rs`. -/
inductive ProcessingError where
  | CycleFound
deriving Repr, DecidableEq

/-- Reading `self.nodes[i]` from the node arena. -/
def getNodeL (ns : List Node) (i : Nat) : Node := getIdx { } ns i

/-- Reading `self.nodes[i]`. -/
def getNode (ctx : Context) (i : Nat) : Node := getNodeL ctx.nodes i

/-- Reading `self.layers[i]` from the layer list. -/
def getLayerL (ls : List Layer) (i : Nat) : Layer := getIdx { } ls i

/-- Reading `self.layers[i]`. -/
def getLayer (ctx : Context) (i : Nat) : Layer := getLayerL ctx.layers i

/-- Lookup in the `id` map. -/
def idLookup (id : List (List Char × Nat)) (name : List Char) : Option Nat :=
  match id.find? (fun p => p.1 = name) with
  | some p => some p.2
  | none => none

namespace Context

/-! ## Registry (`Context::add_node`, `add_vertex`, `add_connector`) -/

/-- `Context::add_node`: idempotent vertex insertion with padding 1. -/
def add_node (ctx : Context) (name : List Char) : Context :=
  match idLookup ctx.id name with
  | some _ => ctx
  | none =>
    let idx := ctx.nodes.length
    { ctx with
      nodes := ctx.nodes ++ [{ padding := 1 }]
      id := ctx.id ++ [(name, idx)]
      labels := ctx.labels ++ [name] }

/-- `Context::add_vertex`: insert the directed edge `a -> b` by name.
Rust indexes `self.id[a]` and panics when the name is missing; the
model returns `none` in that (unreachable from `parse`) case. -/
def add_vertex (ctx : Context) (a b : List Char) : Option Context :=
  match idLookup ctx.id a, idLookup ctx.id b with
  | some ia, some ib =>
    some { ctx with
      nodes :=
        updN ia (fun n => { n with downward := sinsert ib n.downward })
          (updN ib (fun n => { n with upward := sinsert ia n.upward }) ctx.nodes) }
  | _, _ => none

/-- `Context::add_connector`: splice a connector between `a` and `b`. -/
def add_connector (ctx : Context) (a b : Nat) : Context :=
  let c := ctx.nodes.length
  let ctx := { ctx with
    nodes := ctx.nodes ++
      [({ is_connector := true, padding := 0, layer := (getNode ctx a).layer + 1 } : Node)]
    labels := ctx.labels ++ ["connector".toList] }
  let ctx := { ctx with
    nodes := updN a (fun n => { n with downward := sremove b n.downward })
      (updN b (fun n => { n with upward := sremove a n.upward }) ctx.nodes) }
  let ctx := { ctx with
    nodes := updN a (fun n => { n with downward := sinsert c n.downward })
      (updN c (fun n => { n with upward := sinsert a n.upward }) ctx.nodes) }
  { ctx with
    nodes := updN c (fun n => { n with downward := sinsert b n.downward })
      (updN b (fun n => { n with upward := sinsert c n.upward }) ctx.nodes) }

/-- `Context::is_empty`. -/
def is_empty (ctx : Context) : Bool := ctx.nodes.isEmpty

/-! ## Parsing (`Context::parse`) -/

/-- One chain of names: `A -> B -> C` adds nodes and edges left to
right (the `for part in split(line, "->")` loop with its `prev`
accumulator; the local `split` drops empty fragments). -/
def parseLine (ctx : Context) (line : List Char) : Context :=
  let step := fun (acc : Context × Option (List Char)) (part : List Char) =>
    let name := trimChars part
    if name.isEmpty then acc
    else
      let ctx := acc.1.add_node name
      let ctx :=
        match acc.2 with
        | some p => (ctx.add_vertex p name).getD ctx
        | none => ctx
      (ctx, some name)
  (((splitArrow [] line).filter (fun x => ¬x.isEmpty)).foldl step (ctx, none)).1

/-- `Context::parse`. -/
def parse (ctx : Context) (input : List Char) : Context :=
  (((splitNl [] input).filter (fun x => ¬x.isEmpty))).foldl
    (fun ctx line =>
      let line := trimChars line
      if line.isEmpty then ctx else ctx.parseLine line)
    ctx

/-! ## Topological leveling (`Context::toposort`) -/

/-- The body of the doubly nested `for` loop of `toposort`: one raise of
`layer(b)` when `layer(b) <= layer(a)`. -/
def toposortVisit (ctx : Context) (a b : Nat) : Context × Bool :=
  if (getNode ctx b).layer ≤ (getNode ctx a).layer then
    let ns := updN b (fun n => { n with layer := (getNode ctx a).layer + 1 }) ctx.nodes
    ({ ctx with nodes := ns }, true)
  else (ctx, false)

/-- The fold step of the inner loop: visit one downward neighbour and
accumulate the changed flag. -/
def scanFoldF (a : Nat) (acc : Context × Bool) (b : Nat) : Context × Bool :=
  let r := toposortVisit acc.1 a b
  (r.1, acc.2 || r.2)

/-- Inner loop of one pass: scan the (cloned) downward list of `a`. -/
def toposortScan (start : Context × Bool) (a : Nat) : Context × Bool :=
  ((getNode start.1 a).downward).foldl (scanFoldF a) start

/-- One full pass of `toposort` over all vertices. -/
def toposortPass (ctx : Context) : Context × Bool :=
  (List.range ctx.nodes.length).foldl
    (fun acc a => toposortScan (acc.1, acc.2) a)
    (ctx, false)

/-- The `while changed` loop of `toposort`, with the pass budget
`iter > nodes.len() * nodes.len()` as fuel: a pass that would exceed the
budget returns `CycleFound`. -/
def toposortGo : Nat → Context → Except ProcessingError Context
  | 0, _ => .error .CycleFound
  | budget + 1, ctx =>
    let r := toposortPass ctx
    if r.2 then toposortGo budget r.1 else .ok r.1

/-- `Context::toposort`. -/
def toposort (ctx : Context) : Except ProcessingError Context :=
  toposortGo (ctx.nodes.length * ctx.nodes.length) ctx

/-! ## Layer completion (`Context::complete`)

`rho` models the iteration order of the `HashSet` clone
`self.nodes[a].downward.clone()`: Rust iterates it in an unspecified,
`RandomState`-dependent order; the model iterates `rho` applied to the
insertion-ordered list. -/

/-- The inner `for b in downs` loop: the first downward neighbour whose
layer is not `layer_a + 1`, if any. -/
def completeFindBad (ctx : Context) (layer_a : Nat) : List Nat → Option Nat
  | [] => none
  | b :: bs =>
    if layer_a + 1 ≠ (getNode ctx b).layer then some b
    else completeFindBad ctx layer_a bs

/-- One `a` step of a `complete` pass: splice a connector into the first
mis-spanning edge out of `a` (the inner loop `break`s after one splice). -/
def completeStep (rho : List Nat → List Nat) (acc : Context × Bool) (a : Nat) :
    Context × Bool :=
  let (ctx, again) := acc
  let layer_a := (getNode ctx a).layer
  let downs := rho (getNode ctx a).downward
  match completeFindBad ctx layer_a downs with
  | some b => (ctx.add_connector a b, true)
  | none => (ctx, again)

/-- One pass of the outer `loop` of `complete`; the `for` range
`0..self.nodes.len()` is fixed at pass entry. -/
def completePass (rho : List Nat → List Nat) (ctx : Context) : Context × Bool :=
  (List.range ctx.nodes.length).foldl (completeStep rho) (ctx, false)

/-- The outer `loop` of `complete`, with fuel.  The returned flag is
`true` when a pass without splices was reached (the only way the Rust
loop exits). -/
def completeGo (rho : List Nat → List Nat) : Nat → Context → Context × Bool
  | 0, ctx => (ctx, false)
  | fuel + 1, ctx =>
    let (ctx, again) := completePass rho ctx
    if again then completeGo rho fuel ctx else (ctx, true)

/-- Total span excess `sum (layer b - (layer a + 1))` over all edges:
each splice removes exactly one unit of it while all spans are `≥ 1`
(the state `toposort` leaves), so `spanExcess + 1` passes suffice. -/
def spanExcess (ctx : Context) : Nat :=
  (List.range ctx.nodes.length).foldl
    (fun s a =>
      ((getNode ctx a).downward).foldl
        (fun s b => s + ((getNode ctx b).layer - ((getNode ctx a).layer + 1)))
        s)
    0

/-- `Context::complete`. -/
def complete (ctx : Context) (rho : List Nat → List Nat) : Context × Bool :=
  completeGo rho (spanExcess ctx + 1) ctx

/-! ## Building layers (`Context::build_layers`, `optimize_row_order`) -/

/-- The `downward_closure` of `up` recomputed from its direct downward
neighbours and their stored closures (content equals the Rust `HashSet`;
the list order is the insertion order of the recomputation). -/
def closureOf (ctx : Context) (up : Nat) : List Nat :=
  ((getNode ctx up).downward).foldl
    (fun cl d =>
      let cl := sinsert d cl
      ((getNode ctx d).downward_closure).foldl (fun cl c => sinsert c cl) cl)
    []

/-- The closure phase of `optimize_row_order`: layers from next-to-last
upward. -/
def closurePhase (ctx : Context) : Context :=
  ((List.range (ctx.layers.length - 1)).reverse).foldl
    (fun ctx y =>
      ((getLayer ctx y).nodes).foldl
        (fun ctx up =>
          { ctx with
            nodes :=
              updN up (fun n => { n with downward_closure := closureOf ctx up })
                ctx.nodes })
        ctx)
    ctx

/-- `parent_mean[i]` for position `i` of a layer: mean parent row with the
`+ 0.01` epsilon; Rust `f32` arithmetic is modelled by exact fractions. -/
def parentMean (ctx : Context) (n : Nat) : Frac :=
  let sum : Nat := ((getNode ctx n).upward).foldl (fun s p => s + (getNode ctx p).row) 0
  Frac.div (Frac.ofNat sum)
    (Frac.add (Frac.ofNat (getNode ctx n).upward.length) ⟨1, 100⟩)

/-- `dist[a][b]`: minimum layer gap to a common downward-closure element,
defaulting to `big = 2 * nodes.len()`. -/
def distEntry (ctx : Context) (big : Nat) (na nb : Nat) : Nat :=
  ((getNode ctx na).downward_closure).foldl
    (fun best c =>
      if c ∈ (getNode ctx nb).downward_closure then
        min best ((getNode ctx c).layer - (getNode ctx na).layer)
      else best)
    big

/-- Swap two positions of a permutation list. -/
def listSwap (a b : Nat) (l : List Nat) : List Nat :=
  let va := l.getD a 0
  let vb := l.getD b 0
  updN a (fun _ => vb) (updN b (fun _ => va) l)

/-- The score of a candidate permutation (`f32` modelled by `Frac`):
adjacent `dist` entries plus `15 *` squared deviation from
`parent_mean`. -/
def permScore (dist : List (List Nat)) (parent_mean : List Frac) (w : Nat)
    (perm : List Nat) : Frac :=
  let s :=
    (List.range (w - 1)).foldl
      (fun (s : Frac) i =>
        Frac.add s (Frac.ofNat ((dist.getD (perm.getD i 0) []).getD (perm.getD (i + 1) 0) 0)))
      (Frac.ofNat 0)
  (List.range w).foldl
    (fun (s : Frac) (i : Nat) =>
      let d : Frac := Frac.sub (Frac.ofNat i) (parent_mean.getD (perm.getD i 0) (Frac.ofNat 0))
      Frac.add s (Frac.mul (Frac.mul d d) (Frac.ofNat 15)))
    s

/-- One sweep over all position pairs `a < b`: tentatively swap, keep the
swap only when the score strictly drops. -/
def sweepOnce (score : List Nat → Frac) (w : Nat)
    (st : List Nat × Frac × Bool) : List Nat × Frac × Bool :=
  (List.range w).foldl
    (fun st a =>
      (List.range (w - (a + 1))).foldl
        (fun (st : List Nat × Frac × Bool) k =>
          let b := a + 1 + k
          let (perm, current, improved) := st
          let cand := listSwap a b perm
          let ns := score cand
          if Frac.blt ns current then (cand, ns, true) else (perm, current, improved))
        st)
    st

/-- The `loop { ... if !improved break }` of the permutation search.  An
improving sweep strictly decreases the score, which ranges over at most
`w!` values, so `w! + 1` sweeps always reach the local optimum. -/
def sweepLoop (score : List Nat → Frac) (w : Nat) :
    Nat → List Nat × Frac → List Nat
  | 0, st => st.1
  | fuel + 1, st =>
    let (perm, current, improved) := sweepOnce score w (st.1, st.2, false)
    if improved then sweepLoop score w fuel (perm, current) else perm

/-- Reorder one layer (`w > 1`) by the swap-improve search and commit
rows positionally. -/
def orderLayer (ctx : Context) (li : Nat) : Context :=
  let L := getLayer ctx li
  let w := L.nodes.length
  if w ≤ 1 then ctx
  else
    let parent_mean := L.nodes.map (fun n => parentMean ctx n)
    let big := ctx.nodes.length * 2
    let dist := L.nodes.map (fun na => L.nodes.map (fun nb => distEntry ctx big na nb))
    let score := permScore dist parent_mean w
    let perm0 := List.range w
    let perm := sweepLoop score w (Nat.factorial w + 1) (perm0, score perm0)
    let newNodes := perm.map (fun i => L.nodes.getD i 0)
    let ctx := { ctx with layers := updN li (fun L => { L with nodes := newNodes }) ctx.layers }
    (newNodes.enum).foldl
      (fun ctx p =>
        { ctx with nodes := updN p.2 (fun m => { m with row := p.1 }) ctx.nodes })
      ctx

/-- `Context::optimize_row_order`. -/
def optimize_row_order (ctx : Context) : Context :=
  let ctx := closurePhase ctx
  (List.range ctx.layers.length).foldl orderLayer ctx

/-- `Context::build_layers`. -/
def build_layers (ctx : Context) : Context :=
  let last_layer := (ctx.nodes.map (fun n => n.layer)).foldl max 0
  -- layers.resize_with(last_layer + 1, Default::default)
  let layers := ctx.layers.take (last_layer + 1) ++
    List.replicate (last_layer + 1 - ctx.layers.length) ({ } : Layer)
  let layers := (ctx.nodes.enum).foldl
    (fun ls p => updN p.2.layer (fun L => { L with nodes := L.nodes ++ [p.1] }) ls)
    layers
  let ctx := optimize_row_order { ctx with layers := layers }
  let rows := ctx.nodes.map (fun n => n.row)
  let nodes := ctx.nodes.map (fun n =>
    { n with
      upward_sorted := sortByKey (fun i => rows.getD i 0) Nat.ble n.upward
      downward_sorted := sortByKey (fun i => rows.getD i 0) Nat.ble n.downward })
  let ctx := { ctx with nodes := nodes }
  { ctx with layers := ctx.layers.map (fun L =>
      { L with edges := L.edges ++ L.nodes.flatMap (fun up =>
          ((getNode ctx up).downward_sorted).map
            (fun down => ({ up := up, down := down, x := 0, y := 0 } : Edge))) }) }

/-! ## Crossing resolution (`Context::resolve_crossings`) -/

/-- Lexicographic order on row pairs (the `Ord` of `(usize, usize)`). -/
def pairLe (p q : Nat × Nat) : Bool :=
  decide (p.1 < q.1) || (p.1 == q.1 && decide (p.2 ≤ q.2))

/-- `Context::resolve_crossings`. -/
def resolve_crossings (ctx : Context) : Context :=
  { ctx with layers := ctx.layers.map (fun L =>
      let up : List Edge :=
        sortByKey (fun e => ((getNode ctx e.up).row, (getNode ctx e.down).row))
          pairLe L.edges
      let down : List Edge :=
        sortByKey (fun e => ((getNode ctx e.down).row, (getNode ctx e.up).row))
          pairLe L.edges
      if up = down then L
      else { L with edges := [], adapter := { L.adapter with enabled := true } }) }

end Context

/-! ## The bus router (`src/dag/adapter.rs`) -/

/-- `struct Node` local to `adapter.rs`: Dijkstra state plus adjacency. -/
structure ANode where
  visited : Bool := false
  cost : Nat := 0
  edges : List Nat := []
deriving Repr, DecidableEq

/-- `struct Edge` local to `adapter.rs`. -/
structure AEdge where
  a : Nat := 0
  b : Nat := 0
  weight : Nat := 0
  assigned : Nat := 0
deriving Repr, DecidableEq

/-- `const BIG: i32 = 1 << 15`. -/
def BIG : Nat := 32768

/-- `Coordinator::index`: cell `(x, y)` of lane `l`. -/
def aindex (width height x y l : Nat) : Nat :=
  x + width * (y + height * l)

/-- `connect`: register edge `idx` between lane cells `a` and `b`. -/
def connect (idx a b w : Nat) (g : List ANode × List AEdge) :
    List ANode × List AEdge :=
  let (nodes, edges) := g
  let edges := updN idx (fun e => { e with a := a, b := b, weight := w }) edges
  let nodes := updN a (fun n => { n with edges := n.edges ++ [idx] }) nodes
  let nodes := updN b (fun n => { n with edges := n.edges ++ [idx] }) nodes
  (nodes, edges)

/-- One `(y, x)` cell of the graph-building double loop of
`Adapter::construct`: a vertical lane edge on every row pair, a
horizontal lane edge on rows `1` to `height - 3` only, a corner lane
edge everywhere with weight `10 + dy²` for `dy = height/2 - y`. -/
def gridCell (width height y : Nat) (g : List ANode × List AEdge) (x : Nat) :
    List ANode × List AEdge :=
  let g :=
    if y ≠ height - 1 then
      connect (aindex width height x y 0) (aindex width height x y 0)
        (aindex width height x (y + 1) 0) 1 g
    else g
  let g :=
    if 1 ≤ y ∧ y ≤ height - 3 ∧ x ≠ width - 1 then
      connect (aindex width height x y 1) (aindex width height x y 1)
        (aindex width height (x + 1) y 1) 1 g
    else g
  let dy : Int := (height : Int) / 2 - (y : Int)
  connect (aindex width height x y 2) (aindex width height x y 0)
    (aindex width height x y 1) (10 + dy * dy).toNat g

/-- One row of the graph-building double loop. -/
def gridRow (width height : Nat) (g : List ANode × List AEdge) (y : Nat) :
    List ANode × List AEdge :=
  (List.range width).foldl (gridCell width height y) g

/-- The graph-building double loop of `Adapter::construct`. -/
def buildGraph (width height : Nat) : List ANode × List AEdge :=
  let nodes : List ANode := List.replicate (width * height * 2) {}
  let edges : List AEdge := List.replicate (width * height * 3) {}
  (List.range height).foldl (gridRow width height) (nodes, edges)

/-- What the `(y, x)` cell stores in its vertical-lane edge slot. -/
def vWrite (w h x y : Nat) (e : AEdge) : AEdge :=
  if y ≠ h - 1 then
    { e with a := aindex w h x y 0, b := aindex w h x (y + 1) 0, weight := 1 }
  else e

/-- What the `(y, x)` cell stores in its horizontal-lane edge slot. -/
def hWrite (w h x y : Nat) (e : AEdge) : AEdge :=
  if 1 ≤ y ∧ y ≤ h - 3 ∧ x ≠ w - 1 then
    { e with a := aindex w h x y 1, b := aindex w h (x + 1) y 1, weight := 1 }
  else e

/-- What the `(y, x)` cell stores in its corner-lane edge slot. -/
def cWrite (w h x y : Nat) (e : AEdge) : AEdge :=
  { e with
    a := aindex w h x y 0, b := aindex w h x y 1,
    weight := (10 + ((h : Int) / 2 - (y : Int)) * ((h : Int) / 2 - (y : Int))).toNat }

/-- Priority-queue insert.  `BinaryHeap<(Reverse<i32>, usize)>` pops the
maximum, i.e. the minimum cost with ties broken by the larger node
index; the model keeps the queue sorted in pop order. -/
def pqInsert (e : Nat × Nat) : List (Nat × Nat) → List (Nat × Nat)
  | [] => [e]
  | f :: l =>
    if f.1 < e.1 || (f.1 == e.1 && e.2 ≤ f.2) then f :: pqInsert e l
    else e :: f :: l

/-- The Dijkstra `while let Some(...) = pq.pop()` loop.  The returned
flag is `false` only on fuel exhaustion (which cannot happen: every pop
removes one entry and at most the degree of one fresh node is pushed). -/
def dijkstraGo (edges : List AEdge) :
    Nat → List ANode → List (Nat × Nat) → List ANode × Bool
  | 0, nodes, pq => (nodes, pq.isEmpty)
  | fuel + 1, nodes, pq =>
    match pq with
    | [] => (nodes, true)
    | (cost, node_index) :: pq =>
      let n := nodes.getD node_index {}
      if n.visited then dijkstraGo edges fuel nodes pq
      else
        let nodes := updN node_index
          (fun m => { m with visited := true, cost := cost }) nodes
        let pq := n.edges.foldl
          (fun pq eidx =>
            let e := edges.getD eidx {}
            if e.assigned ≠ 0 then pq
            else
              let v := if e.a == node_index then e.b else e.a
              if (nodes.getD v {}).visited then pq
              else pqInsert (cost + e.weight, v) pq)
          pq
        dijkstraGo edges fuel nodes pq

/-- Predecessor search of the back-trace: the first incident edge with
`cost(prev) + weight = cost(cur)`. -/
def findPred (nodes : List ANode) (edges : List AEdge) (cur : Nat) :
    List Nat → Option Nat
  | [] => none
  | eidx :: rest =>
    let e := edges.getD eidx {}
    let prev := if cur == e.a then e.b else e.a
    if (nodes.getD prev {}).cost + e.weight == (nodes.getD cur {}).cost then some eidx
    else findPred nodes edges cur rest

/-- The back-trace `while !start.contains(&cur)` loop, claiming each
traversed edge for `connector`.  When no predecessor satisfies the cost
equation the Rust loop would spin forever; the model returns the flag
`false` in that case (and on fuel exhaustion). -/
def backtraceGo (connector : Nat) (nodes : List ANode) (start : List Nat) :
    Nat → List AEdge → Nat → List AEdge × Bool
  | 0, edges, _ => (edges, false)
  | fuel + 1, edges, cur =>
    if cur ∈ start then (edges, true)
    else
      match findPred nodes edges cur (nodes.getD cur {}).edges with
      | none => (edges, false)
      | some eidx =>
        let e := edges.getD eidx {}
        let prev := if cur == e.a then e.b else e.a
        backtraceGo connector nodes start fuel
          (updN eidx (fun e => { e with assigned := connector }) edges) prev

/-- The perpendicular-crossing penalty sweep run after each routed
connector: an assigned lane inflates the other lane of the same cell to
weight 20. -/
def penalise (width height : Nat) (edges : List AEdge) : List AEdge :=
  (List.range height).foldl
    (fun edges y =>
      (List.range width).foldl
        (fun edges x =>
          let e0 := aindex width height x y 0
          let e1 := aindex width height x y 1
          let edges :=
            if (edges.getD e0 {}).assigned ≠ 0 then
              updN e1 (fun e => { e with weight := 20 }) edges
            else edges
          if (edges.getD e1 {}).assigned ≠ 0 then
            updN e0 (fun e => { e with weight := 20 }) edges
          else edges)
        edges)
    edges

/-- Route a single connection id: multi-source Dijkstra from the input
columns, cheapest reachable output column (ties kept at the first in the
model's column order), back-trace, penalty sweep.  State components:
routing nodes, edges, `solution_found`, and the model-only `stuck` flag
recording a diverging back-trace or exhausted search fuel. -/
def routeConnector (inputs outputs : List (List Nat)) (width height : Nat)
    (st : (List ANode × List AEdge) × Bool × Bool) (connector : Nat) :
    (List ANode × List AEdge) × Bool × Bool :=
  let ((nodes, edges), solution_found, stuck) := st
  if ¬solution_found then st
  else
    let nodes := nodes.map (fun n => { n with visited := false, cost := BIG })
    let start := (List.range width).filterMap
      (fun x => if connector ∈ inputs.getD x [] then
          some (aindex width height x 0 0) else none)
    let ends := (List.range width).filterMap
      (fun x => if connector ∈ outputs.getD x [] then
          some (aindex width height x (height - 1) 0) else none)
    let pq := start.foldl (fun pq s => pqInsert (0, s) pq) []
    let fuel := width + 4 * (width * height * 2) + 2
    let (nodes, dijOk) := dijkstraGo edges fuel nodes pq
    let pick := ends.foldl
      (fun (acc : Nat × Option Nat) e =>
        if (nodes.getD e {}).cost < acc.1 then ((nodes.getD e {}).cost, some e)
        else acc)
      (BIG, none)
    match pick.2 with
    | none => ((nodes, edges), false, stuck || !dijOk)
    | some cur =>
      let (edges, btOk) :=
        backtraceGo connector nodes start ((nodes.getD cur {}).cost + 1) edges cur
      let edges := penalise width height edges
      ((nodes, edges), true, stuck || !dijOk || !btOk)

/-- Build the character raster of a solved grid. -/
def rasterize (width height : Nat) (edges : List AEdge) : List (List Char) :=
  let assigned := fun (x y l : Nat) =>
    (edges.getD (aindex width height x y l) {}).assigned ≠ 0
  (List.range height).map (fun y =>
    (List.range width).map (fun x =>
      let v := ' '
      let v := if assigned x y 1 then '─' else v
      let v := if assigned x y 0 then '│' else v
      if assigned x y 2 then
        if assigned x y 0 then
          if assigned x y 1 then '┌' else '┐'
        else
          if assigned x y 1 then '└' else '┘'
      else v))

namespace Adapter

/-- `Adapter::highest_connector_id`. -/
def highest_connector_id (ad : Adapter) (width : Nat) : Nat :=
  (List.range width).foldl
    (fun m x => (ad.inputs.getD x []).foldl max m) 0

/-- One trial height: build the grid, route all ids in increasing order.
Returns `(edges, solution_found, stuck)`. -/
def tryHeight (ad : Adapter) (connector_len width height : Nat) :
    List AEdge × Bool × Bool :=
  let g := buildGraph width height
  let (g, solution_found, stuck) :=
    ((List.range connector_len).map (fun c => c + 1)).foldl
      (routeConnector ad.inputs ad.outputs width height) (g, true, false)
  (g.2, solution_found, stuck)

/-- The `loop` of `Adapter::construct` growing the trial height.  Heights
`3, 4, ꞏꞏꞏ` are tried; a height above 30 force-accepts, so the fuel of 29
covers every reachable trial. -/
def constructGo (ad : Adapter) (connector_len width : Nat) :
    Nat → Nat → Adapter × Bool
  | 0, _ => (ad, true)
  | fuel + 1, height =>
    let (edges, solution_found, stuck) := tryHeight ad connector_len width height
    let solution_found := if height > 30 then true else solution_found
    if solution_found then
      ({ ad with height := height, rendering := rasterize width height edges }, stuck)
    else constructGo ad connector_len width fuel (height + 1)

/-- `Adapter::construct`.  The second component is the model-only
divergence flag (`true` would mean the Rust loop does not terminate). -/
def construct (ad : Adapter) : Adapter × Bool :=
  let width := ad.inputs.length
  let connector_len := ad.highest_connector_id width
  constructGo ad connector_len width 29 3

end Adapter

/-! ## The character grid (`src/screen.rs`) -/

/-- `struct Screen`.  Rust panics on out-of-range pixel writes; the
model ignores them (no write reachable from the pipeline is out of
range). -/
structure Screen where
  dim_x : Nat
  dim_y : Nat
  lines : List (List Char)
deriving Repr, DecidableEq

namespace Screen

/-- `Screen::new`. -/
def new (width height : Nat) : Screen :=
  ⟨width, height, List.replicate height (List.replicate width ' ')⟩

/-- `self.lines[y][x] = c`. -/
def put (s : Screen) (x y : Nat) (c : Char) : Screen :=
  { s with lines := updN y (updN x (fun _ => c)) s.lines }

/-- Read `self.lines[y][x]`. -/
def readPx (s : Screen) (x y : Nat) : Char :=
  (s.lines.getD y []).getD x ' '

/-- `Screen::draw_pixel`. -/
def draw_pixel (s : Screen) (x y : Nat) (c : Char) : Screen :=
  s.put x y c

/-- `Screen::draw_text`. -/
def draw_text (s : Screen) (x y : Nat) (text : List Char) : Screen :=
  (text.enum).foldl
    (fun s p => if x + p.1 < s.dim_x then s.put (x + p.1) y p.2 else s) s

/-- `Screen::draw_text_in_box_center`: `margin = (width - chars) / 2`
(`width ≥ chars` in every reachable call). -/
def draw_text_in_box_center (s : Screen) (x y width : Nat) (text : List Char) : Screen :=
  let margin := (width - text.length) / 2
  s.draw_text (x + margin) (y + 1) text

/-- `Screen::draw_box`. -/
def draw_box (s : Screen) (x y w h : Nat) : Screen :=
  let s := s.put x y '┌'
  let s := s.put (x + w - 1) y '┐'
  let s := s.put x (y + h - 1) '└'
  let s := s.put (x + w - 1) (y + h - 1) '┘'
  let s := (List.range (w - 1 - 1)).foldl
    (fun s k =>
      let s := s.put (x + 1 + k) y '─'
      s.put (x + 1 + k) (y + h - 1) '─') s
  (List.range (h - 1 - 1)).foldl
    (fun s k =>
      let s := s.put x (y + 1 + k) '│'
      s.put (x + w - 1) (y + 1 + k) '│') s

/-- `Screen::draw_vertical_line` (inclusive range `top..=bottom`). -/
def draw_vertical_line (s : Screen) (top bottom x : Nat) (c : Char) : Screen :=
  (List.range (bottom + 1 - top)).foldl (fun s k => s.put x (top + k) c) s

/-- `Screen::stringify`: rows flattened with a newline after each. -/
def stringify (s : Screen) : String :=
  String.mk (s.lines.foldl (fun out row => out ++ row ++ ['\n']) [])

end Screen

namespace Adapter

/-- `Adapter::render`: overlay the bus raster, remapping `─` on the top
row to `┬` and on row `height - 2` to `▽`. -/
def render (ad : Adapter) (screen : Screen) : Screen :=
  (List.range (ad.height - 1)).foldl
    (fun screen dy =>
      ((ad.rendering.getD dy []).enum).foldl
        (fun screen p =>
          let (x, ch) := p
          if ch = ' ' then screen
          else
            let cur := screen.readPx x (ad.y + dy)
            let glyph :=
              if dy = 0 ∧ cur = '─' then '┬'
              else if dy = ad.height - 2 ∧ cur = '─' then '▽'
              else ch
            screen.put x (ad.y + dy) glyph)
        screen)
    screen

end Adapter

namespace Context

/-! ## Geometry solving (`Context::layout`) -/

/-- The initial sizing loop of `layout`: connectors get width 1, other
vertices `max(label chars, in-degree, out-degree)` padded to at least
2 margin columns, matched parity, plus 2 border columns; every height
is 3. -/
def layoutInitWidths (ctx : Context) : Context :=
  { ctx with nodes := (ctx.nodes.enum).map (fun p =>
      let node := p.2
      let node :=
        if node.is_connector then { node with width := 1 }
        else
          let chars := (ctx.labels.getD p.1 []).length
          let width := chars
          let width := max width node.upward.length
          let width := max width node.downward.length
          -- while width - chars < 2 { width += 1 }
          let width := if width < chars + 2 then chars + 2 else width
          let width := if width % 2 ≠ chars % 2 then width + 1 else width
          { node with width := width + 2 }
      { node with height := 3 }) }

/-- The inner `for &n in &layer.nodes` loop of
`layout_nodes_do_not_touch`, carrying the running right edge `x` and the
stability flag. -/
def touchNodes (ns : List Node) (x : Nat) (stable : Bool) (idx : List Nat) :
    List Node × Bool :=
  @List.rec Nat (fun _ => List Node → Nat → Bool → List Node × Bool)
    (fun ns _ stable => (ns, stable))
    (fun n _ ih ns x stable =>
      let node := getNodeL ns n
      if node.x < x then
        let ns := updN n (fun m => { m with x := x }) ns
        let node := getNodeL ns n
        ih ns (node.x + node.width) false
      else ih ns (node.x + node.width) stable)
    idx ns x stable

/-- The outer `for layer in &mut self.layers` loop of
`layout_nodes_do_not_touch`. -/
def touchLayers (ns : List Node) (stable : Bool) (ls : List Layer) :
    List Node × Bool :=
  @List.rec Layer (fun _ => List Node → Bool → List Node × Bool)
    (fun ns stable => (ns, stable))
    (fun L _ ih ns stable =>
      match touchNodes ns 0 stable L.nodes with
      | (ns, stable) => ih ns stable)
    ls ns stable

/-- `Context::layout_nodes_do_not_touch`: left-to-right sweep pushing
each vertex behind its predecessor; returns `false` when something
moved. -/
def layout_nodes_do_not_touch (ctx : Context) : Context × Bool :=
  match touchLayers ctx.nodes true ctx.layers with
  | (ns, stable) => ({ ctx with nodes := ns }, stable)

/-- `Context::layout_edges_do_not_touch` (delegates to the node pass). -/
def layout_edges_do_not_touch (ctx : Context) : Context × Bool :=
  ctx.layout_nodes_do_not_touch

/-- Scan one edge list for the first endpoint to grow.  The `i32`
expression `node.x + node.width - 1 - 1 < edge.x` is taken over `Nat`:
truncation can only differ for `width < 2`, and then only for connector
endpoints, which the conjunct `!is_connector` discards either way. -/
def growFindEdges (nodes : List Node) (es : List Edge) : Option (Nat × Nat) :=
  @List.rec Edge (fun _ => Option (Nat × Nat))
    none
    (fun e _ ih =>
      let nu := getNodeL nodes e.up
      if nu.x + nu.width - 1 - 1 < e.x && !nu.is_connector then some (e.up, e.x)
      else
        let nd := getNodeL nodes e.down
        if nd.x + nd.width - 1 - 1 < e.x && !nd.is_connector then some (e.down, e.x)
        else ih)
    es

/-- Scan all layers for the first endpoint to grow. -/
def growFind (nodes : List Node) (ls : List Layer) : Option (Nat × Nat) :=
  @List.rec Layer (fun _ => Option (Nat × Nat))
    none
    (fun L _ ih =>
      match growFindEdges nodes L.edges with
      | some r => some r
      | none => ih)
    ls

/-- `Context::layout_grow_nodes`: widen the first non-connector endpoint
whose inner margin the edge exceeds (preserving width parity) and
restart. -/
def layout_grow_nodes (ctx : Context) : Context × Bool :=
  match growFind ctx.nodes ctx.layers with
  | none => (ctx, true)
  | some (n, ex) =>
    let nodes := updN n (fun m =>
      let parity := m.width % 2
      let w := ex + 1 + 1 - m.x
      let w := if parity ≠ w % 2 then w + 1 else w
      { m with width := w }) ctx.nodes
    ({ ctx with nodes := nodes }, false)

/-- Scan one edge list for the first edge left of its padded bound. -/
def shiftFindEdges (nodes : List Node) (i : Nat) (es : List Edge) :
    Option (Nat × Nat) :=
  @List.rec Edge (fun _ => Nat → Option (Nat × Nat))
    (fun _ => none)
    (fun e _ ih i =>
      let mU := getNodeL nodes e.up
      let mD := getNodeL nodes e.down
      let minx := max (mU.x + mU.padding) (mD.x + mD.padding)
      if e.x < minx then some (i, minx) else ih (i + 1))
    es i

/-- Scan all layers for the first edge to shift. -/
def shiftFind (nodes : List Node) (li : Nat) (ls : List Layer) :
    Option (Nat × Nat × Nat) :=
  @List.rec Layer (fun _ => Nat → Option (Nat × Nat × Nat))
    (fun _ => none)
    (fun L _ ih li =>
      match shiftFindEdges nodes 0 L.edges with
      | some (i, v) => some (li, i, v)
      | none => ih (li + 1))
    ls li

/-- `Context::layout_shift_edges`: raise the first out-of-bound edge to
the padded left edge of both endpoints and restart. -/
def layout_shift_edges (ctx : Context) : Context × Bool :=
  match shiftFind ctx.nodes 0 ctx.layers with
  | none => (ctx, true)
  | some (li, i, v) =>
    let ls := updN li
      (fun L => { L with edges := updN i (fun e => { e with x := v }) L.edges })
      ctx.layers
    ({ ctx with layers := ls }, false)

/-- Scan node indices for the first connector left of a touching edge.
`node.layer - 1` is `Nat` subtraction: connectors are created at layer
`layer(a) + 1 ≥ 1`, so the Rust `usize` expression never underflows on
reachable states. -/
def edgesMaxDown (i : Nat) (acc : Nat) (es : List Edge) : Nat :=
  @List.rec Edge (fun _ => Nat → Nat)
    (fun acc => acc)
    (fun e _ ih acc => ih (if e.down == i then max acc e.x else acc))
    es acc

/-- `minx = max(minx, e.x)` over the edges of the connector's own layer
with `e.up == i`. -/
def edgesMaxUp (i : Nat) (acc : Nat) (es : List Edge) : Nat :=
  @List.rec Edge (fun _ => Nat → Nat)
    (fun acc => acc)
    (fun e _ ih acc => ih (if e.up == i then max acc e.x else acc))
    es acc

/-- The `for i in 0..self.nodes.len()` scan of
`layout_shift_connector_nodes`, walking the arena positionally (`i` is
the running index). -/
def shiftConnFind (ls : List Layer) (i : Nat) (ns : List Node) :
    Option (Nat × Nat) :=
  @List.rec Node (fun _ => Nat → Option (Nat × Nat))
    (fun _ => none)
    (fun node _ ih i =>
      if !node.is_connector then ih (i + 1)
      else
        let minx := edgesMaxDown i 0 (getLayerL ls (node.layer - 1)).edges
        let minx := edgesMaxUp i minx (getLayerL ls node.layer).edges
        if node.x < minx then some (i, minx) else ih (i + 1))
    ns i

/-- `Context::layout_shift_connector_nodes`. -/
def layout_shift_connector_nodes (ctx : Context) : Context × Bool :=
  match shiftConnFind ctx.layers 0 ctx.nodes with
  | none => (ctx, true)
  | some (i, v) =>
    ({ ctx with nodes := updN i (fun m => { m with x := v }) ctx.nodes }, false)

/-- One iteration of the relaxation `for` body:
`p1 && p2 && p3 && p4 && p5` with Rust short-circuit evaluation. -/
def relaxStep (ctx : Context) : Context × Bool :=
  match ctx.layout_nodes_do_not_touch with
  | (ctx, false) => (ctx, false)
  | (ctx, true) =>
  match ctx.layout_edges_do_not_touch with
  | (ctx, false) => (ctx, false)
  | (ctx, true) =>
  match ctx.layout_grow_nodes with
  | (ctx, false) => (ctx, false)
  | (ctx, true) =>
  match ctx.layout_shift_edges with
  | (ctx, false) => (ctx, false)
  | (ctx, true) => ctx.layout_shift_connector_nodes

/-- The bounded relaxation loop `for _ in 0..1000 { if ... { break } }`.
The flag records whether the loop exited through the `break` (all five
passes stable). -/
def relaxLoop (fuel : Nat) (ctx : Context) : Context × Bool :=
  @Nat.rec (fun _ => Context → Context × Bool)
    (fun ctx => (ctx, false))
    (fun _ ih ctx =>
      match relaxStep ctx with
      | (ctx, true) => (ctx, true)
      | (ctx, false) => ih ctx)
    fuel ctx

/-- `get_id`: dense connection ids starting at 1 per `(parent, child)`
pair, assigned in first-seen order. -/
def getConnId (st : List ((Nat × Nat) × Nat) × Nat) (a b : Nat) :
    (List ((Nat × Nat) × Nat) × Nat) × Nat :=
  match st.1.find? (fun p => p.1 = (a, b)) with
  | some p => (st, p.2)
  | none => ((st.1 ++ [((a, b), st.2)], st.2 + 1), st.2)

/-- Insert the connection ids of one vertex boundary into the per-column
sets; `rho` models the iteration order of the adjacent `HashSet`. -/
def adapterFillCols (rho : List Nat → List Nat) (ctx : Context)
    (pick : Node → List Nat) (swap : Bool)
    (acc : (List ((Nat × Nat) × Nat) × Nat) × List (List Nat)) (v : Nat) :
    (List ((Nat × Nat) × Nat) × Nat) × List (List Nat) :=
  let n := getNode ctx v
  (List.range (n.x + n.width - n.padding - (n.x + n.padding))).foldl
    (fun acc k =>
      let x := n.x + n.padding + k
      (rho (pick n)).foldl
        (fun (acc : (List ((Nat × Nat) × Nat) × Nat) × List (List Nat)) w =>
          let (idst, cols) := acc
          let (idst, theId) := if swap then getConnId idst w v else getConnId idst v w
          (idst, updN x (fun col => sinsert theId col) cols))
        acc)
    acc

/-- The adapter population phase of `layout`: for every bus-enabled
layer compute the pixel width, assign dense connection ids, fill the
input/output column sets and run the router. -/
def adapterPhase (rho : List Nat → List Nat) (ctx : Context) : Context :=
  (List.range (ctx.layers.length - 1)).foldl
    (fun ctx y =>
      let up := getLayer ctx y
      let down := getLayer ctx (y + 1)
      if !up.adapter.enabled then ctx
      else
        let width := up.nodes.foldl
          (fun w n => max w ((getNode ctx n).x + (getNode ctx n).width)) 0
        let width := down.nodes.foldl
          (fun w n => max w ((getNode ctx n).x + (getNode ctx n).width)) width
        let idst : List ((Nat × Nat) × Nat) × Nat := ([], 1)
        let inputs0 : List (List Nat) := List.replicate width []
        let st1 := up.nodes.foldl
          (adapterFillCols rho ctx (fun n => n.downward) false) (idst, inputs0)
        let st2 := down.nodes.foldl
          (adapterFillCols rho ctx (fun n => n.upward) true) (st1.1, inputs0)
        let adapter := { up.adapter with inputs := st1.2, outputs := st2.2 }
        let adapter := (Adapter.construct adapter).1
        { ctx with layers := updN y (fun L => { L with adapter := adapter }) ctx.layers })
    ctx

/-- The final `y`-assignment sweep of `layout`.  `adapter.height - 3`
is `Nat` subtraction; every constructed adapter has height `≥ 3`. -/
def layoutYPos (ctx : Context) : Context :=
  ((List.range ctx.layers.length).foldl
    (fun (acc : Context × Nat) li =>
      let L := getLayer acc.1 li
      let ctx := L.nodes.foldl
        (fun ctx n =>
          { ctx with nodes := updN n (fun m => { m with y := acc.2 }) ctx.nodes })
        acc.1
      let ctx := { ctx with
        layers := updN li
          (fun L =>
            { L with edges := L.edges.map (fun e => { e with y := acc.2 + 2 }) })
          ctx.layers }
      if L.adapter.enabled then
        ({ ctx with
            layers := updN li
              (fun L =>
                { L with adapter := { L.adapter with y := acc.2 + 2 } })
              ctx.layers },
          acc.2 + (L.adapter.height - 3) + 3)
      else (ctx, acc.2 + 3))
    (ctx, 0)).1

/-- `Context::layout`. -/
def layout (ctx : Context) (rho : List Nat → List Nat) : Context :=
  let ctx := ctx.layoutInitWidths
  let ctx := (relaxLoop 1000 ctx).1
  let ctx := adapterPhase rho ctx
  layoutYPos ctx

/-! ## Rendering (`Context::render`) -/

/-- `Context::render`. -/
def render (ctx : Context) : String :=
  let w := ctx.nodes.foldl (fun w n => max w (n.x + n.width)) 0
  let h := ctx.nodes.foldl (fun h n => max h (n.y + n.height)) 0
  let screen := Screen.new w h
  let screen := (ctx.nodes.enum).foldl
    (fun screen p =>
      let (i, n) := p
      if n.is_connector then
        if n.width = 1 then screen.draw_vertical_line n.y (n.y + 2) n.x '│'
        else screen.draw_box n.x n.y n.width n.height
      else
        let screen := screen.draw_box n.x n.y n.width n.height
        screen.draw_text_in_box_center n.x n.y n.width (ctx.labels.getD i []))
    screen
  let screen := ctx.layers.foldl
    (fun screen L =>
      L.edges.foldl
        (fun screen e =>
          let upC := if (getNode ctx e.up).is_connector then '│' else '┬'
          let downC := if (getNode ctx e.down).is_connector then '│' else '▽'
          let screen := screen.draw_pixel e.x e.y upC
          screen.draw_pixel e.x (e.y + 1) downC)
        screen)
    screen
  let screen := ctx.layers.foldl
    (fun screen L =>
      if L.adapter.enabled then L.adapter.render screen else screen)
    screen
  screen.stringify

/-! ## The pipeline (`Context::process`, `dag_to_text`) -/

/-- `Context::process`, parameterized by the hash-iteration order `rho`
(see the module docstring).  Two Rust calls may run with different
orders. -/
def processOrd (rho : List Nat → List Nat) (input : String) :
    Except ProcessingError String :=
  let ctx : Context := { }
  let ctx := ctx.parse input.toList
  if ctx.is_empty then .ok "" else
  match ctx.toposort with
  | .error e => .error e
  | .ok ctx =>
    let ctx := (ctx.complete rho).1
    let ctx := ctx.build_layers
    let ctx := ctx.resolve_crossings
    let ctx := ctx.layout rho
    .ok ctx.render

/-- `Context::process` with the canonical (insertion) iteration order. -/
def process (input : String) : Except ProcessingError String :=
  processOrd (fun l => l) input

end Context

/-- `dag_to_text` of `src/dag/mod.rs`. -/
def dag_to_text (s : String) : Except ProcessingError String :=
  Context.process s

/-! ## Observers used by the theorems -/

/-- The context `Context::process` passes to `layout` (after `parse`,
`toposort`, `complete`, `build_layers`, `resolve_crossings`); `none`
when the input is empty or a cycle is detected. -/
def layoutMid (rho : List Nat → List Nat) (input : String) : Option Context :=
  let ctx : Context := { }
  let ctx := ctx.parse input.toList
  if ctx.is_empty then none else
  match ctx.toposort with
  | .error _ => none
  | .ok ctx =>
    some (((ctx.complete rho).1.build_layers).resolve_crossings)

/-- The context `Context::process` holds right after `layout` returns
(the state `render` is applied to). -/
def pipelineAfterLayout (rho : List Nat → List Nat) (input : String) :
    Option Context :=
  (layoutMid rho input).map (fun ctx => ctx.layout rho)

/-- Consecutive vertex boxes of one layer do not overlap in `x`:
each box starts at or after the right edge of its predecessor. -/
def consecOk (ns : List Node) : List Nat → Bool
  | [] => true
  | [_] => true
  | a :: b :: rest =>
    decide ((getNodeL ns a).x + (getNodeL ns a).width ≤ (getNodeL ns b).x) &&
      consecOk ns (b :: rest)

/-- One edge lies within the padded interior span of both endpoints:
at least `x + padding` on both sides, and at most `x + width - 2` for
non-connector endpoints. -/
def edgeInSpanB (ns : List Node) (e : Edge) : Bool :=
  let nu := getNodeL ns e.up
  let nd := getNodeL ns e.down
  decide (nu.x + nu.padding ≤ e.x) && decide (nd.x + nd.padding ≤ e.x) &&
    (nu.is_connector || decide (e.x ≤ nu.x + nu.width - 2)) &&
    (nd.is_connector || decide (e.x ≤ nd.x + nd.width - 2))

/-- The geometry invariant of the specification. -/
def geomOkB (ctx : Context) : Bool :=
  ctx.layers.all (fun L =>
    consecOk ctx.nodes L.nodes && L.edges.all (edgeInSpanB ctx.nodes))

/-- Cursor form of the non-overlap sweep: every node starts at or after
the running right edge `x`. -/
def consecFrom (ns : List Node) : Nat → List Nat → Bool
  | _, [] => true
  | x, n :: rest =>
    decide (x ≤ (getNodeL ns n).x) &&
      consecFrom ns ((getNodeL ns n).x + (getNodeL ns n).width) rest

/-- `edgeInSpanB` reformulated over the `(up, down, x)` triple of an
edge, the data `layout`'s `y`-sweep leaves untouched. -/
def edgeTripleOk (ns : List Node) (t : Nat × Nat × Nat) : Bool :=
  decide ((getNodeL ns t.1).x + (getNodeL ns t.1).padding ≤ t.2.2) &&
  decide ((getNodeL ns t.2.1).x + (getNodeL ns t.2.1).padding ≤ t.2.2) &&
  ((getNodeL ns t.1).is_connector ||
    decide (t.2.2 ≤ (getNodeL ns t.1).x + (getNodeL ns t.1).width - 2)) &&
  ((getNodeL ns t.2.1).is_connector ||
    decide (t.2.2 ≤ (getNodeL ns t.2.1).x + (getNodeL ns t.2.1).width - 2))

/-- Exactly `k` non-stabilizing iterations of the relaxation loop, the
unrolling helper for `relaxLoop`: `none` when a break occurs earlier. -/
def runK (k : Nat) (ctx : Context) : Option Context :=
  @Nat.rec (fun _ => Context → Option Context)
    (fun ctx => some ctx)
    (fun _ ih ctx =>
      match Context.relaxStep ctx with
      | (_, true) => none
      | (ctx2, false) => ih ctx2)
    k ctx

/-- No line of the input contains a non-empty token: every `->` part of
every (trimmed) line trims to the empty string. -/
def blankTokensB (input : String) : Bool :=
  (splitNl [] input.toList).all (fun line =>
    (splitArrow [] (trimChars line)).all (fun part => (trimChars part).isEmpty))

/-- The hash-order-sensitive input of the determinism analysis: vertex
`A` has three downward neighbours, and the order in which `complete`
scans them decides which long edge is spliced first. -/
def c2input : String := "A -> B\nA -> C\nA -> D\nB -> C\nB -> D"

/-- A four-vertex, two-layer context whose single inter-layer edge pair
crosses (rows `0 -> 1` and `1 -> 0`), used to instantiate the
crossing-resolution theorem. -/
def c7ctx : Context :=
  { nodes :=
      [ { padding := 1, layer := 0, row := 0 },
        { padding := 1, layer := 0, row := 1 },
        { padding := 1, layer := 1, row := 0 },
        { padding := 1, layer := 1, row := 1 } ]
    layers :=
      [ { nodes := [0, 1],
          edges := [ { up := 0, down := 3, x := 0, y := 0 },
                     { up := 1, down := 2, x := 0, y := 0 } ] },
        { nodes := [2, 3] } ] }

/-- The adjacency invariant behind claim C10: the `downward` and
`upward` lists mirror each other, every adjacency entry stays inside
the node arena, and every registry entry points into the arena (the
last two conjuncts are the auxiliary strengthening that makes the
first inductive). -/
def AdjInv (ctx : Context) : Prop :=
  (∀ i j : Nat, j ∈ (getNode ctx i).downward ↔ i ∈ (getNode ctx j).upward) ∧
  (∀ i j : Nat, j ∈ (getNode ctx i).downward →
    i < ctx.nodes.length ∧ j < ctx.nodes.length) ∧
  (∀ p ∈ ctx.id, p.2 < ctx.nodes.length)

/-- The downward-adjacency well-formedness used by the `complete`
analysis: entries in range and no duplicates (`HashSet` semantics). -/
def DownInv (ctx : Context) : Prop :=
  (∀ i j : Nat, j ∈ (getNodeL ctx.nodes i).downward →
    i < ctx.nodes.length ∧ j < ctx.nodes.length) ∧
  (∀ i : Nat, ((getNodeL ctx.nodes i).downward).Nodup)

/-- Strict layering: every direct edge goes strictly downward.  This is
the state `toposort` leaves. -/
def SpanOk (ctx : Context) : Prop :=
  ∀ i j : Nat, j ∈ (getNodeL ctx.nodes i).downward →
    (getNodeL ctx.nodes i).layer < (getNodeL ctx.nodes j).layer

/-- Contexts reachable by the construction operations.  `add_connector`
carries in-range arguments, as at its only call site (`complete`): an
out-of-range index would panic in Rust (`self.nodes[a]`), so no Rust
state arises from such a call. -/
inductive Reached : Context → Prop where
  | empty : Reached {}
  | node (name : List Char) {ctx : Context} :
      Reached ctx → Reached (ctx.add_node name)
  | vertex {a b : List Char} {ctx ctx' : Context} :
      Reached ctx → ctx.add_vertex a b = some ctx' → Reached ctx'
  | connector {a b : Nat} {ctx : Context} :
      Reached ctx → a < ctx.nodes.length → b < ctx.nodes.length →
      Reached (ctx.add_connector a b)
  | parsed (input : List Char) {ctx : Context} :
      Reached ctx → Reached (ctx.parse input)

/-!
The concrete input refuting the unconditional form of the geometry
claim: a 23-level two-column ladder.  The relaxation loop hits the
1000-iteration ceiling on it (the grow and shift passes keep enlarging
connector spans), and the laid-out result violates the edge-span
invariant.  The six `Context` literals below are the pipeline state
before `layout`, after `layout_init_widths`, and after every 200
iterations of the relaxation loop.
-/

def c9input : String := "X00 -> X10\nX00 -> X11\nX01 -> X11\nX10 -> X20\nX10 -> X21\nX11 -> X21\nX20 -> X30\nX20 -> X31\nX21 -> X31\nX30 -> X40\nX30 -> X41\nX31 -> X41\nX40 -> X50\nX40 -> X51\nX41 -> X51\nX50 -> X60\nX50 -> X61\nX51 -> X61\nX60 -> X70\nX60 -> X71\nX61 -> X71\nX70 -> X80\nX70 -> X81\nX71 -> X81\nX80 -> X90\nX80 -> X91\nX81 -> X91\nX90 -> X100\nX90 -> X101\nX91 -> X101\nX100 -> X110\nX100 -> X111\nX101 -> X111\nX110 -> X120\nX110 -> X121\nX111 -> X121\nX120 -> X130\nX120 -> X131\nX121 -> X131\nX130 -> X140\nX130 -> X141\nX131 -> X141\nX140 -> X150\nX140 -> X151\nX141 -> X151\nX150 -> X160\nX150 -> X161\nX151 -> X161\nX160 -> X170\nX160 -> X171\nX161 -> X171\nX170 -> X180\nX170 -> X181\nX171 -> X181\nX180 -> X190\nX180 -> X191\nX181 -> X191\nX190 -> X200\nX190 -> X201\nX191 -> X201\nX200 -> X210\nX200 -> X211\nX201 -> X211\nX210 -> X220\nX210 -> X221\nX211 -> X221"
def c9mid0 : Context :=
{ labels := [['X', '0', '0'],
             ['X', '1', '0'],
             ['X', '1', '1'],
             ['X', '0', '1'],
             ['X', '2', '0'],
             ['X', '2', '1'],
             ['X', '3', '0'],
             ['X', '3', '1'],
             ['X', '4', '0'],
             ['X', '4', '1'],
             ['X', '5', '0'],
             ['X', '5', '1'],
             ['X', '6', '0'],
             ['X', '6', '1'],
             ['X', '7', '0'],
             ['X', '7', '1'],
             ['X', '8', '0'],
             ['X', '8', '1'],
             ['X', '9', '0'],
             ['X', '9', '1'],
             ['X', '1', '0', '0'],
             ['X', '1', '0', '1'],
             ['X', '1', '1', '0'],
             ['X', '1', '1', '1'],
             ['X', '1', '2', '0'],
             ['X', '1', '2', '1'],
             ['X', '1', '3', '0'],
             ['X', '1', '3', '1'],
             ['X', '1', '4', '0'],
             ['X', '1', '4', '1'],
             ['X', '1', '5', '0'],
             ['X', '1', '5', '1'],
             ['X', '1', '6', '0'],
             ['X', '1', '6', '1'],
             ['X', '1', '7', '0'],
             ['X', '1', '7', '1'],
             ['X', '1', '8', '0'],
             ['X', '1', '8', '1'],
             ['X', '1', '9', '0'],
             ['X', '1', '9', '1'],
             ['X', '2', '0', '0'],
             ['X', '2', '0', '1'],
             ['X', '2', '1', '0'],
             ['X', '2', '1', '1'],
             ['X', '2', '2', '0'],
             ['X', '2', '2', '1']],
  id := [(['X', '0', '0'], 0),
         (['X', '1', '0'], 1),
         (['X', '1', '1'], 2),
         (['X', '0', '1'], 3),
         (['X', '2', '0'], 4),
         (['X', '2', '1'], 5),
         (['X', '3', '0'], 6),
         (['X', '3', '1'], 7),
         (['X', '4', '0'], 8),
         (['X', '4', '1'], 9),
         (['X', '5', '0'], 10),
         (['X', '5', '1'], 11),
         (['X', '6', '0'], 12),
         (['X', '6', '1'], 13),
         (['X', '7', '0'], 14),
         (['X', '7', '1'], 15),
         (['X', '8', '0'], 16),
         (['X', '8', '1'], 17),
         (['X', '9', '0'], 18),
         (['X', '9', '1'], 19),
         (['X', '1', '0', '0'], 20),
         (['X', '1', '0', '1'], 21),
         (['X', '1', '1', '0'], 22),
         (['X', '1', '1', '1'], 23),
         (['X', '1', '2', '0'], 24),
         (['X', '1', '2', '1'], 25),
         (['X', '1', '3', '0'], 26),
         (['X', '1', '3', '1'], 27),
         (['X', '1', '4', '0'], 28),
         (['X', '1', '4', '1'], 29),
         (['X', '1', '5', '0'], 30),
         (['X', '1', '5', '1'], 31),
         (['X', '1', '6', '0'], 32),
         (['X', '1', '6', '1'], 33),
         (['X', '1', '7', '0'], 34),
         (['X', '1', '7', '1'], 35),
         (['X', '1', '8', '0'], 36),
         (['X', '1', '8', '1'], 37),
         (['X', '1', '9', '0'], 38),
         (['X', '1', '9', '1'], 39),
         (['X', '2', '0', '0'], 40),
         (['X', '2', '0', '1'], 41),
         (['X', '2', '1', '0'], 42),
         (['X', '2', '1', '1'], 43),
         (['X', '2', '2', '0'], 44),
         (['X', '2', '2', '1'], 45)],
  nodes := [{ upward := [],
              downward := [1, 2],
              is_connector := false,
              padding := 1,
              layer := 0,
              row := 0,
              downward_closure := [1, 4, 6, 8, 10, 12, 14, 16, 18, 20, 22, 24, 26, 28, 30, 32, 34, 36, 38, 40, 42, 44,
                                   45, 43, 41, 39, 37, 35, 33, 31, 29, 27, 25, 23, 21, 19, 17, 15, 13, 11, 9, 7, 5, 2],
              upward_sorted := [],
              downward_sorted := [1, 2],
              width := 0,
              height := 0,
              x := 0,
              y := 0 },
            { upward := [0],
              downward := [4, 5],
              is_connector := false,
              padding := 1,
              layer := 1,
              row := 0,
              downward_closure := [4, 6, 8, 10, 12, 14, 16, 18, 20, 22, 24, 26, 28, 30, 32, 34, 36, 38, 40, 42, 44, 45,
                                   43, 41, 39, 37, 35, 33, 31, 29, 27, 25, 23, 21, 19, 17, 15, 13, 11, 9, 7, 5],
              upward_sorted := [0],
              downward_sorted := [4, 5],
              width := 0,
              height := 0,
              x := 0,
              y := 0 },
            { upward := [0, 3],
              downward := [5],
              is_connector := false,
              padding := 1,
              layer := 1,
              row := 1,
              downward_closure := [5, 7, 9, 11, 13, 15, 17, 19, 21, 23, 25, 27, 29, 31, 33, 35, 37, 39, 41, 43, 45],
              upward_sorted := [0, 3],
              downward_sorted := [5],
              width := 0,
              height := 0,
              x := 0,
              y := 0 },
            { upward := [],
              downward := [2],
              is_connector := false,
              padding := 1,
              layer := 0,
              row := 1,
              downward_closure := [2, 5, 7, 9, 11, 13, 15, 17, 19, 21, 23, 25, 27, 29, 31, 33, 35, 37, 39, 41, 43, 45],
              upward_sorted := [],
              downward_sorted := [2],
              width := 0,
              height := 0,
              x := 0,
              y := 0 },
            { upward := [1],
              downward := [6, 7],
              is_connector := false,
              padding := 1,
              layer := 2,
              row := 0,
              downward_closure := [6, 8, 10, 12, 14, 16, 18, 20, 22, 24, 26, 28, 30, 32, 34, 36, 38, 40, 42, 44, 45, 43,
                                   41, 39, 37, 35, 33, 31, 29, 27, 25, 23, 21, 19, 17, 15, 13, 11, 9, 7],
              upward_sorted := [1],
              downward_sorted := [6, 7],
              width := 0,
              height := 0,
              x := 0,
              y := 0 },
            { upward := [1, 2],
              downward := [7],
              is_connector := false,
              padding := 1,
              layer := 2,
              row := 1,
              downward_closure := [7, 9, 11, 13, 15, 17, 19, 21, 23, 25, 27, 29, 31, 33, 35, 37, 39, 41, 43, 45],
              upward_sorted := [1, 2],
              downward_sorted := [7],
              width := 0,
              height := 0,
              x := 0,
              y := 0 },
            { upward := [4],
              downward := [8, 9],
              is_connector := false,
              padding := 1,
              layer := 3,
              row := 0,
              downward_closure := [8, 10, 12, 14, 16, 18, 20, 22, 24, 26, 28, 30, 32, 34, 36, 38, 40, 42, 44, 45, 43,
                                   41, 39, 37, 35, 33, 31, 29, 27, 25, 23, 21, 19, 17, 15, 13, 11, 9],
              upward_sorted := [4],
              downward_sorted := [8, 9],
              width := 0,
              height := 0,
              x := 0,
              y := 0 },
            { upward := [4, 5],
              downward := [9],
              is_connector := false,
              padding := 1,
              layer := 3,
              row := 1,
              downward_closure := [9, 11, 13, 15, 17, 19, 21, 23, 25, 27, 29, 31, 33, 35, 37, 39, 41, 43, 45],
              upward_sorted := [4, 5],
              downward_sorted := [9],
              width := 0,
              height := 0,
              x := 0,
              y := 0 },
            { upward := [6],
              downward := [10, 11],
              is_connector := false,
              padding := 1,
              layer := 4,
              row := 0,
              downward_closure := [10, 12, 14, 16, 18, 20, 22, 24, 26, 28, 30, 32, 34, 36, 38, 40, 42, 44, 45, 43, 41,
                                   39, 37, 35, 33, 31, 29, 27, 25, 23, 21, 19, 17, 15, 13, 11],
              upward_sorted := [6],
              downward_sorted := [10, 11],
              width := 0,
              height := 0,
              x := 0,
              y := 0 },
            { upward := [6, 7],
              downward := [11],
              is_connector := false,
              padding := 1,
              layer := 4,
              row := 1,
              downward_closure := [11, 13, 15, 17, 19, 21, 23, 25, 27, 29, 31, 33, 35, 37, 39, 41, 43, 45],
              upward_sorted := [6, 7],
              downward_sorted := [11],
              width := 0,
              height := 0,
              x := 0,
              y := 0 },
            { upward := [8],
              downward := [12, 13],
              is_connector := false,
              padding := 1,
              layer := 5,
              row := 0,
              downward_closure := [12, 14, 16, 18, 20, 22, 24, 26, 28, 30, 32, 34, 36, 38, 40, 42, 44, 45, 43, 41, 39,
                                   37, 35, 33, 31, 29, 27, 25, 23, 21, 19, 17, 15, 13],
              upward_sorted := [8],
              downward_sorted := [12, 13],
              width := 0,
              height := 0,
              x := 0,
              y := 0 },
            { upward := [8, 9],
              downward := [13],
              is_connector := false,
              padding := 1,
              layer := 5,
              row := 1,
              downward_closure := [13, 15, 17, 19, 21, 23, 25, 27, 29, 31, 33, 35, 37, 39, 41, 43, 45],
              upward_sorted := [8, 9],
              downward_sorted := [13],
              width := 0,
              height := 0,
              x := 0,
              y := 0 },
            { upward := [10],
              downward := [14, 15],
              is_connector := false,
              padding := 1,
              layer := 6,
              row := 0,
              downward_closure := [14, 16, 18, 20, 22, 24, 26, 28, 30, 32, 34, 36, 38, 40, 42, 44, 45, 43, 41, 39, 37,
                                   35, 33, 31, 29, 27, 25, 23, 21, 19, 17, 15],
              upward_sorted := [10],
              downward_sorted := [14, 15],
              width := 0,
              height := 0,
              x := 0,
              y := 0 },
            { upward := [10, 11],
              downward := [15],
              is_connector := false,
              padding := 1,
              layer := 6,
              row := 1,
              downward_closure := [15, 17, 19, 21, 23, 25, 27, 29, 31, 33, 35, 37, 39, 41, 43, 45],
              upward_sorted := [10, 11],
              downward_sorted := [15],
              width := 0,
              height := 0,
              x := 0,
              y := 0 },
            { upward := [12],
              downward := [16, 17],
              is_connector := false,
              padding := 1,
              layer := 7,
              row := 0,
              downward_closure := [16, 18, 20, 22, 24, 26, 28, 30, 32, 34, 36, 38, 40, 42, 44, 45, 43, 41, 39, 37, 35,
                                   33, 31, 29, 27, 25, 23, 21, 19, 17],
              upward_sorted := [12],
              downward_sorted := [16, 17],
              width := 0,
              height := 0,
              x := 0,
              y := 0 },
            { upward := [12, 13],
              downward := [17],
              is_connector := false,
              padding := 1,
              layer := 7,
              row := 1,
              downward_closure := [17, 19, 21, 23, 25, 27, 29, 31, 33, 35, 37, 39, 41, 43, 45],
              upward_sorted := [12, 13],
              downward_sorted := [17],
              width := 0,
              height := 0,
              x := 0,
              y := 0 },
            { upward := [14],
              downward := [18, 19],
              is_connector := false,
              padding := 1,
              layer := 8,
              row := 0,
              downward_closure := [18, 20, 22, 24, 26, 28, 30, 32, 34, 36, 38, 40, 42, 44, 45, 43, 41, 39, 37, 35, 33,
                                   31, 29, 27, 25, 23, 21, 19],
              upward_sorted := [14],
              downward_sorted := [18, 19],
              width := 0,
              height := 0,
              x := 0,
              y := 0 },
            { upward := [14, 15],
              downward := [19],
              is_connector := false,
              padding := 1,
              layer := 8,
              row := 1,
              downward_closure := [19, 21, 23, 25, 27, 29, 31, 33, 35, 37, 39, 41, 43, 45],
              upward_sorted := [14, 15],
              downward_sorted := [19],
              width := 0,
              height := 0,
              x := 0,
              y := 0 },
            { upward := [16],
              downward := [20, 21],
              is_connector := false,
              padding := 1,
              layer := 9,
              row := 0,
              downward_closure := [20, 22, 24, 26, 28, 30, 32, 34, 36, 38, 40, 42, 44, 45, 43, 41, 39, 37, 35, 33, 31,
                                   29, 27, 25, 23, 21],
              upward_sorted := [16],
              downward_sorted := [20, 21],
              width := 0,
              height := 0,
              x := 0,
              y := 0 },
            { upward := [16, 17],
              downward := [21],
              is_connector := false,
              padding := 1,
              layer := 9,
              row := 1,
              downward_closure := [21, 23, 25, 27, 29, 31, 33, 35, 37, 39, 41, 43, 45],
              upward_sorted := [16, 17],
              downward_sorted := [21],
              width := 0,
              height := 0,
              x := 0,
              y := 0 },
            { upward := [18],
              downward := [22, 23],
              is_connector := false,
              padding := 1,
              layer := 10,
              row := 0,
              downward_closure := [22, 24, 26, 28, 30, 32, 34, 36, 38, 40, 42, 44, 45, 43, 41, 39, 37, 35, 33, 31, 29,
                                   27, 25, 23],
              upward_sorted := [18],
              downward_sorted := [22, 23],
              width := 0,
              height := 0,
              x := 0,
              y := 0 },
            { upward := [18, 19],
              downward := [23],
              is_connector := false,
              padding := 1,
              layer := 10,
              row := 1,
              downward_closure := [23, 25, 27, 29, 31, 33, 35, 37, 39, 41, 43, 45],
              upward_sorted := [18, 19],
              downward_sorted := [23],
              width := 0,
              height := 0,
              x := 0,
              y := 0 },
            { upward := [20],
              downward := [24, 25],
              is_connector := false,
              padding := 1,
              layer := 11,
              row := 0,
              downward_closure := [24, 26, 28, 30, 32, 34, 36, 38, 40, 42, 44, 45, 43, 41, 39, 37, 35, 33, 31, 29, 27,
                                   25],
              upward_sorted := [20],
              downward_sorted := [24, 25],
              width := 0,
              height := 0,
              x := 0,
              y := 0 },
            { upward := [20, 21],
              downward := [25],
              is_connector := false,
              padding := 1,
              layer := 11,
              row := 1,
              downward_closure := [25, 27, 29, 31, 33, 35, 37, 39, 41, 43, 45],
              upward_sorted := [20, 21],
              downward_sorted := [25],
              width := 0,
              height := 0,
              x := 0,
              y := 0 },
            { upward := [22],
              downward := [26, 27],
              is_connector := false,
              padding := 1,
              layer := 12,
              row := 0,
              downward_closure := [26, 28, 30, 32, 34, 36, 38, 40, 42, 44, 45, 43, 41, 39, 37, 35, 33, 31, 29, 27],
              upward_sorted := [22],
              downward_sorted := [26, 27],
              width := 0,
              height := 0,
              x := 0,
              y := 0 },
            { upward := [22, 23],
              downward := [27],
              is_connector := false,
              padding := 1,
              layer := 12,
              row := 1,
              downward_closure := [27, 29, 31, 33, 35, 37, 39, 41, 43, 45],
              upward_sorted := [22, 23],
              downward_sorted := [27],
              width := 0,
              height := 0,
              x := 0,
              y := 0 },
            { upward := [24],
              downward := [28, 29],
              is_connector := false,
              padding := 1,
              layer := 13,
              row := 0,
              downward_closure := [28, 30, 32, 34, 36, 38, 40, 42, 44, 45, 43, 41, 39, 37, 35, 33, 31, 29],
              upward_sorted := [24],
              downward_sorted := [28, 29],
              width := 0,
              height := 0,
              x := 0,
              y := 0 },
            { upward := [24, 25],
              downward := [29],
              is_connector := false,
              padding := 1,
              layer := 13,
              row := 1,
              downward_closure := [29, 31, 33, 35, 37, 39, 41, 43, 45],
              upward_sorted := [24, 25],
              downward_sorted := [29],
              width := 0,
              height := 0,
              x := 0,
              y := 0 },
            { upward := [26],
              downward := [30, 31],
              is_connector := false,
              padding := 1,
              layer := 14,
              row := 0,
              downward_closure := [30, 32, 34, 36, 38, 40, 42, 44, 45, 43, 41, 39, 37, 35, 33, 31],
              upward_sorted := [26],
              downward_sorted := [30, 31],
              width := 0,
              height := 0,
              x := 0,
              y := 0 },
            { upward := [26, 27],
              downward := [31],
              is_connector := false,
              padding := 1,
              layer := 14,
              row := 1,
              downward_closure := [31, 33, 35, 37, 39, 41, 43, 45],
              upward_sorted := [26, 27],
              downward_sorted := [31],
              width := 0,
              height := 0,
              x := 0,
              y := 0 },
            { upward := [28],
              downward := [32, 33],
              is_connector := false,
              padding := 1,
              layer := 15,
              row := 0,
              downward_closure := [32, 34, 36, 38, 40, 42, 44, 45, 43, 41, 39, 37, 35, 33],
              upward_sorted := [28],
              downward_sorted := [32, 33],
              width := 0,
              height := 0,
              x := 0,
              y := 0 },
            { upward := [28, 29],
              downward := [33],
              is_connector := false,
              padding := 1,
              layer := 15,
              row := 1,
              downward_closure := [33, 35, 37, 39, 41, 43, 45],
              upward_sorted := [28, 29],
              downward_sorted := [33],
              width := 0,
              height := 0,
              x := 0,
              y := 0 },
            { upward := [30],
              downward := [34, 35],
              is_connector := false,
              padding := 1,
              layer := 16,
              row := 0,
              downward_closure := [34, 36, 38, 40, 42, 44, 45, 43, 41, 39, 37, 35],
              upward_sorted := [30],
              downward_sorted := [34, 35],
              width := 0,
              height := 0,
              x := 0,
              y := 0 },
            { upward := [30, 31],
              downward := [35],
              is_connector := false,
              padding := 1,
              layer := 16,
              row := 1,
              downward_closure := [35, 37, 39, 41, 43, 45],
              upward_sorted := [30, 31],
              downward_sorted := [35],
              width := 0,
              height := 0,
              x := 0,
              y := 0 },
            { upward := [32],
              downward := [36, 37],
              is_connector := false,
              padding := 1,
              layer := 17,
              row := 0,
              downward_closure := [36, 38, 40, 42, 44, 45, 43, 41, 39, 37],
              upward_sorted := [32],
              downward_sorted := [36, 37],
              width := 0,
              height := 0,
              x := 0,
              y := 0 },
            { upward := [32, 33],
              downward := [37],
              is_connector := false,
              padding := 1,
              layer := 17,
              row := 1,
              downward_closure := [37, 39, 41, 43, 45],
              upward_sorted := [32, 33],
              downward_sorted := [37],
              width := 0,
              height := 0,
              x := 0,
              y := 0 },
            { upward := [34],
              downward := [38, 39],
              is_connector := false,
              padding := 1,
              layer := 18,
              row := 0,
              downward_closure := [38, 40, 42, 44, 45, 43, 41, 39],
              upward_sorted := [34],
              downward_sorted := [38, 39],
              width := 0,
              height := 0,
              x := 0,
              y := 0 },
            { upward := [34, 35],
              downward := [39],
              is_connector := false,
              padding := 1,
              layer := 18,
              row := 1,
              downward_closure := [39, 41, 43, 45],
              upward_sorted := [34, 35],
              downward_sorted := [39],
              width := 0,
              height := 0,
              x := 0,
              y := 0 },
            { upward := [36],
              downward := [40, 41],
              is_connector := false,
              padding := 1,
              layer := 19,
              row := 0,
              downward_closure := [40, 42, 44, 45, 43, 41],
              upward_sorted := [36],
              downward_sorted := [40, 41],
              width := 0,
              height := 0,
              x := 0,
              y := 0 },
            { upward := [36, 37],
              downward := [41],
              is_connector := false,
              padding := 1,
              layer := 19,
              row := 1,
              downward_closure := [41, 43, 45],
              upward_sorted := [36, 37],
              downward_sorted := [41],
              width := 0,
              height := 0,
              x := 0,
              y := 0 },
            { upward := [38],
              downward := [42, 43],
              is_connector := false,
              padding := 1,
              layer := 20,
              row := 0,
              downward_closure := [42, 44, 45, 43],
              upward_sorted := [38],
              downward_sorted := [42, 43],
              width := 0,
              height := 0,
              x := 0,
              y := 0 },
            { upward := [38, 39],
              downward := [43],
              is_connector := false,
              padding := 1,
              layer := 20,
              row := 1,
              downward_closure := [43, 45],
              upward_sorted := [38, 39],
              downward_sorted := [43],
              width := 0,
              height := 0,
              x := 0,
              y := 0 },
            { upward := [40],
              downward := [44, 45],
              is_connector := false,
              padding := 1,
              layer := 21,
              row := 0,
              downward_closure := [44, 45],
              upward_sorted := [40],
              downward_sorted := [44, 45],
              width := 0,
              height := 0,
              x := 0,
              y := 0 },
            { upward := [40, 41],
              downward := [45],
              is_connector := false,
              padding := 1,
              layer := 21,
              row := 1,
              downward_closure := [45],
              upward_sorted := [40, 41],
              downward_sorted := [45],
              width := 0,
              height := 0,
              x := 0,
              y := 0 },
            { upward := [42],
              downward := [],
              is_connector := false,
              padding := 1,
              layer := 22,
              row := 0,
              downward_closure := [],
              upward_sorted := [42],
              downward_sorted := [],
              width := 0,
              height := 0,
              x := 0,
              y := 0 },
            { upward := [42, 43],
              downward := [],
              is_connector := false,
              padding := 1,
              layer := 22,
              row := 1,
              downward_closure := [],
              upward_sorted := [42, 43],
              downward_sorted := [],
              width := 0,
              height := 0,
              x := 0,
              y := 0 }],
  layers := [{ nodes := [0, 3],
               edges := [{ up := 0, down := 1, x := 0, y := 0 },
                         { up := 0, down := 2, x := 0, y := 0 },
                         { up := 3, down := 2, x := 0, y := 0 }],
               adapter := { enabled := false, inputs := [], outputs := [], height := 0, y := 0, rendering := [] } },
             { nodes := [1, 2],
               edges := [{ up := 1, down := 4, x := 0, y := 0 },
                         { up := 1, down := 5, x := 0, y := 0 },
                         { up := 2, down := 5, x := 0, y := 0 }],
               adapter := { enabled := false, inputs := [], outputs := [], height := 0, y := 0, rendering := [] } },
             { nodes := [4, 5],
               edges := [{ up := 4, down := 6, x := 0, y := 0 },
                         { up := 4, down := 7, x := 0, y := 0 },
                         { up := 5, down := 7, x := 0, y := 0 }],
               adapter := { enabled := false, inputs := [], outputs := [], height := 0, y := 0, rendering := [] } },
             { nodes := [6, 7],
               edges := [{ up := 6, down := 8, x := 0, y := 0 },
                         { up := 6, down := 9, x := 0, y := 0 },
                         { up := 7, down := 9, x := 0, y := 0 }],
               adapter := { enabled := false, inputs := [], outputs := [], height := 0, y := 0, rendering := [] } },
             { nodes := [8, 9],
               edges := [{ up := 8, down := 10, x := 0, y := 0 },
                         { up := 8, down := 11, x := 0, y := 0 },
                         { up := 9, down := 11, x := 0, y := 0 }],
               adapter := { enabled := false, inputs := [], outputs := [], height := 0, y := 0, rendering := [] } },
             { nodes := [10, 11],
               edges := [{ up := 10, down := 12, x := 0, y := 0 },
                         { up := 10, down := 13, x := 0, y := 0 },
                         { up := 11, down := 13, x := 0, y := 0 }],
               adapter := { enabled := false, inputs := [], outputs := [], height := 0, y := 0, rendering := [] } },
             { nodes := [12, 13],
               edges := [{ up := 12, down := 14, x := 0, y := 0 },
                         { up := 12, down := 15, x := 0, y := 0 },
                         { up := 13, down := 15, x := 0, y := 0 }],
               adapter := { enabled := false, inputs := [], outputs := [], height := 0, y := 0, rendering := [] } },
             { nodes := [14, 15],
               edges := [{ up := 14, down := 16, x := 0, y := 0 },
                         { up := 14, down := 17, x := 0, y := 0 },
                         { up := 15, down := 17, x := 0, y := 0 }],
               adapter := { enabled := false, inputs := [], outputs := [], height := 0, y := 0, rendering := [] } },
             { nodes := [16, 17],
               edges := [{ up := 16, down := 18, x := 0, y := 0 },
                         { up := 16, down := 19, x := 0, y := 0 },
                         { up := 17, down := 19, x := 0, y := 0 }],
               adapter := { enabled := false, inputs := [], outputs := [], height := 0, y := 0, rendering := [] } },
             { nodes := [18, 19],
               edges := [{ up := 18, down := 20, x := 0, y := 0 },
                         { up := 18, down := 21, x := 0, y := 0 },
                         { up := 19, down := 21, x := 0, y := 0 }],
               adapter := { enabled := false, inputs := [], outputs := [], height := 0, y := 0, rendering := [] } },
             { nodes := [20, 21],
               edges := [{ up := 20, down := 22, x := 0, y := 0 },
                         { up := 20, down := 23, x := 0, y := 0 },
                         { up := 21, down := 23, x := 0, y := 0 }],
               adapter := { enabled := false, inputs := [], outputs := [], height := 0, y := 0, rendering := [] } },
             { nodes := [22, 23],
               edges := [{ up := 22, down := 24, x := 0, y := 0 },
                         { up := 22, down := 25, x := 0, y := 0 },
                         { up := 23, down := 25, x := 0, y := 0 }],
               adapter := { enabled := false, inputs := [], outputs := [], height := 0, y := 0, rendering := [] } },
             { nodes := [24, 25],
               edges := [{ up := 24, down := 26, x := 0, y := 0 },
                         { up := 24, down := 27, x := 0, y := 0 },
                         { up := 25, down := 27, x := 0, y := 0 }],
               adapter := { enabled := false, inputs := [], outputs := [], height := 0, y := 0, rendering := [] } },
             { nodes := [26, 27],
               edges := [{ up := 26, down := 28, x := 0, y := 0 },
                         { up := 26, down := 29, x := 0, y := 0 },
                         { up := 27, down := 29, x := 0, y := 0 }],
               adapter := { enabled := false, inputs := [], outputs := [], height := 0, y := 0, rendering := [] } },
             { nodes := [28, 29],
               edges := [{ up := 28, down := 30, x := 0, y := 0 },
                         { up := 28, down := 31, x := 0, y := 0 },
                         { up := 29, down := 31, x := 0, y := 0 }],
               adapter := { enabled := false, inputs := [], outputs := [], height := 0, y := 0, rendering := [] } },
             { nodes := [30, 31],
               edges := [{ up := 30, down := 32, x := 0, y := 0 },
                         { up := 30, down := 33, x := 0, y := 0 },
                         { up := 31, down := 33, x := 0, y := 0 }],
               adapter := { enabled := false, inputs := [], outputs := [], height := 0, y := 0, rendering := [] } },
             { nodes := [32, 33],
               edges := [{ up := 32, down := 34, x := 0, y := 0 },
                         { up := 32, down := 35, x := 0, y := 0 },
                         { up := 33, down := 35, x := 0, y := 0 }],
               adapter := { enabled := false, inputs := [], outputs := [], height := 0, y := 0, rendering := [] } },
             { nodes := [34, 35],
               edges := [{ up := 34, down := 36, x := 0, y := 0 },
                         { up := 34, down := 37, x := 0, y := 0 },
                         { up := 35, down := 37, x := 0, y := 0 }],
               adapter := { enabled := false, inputs := [], outputs := [], height := 0, y := 0, rendering := [] } },
             { nodes := [36, 37],
               edges := [{ up := 36, down := 38, x := 0, y := 0 },
                         { up := 36, down := 39, x := 0, y := 0 },
                         { up := 37, down := 39, x := 0, y := 0 }],
               adapter := { enabled := false, inputs := [], outputs := [], height := 0, y := 0, rendering := [] } },
             { nodes := [38, 39],
               edges := [{ up := 38, down := 40, x := 0, y := 0 },
                         { up := 38, down := 41, x := 0, y := 0 },
                         { up := 39, down := 41, x := 0, y := 0 }],
               adapter := { enabled := false, inputs := [], outputs := [], height := 0, y := 0, rendering := [] } },
             { nodes := [40, 41],
               edges := [{ up := 40, down := 42, x := 0, y := 0 },
                         { up := 40, down := 43, x := 0, y := 0 },
                         { up := 41, down := 43, x := 0, y := 0 }],
               adapter := { enabled := false, inputs := [], outputs := [], height := 0, y := 0, rendering := [] } },
             { nodes := [42, 43],
               edges := [{ up := 42, down := 44, x := 0, y := 0 },
                         { up := 42, down := 45, x := 0, y := 0 },
                         { up := 43, down := 45, x := 0, y := 0 }],
               adapter := { enabled := false, inputs := [], outputs := [], height := 0, y := 0, rendering := [] } },
             { nodes := [44, 45],
               edges := [],
               adapter := { enabled := false, inputs := [], outputs := [], height := 0, y := 0, rendering := [] } }] }

def c9s0 : Context :=
{ labels := [['X', '0', '0'],
             ['X', '1', '0'],
             ['X', '1', '1'],
             ['X', '0', '1'],
             ['X', '2', '0'],
             ['X', '2', '1'],
             ['X', '3', '0'],
             ['X', '3', '1'],
             ['X', '4', '0'],
             ['X', '4', '1'],
             ['X', '5', '0'],
             ['X', '5', '1'],
             ['X', '6', '0'],
             ['X', '6', '1'],
             ['X', '7', '0'],
             ['X', '7', '1'],
             ['X', '8', '0'],
             ['X', '8', '1'],
             ['X', '9', '0'],
             ['X', '9', '1'],
             ['X', '1', '0', '0'],
             ['X', '1', '0', '1'],
             ['X', '1', '1', '0'],
             ['X', '1', '1', '1'],
             ['X', '1', '2', '0'],
             ['X', '1', '2', '1'],
             ['X', '1', '3', '0'],
             ['X', '1', '3', '1'],
             ['X', '1', '4', '0'],
             ['X', '1', '4', '1'],
             ['X', '1', '5', '0'],
             ['X', '1', '5', '1'],
             ['X', '1', '6', '0'],
             ['X', '1', '6', '1'],
             ['X', '1', '7', '0'],
             ['X', '1', '7', '1'],
             ['X', '1', '8', '0'],
             ['X', '1', '8', '1'],
             ['X', '1', '9', '0'],
             ['X', '1', '9', '1'],
             ['X', '2', '0', '0'],
             ['X', '2', '0', '1'],
             ['X', '2', '1', '0'],
             ['X', '2', '1', '1'],
             ['X', '2', '2', '0'],
             ['X', '2', '2', '1']],
  id := [(['X', '0', '0'], 0),
         (['X', '1', '0'], 1),
         (['X', '1', '1'], 2),
         (['X', '0', '1'], 3),
         (['X', '2', '0'], 4),
         (['X', '2', '1'], 5),
         (['X', '3', '0'], 6),
         (['X', '3', '1'], 7),
         (['X', '4', '0'], 8),
         (['X', '4', '1'], 9),
         (['X', '5', '0'], 10),
         (['X', '5', '1'], 11),
         (['X', '6', '0'], 12),
         (['X', '6', '1'], 13),
         (['X', '7', '0'], 14),
         (['X', '7', '1'], 15),
         (['X', '8', '0'], 16),
         (['X', '8', '1'], 17),
         (['X', '9', '0'], 18),
         (['X', '9', '1'], 19),
         (['X', '1', '0', '0'], 20),
         (['X', '1', '0', '1'], 21),
         (['X', '1', '1', '0'], 22),
         (['X', '1', '1', '1'], 23),
         (['X', '1', '2', '0'], 24),
         (['X', '1', '2', '1'], 25),
         (['X', '1', '3', '0'], 26),
         (['X', '1', '3', '1'], 27),
         (['X', '1', '4', '0'], 28),
         (['X', '1', '4', '1'], 29),
         (['X', '1', '5', '0'], 30),
         (['X', '1', '5', '1'], 31),
         (['X', '1', '6', '0'], 32),
         (['X', '1', '6', '1'], 33),
         (['X', '1', '7', '0'], 34),
         (['X', '1', '7', '1'], 35),
         (['X', '1', '8', '0'], 36),
         (['X', '1', '8', '1'], 37),
         (['X', '1', '9', '0'], 38),
         (['X', '1', '9', '1'], 39),
         (['X', '2', '0', '0'], 40),
         (['X', '2', '0', '1'], 41),
         (['X', '2', '1', '0'], 42),
         (['X', '2', '1', '1'], 43),
         (['X', '2', '2', '0'], 44),
         (['X', '2', '2', '1'], 45)],
  nodes := [{ upward := [],
              downward := [1, 2],
              is_connector := false,
              padding := 1,
              layer := 0,
              row := 0,
              downward_closure := [1, 4, 6, 8, 10, 12, 14, 16, 18, 20, 22, 24, 26, 28, 30, 32, 34, 36, 38, 40, 42, 44,
                                   45, 43, 41, 39, 37, 35, 33, 31, 29, 27, 25, 23, 21, 19, 17, 15, 13, 11, 9, 7, 5, 2],
              upward_sorted := [],
              downward_sorted := [1, 2],
              width := 7,
              height := 3,
              x := 0,
              y := 0 },
            { upward := [0],
              downward := [4, 5],
              is_connector := false,
              padding := 1,
              layer := 1,
              row := 0,
              downward_closure := [4, 6, 8, 10, 12, 14, 16, 18, 20, 22, 24, 26, 28, 30, 32, 34, 36, 38, 40, 42, 44, 45,
                                   43, 41, 39, 37, 35, 33, 31, 29, 27, 25, 23, 21, 19, 17, 15, 13, 11, 9, 7, 5],
              upward_sorted := [0],
              downward_sorted := [4, 5],
              width := 7,
              height := 3,
              x := 0,
              y := 0 },
            { upward := [0, 3],
              downward := [5],
              is_connector := false,
              padding := 1,
              layer := 1,
              row := 1,
              downward_closure := [5, 7, 9, 11, 13, 15, 17, 19, 21, 23, 25, 27, 29, 31, 33, 35, 37, 39, 41, 43, 45],
              upward_sorted := [0, 3],
              downward_sorted := [5],
              width := 7,
              height := 3,
              x := 0,
              y := 0 },
            { upward := [],
              downward := [2],
              is_connector := false,
              padding := 1,
              layer := 0,
              row := 1,
              downward_closure := [2, 5, 7, 9, 11, 13, 15, 17, 19, 21, 23, 25, 27, 29, 31, 33, 35, 37, 39, 41, 43, 45],
              upward_sorted := [],
              downward_sorted := [2],
              width := 7,
              height := 3,
              x := 0,
              y := 0 },
            { upward := [1],
              downward := [6, 7],
              is_connector := false,
              padding := 1,
              layer := 2,
              row := 0,
              downward_closure := [6, 8, 10, 12, 14, 16, 18, 20, 22, 24, 26, 28, 30, 32, 34, 36, 38, 40, 42, 44, 45, 43,
                                   41, 39, 37, 35, 33, 31, 29, 27, 25, 23, 21, 19, 17, 15, 13, 11, 9, 7],
              upward_sorted := [1],
              downward_sorted := [6, 7],
              width := 7,
              height := 3,
              x := 0,
              y := 0 },
            { upward := [1, 2],
              downward := [7],
              is_connector := false,
              padding := 1,
              layer := 2,
              row := 1,
              downward_closure := [7, 9, 11, 13, 15, 17, 19, 21, 23, 25, 27, 29, 31, 33, 35, 37, 39, 41, 43, 45],
              upward_sorted := [1, 2],
              downward_sorted := [7],
              width := 7,
              height := 3,
              x := 0,
              y := 0 },
            { upward := [4],
              downward := [8, 9],
              is_connector := false,
              padding := 1,
              layer := 3,
              row := 0,
              downward_closure := [8, 10, 12, 14, 16, 18, 20, 22, 24, 26, 28, 30, 32, 34, 36, 38, 40, 42, 44, 45, 43,
                                   41, 39, 37, 35, 33, 31, 29, 27, 25, 23, 21, 19, 17, 15, 13, 11, 9],
              upward_sorted := [4],
              downward_sorted := [8, 9],
              width := 7,
              height := 3,
              x := 0,
              y := 0 },
            { upward := [4, 5],
              downward := [9],
              is_connector := false,
              padding := 1,
              layer := 3,
              row := 1,
              downward_closure := [9, 11, 13, 15, 17, 19, 21, 23, 25, 27, 29, 31, 33, 35, 37, 39, 41, 43, 45],
              upward_sorted := [4, 5],
              downward_sorted := [9],
              width := 7,
              height := 3,
              x := 0,
              y := 0 },
            { upward := [6],
              downward := [10, 11],
              is_connector := false,
              padding := 1,
              layer := 4,
              row := 0,
              downward_closure := [10, 12, 14, 16, 18, 20, 22, 24, 26, 28, 30, 32, 34, 36, 38, 40, 42, 44, 45, 43, 41,
                                   39, 37, 35, 33, 31, 29, 27, 25, 23, 21, 19, 17, 15, 13, 11],
              upward_sorted := [6],
              downward_sorted := [10, 11],
              width := 7,
              height := 3,
              x := 0,
              y := 0 },
            { upward := [6, 7],
              downward := [11],
              is_connector := false,
              padding := 1,
              layer := 4,
              row := 1,
              downward_closure := [11, 13, 15, 17, 19, 21, 23, 25, 27, 29, 31, 33, 35, 37, 39, 41, 43, 45],
              upward_sorted := [6, 7],
              downward_sorted := [11],
              width := 7,
              height := 3,
              x := 0,
              y := 0 },
            { upward := [8],
              downward := [12, 13],
              is_connector := false,
              padding := 1,
              layer := 5,
              row := 0,
              downward_closure := [12, 14, 16, 18, 20, 22, 24, 26, 28, 30, 32, 34, 36, 38, 40, 42, 44, 45, 43, 41, 39,
                                   37, 35, 33, 31, 29, 27, 25, 23, 21, 19, 17, 15, 13],
              upward_sorted := [8],
              downward_sorted := [12, 13],
              width := 7,
              height := 3,
              x := 0,
              y := 0 },
            { upward := [8, 9],
              downward := [13],
              is_connector := false,
              padding := 1,
              layer := 5,
              row := 1,
              downward_closure := [13, 15, 17, 19, 21, 23, 25, 27, 29, 31, 33, 35, 37, 39, 41, 43, 45],
              upward_sorted := [8, 9],
              downward_sorted := [13],
              width := 7,
              height := 3,
              x := 0,
              y := 0 },
            { upward := [10],
              downward := [14, 15],
              is_connector := false,
              padding := 1,
              layer := 6,
              row := 0,
              downward_closure := [14, 16, 18, 20, 22, 24, 26, 28, 30, 32, 34, 36, 38, 40, 42, 44, 45, 43, 41, 39, 37,
                                   35, 33, 31, 29, 27, 25, 23, 21, 19, 17, 15],
              upward_sorted := [10],
              downward_sorted := [14, 15],
              width := 7,
              height := 3,
              x := 0,
              y := 0 },
            { upward := [10, 11],
              downward := [15],
              is_connector := false,
              padding := 1,
              layer := 6,
              row := 1,
              downward_closure := [15, 17, 19, 21, 23, 25, 27, 29, 31, 33, 35, 37, 39, 41, 43, 45],
              upward_sorted := [10, 11],
              downward_sorted := [15],
              width := 7,
              height := 3,
              x := 0,
              y := 0 },
            { upward := [12],
              downward := [16, 17],
              is_connector := false,
              padding := 1,
              layer := 7,
              row := 0,
              downward_closure := [16, 18, 20, 22, 24, 26, 28, 30, 32, 34, 36, 38, 40, 42, 44, 45, 43, 41, 39, 37, 35,
                                   33, 31, 29, 27, 25, 23, 21, 19, 17],
              upward_sorted := [12],
              downward_sorted := [16, 17],
              width := 7,
              height := 3,
              x := 0,
              y := 0 },
            { upward := [12, 13],
              downward := [17],
              is_connector := false,
              padding := 1,
              layer := 7,
              row := 1,
              downward_closure := [17, 19, 21, 23, 25, 27, 29, 31, 33, 35, 37, 39, 41, 43, 45],
              upward_sorted := [12, 13],
              downward_sorted := [17],
              width := 7,
              height := 3,
              x := 0,
              y := 0 },
            { upward := [14],
              downward := [18, 19],
              is_connector := false,
              padding := 1,
              layer := 8,
              row := 0,
              downward_closure := [18, 20, 22, 24, 26, 28, 30, 32, 34, 36, 38, 40, 42, 44, 45, 43, 41, 39, 37, 35, 33,
                                   31, 29, 27, 25, 23, 21, 19],
              upward_sorted := [14],
              downward_sorted := [18, 19],
              width := 7,
              height := 3,
              x := 0,
              y := 0 },
            { upward := [14, 15],
              downward := [19],
              is_connector := false,
              padding := 1,
              layer := 8,
              row := 1,
              downward_closure := [19, 21, 23, 25, 27, 29, 31, 33, 35, 37, 39, 41, 43, 45],
              upward_sorted := [14, 15],
              downward_sorted := [19],
              width := 7,
              height := 3,
              x := 0,
              y := 0 },
            { upward := [16],
              downward := [20, 21],
              is_connector := false,
              padding := 1,
              layer := 9,
              row := 0,
              downward_closure := [20, 22, 24, 26, 28, 30, 32, 34, 36, 38, 40, 42, 44, 45, 43, 41, 39, 37, 35, 33, 31,
                                   29, 27, 25, 23, 21],
              upward_sorted := [16],
              downward_sorted := [20, 21],
              width := 7,
              height := 3,
              x := 0,
              y := 0 },
            { upward := [16, 17],
              downward := [21],
              is_connector := false,
              padding := 1,
              layer := 9,
              row := 1,
              downward_closure := [21, 23, 25, 27, 29, 31, 33, 35, 37, 39, 41, 43, 45],
              upward_sorted := [16, 17],
              downward_sorted := [21],
              width := 7,
              height := 3,
              x := 0,
              y := 0 },
            { upward := [18],
              downward := [22, 23],
              is_connector := false,
              padding := 1,
              layer := 10,
              row := 0,
              downward_closure := [22, 24, 26, 28, 30, 32, 34, 36, 38, 40, 42, 44, 45, 43, 41, 39, 37, 35, 33, 31, 29,
                                   27, 25, 23],
              upward_sorted := [18],
              downward_sorted := [22, 23],
              width := 8,
              height := 3,
              x := 0,
              y := 0 },
            { upward := [18, 19],
              downward := [23],
              is_connector := false,
              padding := 1,
              layer := 10,
              row := 1,
              downward_closure := [23, 25, 27, 29, 31, 33, 35, 37, 39, 41, 43, 45],
              upward_sorted := [18, 19],
              downward_sorted := [23],
              width := 8,
              height := 3,
              x := 0,
              y := 0 },
            { upward := [20],
              downward := [24, 25],
              is_connector := false,
              padding := 1,
              layer := 11,
              row := 0,
              downward_closure := [24, 26, 28, 30, 32, 34, 36, 38, 40, 42, 44, 45, 43, 41, 39, 37, 35, 33, 31, 29, 27,
                                   25],
              upward_sorted := [20],
              downward_sorted := [24, 25],
              width := 8,
              height := 3,
              x := 0,
              y := 0 },
            { upward := [20, 21],
              downward := [25],
              is_connector := false,
              padding := 1,
              layer := 11,
              row := 1,
              downward_closure := [25, 27, 29, 31, 33, 35, 37, 39, 41, 43, 45],
              upward_sorted := [20, 21],
              downward_sorted := [25],
              width := 8,
              height := 3,
              x := 0,
              y := 0 },
            { upward := [22],
              downward := [26, 27],
              is_connector := false,
              padding := 1,
              layer := 12,
              row := 0,
              downward_closure := [26, 28, 30, 32, 34, 36, 38, 40, 42, 44, 45, 43, 41, 39, 37, 35, 33, 31, 29, 27],
              upward_sorted := [22],
              downward_sorted := [26, 27],
              width := 8,
              height := 3,
              x := 0,
              y := 0 },
            { upward := [22, 23],
              downward := [27],
              is_connector := false,
              padding := 1,
              layer := 12,
              row := 1,
              downward_closure := [27, 29, 31, 33, 35, 37, 39, 41, 43, 45],
              upward_sorted := [22, 23],
              downward_sorted := [27],
              width := 8,
              height := 3,
              x := 0,
              y := 0 },
            { upward := [24],
              downward := [28, 29],
              is_connector := false,
              padding := 1,
              layer := 13,
              row := 0,
              downward_closure := [28, 30, 32, 34, 36, 38, 40, 42, 44, 45, 43, 41, 39, 37, 35, 33, 31, 29],
              upward_sorted := [24],
              downward_sorted := [28, 29],
              width := 8,
              height := 3,
              x := 0,
              y := 0 },
            { upward := [24, 25],
              downward := [29],
              is_connector := false,
              padding := 1,
              layer := 13,
              row := 1,
              downward_closure := [29, 31, 33, 35, 37, 39, 41, 43, 45],
              upward_sorted := [24, 25],
              downward_sorted := [29],
              width := 8,
              height := 3,
              x := 0,
              y := 0 },
            { upward := [26],
              downward := [30, 31],
              is_connector := false,
              padding := 1,
              layer := 14,
              row := 0,
              downward_closure := [30, 32, 34, 36, 38, 40, 42, 44, 45, 43, 41, 39, 37, 35, 33, 31],
              upward_sorted := [26],
              downward_sorted := [30, 31],
              width := 8,
              height := 3,
              x := 0,
              y := 0 },
            { upward := [26, 27],
              downward := [31],
              is_connector := false,
              padding := 1,
              layer := 14,
              row := 1,
              downward_closure := [31, 33, 35, 37, 39, 41, 43, 45],
              upward_sorted := [26, 27],
              downward_sorted := [31],
              width := 8,
              height := 3,
              x := 0,
              y := 0 },
            { upward := [28],
              downward := [32, 33],
              is_connector := false,
              padding := 1,
              layer := 15,
              row := 0,
              downward_closure := [32, 34, 36, 38, 40, 42, 44, 45, 43, 41, 39, 37, 35, 33],
              upward_sorted := [28],
              downward_sorted := [32, 33],
              width := 8,
              height := 3,
              x := 0,
              y := 0 },
            { upward := [28, 29],
              downward := [33],
              is_connector := false,
              padding := 1,
              layer := 15,
              row := 1,
              downward_closure := [33, 35, 37, 39, 41, 43, 45],
              upward_sorted := [28, 29],
              downward_sorted := [33],
              width := 8,
              height := 3,
              x := 0,
              y := 0 },
            { upward := [30],
              downward := [34, 35],
              is_connector := false,
              padding := 1,
              layer := 16,
              row := 0,
              downward_closure := [34, 36, 38, 40, 42, 44, 45, 43, 41, 39, 37, 35],
              upward_sorted := [30],
              downward_sorted := [34, 35],
              width := 8,
              height := 3,
              x := 0,
              y := 0 },
            { upward := [30, 31],
              downward := [35],
              is_connector := false,
              padding := 1,
              layer := 16,
              row := 1,
              downward_closure := [35, 37, 39, 41, 43, 45],
              upward_sorted := [30, 31],
              downward_sorted := [35],
              width := 8,
              height := 3,
              x := 0,
              y := 0 },
            { upward := [32],
              downward := [36, 37],
              is_connector := false,
              padding := 1,
              layer := 17,
              row := 0,
              downward_closure := [36, 38, 40, 42, 44, 45, 43, 41, 39, 37],
              upward_sorted := [32],
              downward_sorted := [36, 37],
              width := 8,
              height := 3,
              x := 0,
              y := 0 },
            { upward := [32, 33],
              downward := [37],
              is_connector := false,
              padding := 1,
              layer := 17,
              row := 1,
              downward_closure := [37, 39, 41, 43, 45],
              upward_sorted := [32, 33],
              downward_sorted := [37],
              width := 8,
              height := 3,
              x := 0,
              y := 0 },
            { upward := [34],
              downward := [38, 39],
              is_connector := false,
              padding := 1,
              layer := 18,
              row := 0,
              downward_closure := [38, 40, 42, 44, 45, 43, 41, 39],
              upward_sorted := [34],
              downward_sorted := [38, 39],
              width := 8,
              height := 3,
              x := 0,
              y := 0 },
            { upward := [34, 35],
              downward := [39],
              is_connector := false,
              padding := 1,
              layer := 18,
              row := 1,
              downward_closure := [39, 41, 43, 45],
              upward_sorted := [34, 35],
              downward_sorted := [39],
              width := 8,
              height := 3,
              x := 0,
              y := 0 },
            { upward := [36],
              downward := [40, 41],
              is_connector := false,
              padding := 1,
              layer := 19,
              row := 0,
              downward_closure := [40, 42, 44, 45, 43, 41],
              upward_sorted := [36],
              downward_sorted := [40, 41],
              width := 8,
              height := 3,
              x := 0,
              y := 0 },
            { upward := [36, 37],
              downward := [41],
              is_connector := false,
              padding := 1,
              layer := 19,
              row := 1,
              downward_closure := [41, 43, 45],
              upward_sorted := [36, 37],
              downward_sorted := [41],
              width := 8,
              height := 3,
              x := 0,
              y := 0 },
            { upward := [38],
              downward := [42, 43],
              is_connector := false,
              padding := 1,
              layer := 20,
              row := 0,
              downward_closure := [42, 44, 45, 43],
              upward_sorted := [38],
              downward_sorted := [42, 43],
              width := 8,
              height := 3,
              x := 0,
              y := 0 },
            { upward := [38, 39],
              downward := [43],
              is_connector := false,
              padding := 1,
              layer := 20,
              row := 1,
              downward_closure := [43, 45],
              upward_sorted := [38, 39],
              downward_sorted := [43],
              width := 8,
              height := 3,
              x := 0,
              y := 0 },
            { upward := [40],
              downward := [44, 45],
              is_connector := false,
              padding := 1,
              layer := 21,
              row := 0,
              downward_closure := [44, 45],
              upward_sorted := [40],
              downward_sorted := [44, 45],
              width := 8,
              height := 3,
              x := 0,
              y := 0 },
            { upward := [40, 41],
              downward := [45],
              is_connector := false,
              padding := 1,
              layer := 21,
              row := 1,
              downward_closure := [45],
              upward_sorted := [40, 41],
              downward_sorted := [45],
              width := 8,
              height := 3,
              x := 0,
              y := 0 },
            { upward := [42],
              downward := [],
              is_connector := false,
              padding := 1,
              layer := 22,
              row := 0,
              downward_closure := [],
              upward_sorted := [42],
              downward_sorted := [],
              width := 8,
              height := 3,
              x := 0,
              y := 0 },
            { upward := [42, 43],
              downward := [],
              is_connector := false,
              padding := 1,
              layer := 22,
              row := 1,
              downward_closure := [],
              upward_sorted := [42, 43],
              downward_sorted := [],
              width := 8,
              height := 3,
              x := 0,
              y := 0 }],
  layers := [{ nodes := [0, 3],
               edges := [{ up := 0, down := 1, x := 0, y := 0 },
                         { up := 0, down := 2, x := 0, y := 0 },
                         { up := 3, down := 2, x := 0, y := 0 }],
               adapter := { enabled := false, inputs := [], outputs := [], height := 0, y := 0, rendering := [] } },
             { nodes := [1, 2],
               edges := [{ up := 1, down := 4, x := 0, y := 0 },
                         { up := 1, down := 5, x := 0, y := 0 },
                         { up := 2, down := 5, x := 0, y := 0 }],
               adapter := { enabled := false, inputs := [], outputs := [], height := 0, y := 0, rendering := [] } },
             { nodes := [4, 5],
               edges := [{ up := 4, down := 6, x := 0, y := 0 },
                         { up := 4, down := 7, x := 0, y := 0 },
                         { up := 5, down := 7, x := 0, y := 0 }],
               adapter := { enabled := false, inputs := [], outputs := [], height := 0, y := 0, rendering := [] } },
             { nodes := [6, 7],
               edges := [{ up := 6, down := 8, x := 0, y := 0 },
                         { up := 6, down := 9, x := 0, y := 0 },
                         { up := 7, down := 9, x := 0, y := 0 }],
               adapter := { enabled := false, inputs := [], outputs := [], height := 0, y := 0, rendering := [] } },
             { nodes := [8, 9],
               edges := [{ up := 8, down := 10, x := 0, y := 0 },
                         { up := 8, down := 11, x := 0, y := 0 },
                         { up := 9, down := 11, x := 0, y := 0 }],
               adapter := { enabled := false, inputs := [], outputs := [], height := 0, y := 0, rendering := [] } },
             { nodes := [10, 11],
               edges := [{ up := 10, down := 12, x := 0, y := 0 },
                         { up := 10, down := 13, x := 0, y := 0 },
                         { up := 11, down := 13, x := 0, y := 0 }],
               adapter := { enabled := false, inputs := [], outputs := [], height := 0, y := 0, rendering := [] } },
             { nodes := [12, 13],
               edges := [{ up := 12, down := 14, x := 0, y := 0 },
                         { up := 12, down := 15, x := 0, y := 0 },
                         { up := 13, down := 15, x := 0, y := 0 }],
               adapter := { enabled := false, inputs := [], outputs := [], height := 0, y := 0, rendering := [] } },
             { nodes := [14, 15],
               edges := [{ up := 14, down := 16, x := 0, y := 0 },
                         { up := 14, down := 17, x := 0, y := 0 },
                         { up := 15, down := 17, x := 0, y := 0 }],
               adapter := { enabled := false, inputs := [], outputs := [], height := 0, y := 0, rendering := [] } },
             { nodes := [16, 17],
               edges := [{ up := 16, down := 18, x := 0, y := 0 },
                         { up := 16, down := 19, x := 0, y := 0 },
                         { up := 17, down := 19, x := 0, y := 0 }],
               adapter := { enabled := false, inputs := [], outputs := [], height := 0, y := 0, rendering := [] } },
             { nodes := [18, 19],
               edges := [{ up := 18, down := 20, x := 0, y := 0 },
                         { up := 18, down := 21, x := 0, y := 0 },
                         { up := 19, down := 21, x := 0, y := 0 }],
               adapter := { enabled := false, inputs := [], outputs := [], height := 0, y := 0, rendering := [] } },
             { nodes := [20, 21],
               edges := [{ up := 20, down := 22, x := 0, y := 0 },
                         { up := 20, down := 23, x := 0, y := 0 },
                         { up := 21, down := 23, x := 0, y := 0 }],
               adapter := { enabled := false, inputs := [], outputs := [], height := 0, y := 0, rendering := [] } },
             { nodes := [22, 23],
               edges := [{ up := 22, down := 24, x := 0, y := 0 },
                         { up := 22, down := 25, x := 0, y := 0 },
                         { up := 23, down := 25, x := 0, y := 0 }],
               adapter := { enabled := false, inputs := [], outputs := [], height := 0, y := 0, rendering := [] } },
             { nodes := [24, 25],
               edges := [{ up := 24, down := 26, x := 0, y := 0 },
                         { up := 24, down := 27, x := 0, y := 0 },
                         { up := 25, down := 27, x := 0, y := 0 }],
               adapter := { enabled := false, inputs := [], outputs := [], height := 0, y := 0, rendering := [] } },
             { nodes := [26, 27],
               edges := [{ up := 26, down := 28, x := 0, y := 0 },
                         { up := 26, down := 29, x := 0, y := 0 },
                         { up := 27, down := 29, x := 0, y := 0 }],
               adapter := { enabled := false, inputs := [], outputs := [], height := 0, y := 0, rendering := [] } },
             { nodes := [28, 29],
               edges := [{ up := 28, down := 30, x := 0, y := 0 },
                         { up := 28, down := 31, x := 0, y := 0 },
                         { up := 29, down := 31, x := 0, y := 0 }],
               adapter := { enabled := false, inputs := [], outputs := [], height := 0, y := 0, rendering := [] } },
             { nodes := [30, 31],
               edges := [{ up := 30, down := 32, x := 0, y := 0 },
                         { up := 30, down := 33, x := 0, y := 0 },
                         { up := 31, down := 33, x := 0, y := 0 }],
               adapter := { enabled := false, inputs := [], outputs := [], height := 0, y := 0, rendering := [] } },
             { nodes := [32, 33],
               edges := [{ up := 32, down := 34, x := 0, y := 0 },
                         { up := 32, down := 35, x := 0, y := 0 },
                         { up := 33, down := 35, x := 0, y := 0 }],
               adapter := { enabled := false, inputs := [], outputs := [], height := 0, y := 0, rendering := [] } },
             { nodes := [34, 35],
               edges := [{ up := 34, down := 36, x := 0, y := 0 },
                         { up := 34, down := 37, x := 0, y := 0 },
                         { up := 35, down := 37, x := 0, y := 0 }],
               adapter := { enabled := false, inputs := [], outputs := [], height := 0, y := 0, rendering := [] } },
             { nodes := [36, 37],
               edges := [{ up := 36, down := 38, x := 0, y := 0 },
                         { up := 36, down := 39, x := 0, y := 0 },
                         { up := 37, down := 39, x := 0, y := 0 }],
               adapter := { enabled := false, inputs := [], outputs := [], height := 0, y := 0, rendering := [] } },
             { nodes := [38, 39],
               edges := [{ up := 38, down := 40, x := 0, y := 0 },
                         { up := 38, down := 41, x := 0, y := 0 },
                         { up := 39, down := 41, x := 0, y := 0 }],
               adapter := { enabled := false, inputs := [], outputs := [], height := 0, y := 0, rendering := [] } },
             { nodes := [40, 41],
               edges := [{ up := 40, down := 42, x := 0, y := 0 },
                         { up := 40, down := 43, x := 0, y := 0 },
                         { up := 41, down := 43, x := 0, y := 0 }],
               adapter := { enabled := false, inputs := [], outputs := [], height := 0, y := 0, rendering := [] } },
             { nodes := [42, 43],
               edges := [{ up := 42, down := 44, x := 0, y := 0 },
                         { up := 42, down := 45, x := 0, y := 0 },
                         { up := 43, down := 45, x := 0, y := 0 }],
               adapter := { enabled := false, inputs := [], outputs := [], height := 0, y := 0, rendering := [] } },
             { nodes := [44, 45],
               edges := [],
               adapter := { enabled := false, inputs := [], outputs := [], height := 0, y := 0, rendering := [] } }] }

def c9s200 : Context :=
{ labels := [['X', '0', '0'],
             ['X', '1', '0'],
             ['X', '1', '1'],
             ['X', '0', '1'],
             ['X', '2', '0'],
             ['X', '2', '1'],
             ['X', '3', '0'],
             ['X', '3', '1'],
             ['X', '4', '0'],
             ['X', '4', '1'],
             ['X', '5', '0'],
             ['X', '5', '1'],
             ['X', '6', '0'],
             ['X', '6', '1'],
             ['X', '7', '0'],
             ['X', '7', '1'],
             ['X', '8', '0'],
             ['X', '8', '1'],
             ['X', '9', '0'],
             ['X', '9', '1'],
             ['X', '1', '0', '0'],
             ['X', '1', '0', '1'],
             ['X', '1', '1', '0'],
             ['X', '1', '1', '1'],
             ['X', '1', '2', '0'],
             ['X', '1', '2', '1'],
             ['X', '1', '3', '0'],
             ['X', '1', '3', '1'],
             ['X', '1', '4', '0'],
             ['X', '1', '4', '1'],
             ['X', '1', '5', '0'],
             ['X', '1', '5', '1'],
             ['X', '1', '6', '0'],
             ['X', '1', '6', '1'],
             ['X', '1', '7', '0'],
             ['X', '1', '7', '1'],
             ['X', '1', '8', '0'],
             ['X', '1', '8', '1'],
             ['X', '1', '9', '0'],
             ['X', '1', '9', '1'],
             ['X', '2', '0', '0'],
             ['X', '2', '0', '1'],
             ['X', '2', '1', '0'],
             ['X', '2', '1', '1'],
             ['X', '2', '2', '0'],
             ['X', '2', '2', '1']],
  id := [(['X', '0', '0'], 0),
         (['X', '1', '0'], 1),
         (['X', '1', '1'], 2),
         (['X', '0', '1'], 3),
         (['X', '2', '0'], 4),
         (['X', '2', '1'], 5),
         (['X', '3', '0'], 6),
         (['X', '3', '1'], 7),
         (['X', '4', '0'], 8),
         (['X', '4', '1'], 9),
         (['X', '5', '0'], 10),
         (['X', '5', '1'], 11),
         (['X', '6', '0'], 12),
         (['X', '6', '1'], 13),
         (['X', '7', '0'], 14),
         (['X', '7', '1'], 15),
         (['X', '8', '0'], 16),
         (['X', '8', '1'], 17),
         (['X', '9', '0'], 18),
         (['X', '9', '1'], 19),
         (['X', '1', '0', '0'], 20),
         (['X', '1', '0', '1'], 21),
         (['X', '1', '1', '0'], 22),
         (['X', '1', '1', '1'], 23),
         (['X', '1', '2', '0'], 24),
         (['X', '1', '2', '1'], 25),
         (['X', '1', '3', '0'], 26),
         (['X', '1', '3', '1'], 27),
         (['X', '1', '4', '0'], 28),
         (['X', '1', '4', '1'], 29),
         (['X', '1', '5', '0'], 30),
         (['X', '1', '5', '1'], 31),
         (['X', '1', '6', '0'], 32),
         (['X', '1', '6', '1'], 33),
         (['X', '1', '7', '0'], 34),
         (['X', '1', '7', '1'], 35),
         (['X', '1', '8', '0'], 36),
         (['X', '1', '8', '1'], 37),
         (['X', '1', '9', '0'], 38),
         (['X', '1', '9', '1'], 39),
         (['X', '2', '0', '0'], 40),
         (['X', '2', '0', '1'], 41),
         (['X', '2', '1', '0'], 42),
         (['X', '2', '1', '1'], 43),
         (['X', '2', '2', '0'], 44),
         (['X', '2', '2', '1'], 45)],
  nodes := [{ upward := [],
              downward := [1, 2],
              is_connector := false,
              padding := 1,
              layer := 0,
              row := 0,
              downward_closure := [1, 4, 6, 8, 10, 12, 14, 16, 18, 20, 22, 24, 26, 28, 30, 32, 34, 36, 38, 40, 42, 44,
                                   45, 43, 41, 39, 37, 35, 33, 31, 29, 27, 25, 23, 21, 19, 17, 15, 13, 11, 9, 7, 5, 2],
              upward_sorted := [],
              downward_sorted := [1, 2],
              width := 43,
              height := 3,
              x := 0,
              y := 0 },
            { upward := [0],
              downward := [4, 5],
              is_connector := false,
              padding := 1,
              layer := 1,
              row := 0,
              downward_closure := [4, 6, 8, 10, 12, 14, 16, 18, 20, 22, 24, 26, 28, 30, 32, 34, 36, 38, 40, 42, 44, 45,
                                   43, 41, 39, 37, 35, 33, 31, 29, 27, 25, 23, 21, 19, 17, 15, 13, 11, 9, 7, 5],
              upward_sorted := [0],
              downward_sorted := [4, 5],
              width := 39,
              height := 3,
              x := 0,
              y := 0 },
            { upward := [0, 3],
              downward := [5],
              is_connector := false,
              padding := 1,
              layer := 1,
              row := 1,
              downward_closure := [5, 7, 9, 11, 13, 15, 17, 19, 21, 23, 25, 27, 29, 31, 33, 35, 37, 39, 41, 43, 45],
              upward_sorted := [0, 3],
              downward_sorted := [5],
              width := 7,
              height := 3,
              x := 39,
              y := 0 },
            { upward := [],
              downward := [2],
              is_connector := false,
              padding := 1,
              layer := 0,
              row := 1,
              downward_closure := [2, 5, 7, 9, 11, 13, 15, 17, 19, 21, 23, 25, 27, 29, 31, 33, 35, 37, 39, 41, 43, 45],
              upward_sorted := [],
              downward_sorted := [2],
              width := 7,
              height := 3,
              x := 43,
              y := 0 },
            { upward := [1],
              downward := [6, 7],
              is_connector := false,
              padding := 1,
              layer := 2,
              row := 0,
              downward_closure := [6, 8, 10, 12, 14, 16, 18, 20, 22, 24, 26, 28, 30, 32, 34, 36, 38, 40, 42, 44, 45, 43,
                                   41, 39, 37, 35, 33, 31, 29, 27, 25, 23, 21, 19, 17, 15, 13, 11, 9, 7],
              upward_sorted := [1],
              downward_sorted := [6, 7],
              width := 35,
              height := 3,
              x := 0,
              y := 0 },
            { upward := [1, 2],
              downward := [7],
              is_connector := false,
              padding := 1,
              layer := 2,
              row := 1,
              downward_closure := [7, 9, 11, 13, 15, 17, 19, 21, 23, 25, 27, 29, 31, 33, 35, 37, 39, 41, 43, 45],
              upward_sorted := [1, 2],
              downward_sorted := [7],
              width := 7,
              height := 3,
              x := 35,
              y := 0 },
            { upward := [4],
              downward := [8, 9],
              is_connector := false,
              padding := 1,
              layer := 3,
              row := 0,
              downward_closure := [8, 10, 12, 14, 16, 18, 20, 22, 24, 26, 28, 30, 32, 34, 36, 38, 40, 42, 44, 45, 43,
                                   41, 39, 37, 35, 33, 31, 29, 27, 25, 23, 21, 19, 17, 15, 13, 11, 9],
              upward_sorted := [4],
              downward_sorted := [8, 9],
              width := 31,
              height := 3,
              x := 0,
              y := 0 },
            { upward := [4, 5],
              downward := [9],
              is_connector := false,
              padding := 1,
              layer := 3,
              row := 1,
              downward_closure := [9, 11, 13, 15, 17, 19, 21, 23, 25, 27, 29, 31, 33, 35, 37, 39, 41, 43, 45],
              upward_sorted := [4, 5],
              downward_sorted := [9],
              width := 7,
              height := 3,
              x := 31,
              y := 0 },
            { upward := [6],
              downward := [10, 11],
              is_connector := false,
              padding := 1,
              layer := 4,
              row := 0,
              downward_closure := [10, 12, 14, 16, 18, 20, 22, 24, 26, 28, 30, 32, 34, 36, 38, 40, 42, 44, 45, 43, 41,
                                   39, 37, 35, 33, 31, 29, 27, 25, 23, 21, 19, 17, 15, 13, 11],
              upward_sorted := [6],
              downward_sorted := [10, 11],
              width := 27,
              height := 3,
              x := 0,
              y := 0 },
            { upward := [6, 7],
              downward := [11],
              is_connector := false,
              padding := 1,
              layer := 4,
              row := 1,
              downward_closure := [11, 13, 15, 17, 19, 21, 23, 25, 27, 29, 31, 33, 35, 37, 39, 41, 43, 45],
              upward_sorted := [6, 7],
              downward_sorted := [11],
              width := 7,
              height := 3,
              x := 27,
              y := 0 },
            { upward := [8],
              downward := [12, 13],
              is_connector := false,
              padding := 1,
              layer := 5,
              row := 0,
              downward_closure := [12, 14, 16, 18, 20, 22, 24, 26, 28, 30, 32, 34, 36, 38, 40, 42, 44, 45, 43, 41, 39,
                                   37, 35, 33, 31, 29, 27, 25, 23, 21, 19, 17, 15, 13],
              upward_sorted := [8],
              downward_sorted := [12, 13],
              width := 23,
              height := 3,
              x := 0,
              y := 0 },
            { upward := [8, 9],
              downward := [13],
              is_connector := false,
              padding := 1,
              layer := 5,
              row := 1,
              downward_closure := [13, 15, 17, 19, 21, 23, 25, 27, 29, 31, 33, 35, 37, 39, 41, 43, 45],
              upward_sorted := [8, 9],
              downward_sorted := [13],
              width := 7,
              height := 3,
              x := 23,
              y := 0 },
            { upward := [10],
              downward := [14, 15],
              is_connector := false,
              padding := 1,
              layer := 6,
              row := 0,
              downward_closure := [14, 16, 18, 20, 22, 24, 26, 28, 30, 32, 34, 36, 38, 40, 42, 44, 45, 43, 41, 39, 37,
                                   35, 33, 31, 29, 27, 25, 23, 21, 19, 17, 15],
              upward_sorted := [10],
              downward_sorted := [14, 15],
              width := 19,
              height := 3,
              x := 0,
              y := 0 },
            { upward := [10, 11],
              downward := [15],
              is_connector := false,
              padding := 1,
              layer := 6,
              row := 1,
              downward_closure := [15, 17, 19, 21, 23, 25, 27, 29, 31, 33, 35, 37, 39, 41, 43, 45],
              upward_sorted := [10, 11],
              downward_sorted := [15],
              width := 7,
              height := 3,
              x := 19,
              y := 0 },
            { upward := [12],
              downward := [16, 17],
              is_connector := false,
              padding := 1,
              layer := 7,
              row := 0,
              downward_closure := [16, 18, 20, 22, 24, 26, 28, 30, 32, 34, 36, 38, 40, 42, 44, 45, 43, 41, 39, 37, 35,
                                   33, 31, 29, 27, 25, 23, 21, 19, 17],
              upward_sorted := [12],
              downward_sorted := [16, 17],
              width := 19,
              height := 3,
              x := 0,
              y := 0 },
            { upward := [12, 13],
              downward := [17],
              is_connector := false,
              padding := 1,
              layer := 7,
              row := 1,
              downward_closure := [17, 19, 21, 23, 25, 27, 29, 31, 33, 35, 37, 39, 41, 43, 45],
              upward_sorted := [12, 13],
              downward_sorted := [17],
              width := 7,
              height := 3,
              x := 19,
              y := 0 },
            { upward := [14],
              downward := [18, 19],
              is_connector := false,
              padding := 1,
              layer := 8,
              row := 0,
              downward_closure := [18, 20, 22, 24, 26, 28, 30, 32, 34, 36, 38, 40, 42, 44, 45, 43, 41, 39, 37, 35, 33,
                                   31, 29, 27, 25, 23, 21, 19],
              upward_sorted := [14],
              downward_sorted := [18, 19],
              width := 15,
              height := 3,
              x := 0,
              y := 0 },
            { upward := [14, 15],
              downward := [19],
              is_connector := false,
              padding := 1,
              layer := 8,
              row := 1,
              downward_closure := [19, 21, 23, 25, 27, 29, 31, 33, 35, 37, 39, 41, 43, 45],
              upward_sorted := [14, 15],
              downward_sorted := [19],
              width := 7,
              height := 3,
              x := 15,
              y := 0 },
            { upward := [16],
              downward := [20, 21],
              is_connector := false,
              padding := 1,
              layer := 9,
              row := 0,
              downward_closure := [20, 22, 24, 26, 28, 30, 32, 34, 36, 38, 40, 42, 44, 45, 43, 41, 39, 37, 35, 33, 31,
                                   29, 27, 25, 23, 21],
              upward_sorted := [16],
              downward_sorted := [20, 21],
              width := 11,
              height := 3,
              x := 0,
              y := 0 },
            { upward := [16, 17],
              downward := [21],
              is_connector := false,
              padding := 1,
              layer := 9,
              row := 1,
              downward_closure := [21, 23, 25, 27, 29, 31, 33, 35, 37, 39, 41, 43, 45],
              upward_sorted := [16, 17],
              downward_sorted := [21],
              width := 7,
              height := 3,
              x := 11,
              y := 0 },
            { upward := [18],
              downward := [22, 23],
              is_connector := false,
              padding := 1,
              layer := 10,
              row := 0,
              downward_closure := [22, 24, 26, 28, 30, 32, 34, 36, 38, 40, 42, 44, 45, 43, 41, 39, 37, 35, 33, 31, 29,
                                   27, 25, 23],
              upward_sorted := [18],
              downward_sorted := [22, 23],
              width := 8,
              height := 3,
              x := 0,
              y := 0 },
            { upward := [18, 19],
              downward := [23],
              is_connector := false,
              padding := 1,
              layer := 10,
              row := 1,
              downward_closure := [23, 25, 27, 29, 31, 33, 35, 37, 39, 41, 43, 45],
              upward_sorted := [18, 19],
              downward_sorted := [23],
              width := 8,
              height := 3,
              x := 8,
              y := 0 },
            { upward := [20],
              downward := [24, 25],
              is_connector := false,
              padding := 1,
              layer := 11,
              row := 0,
              downward_closure := [24, 26, 28, 30, 32, 34, 36, 38, 40, 42, 44, 45, 43, 41, 39, 37, 35, 33, 31, 29, 27,
                                   25],
              upward_sorted := [20],
              downward_sorted := [24, 25],
              width := 8,
              height := 3,
              x := 0,
              y := 0 },
            { upward := [20, 21],
              downward := [25],
              is_connector := false,
              padding := 1,
              layer := 11,
              row := 1,
              downward_closure := [25, 27, 29, 31, 33, 35, 37, 39, 41, 43, 45],
              upward_sorted := [20, 21],
              downward_sorted := [25],
              width := 8,
              height := 3,
              x := 8,
              y := 0 },
            { upward := [22],
              downward := [26, 27],
              is_connector := false,
              padding := 1,
              layer := 12,
              row := 0,
              downward_closure := [26, 28, 30, 32, 34, 36, 38, 40, 42, 44, 45, 43, 41, 39, 37, 35, 33, 31, 29, 27],
              upward_sorted := [22],
              downward_sorted := [26, 27],
              width := 8,
              height := 3,
              x := 0,
              y := 0 },
            { upward := [22, 23],
              downward := [27],
              is_connector := false,
              padding := 1,
              layer := 12,
              row := 1,
              downward_closure := [27, 29, 31, 33, 35, 37, 39, 41, 43, 45],
              upward_sorted := [22, 23],
              downward_sorted := [27],
              width := 8,
              height := 3,
              x := 8,
              y := 0 },
            { upward := [24],
              downward := [28, 29],
              is_connector := false,
              padding := 1,
              layer := 13,
              row := 0,
              downward_closure := [28, 30, 32, 34, 36, 38, 40, 42, 44, 45, 43, 41, 39, 37, 35, 33, 31, 29],
              upward_sorted := [24],
              downward_sorted := [28, 29],
              width := 8,
              height := 3,
              x := 0,
              y := 0 },
            { upward := [24, 25],
              downward := [29],
              is_connector := false,
              padding := 1,
              layer := 13,
              row := 1,
              downward_closure := [29, 31, 33, 35, 37, 39, 41, 43, 45],
              upward_sorted := [24, 25],
              downward_sorted := [29],
              width := 8,
              height := 3,
              x := 8,
              y := 0 },
            { upward := [26],
              downward := [30, 31],
              is_connector := false,
              padding := 1,
              layer := 14,
              row := 0,
              downward_closure := [30, 32, 34, 36, 38, 40, 42, 44, 45, 43, 41, 39, 37, 35, 33, 31],
              upward_sorted := [26],
              downward_sorted := [30, 31],
              width := 8,
              height := 3,
              x := 0,
              y := 0 },
            { upward := [26, 27],
              downward := [31],
              is_connector := false,
              padding := 1,
              layer := 14,
              row := 1,
              downward_closure := [31, 33, 35, 37, 39, 41, 43, 45],
              upward_sorted := [26, 27],
              downward_sorted := [31],
              width := 8,
              height := 3,
              x := 8,
              y := 0 },
            { upward := [28],
              downward := [32, 33],
              is_connector := false,
              padding := 1,
              layer := 15,
              row := 0,
              downward_closure := [32, 34, 36, 38, 40, 42, 44, 45, 43, 41, 39, 37, 35, 33],
              upward_sorted := [28],
              downward_sorted := [32, 33],
              width := 8,
              height := 3,
              x := 0,
              y := 0 },
            { upward := [28, 29],
              downward := [33],
              is_connector := false,
              padding := 1,
              layer := 15,
              row := 1,
              downward_closure := [33, 35, 37, 39, 41, 43, 45],
              upward_sorted := [28, 29],
              downward_sorted := [33],
              width := 8,
              height := 3,
              x := 8,
              y := 0 },
            { upward := [30],
              downward := [34, 35],
              is_connector := false,
              padding := 1,
              layer := 16,
              row := 0,
              downward_closure := [34, 36, 38, 40, 42, 44, 45, 43, 41, 39, 37, 35],
              upward_sorted := [30],
              downward_sorted := [34, 35],
              width := 8,
              height := 3,
              x := 0,
              y := 0 },
            { upward := [30, 31],
              downward := [35],
              is_connector := false,
              padding := 1,
              layer := 16,
              row := 1,
              downward_closure := [35, 37, 39, 41, 43, 45],
              upward_sorted := [30, 31],
              downward_sorted := [35],
              width := 8,
              height := 3,
              x := 8,
              y := 0 },
            { upward := [32],
              downward := [36, 37],
              is_connector := false,
              padding := 1,
              layer := 17,
              row := 0,
              downward_closure := [36, 38, 40, 42, 44, 45, 43, 41, 39, 37],
              upward_sorted := [32],
              downward_sorted := [36, 37],
              width := 8,
              height := 3,
              x := 0,
              y := 0 },
            { upward := [32, 33],
              downward := [37],
              is_connector := false,
              padding := 1,
              layer := 17,
              row := 1,
              downward_closure := [37, 39, 41, 43, 45],
              upward_sorted := [32, 33],
              downward_sorted := [37],
              width := 8,
              height := 3,
              x := 8,
              y := 0 },
            { upward := [34],
              downward := [38, 39],
              is_connector := false,
              padding := 1,
              layer := 18,
              row := 0,
              downward_closure := [38, 40, 42, 44, 45, 43, 41, 39],
              upward_sorted := [34],
              downward_sorted := [38, 39],
              width := 8,
              height := 3,
              x := 0,
              y := 0 },
            { upward := [34, 35],
              downward := [39],
              is_connector := false,
              padding := 1,
              layer := 18,
              row := 1,
              downward_closure := [39, 41, 43, 45],
              upward_sorted := [34, 35],
              downward_sorted := [39],
              width := 8,
              height := 3,
              x := 8,
              y := 0 },
            { upward := [36],
              downward := [40, 41],
              is_connector := false,
              padding := 1,
              layer := 19,
              row := 0,
              downward_closure := [40, 42, 44, 45, 43, 41],
              upward_sorted := [36],
              downward_sorted := [40, 41],
              width := 8,
              height := 3,
              x := 0,
              y := 0 },
            { upward := [36, 37],
              downward := [41],
              is_connector := false,
              padding := 1,
              layer := 19,
              row := 1,
              downward_closure := [41, 43, 45],
              upward_sorted := [36, 37],
              downward_sorted := [41],
              width := 8,
              height := 3,
              x := 8,
              y := 0 },
            { upward := [38],
              downward := [42, 43],
              is_connector := false,
              padding := 1,
              layer := 20,
              row := 0,
              downward_closure := [42, 44, 45, 43],
              upward_sorted := [38],
              downward_sorted := [42, 43],
              width := 8,
              height := 3,
              x := 0,
              y := 0 },
            { upward := [38, 39],
              downward := [43],
              is_connector := false,
              padding := 1,
              layer := 20,
              row := 1,
              downward_closure := [43, 45],
              upward_sorted := [38, 39],
              downward_sorted := [43],
              width := 8,
              height := 3,
              x := 8,
              y := 0 },
            { upward := [40],
              downward := [44, 45],
              is_connector := false,
              padding := 1,
              layer := 21,
              row := 0,
              downward_closure := [44, 45],
              upward_sorted := [40],
              downward_sorted := [44, 45],
              width := 8,
              height := 3,
              x := 0,
              y := 0 },
            { upward := [40, 41],
              downward := [45],
              is_connector := false,
              padding := 1,
              layer := 21,
              row := 1,
              downward_closure := [45],
              upward_sorted := [40, 41],
              downward_sorted := [45],
              width := 8,
              height := 3,
              x := 8,
              y := 0 },
            { upward := [42],
              downward := [],
              is_connector := false,
              padding := 1,
              layer := 22,
              row := 0,
              downward_closure := [],
              upward_sorted := [42],
              downward_sorted := [],
              width := 8,
              height := 3,
              x := 0,
              y := 0 },
            { upward := [42, 43],
              downward := [],
              is_connector := false,
              padding := 1,
              layer := 22,
              row := 1,
              downward_closure := [],
              upward_sorted := [42, 43],
              downward_sorted := [],
              width := 8,
              height := 3,
              x := 8,
              y := 0 }],
  layers := [{ nodes := [0, 3],
               edges := [{ up := 0, down := 1, x := 1, y := 0 },
                         { up := 0, down := 2, x := 40, y := 0 },
                         { up := 3, down := 2, x := 44, y := 0 }],
               adapter := { enabled := false, inputs := [], outputs := [], height := 0, y := 0, rendering := [] } },
             { nodes := [1, 2],
               edges := [{ up := 1, down := 4, x := 1, y := 0 },
                         { up := 1, down := 5, x := 36, y := 0 },
                         { up := 2, down := 5, x := 40, y := 0 }],
               adapter := { enabled := false, inputs := [], outputs := [], height := 0, y := 0, rendering := [] } },
             { nodes := [4, 5],
               edges := [{ up := 4, down := 6, x := 1, y := 0 },
                         { up := 4, down := 7, x := 32, y := 0 },
                         { up := 5, down := 7, x := 36, y := 0 }],
               adapter := { enabled := false, inputs := [], outputs := [], height := 0, y := 0, rendering := [] } },
             { nodes := [6, 7],
               edges := [{ up := 6, down := 8, x := 1, y := 0 },
                         { up := 6, down := 9, x := 28, y := 0 },
                         { up := 7, down := 9, x := 32, y := 0 }],
               adapter := { enabled := false, inputs := [], outputs := [], height := 0, y := 0, rendering := [] } },
             { nodes := [8, 9],
               edges := [{ up := 8, down := 10, x := 1, y := 0 },
                         { up := 8, down := 11, x := 24, y := 0 },
                         { up := 9, down := 11, x := 28, y := 0 }],
               adapter := { enabled := false, inputs := [], outputs := [], height := 0, y := 0, rendering := [] } },
             { nodes := [10, 11],
               edges := [{ up := 10, down := 12, x := 1, y := 0 },
                         { up := 10, down := 13, x := 20, y := 0 },
                         { up := 11, down := 13, x := 24, y := 0 }],
               adapter := { enabled := false, inputs := [], outputs := [], height := 0, y := 0, rendering := [] } },
             { nodes := [12, 13],
               edges := [{ up := 12, down := 14, x := 1, y := 0 },
                         { up := 12, down := 15, x := 16, y := 0 },
                         { up := 13, down := 15, x := 20, y := 0 }],
               adapter := { enabled := false, inputs := [], outputs := [], height := 0, y := 0, rendering := [] } },
             { nodes := [14, 15],
               edges := [{ up := 14, down := 16, x := 1, y := 0 },
                         { up := 14, down := 17, x := 16, y := 0 },
                         { up := 15, down := 17, x := 16, y := 0 }],
               adapter := { enabled := false, inputs := [], outputs := [], height := 0, y := 0, rendering := [] } },
             { nodes := [16, 17],
               edges := [{ up := 16, down := 18, x := 1, y := 0 },
                         { up := 16, down := 19, x := 12, y := 0 },
                         { up := 17, down := 19, x := 12, y := 0 }],
               adapter := { enabled := false, inputs := [], outputs := [], height := 0, y := 0, rendering := [] } },
             { nodes := [18, 19],
               edges := [{ up := 18, down := 20, x := 1, y := 0 },
                         { up := 18, down := 21, x := 9, y := 0 },
                         { up := 19, down := 21, x := 0, y := 0 }],
               adapter := { enabled := false, inputs := [], outputs := [], height := 0, y := 0, rendering := [] } },
             { nodes := [20, 21],
               edges := [{ up := 20, down := 22, x := 0, y := 0 },
                         { up := 20, down := 23, x := 0, y := 0 },
                         { up := 21, down := 23, x := 0, y := 0 }],
               adapter := { enabled := false, inputs := [], outputs := [], height := 0, y := 0, rendering := [] } },
             { nodes := [22, 23],
               edges := [{ up := 22, down := 24, x := 0, y := 0 },
                         { up := 22, down := 25, x := 0, y := 0 },
                         { up := 23, down := 25, x := 0, y := 0 }],
               adapter := { enabled := false, inputs := [], outputs := [], height := 0, y := 0, rendering := [] } },
             { nodes := [24, 25],
               edges := [{ up := 24, down := 26, x := 0, y := 0 },
                         { up := 24, down := 27, x := 0, y := 0 },
                         { up := 25, down := 27, x := 0, y := 0 }],
               adapter := { enabled := false, inputs := [], outputs := [], height := 0, y := 0, rendering := [] } },
             { nodes := [26, 27],
               edges := [{ up := 26, down := 28, x := 0, y := 0 },
                         { up := 26, down := 29, x := 0, y := 0 },
                         { up := 27, down := 29, x := 0, y := 0 }],
               adapter := { enabled := false, inputs := [], outputs := [], height := 0, y := 0, rendering := [] } },
             { nodes := [28, 29],
               edges := [{ up := 28, down := 30, x := 0, y := 0 },
                         { up := 28, down := 31, x := 0, y := 0 },
                         { up := 29, down := 31, x := 0, y := 0 }],
               adapter := { enabled := false, inputs := [], outputs := [], height := 0, y := 0, rendering := [] } },
             { nodes := [30, 31],
               edges := [{ up := 30, down := 32, x := 0, y := 0 },
                         { up := 30, down := 33, x := 0, y := 0 },
                         { up := 31, down := 33, x := 0, y := 0 }],
               adapter := { enabled := false, inputs := [], outputs := [], height := 0, y := 0, rendering := [] } },
             { nodes := [32, 33],
               edges := [{ up := 32, down := 34, x := 0, y := 0 },
                         { up := 32, down := 35, x := 0, y := 0 },
                         { up := 33, down := 35, x := 0, y := 0 }],
               adapter := { enabled := false, inputs := [], outputs := [], height := 0, y := 0, rendering := [] } },
             { nodes := [34, 35],
               edges := [{ up := 34, down := 36, x := 0, y := 0 },
                         { up := 34, down := 37, x := 0, y := 0 },
                         { up := 35, down := 37, x := 0, y := 0 }],
               adapter := { enabled := false, inputs := [], outputs := [], height := 0, y := 0, rendering := [] } },
             { nodes := [36, 37],
               edges := [{ up := 36, down := 38, x := 0, y := 0 },
                         { up := 36, down := 39, x := 0, y := 0 },
                         { up := 37, down := 39, x := 0, y := 0 }],
               adapter := { enabled := false, inputs := [], outputs := [], height := 0, y := 0, rendering := [] } },
             { nodes := [38, 39],
               edges := [{ up := 38, down := 40, x := 0, y := 0 },
                         { up := 38, down := 41, x := 0, y := 0 },
                         { up := 39, down := 41, x := 0, y := 0 }],
               adapter := { enabled := false, inputs := [], outputs := [], height := 0, y := 0, rendering := [] } },
             { nodes := [40, 41],
               edges := [{ up := 40, down := 42, x := 0, y := 0 },
                         { up := 40, down := 43, x := 0, y := 0 },
                         { up := 41, down := 43, x := 0, y := 0 }],
               adapter := { enabled := false, inputs := [], outputs := [], height := 0, y := 0, rendering := [] } },
             { nodes := [42, 43],
               edges := [{ up := 42, down := 44, x := 0, y := 0 },
                         { up := 42, down := 45, x := 0, y := 0 },
                         { up := 43, down := 45, x := 0, y := 0 }],
               adapter := { enabled := false, inputs := [], outputs := [], height := 0, y := 0, rendering := [] } },
             { nodes := [44, 45],
               edges := [],
               adapter := { enabled := false, inputs := [], outputs := [], height := 0, y := 0, rendering := [] } }] }

def c9s400 : Context :=
{ labels := [['X', '0', '0'],
             ['X', '1', '0'],
             ['X', '1', '1'],
             ['X', '0', '1'],
             ['X', '2', '0'],
             ['X', '2', '1'],
             ['X', '3', '0'],
             ['X', '3', '1'],
             ['X', '4', '0'],
             ['X', '4', '1'],
             ['X', '5', '0'],
             ['X', '5', '1'],
             ['X', '6', '0'],
             ['X', '6', '1'],
             ['X', '7', '0'],
             ['X', '7', '1'],
             ['X', '8', '0'],
             ['X', '8', '1'],
             ['X', '9', '0'],
             ['X', '9', '1'],
             ['X', '1', '0', '0'],
             ['X', '1', '0', '1'],
             ['X', '1', '1', '0'],
             ['X', '1', '1', '1'],
             ['X', '1', '2', '0'],
             ['X', '1', '2', '1'],
             ['X', '1', '3', '0'],
             ['X', '1', '3', '1'],
             ['X', '1', '4', '0'],
             ['X', '1', '4', '1'],
             ['X', '1', '5', '0'],
             ['X', '1', '5', '1'],
             ['X', '1', '6', '0'],
             ['X', '1', '6', '1'],
             ['X', '1', '7', '0'],
             ['X', '1', '7', '1'],
             ['X', '1', '8', '0'],
             ['X', '1', '8', '1'],
             ['X', '1', '9', '0'],
             ['X', '1', '9', '1'],
             ['X', '2', '0', '0'],
             ['X', '2', '0', '1'],
             ['X', '2', '1', '0'],
             ['X', '2', '1', '1'],
             ['X', '2', '2', '0'],
             ['X', '2', '2', '1']],
  id := [(['X', '0', '0'], 0),
         (['X', '1', '0'], 1),
         (['X', '1', '1'], 2),
         (['X', '0', '1'], 3),
         (['X', '2', '0'], 4),
         (['X', '2', '1'], 5),
         (['X', '3', '0'], 6),
         (['X', '3', '1'], 7),
         (['X', '4', '0'], 8),
         (['X', '4', '1'], 9),
         (['X', '5', '0'], 10),
         (['X', '5', '1'], 11),
         (['X', '6', '0'], 12),
         (['X', '6', '1'], 13),
         (['X', '7', '0'], 14),
         (['X', '7', '1'], 15),
         (['X', '8', '0'], 16),
         (['X', '8', '1'], 17),
         (['X', '9', '0'], 18),
         (['X', '9', '1'], 19),
         (['X', '1', '0', '0'], 20),
         (['X', '1', '0', '1'], 21),
         (['X', '1', '1', '0'], 22),
         (['X', '1', '1', '1'], 23),
         (['X', '1', '2', '0'], 24),
         (['X', '1', '2', '1'], 25),
         (['X', '1', '3', '0'], 26),
         (['X', '1', '3', '1'], 27),
         (['X', '1', '4', '0'], 28),
         (['X', '1', '4', '1'], 29),
         (['X', '1', '5', '0'], 30),
         (['X', '1', '5', '1'], 31),
         (['X', '1', '6', '0'], 32),
         (['X', '1', '6', '1'], 33),
         (['X', '1', '7', '0'], 34),
         (['X', '1', '7', '1'], 35),
         (['X', '1', '8', '0'], 36),
         (['X', '1', '8', '1'], 37),
         (['X', '1', '9', '0'], 38),
         (['X', '1', '9', '1'], 39),
         (['X', '2', '0', '0'], 40),
         (['X', '2', '0', '1'], 41),
         (['X', '2', '1', '0'], 42),
         (['X', '2', '1', '1'], 43),
         (['X', '2', '2', '0'], 44),
         (['X', '2', '2', '1'], 45)],
  nodes := [{ upward := [],
              downward := [1, 2],
              is_connector := false,
              padding := 1,
              layer := 0,
              row := 0,
              downward_closure := [1, 4, 6, 8, 10, 12, 14, 16, 18, 20, 22, 24, 26, 28, 30, 32, 34, 36, 38, 40, 42, 44,
                                   45, 43, 41, 39, 37, 35, 33, 31, 29, 27, 25, 23, 21, 19, 17, 15, 13, 11, 9, 7, 5, 2],
              upward_sorted := [],
              downward_sorted := [1, 2],
              width := 59,
              height := 3,
              x := 0,
              y := 0 },
            { upward := [0],
              downward := [4, 5],
              is_connector := false,
              padding := 1,
              layer := 1,
              row := 0,
              downward_closure := [4, 6, 8, 10, 12, 14, 16, 18, 20, 22, 24, 26, 28, 30, 32, 34, 36, 38, 40, 42, 44, 45,
                                   43, 41, 39, 37, 35, 33, 31, 29, 27, 25, 23, 21, 19, 17, 15, 13, 11, 9, 7, 5],
              upward_sorted := [0],
              downward_sorted := [4, 5],
              width := 55,
              height := 3,
              x := 0,
              y := 0 },
            { upward := [0, 3],
              downward := [5],
              is_connector := false,
              padding := 1,
              layer := 1,
              row := 1,
              downward_closure := [5, 7, 9, 11, 13, 15, 17, 19, 21, 23, 25, 27, 29, 31, 33, 35, 37, 39, 41, 43, 45],
              upward_sorted := [0, 3],
              downward_sorted := [5],
              width := 7,
              height := 3,
              x := 55,
              y := 0 },
            { upward := [],
              downward := [2],
              is_connector := false,
              padding := 1,
              layer := 0,
              row := 1,
              downward_closure := [2, 5, 7, 9, 11, 13, 15, 17, 19, 21, 23, 25, 27, 29, 31, 33, 35, 37, 39, 41, 43, 45],
              upward_sorted := [],
              downward_sorted := [2],
              width := 7,
              height := 3,
              x := 59,
              y := 0 },
            { upward := [1],
              downward := [6, 7],
              is_connector := false,
              padding := 1,
              layer := 2,
              row := 0,
              downward_closure := [6, 8, 10, 12, 14, 16, 18, 20, 22, 24, 26, 28, 30, 32, 34, 36, 38, 40, 42, 44, 45, 43,
                                   41, 39, 37, 35, 33, 31, 29, 27, 25, 23, 21, 19, 17, 15, 13, 11, 9, 7],
              upward_sorted := [1],
              downward_sorted := [6, 7],
              width := 51,
              height := 3,
              x := 0,
              y := 0 },
            { upward := [1, 2],
              downward := [7],
              is_connector := false,
              padding := 1,
              layer := 2,
              row := 1,
              downward_closure := [7, 9, 11, 13, 15, 17, 19, 21, 23, 25, 27, 29, 31, 33, 35, 37, 39, 41, 43, 45],
              upward_sorted := [1, 2],
              downward_sorted := [7],
              width := 7,
              height := 3,
              x := 51,
              y := 0 },
            { upward := [4],
              downward := [8, 9],
              is_connector := false,
              padding := 1,
              layer := 3,
              row := 0,
              downward_closure := [8, 10, 12, 14, 16, 18, 20, 22, 24, 26, 28, 30, 32, 34, 36, 38, 40, 42, 44, 45, 43,
                                   41, 39, 37, 35, 33, 31, 29, 27, 25, 23, 21, 19, 17, 15, 13, 11, 9],
              upward_sorted := [4],
              downward_sorted := [8, 9],
              width := 47,
              height := 3,
              x := 0,
              y := 0 },
            { upward := [4, 5],
              downward := [9],
              is_connector := false,
              padding := 1,
              layer := 3,
              row := 1,
              downward_closure := [9, 11, 13, 15, 17, 19, 21, 23, 25, 27, 29, 31, 33, 35, 37, 39, 41, 43, 45],
              upward_sorted := [4, 5],
              downward_sorted := [9],
              width := 7,
              height := 3,
              x := 47,
              y := 0 },
            { upward := [6],
              downward := [10, 11],
              is_connector := false,
              padding := 1,
              layer := 4,
              row := 0,
              downward_closure := [10, 12, 14, 16, 18, 20, 22, 24, 26, 28, 30, 32, 34, 36, 38, 40, 42, 44, 45, 43, 41,
                                   39, 37, 35, 33, 31, 29, 27, 25, 23, 21, 19, 17, 15, 13, 11],
              upward_sorted := [6],
              downward_sorted := [10, 11],
              width := 43,
              height := 3,
              x := 0,
              y := 0 },
            { upward := [6, 7],
              downward := [11],
              is_connector := false,
              padding := 1,
              layer := 4,
              row := 1,
              downward_closure := [11, 13, 15, 17, 19, 21, 23, 25, 27, 29, 31, 33, 35, 37, 39, 41, 43, 45],
              upward_sorted := [6, 7],
              downward_sorted := [11],
              width := 7,
              height := 3,
              x := 43,
              y := 0 },
            { upward := [8],
              downward := [12, 13],
              is_connector := false,
              padding := 1,
              layer := 5,
              row := 0,
              downward_closure := [12, 14, 16, 18, 20, 22, 24, 26, 28, 30, 32, 34, 36, 38, 40, 42, 44, 45, 43, 41, 39,
                                   37, 35, 33, 31, 29, 27, 25, 23, 21, 19, 17, 15, 13],
              upward_sorted := [8],
              downward_sorted := [12, 13],
              width := 39,
              height := 3,
              x := 0,
              y := 0 },
            { upward := [8, 9],
              downward := [13],
              is_connector := false,
              padding := 1,
              layer := 5,
              row := 1,
              downward_closure := [13, 15, 17, 19, 21, 23, 25, 27, 29, 31, 33, 35, 37, 39, 41, 43, 45],
              upward_sorted := [8, 9],
              downward_sorted := [13],
              width := 7,
              height := 3,
              x := 39,
              y := 0 },
            { upward := [10],
              downward := [14, 15],
              is_connector := false,
              padding := 1,
              layer := 6,
              row := 0,
              downward_closure := [14, 16, 18, 20, 22, 24, 26, 28, 30, 32, 34, 36, 38, 40, 42, 44, 45, 43, 41, 39, 37,
                                   35, 33, 31, 29, 27, 25, 23, 21, 19, 17, 15],
              upward_sorted := [10],
              downward_sorted := [14, 15],
              width := 35,
              height := 3,
              x := 0,
              y := 0 },
            { upward := [10, 11],
              downward := [15],
              is_connector := false,
              padding := 1,
              layer := 6,
              row := 1,
              downward_closure := [15, 17, 19, 21, 23, 25, 27, 29, 31, 33, 35, 37, 39, 41, 43, 45],
              upward_sorted := [10, 11],
              downward_sorted := [15],
              width := 7,
              height := 3,
              x := 35,
              y := 0 },
            { upward := [12],
              downward := [16, 17],
              is_connector := false,
              padding := 1,
              layer := 7,
              row := 0,
              downward_closure := [16, 18, 20, 22, 24, 26, 28, 30, 32, 34, 36, 38, 40, 42, 44, 45, 43, 41, 39, 37, 35,
                                   33, 31, 29, 27, 25, 23, 21, 19, 17],
              upward_sorted := [12],
              downward_sorted := [16, 17],
              width := 35,
              height := 3,
              x := 0,
              y := 0 },
            { upward := [12, 13],
              downward := [17],
              is_connector := false,
              padding := 1,
              layer := 7,
              row := 1,
              downward_closure := [17, 19, 21, 23, 25, 27, 29, 31, 33, 35, 37, 39, 41, 43, 45],
              upward_sorted := [12, 13],
              downward_sorted := [17],
              width := 7,
              height := 3,
              x := 35,
              y := 0 },
            { upward := [14],
              downward := [18, 19],
              is_connector := false,
              padding := 1,
              layer := 8,
              row := 0,
              downward_closure := [18, 20, 22, 24, 26, 28, 30, 32, 34, 36, 38, 40, 42, 44, 45, 43, 41, 39, 37, 35, 33,
                                   31, 29, 27, 25, 23, 21, 19],
              upward_sorted := [14],
              downward_sorted := [18, 19],
              width := 31,
              height := 3,
              x := 0,
              y := 0 },
            { upward := [14, 15],
              downward := [19],
              is_connector := false,
              padding := 1,
              layer := 8,
              row := 1,
              downward_closure := [19, 21, 23, 25, 27, 29, 31, 33, 35, 37, 39, 41, 43, 45],
              upward_sorted := [14, 15],
              downward_sorted := [19],
              width := 7,
              height := 3,
              x := 31,
              y := 0 },
            { upward := [16],
              downward := [20, 21],
              is_connector := false,
              padding := 1,
              layer := 9,
              row := 0,
              downward_closure := [20, 22, 24, 26, 28, 30, 32, 34, 36, 38, 40, 42, 44, 45, 43, 41, 39, 37, 35, 33, 31,
                                   29, 27, 25, 23, 21],
              upward_sorted := [16],
              downward_sorted := [20, 21],
              width := 27,
              height := 3,
              x := 0,
              y := 0 },
            { upward := [16, 17],
              downward := [21],
              is_connector := false,
              padding := 1,
              layer := 9,
              row := 1,
              downward_closure := [21, 23, 25, 27, 29, 31, 33, 35, 37, 39, 41, 43, 45],
              upward_sorted := [16, 17],
              downward_sorted := [21],
              width := 7,
              height := 3,
              x := 27,
              y := 0 },
            { upward := [18],
              downward := [22, 23],
              is_connector := false,
              padding := 1,
              layer := 10,
              row := 0,
              downward_closure := [22, 24, 26, 28, 30, 32, 34, 36, 38, 40, 42, 44, 45, 43, 41, 39, 37, 35, 33, 31, 29,
                                   27, 25, 23],
              upward_sorted := [18],
              downward_sorted := [22, 23],
              width := 24,
              height := 3,
              x := 0,
              y := 0 },
            { upward := [18, 19],
              downward := [23],
              is_connector := false,
              padding := 1,
              layer := 10,
              row := 1,
              downward_closure := [23, 25, 27, 29, 31, 33, 35, 37, 39, 41, 43, 45],
              upward_sorted := [18, 19],
              downward_sorted := [23],
              width := 8,
              height := 3,
              x := 24,
              y := 0 },
            { upward := [20],
              downward := [24, 25],
              is_connector := false,
              padding := 1,
              layer := 11,
              row := 0,
              downward_closure := [24, 26, 28, 30, 32, 34, 36, 38, 40, 42, 44, 45, 43, 41, 39, 37, 35, 33, 31, 29, 27,
                                   25],
              upward_sorted := [20],
              downward_sorted := [24, 25],
              width := 20,
              height := 3,
              x := 0,
              y := 0 },
            { upward := [20, 21],
              downward := [25],
              is_connector := false,
              padding := 1,
              layer := 11,
              row := 1,
              downward_closure := [25, 27, 29, 31, 33, 35, 37, 39, 41, 43, 45],
              upward_sorted := [20, 21],
              downward_sorted := [25],
              width := 8,
              height := 3,
              x := 20,
              y := 0 },
            { upward := [22],
              downward := [26, 27],
              is_connector := false,
              padding := 1,
              layer := 12,
              row := 0,
              downward_closure := [26, 28, 30, 32, 34, 36, 38, 40, 42, 44, 45, 43, 41, 39, 37, 35, 33, 31, 29, 27],
              upward_sorted := [22],
              downward_sorted := [26, 27],
              width := 16,
              height := 3,
              x := 0,
              y := 0 },
            { upward := [22, 23],
              downward := [27],
              is_connector := false,
              padding := 1,
              layer := 12,
              row := 1,
              downward_closure := [27, 29, 31, 33, 35, 37, 39, 41, 43, 45],
              upward_sorted := [22, 23],
              downward_sorted := [27],
              width := 8,
              height := 3,
              x := 16,
              y := 0 },
            { upward := [24],
              downward := [28, 29],
              is_connector := false,
              padding := 1,
              layer := 13,
              row := 0,
              downward_closure := [28, 30, 32, 34, 36, 38, 40, 42, 44, 45, 43, 41, 39, 37, 35, 33, 31, 29],
              upward_sorted := [24],
              downward_sorted := [28, 29],
              width := 12,
              height := 3,
              x := 0,
              y := 0 },
            { upward := [24, 25],
              downward := [29],
              is_connector := false,
              padding := 1,
              layer := 13,
              row := 1,
              downward_closure := [29, 31, 33, 35, 37, 39, 41, 43, 45],
              upward_sorted := [24, 25],
              downward_sorted := [29],
              width := 8,
              height := 3,
              x := 12,
              y := 0 },
            { upward := [26],
              downward := [30, 31],
              is_connector := false,
              padding := 1,
              layer := 14,
              row := 0,
              downward_closure := [30, 32, 34, 36, 38, 40, 42, 44, 45, 43, 41, 39, 37, 35, 33, 31],
              upward_sorted := [26],
              downward_sorted := [30, 31],
              width := 8,
              height := 3,
              x := 0,
              y := 0 },
            { upward := [26, 27],
              downward := [31],
              is_connector := false,
              padding := 1,
              layer := 14,
              row := 1,
              downward_closure := [31, 33, 35, 37, 39, 41, 43, 45],
              upward_sorted := [26, 27],
              downward_sorted := [31],
              width := 8,
              height := 3,
              x := 8,
              y := 0 },
            { upward := [28],
              downward := [32, 33],
              is_connector := false,
              padding := 1,
              layer := 15,
              row := 0,
              downward_closure := [32, 34, 36, 38, 40, 42, 44, 45, 43, 41, 39, 37, 35, 33],
              upward_sorted := [28],
              downward_sorted := [32, 33],
              width := 8,
              height := 3,
              x := 0,
              y := 0 },
            { upward := [28, 29],
              downward := [33],
              is_connector := false,
              padding := 1,
              layer := 15,
              row := 1,
              downward_closure := [33, 35, 37, 39, 41, 43, 45],
              upward_sorted := [28, 29],
              downward_sorted := [33],
              width := 8,
              height := 3,
              x := 8,
              y := 0 },
            { upward := [30],
              downward := [34, 35],
              is_connector := false,
              padding := 1,
              layer := 16,
              row := 0,
              downward_closure := [34, 36, 38, 40, 42, 44, 45, 43, 41, 39, 37, 35],
              upward_sorted := [30],
              downward_sorted := [34, 35],
              width := 8,
              height := 3,
              x := 0,
              y := 0 },
            { upward := [30, 31],
              downward := [35],
              is_connector := false,
              padding := 1,
              layer := 16,
              row := 1,
              downward_closure := [35, 37, 39, 41, 43, 45],
              upward_sorted := [30, 31],
              downward_sorted := [35],
              width := 8,
              height := 3,
              x := 8,
              y := 0 },
            { upward := [32],
              downward := [36, 37],
              is_connector := false,
              padding := 1,
              layer := 17,
              row := 0,
              downward_closure := [36, 38, 40, 42, 44, 45, 43, 41, 39, 37],
              upward_sorted := [32],
              downward_sorted := [36, 37],
              width := 8,
              height := 3,
              x := 0,
              y := 0 },
            { upward := [32, 33],
              downward := [37],
              is_connector := false,
              padding := 1,
              layer := 17,
              row := 1,
              downward_closure := [37, 39, 41, 43, 45],
              upward_sorted := [32, 33],
              downward_sorted := [37],
              width := 8,
              height := 3,
              x := 8,
              y := 0 },
            { upward := [34],
              downward := [38, 39],
              is_connector := false,
              padding := 1,
              layer := 18,
              row := 0,
              downward_closure := [38, 40, 42, 44, 45, 43, 41, 39],
              upward_sorted := [34],
              downward_sorted := [38, 39],
              width := 8,
              height := 3,
              x := 0,
              y := 0 },
            { upward := [34, 35],
              downward := [39],
              is_connector := false,
              padding := 1,
              layer := 18,
              row := 1,
              downward_closure := [39, 41, 43, 45],
              upward_sorted := [34, 35],
              downward_sorted := [39],
              width := 8,
              height := 3,
              x := 8,
              y := 0 },
            { upward := [36],
              downward := [40, 41],
              is_connector := false,
              padding := 1,
              layer := 19,
              row := 0,
              downward_closure := [40, 42, 44, 45, 43, 41],
              upward_sorted := [36],
              downward_sorted := [40, 41],
              width := 8,
              height := 3,
              x := 0,
              y := 0 },
            { upward := [36, 37],
              downward := [41],
              is_connector := false,
              padding := 1,
              layer := 19,
              row := 1,
              downward_closure := [41, 43, 45],
              upward_sorted := [36, 37],
              downward_sorted := [41],
              width := 8,
              height := 3,
              x := 8,
              y := 0 },
            { upward := [38],
              downward := [42, 43],
              is_connector := false,
              padding := 1,
              layer := 20,
              row := 0,
              downward_closure := [42, 44, 45, 43],
              upward_sorted := [38],
              downward_sorted := [42, 43],
              width := 8,
              height := 3,
              x := 0,
              y := 0 },
            { upward := [38, 39],
              downward := [43],
              is_connector := false,
              padding := 1,
              layer := 20,
              row := 1,
              downward_closure := [43, 45],
              upward_sorted := [38, 39],
              downward_sorted := [43],
              width := 8,
              height := 3,
              x := 8,
              y := 0 },
            { upward := [40],
              downward := [44, 45],
              is_connector := false,
              padding := 1,
              layer := 21,
              row := 0,
              downward_closure := [44, 45],
              upward_sorted := [40],
              downward_sorted := [44, 45],
              width := 8,
              height := 3,
              x := 0,
              y := 0 },
            { upward := [40, 41],
              downward := [45],
              is_connector := false,
              padding := 1,
              layer := 21,
              row := 1,
              downward_closure := [45],
              upward_sorted := [40, 41],
              downward_sorted := [45],
              width := 8,
              height := 3,
              x := 8,
              y := 0 },
            { upward := [42],
              downward := [],
              is_connector := false,
              padding := 1,
              layer := 22,
              row := 0,
              downward_closure := [],
              upward_sorted := [42],
              downward_sorted := [],
              width := 8,
              height := 3,
              x := 0,
              y := 0 },
            { upward := [42, 43],
              downward := [],
              is_connector := false,
              padding := 1,
              layer := 22,
              row := 1,
              downward_closure := [],
              upward_sorted := [42, 43],
              downward_sorted := [],
              width := 8,
              height := 3,
              x := 8,
              y := 0 }],
  layers := [{ nodes := [0, 3],
               edges := [{ up := 0, down := 1, x := 1, y := 0 },
                         { up := 0, down := 2, x := 56, y := 0 },
                         { up := 3, down := 2, x := 60, y := 0 }],
               adapter := { enabled := false, inputs := [], outputs := [], height := 0, y := 0, rendering := [] } },
             { nodes := [1, 2],
               edges := [{ up := 1, down := 4, x := 1, y := 0 },
                         { up := 1, down := 5, x := 52, y := 0 },
                         { up := 2, down := 5, x := 56, y := 0 }],
               adapter := { enabled := false, inputs := [], outputs := [], height := 0, y := 0, rendering := [] } },
             { nodes := [4, 5],
               edges := [{ up := 4, down := 6, x := 1, y := 0 },
                         { up := 4, down := 7, x := 48, y := 0 },
                         { up := 5, down := 7, x := 52, y := 0 }],
               adapter := { enabled := false, inputs := [], outputs := [], height := 0, y := 0, rendering := [] } },
             { nodes := [6, 7],
               edges := [{ up := 6, down := 8, x := 1, y := 0 },
                         { up := 6, down := 9, x := 44, y := 0 },
                         { up := 7, down := 9, x := 48, y := 0 }],
               adapter := { enabled := false, inputs := [], outputs := [], height := 0, y := 0, rendering := [] } },
             { nodes := [8, 9],
               edges := [{ up := 8, down := 10, x := 1, y := 0 },
                         { up := 8, down := 11, x := 40, y := 0 },
                         { up := 9, down := 11, x := 44, y := 0 }],
               adapter := { enabled := false, inputs := [], outputs := [], height := 0, y := 0, rendering := [] } },
             { nodes := [10, 11],
               edges := [{ up := 10, down := 12, x := 1, y := 0 },
                         { up := 10, down := 13, x := 36, y := 0 },
                         { up := 11, down := 13, x := 40, y := 0 }],
               adapter := { enabled := false, inputs := [], outputs := [], height := 0, y := 0, rendering := [] } },
             { nodes := [12, 13],
               edges := [{ up := 12, down := 14, x := 1, y := 0 },
                         { up := 12, down := 15, x := 32, y := 0 },
                         { up := 13, down := 15, x := 36, y := 0 }],
               adapter := { enabled := false, inputs := [], outputs := [], height := 0, y := 0, rendering := [] } },
             { nodes := [14, 15],
               edges := [{ up := 14, down := 16, x := 1, y := 0 },
                         { up := 14, down := 17, x := 32, y := 0 },
                         { up := 15, down := 17, x := 32, y := 0 }],
               adapter := { enabled := false, inputs := [], outputs := [], height := 0, y := 0, rendering := [] } },
             { nodes := [16, 17],
               edges := [{ up := 16, down := 18, x := 1, y := 0 },
                         { up := 16, down := 19, x := 28, y := 0 },
                         { up := 17, down := 19, x := 28, y := 0 }],
               adapter := { enabled := false, inputs := [], outputs := [], height := 0, y := 0, rendering := [] } },
             { nodes := [18, 19],
               edges := [{ up := 18, down := 20, x := 1, y := 0 },
                         { up := 18, down := 21, x := 25, y := 0 },
                         { up := 19, down := 21, x := 24, y := 0 }],
               adapter := { enabled := false, inputs := [], outputs := [], height := 0, y := 0, rendering := [] } },
             { nodes := [20, 21],
               edges := [{ up := 20, down := 22, x := 1, y := 0 },
                         { up := 20, down := 23, x := 21, y := 0 },
                         { up := 21, down := 23, x := 21, y := 0 }],
               adapter := { enabled := false, inputs := [], outputs := [], height := 0, y := 0, rendering := [] } },
             { nodes := [22, 23],
               edges := [{ up := 22, down := 24, x := 1, y := 0 },
                         { up := 22, down := 25, x := 17, y := 0 },
                         { up := 23, down := 25, x := 17, y := 0 }],
               adapter := { enabled := false, inputs := [], outputs := [], height := 0, y := 0, rendering := [] } },
             { nodes := [24, 25],
               edges := [{ up := 24, down := 26, x := 1, y := 0 },
                         { up := 24, down := 27, x := 13, y := 0 },
                         { up := 25, down := 27, x := 13, y := 0 }],
               adapter := { enabled := false, inputs := [], outputs := [], height := 0, y := 0, rendering := [] } },
             { nodes := [26, 27],
               edges := [{ up := 26, down := 28, x := 1, y := 0 },
                         { up := 26, down := 29, x := 9, y := 0 },
                         { up := 27, down := 29, x := 0, y := 0 }],
               adapter := { enabled := false, inputs := [], outputs := [], height := 0, y := 0, rendering := [] } },
             { nodes := [28, 29],
               edges := [{ up := 28, down := 30, x := 0, y := 0 },
                         { up := 28, down := 31, x := 0, y := 0 },
                         { up := 29, down := 31, x := 0, y := 0 }],
               adapter := { enabled := false, inputs := [], outputs := [], height := 0, y := 0, rendering := [] } },
             { nodes := [30, 31],
               edges := [{ up := 30, down := 32, x := 0, y := 0 },
                         { up := 30, down := 33, x := 0, y := 0 },
                         { up := 31, down := 33, x := 0, y := 0 }],
               adapter := { enabled := false, inputs := [], outputs := [], height := 0, y := 0, rendering := [] } },
             { nodes := [32, 33],
               edges := [{ up := 32, down := 34, x := 0, y := 0 },
                         { up := 32, down := 35, x := 0, y := 0 },
                         { up := 33, down := 35, x := 0, y := 0 }],
               adapter := { enabled := false, inputs := [], outputs := [], height := 0, y := 0, rendering := [] } },
             { nodes := [34, 35],
               edges := [{ up := 34, down := 36, x := 0, y := 0 },
                         { up := 34, down := 37, x := 0, y := 0 },
                         { up := 35, down := 37, x := 0, y := 0 }],
               adapter := { enabled := false, inputs := [], outputs := [], height := 0, y := 0, rendering := [] } },
             { nodes := [36, 37],
               edges := [{ up := 36, down := 38, x := 0, y := 0 },
                         { up := 36, down := 39, x := 0, y := 0 },
                         { up := 37, down := 39, x := 0, y := 0 }],
               adapter := { enabled := false, inputs := [], outputs := [], height := 0, y := 0, rendering := [] } },
             { nodes := [38, 39],
               edges := [{ up := 38, down := 40, x := 0, y := 0 },
                         { up := 38, down := 41, x := 0, y := 0 },
                         { up := 39, down := 41, x := 0, y := 0 }],
               adapter := { enabled := false, inputs := [], outputs := [], height := 0, y := 0, rendering := [] } },
             { nodes := [40, 41],
               edges := [{ up := 40, down := 42, x := 0, y := 0 },
                         { up := 40, down := 43, x := 0, y := 0 },
                         { up := 41, down := 43, x := 0, y := 0 }],
               adapter := { enabled := false, inputs := [], outputs := [], height := 0, y := 0, rendering := [] } },
             { nodes := [42, 43],
               edges := [{ up := 42, down := 44, x := 0, y := 0 },
                         { up := 42, down := 45, x := 0, y := 0 },
                         { up := 43, down := 45, x := 0, y := 0 }],
               adapter := { enabled := false, inputs := [], outputs := [], height := 0, y := 0, rendering := [] } },
             { nodes := [44, 45],
               edges := [],
               adapter := { enabled := false, inputs := [], outputs := [], height := 0, y := 0, rendering := [] } }] }

def c9s600 : Context :=
{ labels := [['X', '0', '0'],
             ['X', '1', '0'],
             ['X', '1', '1'],
             ['X', '0', '1'],
             ['X', '2', '0'],
             ['X', '2', '1'],
             ['X', '3', '0'],
             ['X', '3', '1'],
             ['X', '4', '0'],
             ['X', '4', '1'],
             ['X', '5', '0'],
             ['X', '5', '1'],
             ['X', '6', '0'],
             ['X', '6', '1'],
             ['X', '7', '0'],
             ['X', '7', '1'],
             ['X', '8', '0'],
             ['X', '8', '1'],
             ['X', '9', '0'],
             ['X', '9', '1'],
             ['X', '1', '0', '0'],
             ['X', '1', '0', '1'],
             ['X', '1', '1', '0'],
             ['X', '1', '1', '1'],
             ['X', '1', '2', '0'],
             ['X', '1', '2', '1'],
             ['X', '1', '3', '0'],
             ['X', '1', '3', '1'],
             ['X', '1', '4', '0'],
             ['X', '1', '4', '1'],
             ['X', '1', '5', '0'],
             ['X', '1', '5', '1'],
             ['X', '1', '6', '0'],
             ['X', '1', '6', '1'],
             ['X', '1', '7', '0'],
             ['X', '1', '7', '1'],
             ['X', '1', '8', '0'],
             ['X', '1', '8', '1'],
             ['X', '1', '9', '0'],
             ['X', '1', '9', '1'],
             ['X', '2', '0', '0'],
             ['X', '2', '0', '1'],
             ['X', '2', '1', '0'],
             ['X', '2', '1', '1'],
             ['X', '2', '2', '0'],
             ['X', '2', '2', '1']],
  id := [(['X', '0', '0'], 0),
         (['X', '1', '0'], 1),
         (['X', '1', '1'], 2),
         (['X', '0', '1'], 3),
         (['X', '2', '0'], 4),
         (['X', '2', '1'], 5),
         (['X', '3', '0'], 6),
         (['X', '3', '1'], 7),
         (['X', '4', '0'], 8),
         (['X', '4', '1'], 9),
         (['X', '5', '0'], 10),
         (['X', '5', '1'], 11),
         (['X', '6', '0'], 12),
         (['X', '6', '1'], 13),
         (['X', '7', '0'], 14),
         (['X', '7', '1'], 15),
         (['X', '8', '0'], 16),
         (['X', '8', '1'], 17),
         (['X', '9', '0'], 18),
         (['X', '9', '1'], 19),
         (['X', '1', '0', '0'], 20),
         (['X', '1', '0', '1'], 21),
         (['X', '1', '1', '0'], 22),
         (['X', '1', '1', '1'], 23),
         (['X', '1', '2', '0'], 24),
         (['X', '1', '2', '1'], 25),
         (['X', '1', '3', '0'], 26),
         (['X', '1', '3', '1'], 27),
         (['X', '1', '4', '0'], 28),
         (['X', '1', '4', '1'], 29),
         (['X', '1', '5', '0'], 30),
         (['X', '1', '5', '1'], 31),
         (['X', '1', '6', '0'], 32),
         (['X', '1', '6', '1'], 33),
         (['X', '1', '7', '0'], 34),
         (['X', '1', '7', '1'], 35),
         (['X', '1', '8', '0'], 36),
         (['X', '1', '8', '1'], 37),
         (['X', '1', '9', '0'], 38),
         (['X', '1', '9', '1'], 39),
         (['X', '2', '0', '0'], 40),
         (['X', '2', '0', '1'], 41),
         (['X', '2', '1', '0'], 42),
         (['X', '2', '1', '1'], 43),
         (['X', '2', '2', '0'], 44),
         (['X', '2', '2', '1'], 45)],
  nodes := [{ upward := [],
              downward := [1, 2],
              is_connector := false,
              padding := 1,
              layer := 0,
              row := 0,
              downward_closure := [1, 4, 6, 8, 10, 12, 14, 16, 18, 20, 22, 24, 26, 28, 30, 32, 34, 36, 38, 40, 42, 44,
                                   45, 43, 41, 39, 37, 35, 33, 31, 29, 27, 25, 23, 21, 19, 17, 15, 13, 11, 9, 7, 5, 2],
              upward_sorted := [],
              downward_sorted := [1, 2],
              width := 71,
              height := 3,
              x := 0,
              y := 0 },
            { upward := [0],
              downward := [4, 5],
              is_connector := false,
              padding := 1,
              layer := 1,
              row := 0,
              downward_closure := [4, 6, 8, 10, 12, 14, 16, 18, 20, 22, 24, 26, 28, 30, 32, 34, 36, 38, 40, 42, 44, 45,
                                   43, 41, 39, 37, 35, 33, 31, 29, 27, 25, 23, 21, 19, 17, 15, 13, 11, 9, 7, 5],
              upward_sorted := [0],
              downward_sorted := [4, 5],
              width := 67,
              height := 3,
              x := 0,
              y := 0 },
            { upward := [0, 3],
              downward := [5],
              is_connector := false,
              padding := 1,
              layer := 1,
              row := 1,
              downward_closure := [5, 7, 9, 11, 13, 15, 17, 19, 21, 23, 25, 27, 29, 31, 33, 35, 37, 39, 41, 43, 45],
              upward_sorted := [0, 3],
              downward_sorted := [5],
              width := 7,
              height := 3,
              x := 67,
              y := 0 },
            { upward := [],
              downward := [2],
              is_connector := false,
              padding := 1,
              layer := 0,
              row := 1,
              downward_closure := [2, 5, 7, 9, 11, 13, 15, 17, 19, 21, 23, 25, 27, 29, 31, 33, 35, 37, 39, 41, 43, 45],
              upward_sorted := [],
              downward_sorted := [2],
              width := 7,
              height := 3,
              x := 71,
              y := 0 },
            { upward := [1],
              downward := [6, 7],
              is_connector := false,
              padding := 1,
              layer := 2,
              row := 0,
              downward_closure := [6, 8, 10, 12, 14, 16, 18, 20, 22, 24, 26, 28, 30, 32, 34, 36, 38, 40, 42, 44, 45, 43,
                                   41, 39, 37, 35, 33, 31, 29, 27, 25, 23, 21, 19, 17, 15, 13, 11, 9, 7],
              upward_sorted := [1],
              downward_sorted := [6, 7],
              width := 63,
              height := 3,
              x := 0,
              y := 0 },
            { upward := [1, 2],
              downward := [7],
              is_connector := false,
              padding := 1,
              layer := 2,
              row := 1,
              downward_closure := [7, 9, 11, 13, 15, 17, 19, 21, 23, 25, 27, 29, 31, 33, 35, 37, 39, 41, 43, 45],
              upward_sorted := [1, 2],
              downward_sorted := [7],
              width := 7,
              height := 3,
              x := 63,
              y := 0 },
            { upward := [4],
              downward := [8, 9],
              is_connector := false,
              padding := 1,
              layer := 3,
              row := 0,
              downward_closure := [8, 10, 12, 14, 16, 18, 20, 22, 24, 26, 28, 30, 32, 34, 36, 38, 40, 42, 44, 45, 43,
                                   41, 39, 37, 35, 33, 31, 29, 27, 25, 23, 21, 19, 17, 15, 13, 11, 9],
              upward_sorted := [4],
              downward_sorted := [8, 9],
              width := 59,
              height := 3,
              x := 0,
              y := 0 },
            { upward := [4, 5],
              downward := [9],
              is_connector := false,
              padding := 1,
              layer := 3,
              row := 1,
              downward_closure := [9, 11, 13, 15, 17, 19, 21, 23, 25, 27, 29, 31, 33, 35, 37, 39, 41, 43, 45],
              upward_sorted := [4, 5],
              downward_sorted := [9],
              width := 7,
              height := 3,
              x := 59,
              y := 0 },
            { upward := [6],
              downward := [10, 11],
              is_connector := false,
              padding := 1,
              layer := 4,
              row := 0,
              downward_closure := [10, 12, 14, 16, 18, 20, 22, 24, 26, 28, 30, 32, 34, 36, 38, 40, 42, 44, 45, 43, 41,
                                   39, 37, 35, 33, 31, 29, 27, 25, 23, 21, 19, 17, 15, 13, 11],
              upward_sorted := [6],
              downward_sorted := [10, 11],
              width := 59,
              height := 3,
              x := 0,
              y := 0 },
            { upward := [6, 7],
              downward := [11],
              is_connector := false,
              padding := 1,
              layer := 4,
              row := 1,
              downward_closure := [11, 13, 15, 17, 19, 21, 23, 25, 27, 29, 31, 33, 35, 37, 39, 41, 43, 45],
              upward_sorted := [6, 7],
              downward_sorted := [11],
              width := 7,
              height := 3,
              x := 55,
              y := 0 },
            { upward := [8],
              downward := [12, 13],
              is_connector := false,
              padding := 1,
              layer := 5,
              row := 0,
              downward_closure := [12, 14, 16, 18, 20, 22, 24, 26, 28, 30, 32, 34, 36, 38, 40, 42, 44, 45, 43, 41, 39,
                                   37, 35, 33, 31, 29, 27, 25, 23, 21, 19, 17, 15, 13],
              upward_sorted := [8],
              downward_sorted := [12, 13],
              width := 55,
              height := 3,
              x := 0,
              y := 0 },
            { upward := [8, 9],
              downward := [13],
              is_connector := false,
              padding := 1,
              layer := 5,
              row := 1,
              downward_closure := [13, 15, 17, 19, 21, 23, 25, 27, 29, 31, 33, 35, 37, 39, 41, 43, 45],
              upward_sorted := [8, 9],
              downward_sorted := [13],
              width := 7,
              height := 3,
              x := 55,
              y := 0 },
            { upward := [10],
              downward := [14, 15],
              is_connector := false,
              padding := 1,
              layer := 6,
              row := 0,
              downward_closure := [14, 16, 18, 20, 22, 24, 26, 28, 30, 32, 34, 36, 38, 40, 42, 44, 45, 43, 41, 39, 37,
                                   35, 33, 31, 29, 27, 25, 23, 21, 19, 17, 15],
              upward_sorted := [10],
              downward_sorted := [14, 15],
              width := 51,
              height := 3,
              x := 0,
              y := 0 },
            { upward := [10, 11],
              downward := [15],
              is_connector := false,
              padding := 1,
              layer := 6,
              row := 1,
              downward_closure := [15, 17, 19, 21, 23, 25, 27, 29, 31, 33, 35, 37, 39, 41, 43, 45],
              upward_sorted := [10, 11],
              downward_sorted := [15],
              width := 7,
              height := 3,
              x := 51,
              y := 0 },
            { upward := [12],
              downward := [16, 17],
              is_connector := false,
              padding := 1,
              layer := 7,
              row := 0,
              downward_closure := [16, 18, 20, 22, 24, 26, 28, 30, 32, 34, 36, 38, 40, 42, 44, 45, 43, 41, 39, 37, 35,
                                   33, 31, 29, 27, 25, 23, 21, 19, 17],
              upward_sorted := [12],
              downward_sorted := [16, 17],
              width := 47,
              height := 3,
              x := 0,
              y := 0 },
            { upward := [12, 13],
              downward := [17],
              is_connector := false,
              padding := 1,
              layer := 7,
              row := 1,
              downward_closure := [17, 19, 21, 23, 25, 27, 29, 31, 33, 35, 37, 39, 41, 43, 45],
              upward_sorted := [12, 13],
              downward_sorted := [17],
              width := 7,
              height := 3,
              x := 47,
              y := 0 },
            { upward := [14],
              downward := [18, 19],
              is_connector := false,
              padding := 1,
              layer := 8,
              row := 0,
              downward_closure := [18, 20, 22, 24, 26, 28, 30, 32, 34, 36, 38, 40, 42, 44, 45, 43, 41, 39, 37, 35, 33,
                                   31, 29, 27, 25, 23, 21, 19],
              upward_sorted := [14],
              downward_sorted := [18, 19],
              width := 43,
              height := 3,
              x := 0,
              y := 0 },
            { upward := [14, 15],
              downward := [19],
              is_connector := false,
              padding := 1,
              layer := 8,
              row := 1,
              downward_closure := [19, 21, 23, 25, 27, 29, 31, 33, 35, 37, 39, 41, 43, 45],
              upward_sorted := [14, 15],
              downward_sorted := [19],
              width := 7,
              height := 3,
              x := 43,
              y := 0 },
            { upward := [16],
              downward := [20, 21],
              is_connector := false,
              padding := 1,
              layer := 9,
              row := 0,
              downward_closure := [20, 22, 24, 26, 28, 30, 32, 34, 36, 38, 40, 42, 44, 45, 43, 41, 39, 37, 35, 33, 31,
                                   29, 27, 25, 23, 21],
              upward_sorted := [16],
              downward_sorted := [20, 21],
              width := 39,
              height := 3,
              x := 0,
              y := 0 },
            { upward := [16, 17],
              downward := [21],
              is_connector := false,
              padding := 1,
              layer := 9,
              row := 1,
              downward_closure := [21, 23, 25, 27, 29, 31, 33, 35, 37, 39, 41, 43, 45],
              upward_sorted := [16, 17],
              downward_sorted := [21],
              width := 7,
              height := 3,
              x := 39,
              y := 0 },
            { upward := [18],
              downward := [22, 23],
              is_connector := false,
              padding := 1,
              layer := 10,
              row := 0,
              downward_closure := [22, 24, 26, 28, 30, 32, 34, 36, 38, 40, 42, 44, 45, 43, 41, 39, 37, 35, 33, 31, 29,
                                   27, 25, 23],
              upward_sorted := [18],
              downward_sorted := [22, 23],
              width := 36,
              height := 3,
              x := 0,
              y := 0 },
            { upward := [18, 19],
              downward := [23],
              is_connector := false,
              padding := 1,
              layer := 10,
              row := 1,
              downward_closure := [23, 25, 27, 29, 31, 33, 35, 37, 39, 41, 43, 45],
              upward_sorted := [18, 19],
              downward_sorted := [23],
              width := 8,
              height := 3,
              x := 36,
              y := 0 },
            { upward := [20],
              downward := [24, 25],
              is_connector := false,
              padding := 1,
              layer := 11,
              row := 0,
              downward_closure := [24, 26, 28, 30, 32, 34, 36, 38, 40, 42, 44, 45, 43, 41, 39, 37, 35, 33, 31, 29, 27,
                                   25],
              upward_sorted := [20],
              downward_sorted := [24, 25],
              width := 32,
              height := 3,
              x := 0,
              y := 0 },
            { upward := [20, 21],
              downward := [25],
              is_connector := false,
              padding := 1,
              layer := 11,
              row := 1,
              downward_closure := [25, 27, 29, 31, 33, 35, 37, 39, 41, 43, 45],
              upward_sorted := [20, 21],
              downward_sorted := [25],
              width := 8,
              height := 3,
              x := 32,
              y := 0 },
            { upward := [22],
              downward := [26, 27],
              is_connector := false,
              padding := 1,
              layer := 12,
              row := 0,
              downward_closure := [26, 28, 30, 32, 34, 36, 38, 40, 42, 44, 45, 43, 41, 39, 37, 35, 33, 31, 29, 27],
              upward_sorted := [22],
              downward_sorted := [26, 27],
              width := 28,
              height := 3,
              x := 0,
              y := 0 },
            { upward := [22, 23],
              downward := [27],
              is_connector := false,
              padding := 1,
              layer := 12,
              row := 1,
              downward_closure := [27, 29, 31, 33, 35, 37, 39, 41, 43, 45],
              upward_sorted := [22, 23],
              downward_sorted := [27],
              width := 8,
              height := 3,
              x := 28,
              y := 0 },
            { upward := [24],
              downward := [28, 29],
              is_connector := false,
              padding := 1,
              layer := 13,
              row := 0,
              downward_closure := [28, 30, 32, 34, 36, 38, 40, 42, 44, 45, 43, 41, 39, 37, 35, 33, 31, 29],
              upward_sorted := [24],
              downward_sorted := [28, 29],
              width := 24,
              height := 3,
              x := 0,
              y := 0 },
            { upward := [24, 25],
              downward := [29],
              is_connector := false,
              padding := 1,
              layer := 13,
              row := 1,
              downward_closure := [29, 31, 33, 35, 37, 39, 41, 43, 45],
              upward_sorted := [24, 25],
              downward_sorted := [29],
              width := 8,
              height := 3,
              x := 24,
              y := 0 },
            { upward := [26],
              downward := [30, 31],
              is_connector := false,
              padding := 1,
              layer := 14,
              row := 0,
              downward_closure := [30, 32, 34, 36, 38, 40, 42, 44, 45, 43, 41, 39, 37, 35, 33, 31],
              upward_sorted := [26],
              downward_sorted := [30, 31],
              width := 20,
              height := 3,
              x := 0,
              y := 0 },
            { upward := [26, 27],
              downward := [31],
              is_connector := false,
              padding := 1,
              layer := 14,
              row := 1,
              downward_closure := [31, 33, 35, 37, 39, 41, 43, 45],
              upward_sorted := [26, 27],
              downward_sorted := [31],
              width := 8,
              height := 3,
              x := 20,
              y := 0 },
            { upward := [28],
              downward := [32, 33],
              is_connector := false,
              padding := 1,
              layer := 15,
              row := 0,
              downward_closure := [32, 34, 36, 38, 40, 42, 44, 45, 43, 41, 39, 37, 35, 33],
              upward_sorted := [28],
              downward_sorted := [32, 33],
              width := 16,
              height := 3,
              x := 0,
              y := 0 },
            { upward := [28, 29],
              downward := [33],
              is_connector := false,
              padding := 1,
              layer := 15,
              row := 1,
              downward_closure := [33, 35, 37, 39, 41, 43, 45],
              upward_sorted := [28, 29],
              downward_sorted := [33],
              width := 8,
              height := 3,
              x := 16,
              y := 0 },
            { upward := [30],
              downward := [34, 35],
              is_connector := false,
              padding := 1,
              layer := 16,
              row := 0,
              downward_closure := [34, 36, 38, 40, 42, 44, 45, 43, 41, 39, 37, 35],
              upward_sorted := [30],
              downward_sorted := [34, 35],
              width := 12,
              height := 3,
              x := 0,
              y := 0 },
            { upward := [30, 31],
              downward := [35],
              is_connector := false,
              padding := 1,
              layer := 16,
              row := 1,
              downward_closure := [35, 37, 39, 41, 43, 45],
              upward_sorted := [30, 31],
              downward_sorted := [35],
              width := 8,
              height := 3,
              x := 12,
              y := 0 },
            { upward := [32],
              downward := [36, 37],
              is_connector := false,
              padding := 1,
              layer := 17,
              row := 0,
              downward_closure := [36, 38, 40, 42, 44, 45, 43, 41, 39, 37],
              upward_sorted := [32],
              downward_sorted := [36, 37],
              width := 8,
              height := 3,
              x := 0,
              y := 0 },
            { upward := [32, 33],
              downward := [37],
              is_connector := false,
              padding := 1,
              layer := 17,
              row := 1,
              downward_closure := [37, 39, 41, 43, 45],
              upward_sorted := [32, 33],
              downward_sorted := [37],
              width := 8,
              height := 3,
              x := 8,
              y := 0 },
            { upward := [34],
              downward := [38, 39],
              is_connector := false,
              padding := 1,
              layer := 18,
              row := 0,
              downward_closure := [38, 40, 42, 44, 45, 43, 41, 39],
              upward_sorted := [34],
              downward_sorted := [38, 39],
              width := 8,
              height := 3,
              x := 0,
              y := 0 },
            { upward := [34, 35],
              downward := [39],
              is_connector := false,
              padding := 1,
              layer := 18,
              row := 1,
              downward_closure := [39, 41, 43, 45],
              upward_sorted := [34, 35],
              downward_sorted := [39],
              width := 8,
              height := 3,
              x := 8,
              y := 0 },
            { upward := [36],
              downward := [40, 41],
              is_connector := false,
              padding := 1,
              layer := 19,
              row := 0,
              downward_closure := [40, 42, 44, 45, 43, 41],
              upward_sorted := [36],
              downward_sorted := [40, 41],
              width := 8,
              height := 3,
              x := 0,
              y := 0 },
            { upward := [36, 37],
              downward := [41],
              is_connector := false,
              padding := 1,
              layer := 19,
              row := 1,
              downward_closure := [41, 43, 45],
              upward_sorted := [36, 37],
              downward_sorted := [41],
              width := 8,
              height := 3,
              x := 8,
              y := 0 },
            { upward := [38],
              downward := [42, 43],
              is_connector := false,
              padding := 1,
              layer := 20,
              row := 0,
              downward_closure := [42, 44, 45, 43],
              upward_sorted := [38],
              downward_sorted := [42, 43],
              width := 8,
              height := 3,
              x := 0,
              y := 0 },
            { upward := [38, 39],
              downward := [43],
              is_connector := false,
              padding := 1,
              layer := 20,
              row := 1,
              downward_closure := [43, 45],
              upward_sorted := [38, 39],
              downward_sorted := [43],
              width := 8,
              height := 3,
              x := 8,
              y := 0 },
            { upward := [40],
              downward := [44, 45],
              is_connector := false,
              padding := 1,
              layer := 21,
              row := 0,
              downward_closure := [44, 45],
              upward_sorted := [40],
              downward_sorted := [44, 45],
              width := 8,
              height := 3,
              x := 0,
              y := 0 },
            { upward := [40, 41],
              downward := [45],
              is_connector := false,
              padding := 1,
              layer := 21,
              row := 1,
              downward_closure := [45],
              upward_sorted := [40, 41],
              downward_sorted := [45],
              width := 8,
              height := 3,
              x := 8,
              y := 0 },
            { upward := [42],
              downward := [],
              is_connector := false,
              padding := 1,
              layer := 22,
              row := 0,
              downward_closure := [],
              upward_sorted := [42],
              downward_sorted := [],
              width := 8,
              height := 3,
              x := 0,
              y := 0 },
            { upward := [42, 43],
              downward := [],
              is_connector := false,
              padding := 1,
              layer := 22,
              row := 1,
              downward_closure := [],
              upward_sorted := [42, 43],
              downward_sorted := [],
              width := 8,
              height := 3,
              x := 8,
              y := 0 }],
  layers := [{ nodes := [0, 3],
               edges := [{ up := 0, down := 1, x := 1, y := 0 },
                         { up := 0, down := 2, x := 68, y := 0 },
                         { up := 3, down := 2, x := 72, y := 0 }],
               adapter := { enabled := false, inputs := [], outputs := [], height := 0, y := 0, rendering := [] } },
             { nodes := [1, 2],
               edges := [{ up := 1, down := 4, x := 1, y := 0 },
                         { up := 1, down := 5, x := 64, y := 0 },
                         { up := 2, down := 5, x := 68, y := 0 }],
               adapter := { enabled := false, inputs := [], outputs := [], height := 0, y := 0, rendering := [] } },
             { nodes := [4, 5],
               edges := [{ up := 4, down := 6, x := 1, y := 0 },
                         { up := 4, down := 7, x := 60, y := 0 },
                         { up := 5, down := 7, x := 64, y := 0 }],
               adapter := { enabled := false, inputs := [], outputs := [], height := 0, y := 0, rendering := [] } },
             { nodes := [6, 7],
               edges := [{ up := 6, down := 8, x := 1, y := 0 },
                         { up := 6, down := 9, x := 56, y := 0 },
                         { up := 7, down := 9, x := 60, y := 0 }],
               adapter := { enabled := false, inputs := [], outputs := [], height := 0, y := 0, rendering := [] } },
             { nodes := [8, 9],
               edges := [{ up := 8, down := 10, x := 1, y := 0 },
                         { up := 8, down := 11, x := 56, y := 0 },
                         { up := 9, down := 11, x := 56, y := 0 }],
               adapter := { enabled := false, inputs := [], outputs := [], height := 0, y := 0, rendering := [] } },
             { nodes := [10, 11],
               edges := [{ up := 10, down := 12, x := 1, y := 0 },
                         { up := 10, down := 13, x := 52, y := 0 },
                         { up := 11, down := 13, x := 52, y := 0 }],
               adapter := { enabled := false, inputs := [], outputs := [], height := 0, y := 0, rendering := [] } },
             { nodes := [12, 13],
               edges := [{ up := 12, down := 14, x := 1, y := 0 },
                         { up := 12, down := 15, x := 48, y := 0 },
                         { up := 13, down := 15, x := 48, y := 0 }],
               adapter := { enabled := false, inputs := [], outputs := [], height := 0, y := 0, rendering := [] } },
             { nodes := [14, 15],
               edges := [{ up := 14, down := 16, x := 1, y := 0 },
                         { up := 14, down := 17, x := 44, y := 0 },
                         { up := 15, down := 17, x := 44, y := 0 }],
               adapter := { enabled := false, inputs := [], outputs := [], height := 0, y := 0, rendering := [] } },
             { nodes := [16, 17],
               edges := [{ up := 16, down := 18, x := 1, y := 0 },
                         { up := 16, down := 19, x := 40, y := 0 },
                         { up := 17, down := 19, x := 40, y := 0 }],
               adapter := { enabled := false, inputs := [], outputs := [], height := 0, y := 0, rendering := [] } },
             { nodes := [18, 19],
               edges := [{ up := 18, down := 20, x := 1, y := 0 },
                         { up := 18, down := 21, x := 37, y := 0 },
                         { up := 19, down := 21, x := 36, y := 0 }],
               adapter := { enabled := false, inputs := [], outputs := [], height := 0, y := 0, rendering := [] } },
             { nodes := [20, 21],
               edges := [{ up := 20, down := 22, x := 1, y := 0 },
                         { up := 20, down := 23, x := 33, y := 0 },
                         { up := 21, down := 23, x := 33, y := 0 }],
               adapter := { enabled := false, inputs := [], outputs := [], height := 0, y := 0, rendering := [] } },
             { nodes := [22, 23],
               edges := [{ up := 22, down := 24, x := 1, y := 0 },
                         { up := 22, down := 25, x := 29, y := 0 },
                         { up := 23, down := 25, x := 29, y := 0 }],
               adapter := { enabled := false, inputs := [], outputs := [], height := 0, y := 0, rendering := [] } },
             { nodes := [24, 25],
               edges := [{ up := 24, down := 26, x := 1, y := 0 },
                         { up := 24, down := 27, x := 25, y := 0 },
                         { up := 25, down := 27, x := 25, y := 0 }],
               adapter := { enabled := false, inputs := [], outputs := [], height := 0, y := 0, rendering := [] } },
             { nodes := [26, 27],
               edges := [{ up := 26, down := 28, x := 1, y := 0 },
                         { up := 26, down := 29, x := 21, y := 0 },
                         { up := 27, down := 29, x := 21, y := 0 }],
               adapter := { enabled := false, inputs := [], outputs := [], height := 0, y := 0, rendering := [] } },
             { nodes := [28, 29],
               edges := [{ up := 28, down := 30, x := 1, y := 0 },
                         { up := 28, down := 31, x := 17, y := 0 },
                         { up := 29, down := 31, x := 17, y := 0 }],
               adapter := { enabled := false, inputs := [], outputs := [], height := 0, y := 0, rendering := [] } },
             { nodes := [30, 31],
               edges := [{ up := 30, down := 32, x := 1, y := 0 },
                         { up := 30, down := 33, x := 13, y := 0 },
                         { up := 31, down := 33, x := 13, y := 0 }],
               adapter := { enabled := false, inputs := [], outputs := [], height := 0, y := 0, rendering := [] } },
             { nodes := [32, 33],
               edges := [{ up := 32, down := 34, x := 1, y := 0 },
                         { up := 32, down := 35, x := 9, y := 0 },
                         { up := 33, down := 35, x := 0, y := 0 }],
               adapter := { enabled := false, inputs := [], outputs := [], height := 0, y := 0, rendering := [] } },
             { nodes := [34, 35],
               edges := [{ up := 34, down := 36, x := 0, y := 0 },
                         { up := 34, down := 37, x := 0, y := 0 },
                         { up := 35, down := 37, x := 0, y := 0 }],
               adapter := { enabled := false, inputs := [], outputs := [], height := 0, y := 0, rendering := [] } },
             { nodes := [36, 37],
               edges := [{ up := 36, down := 38, x := 0, y := 0 },
                         { up := 36, down := 39, x := 0, y := 0 },
                         { up := 37, down := 39, x := 0, y := 0 }],
               adapter := { enabled := false, inputs := [], outputs := [], height := 0, y := 0, rendering := [] } },
             { nodes := [38, 39],
               edges := [{ up := 38, down := 40, x := 0, y := 0 },
                         { up := 38, down := 41, x := 0, y := 0 },
                         { up := 39, down := 41, x := 0, y := 0 }],
               adapter := { enabled := false, inputs := [], outputs := [], height := 0, y := 0, rendering := [] } },
             { nodes := [40, 41],
               edges := [{ up := 40, down := 42, x := 0, y := 0 },
                         { up := 40, down := 43, x := 0, y := 0 },
                         { up := 41, down := 43, x := 0, y := 0 }],
               adapter := { enabled := false, inputs := [], outputs := [], height := 0, y := 0, rendering := [] } },
             { nodes := [42, 43],
               edges := [{ up := 42, down := 44, x := 0, y := 0 },
                         { up := 42, down := 45, x := 0, y := 0 },
                         { up := 43, down := 45, x := 0, y := 0 }],
               adapter := { enabled := false, inputs := [], outputs := [], height := 0, y := 0, rendering := [] } },
             { nodes := [44, 45],
               edges := [],
               adapter := { enabled := false, inputs := [], outputs := [], height := 0, y := 0, rendering := [] } }] }

def c9s800 : Context :=
{ labels := [['X', '0', '0'],
             ['X', '1', '0'],
             ['X', '1', '1'],
             ['X', '0', '1'],
             ['X', '2', '0'],
             ['X', '2', '1'],
             ['X', '3', '0'],
             ['X', '3', '1'],
             ['X', '4', '0'],
             ['X', '4', '1'],
             ['X', '5', '0'],
             ['X', '5', '1'],
             ['X', '6', '0'],
             ['X', '6', '1'],
             ['X', '7', '0'],
             ['X', '7', '1'],
             ['X', '8', '0'],
             ['X', '8', '1'],
             ['X', '9', '0'],
             ['X', '9', '1'],
             ['X', '1', '0', '0'],
             ['X', '1', '0', '1'],
             ['X', '1', '1', '0'],
             ['X', '1', '1', '1'],
             ['X', '1', '2', '0'],
             ['X', '1', '2', '1'],
             ['X', '1', '3', '0'],
             ['X', '1', '3', '1'],
             ['X', '1', '4', '0'],
             ['X', '1', '4', '1'],
             ['X', '1', '5', '0'],
             ['X', '1', '5', '1'],
             ['X', '1', '6', '0'],
             ['X', '1', '6', '1'],
             ['X', '1', '7', '0'],
             ['X', '1', '7', '1'],
             ['X', '1', '8', '0'],
             ['X', '1', '8', '1'],
             ['X', '1', '9', '0'],
             ['X', '1', '9', '1'],
             ['X', '2', '0', '0'],
             ['X', '2', '0', '1'],
             ['X', '2', '1', '0'],
             ['X', '2', '1', '1'],
             ['X', '2', '2', '0'],
             ['X', '2', '2', '1']],
  id := [(['X', '0', '0'], 0),
         (['X', '1', '0'], 1),
         (['X', '1', '1'], 2),
         (['X', '0', '1'], 3),
         (['X', '2', '0'], 4),
         (['X', '2', '1'], 5),
         (['X', '3', '0'], 6),
         (['X', '3', '1'], 7),
         (['X', '4', '0'], 8),
         (['X', '4', '1'], 9),
         (['X', '5', '0'], 10),
         (['X', '5', '1'], 11),
         (['X', '6', '0'], 12),
         (['X', '6', '1'], 13),
         (['X', '7', '0'], 14),
         (['X', '7', '1'], 15),
         (['X', '8', '0'], 16),
         (['X', '8', '1'], 17),
         (['X', '9', '0'], 18),
         (['X', '9', '1'], 19),
         (['X', '1', '0', '0'], 20),
         (['X', '1', '0', '1'], 21),
         (['X', '1', '1', '0'], 22),
         (['X', '1', '1', '1'], 23),
         (['X', '1', '2', '0'], 24),
         (['X', '1', '2', '1'], 25),
         (['X', '1', '3', '0'], 26),
         (['X', '1', '3', '1'], 27),
         (['X', '1', '4', '0'], 28),
         (['X', '1', '4', '1'], 29),
         (['X', '1', '5', '0'], 30),
         (['X', '1', '5', '1'], 31),
         (['X', '1', '6', '0'], 32),
         (['X', '1', '6', '1'], 33),
         (['X', '1', '7', '0'], 34),
         (['X', '1', '7', '1'], 35),
         (['X', '1', '8', '0'], 36),
         (['X', '1', '8', '1'], 37),
         (['X', '1', '9', '0'], 38),
         (['X', '1', '9', '1'], 39),
         (['X', '2', '0', '0'], 40),
         (['X', '2', '0', '1'], 41),
         (['X', '2', '1', '0'], 42),
         (['X', '2', '1', '1'], 43),
         (['X', '2', '2', '0'], 44),
         (['X', '2', '2', '1'], 45)],
  nodes := [{ upward := [],
              downward := [1, 2],
              is_connector := false,
              padding := 1,
              layer := 0,
              row := 0,
              downward_closure := [1, 4, 6, 8, 10, 12, 14, 16, 18, 20, 22, 24, 26, 28, 30, 32, 34, 36, 38, 40, 42, 44,
                                   45, 43, 41, 39, 37, 35, 33, 31, 29, 27, 25, 23, 21, 19, 17, 15, 13, 11, 9, 7, 5, 2],
              upward_sorted := [],
              downward_sorted := [1, 2],
              width := 83,
              height := 3,
              x := 0,
              y := 0 },
            { upward := [0],
              downward := [4, 5],
              is_connector := false,
              padding := 1,
              layer := 1,
              row := 0,
              downward_closure := [4, 6, 8, 10, 12, 14, 16, 18, 20, 22, 24, 26, 28, 30, 32, 34, 36, 38, 40, 42, 44, 45,
                                   43, 41, 39, 37, 35, 33, 31, 29, 27, 25, 23, 21, 19, 17, 15, 13, 11, 9, 7, 5],
              upward_sorted := [0],
              downward_sorted := [4, 5],
              width := 79,
              height := 3,
              x := 0,
              y := 0 },
            { upward := [0, 3],
              downward := [5],
              is_connector := false,
              padding := 1,
              layer := 1,
              row := 1,
              downward_closure := [5, 7, 9, 11, 13, 15, 17, 19, 21, 23, 25, 27, 29, 31, 33, 35, 37, 39, 41, 43, 45],
              upward_sorted := [0, 3],
              downward_sorted := [5],
              width := 7,
              height := 3,
              x := 79,
              y := 0 },
            { upward := [],
              downward := [2],
              is_connector := false,
              padding := 1,
              layer := 0,
              row := 1,
              downward_closure := [2, 5, 7, 9, 11, 13, 15, 17, 19, 21, 23, 25, 27, 29, 31, 33, 35, 37, 39, 41, 43, 45],
              upward_sorted := [],
              downward_sorted := [2],
              width := 7,
              height := 3,
              x := 83,
              y := 0 },
            { upward := [1],
              downward := [6, 7],
              is_connector := false,
              padding := 1,
              layer := 2,
              row := 0,
              downward_closure := [6, 8, 10, 12, 14, 16, 18, 20, 22, 24, 26, 28, 30, 32, 34, 36, 38, 40, 42, 44, 45, 43,
                                   41, 39, 37, 35, 33, 31, 29, 27, 25, 23, 21, 19, 17, 15, 13, 11, 9, 7],
              upward_sorted := [1],
              downward_sorted := [6, 7],
              width := 75,
              height := 3,
              x := 0,
              y := 0 },
            { upward := [1, 2],
              downward := [7],
              is_connector := false,
              padding := 1,
              layer := 2,
              row := 1,
              downward_closure := [7, 9, 11, 13, 15, 17, 19, 21, 23, 25, 27, 29, 31, 33, 35, 37, 39, 41, 43, 45],
              upward_sorted := [1, 2],
              downward_sorted := [7],
              width := 7,
              height := 3,
              x := 75,
              y := 0 },
            { upward := [4],
              downward := [8, 9],
              is_connector := false,
              padding := 1,
              layer := 3,
              row := 0,
              downward_closure := [8, 10, 12, 14, 16, 18, 20, 22, 24, 26, 28, 30, 32, 34, 36, 38, 40, 42, 44, 45, 43,
                                   41, 39, 37, 35, 33, 31, 29, 27, 25, 23, 21, 19, 17, 15, 13, 11, 9],
              upward_sorted := [4],
              downward_sorted := [8, 9],
              width := 71,
              height := 3,
              x := 0,
              y := 0 },
            { upward := [4, 5],
              downward := [9],
              is_connector := false,
              padding := 1,
              layer := 3,
              row := 1,
              downward_closure := [9, 11, 13, 15, 17, 19, 21, 23, 25, 27, 29, 31, 33, 35, 37, 39, 41, 43, 45],
              upward_sorted := [4, 5],
              downward_sorted := [9],
              width := 7,
              height := 3,
              x := 71,
              y := 0 },
            { upward := [6],
              downward := [10, 11],
              is_connector := false,
              padding := 1,
              layer := 4,
              row := 0,
              downward_closure := [10, 12, 14, 16, 18, 20, 22, 24, 26, 28, 30, 32, 34, 36, 38, 40, 42, 44, 45, 43, 41,
                                   39, 37, 35, 33, 31, 29, 27, 25, 23, 21, 19, 17, 15, 13, 11],
              upward_sorted := [6],
              downward_sorted := [10, 11],
              width := 67,
              height := 3,
              x := 0,
              y := 0 },
            { upward := [6, 7],
              downward := [11],
              is_connector := false,
              padding := 1,
              layer := 4,
              row := 1,
              downward_closure := [11, 13, 15, 17, 19, 21, 23, 25, 27, 29, 31, 33, 35, 37, 39, 41, 43, 45],
              upward_sorted := [6, 7],
              downward_sorted := [11],
              width := 7,
              height := 3,
              x := 67,
              y := 0 },
            { upward := [8],
              downward := [12, 13],
              is_connector := false,
              padding := 1,
              layer := 5,
              row := 0,
              downward_closure := [12, 14, 16, 18, 20, 22, 24, 26, 28, 30, 32, 34, 36, 38, 40, 42, 44, 45, 43, 41, 39,
                                   37, 35, 33, 31, 29, 27, 25, 23, 21, 19, 17, 15, 13],
              upward_sorted := [8],
              downward_sorted := [12, 13],
              width := 63,
              height := 3,
              x := 0,
              y := 0 },
            { upward := [8, 9],
              downward := [13],
              is_connector := false,
              padding := 1,
              layer := 5,
              row := 1,
              downward_closure := [13, 15, 17, 19, 21, 23, 25, 27, 29, 31, 33, 35, 37, 39, 41, 43, 45],
              upward_sorted := [8, 9],
              downward_sorted := [13],
              width := 7,
              height := 3,
              x := 63,
              y := 0 },
            { upward := [10],
              downward := [14, 15],
              is_connector := false,
              padding := 1,
              layer := 6,
              row := 0,
              downward_closure := [14, 16, 18, 20, 22, 24, 26, 28, 30, 32, 34, 36, 38, 40, 42, 44, 45, 43, 41, 39, 37,
                                   35, 33, 31, 29, 27, 25, 23, 21, 19, 17, 15],
              upward_sorted := [10],
              downward_sorted := [14, 15],
              width := 59,
              height := 3,
              x := 0,
              y := 0 },
            { upward := [10, 11],
              downward := [15],
              is_connector := false,
              padding := 1,
              layer := 6,
              row := 1,
              downward_closure := [15, 17, 19, 21, 23, 25, 27, 29, 31, 33, 35, 37, 39, 41, 43, 45],
              upward_sorted := [10, 11],
              downward_sorted := [15],
              width := 7,
              height := 3,
              x := 59,
              y := 0 },
            { upward := [12],
              downward := [16, 17],
              is_connector := false,
              padding := 1,
              layer := 7,
              row := 0,
              downward_closure := [16, 18, 20, 22, 24, 26, 28, 30, 32, 34, 36, 38, 40, 42, 44, 45, 43, 41, 39, 37, 35,
                                   33, 31, 29, 27, 25, 23, 21, 19, 17],
              upward_sorted := [12],
              downward_sorted := [16, 17],
              width := 55,
              height := 3,
              x := 0,
              y := 0 },
            { upward := [12, 13],
              downward := [17],
              is_connector := false,
              padding := 1,
              layer := 7,
              row := 1,
              downward_closure := [17, 19, 21, 23, 25, 27, 29, 31, 33, 35, 37, 39, 41, 43, 45],
              upward_sorted := [12, 13],
              downward_sorted := [17],
              width := 7,
              height := 3,
              x := 55,
              y := 0 },
            { upward := [14],
              downward := [18, 19],
              is_connector := false,
              padding := 1,
              layer := 8,
              row := 0,
              downward_closure := [18, 20, 22, 24, 26, 28, 30, 32, 34, 36, 38, 40, 42, 44, 45, 43, 41, 39, 37, 35, 33,
                                   31, 29, 27, 25, 23, 21, 19],
              upward_sorted := [14],
              downward_sorted := [18, 19],
              width := 51,
              height := 3,
              x := 0,
              y := 0 },
            { upward := [14, 15],
              downward := [19],
              is_connector := false,
              padding := 1,
              layer := 8,
              row := 1,
              downward_closure := [19, 21, 23, 25, 27, 29, 31, 33, 35, 37, 39, 41, 43, 45],
              upward_sorted := [14, 15],
              downward_sorted := [19],
              width := 7,
              height := 3,
              x := 51,
              y := 0 },
            { upward := [16],
              downward := [20, 21],
              is_connector := false,
              padding := 1,
              layer := 9,
              row := 0,
              downward_closure := [20, 22, 24, 26, 28, 30, 32, 34, 36, 38, 40, 42, 44, 45, 43, 41, 39, 37, 35, 33, 31,
                                   29, 27, 25, 23, 21],
              upward_sorted := [16],
              downward_sorted := [20, 21],
              width := 47,
              height := 3,
              x := 0,
              y := 0 },
            { upward := [16, 17],
              downward := [21],
              is_connector := false,
              padding := 1,
              layer := 9,
              row := 1,
              downward_closure := [21, 23, 25, 27, 29, 31, 33, 35, 37, 39, 41, 43, 45],
              upward_sorted := [16, 17],
              downward_sorted := [21],
              width := 7,
              height := 3,
              x := 47,
              y := 0 },
            { upward := [18],
              downward := [22, 23],
              is_connector := false,
              padding := 1,
              layer := 10,
              row := 0,
              downward_closure := [22, 24, 26, 28, 30, 32, 34, 36, 38, 40, 42, 44, 45, 43, 41, 39, 37, 35, 33, 31, 29,
                                   27, 25, 23],
              upward_sorted := [18],
              downward_sorted := [22, 23],
              width := 44,
              height := 3,
              x := 0,
              y := 0 },
            { upward := [18, 19],
              downward := [23],
              is_connector := false,
              padding := 1,
              layer := 10,
              row := 1,
              downward_closure := [23, 25, 27, 29, 31, 33, 35, 37, 39, 41, 43, 45],
              upward_sorted := [18, 19],
              downward_sorted := [23],
              width := 8,
              height := 3,
              x := 44,
              y := 0 },
            { upward := [20],
              downward := [24, 25],
              is_connector := false,
              padding := 1,
              layer := 11,
              row := 0,
              downward_closure := [24, 26, 28, 30, 32, 34, 36, 38, 40, 42, 44, 45, 43, 41, 39, 37, 35, 33, 31, 29, 27,
                                   25],
              upward_sorted := [20],
              downward_sorted := [24, 25],
              width := 40,
              height := 3,
              x := 0,
              y := 0 },
            { upward := [20, 21],
              downward := [25],
              is_connector := false,
              padding := 1,
              layer := 11,
              row := 1,
              downward_closure := [25, 27, 29, 31, 33, 35, 37, 39, 41, 43, 45],
              upward_sorted := [20, 21],
              downward_sorted := [25],
              width := 8,
              height := 3,
              x := 40,
              y := 0 },
            { upward := [22],
              downward := [26, 27],
              is_connector := false,
              padding := 1,
              layer := 12,
              row := 0,
              downward_closure := [26, 28, 30, 32, 34, 36, 38, 40, 42, 44, 45, 43, 41, 39, 37, 35, 33, 31, 29, 27],
              upward_sorted := [22],
              downward_sorted := [26, 27],
              width := 36,
              height := 3,
              x := 0,
              y := 0 },
            { upward := [22, 23],
              downward := [27],
              is_connector := false,
              padding := 1,
              layer := 12,
              row := 1,
              downward_closure := [27, 29, 31, 33, 35, 37, 39, 41, 43, 45],
              upward_sorted := [22, 23],
              downward_sorted := [27],
              width := 8,
              height := 3,
              x := 36,
              y := 0 },
            { upward := [24],
              downward := [28, 29],
              is_connector := false,
              padding := 1,
              layer := 13,
              row := 0,
              downward_closure := [28, 30, 32, 34, 36, 38, 40, 42, 44, 45, 43, 41, 39, 37, 35, 33, 31, 29],
              upward_sorted := [24],
              downward_sorted := [28, 29],
              width := 32,
              height := 3,
              x := 0,
              y := 0 },
            { upward := [24, 25],
              downward := [29],
              is_connector := false,
              padding := 1,
              layer := 13,
              row := 1,
              downward_closure := [29, 31, 33, 35, 37, 39, 41, 43, 45],
              upward_sorted := [24, 25],
              downward_sorted := [29],
              width := 8,
              height := 3,
              x := 32,
              y := 0 },
            { upward := [26],
              downward := [30, 31],
              is_connector := false,
              padding := 1,
              layer := 14,
              row := 0,
              downward_closure := [30, 32, 34, 36, 38, 40, 42, 44, 45, 43, 41, 39, 37, 35, 33, 31],
              upward_sorted := [26],
              downward_sorted := [30, 31],
              width := 32,
              height := 3,
              x := 0,
              y := 0 },
            { upward := [26, 27],
              downward := [31],
              is_connector := false,
              padding := 1,
              layer := 14,
              row := 1,
              downward_closure := [31, 33, 35, 37, 39, 41, 43, 45],
              upward_sorted := [26, 27],
              downward_sorted := [31],
              width := 8,
              height := 3,
              x := 32,
              y := 0 },
            { upward := [28],
              downward := [32, 33],
              is_connector := false,
              padding := 1,
              layer := 15,
              row := 0,
              downward_closure := [32, 34, 36, 38, 40, 42, 44, 45, 43, 41, 39, 37, 35, 33],
              upward_sorted := [28],
              downward_sorted := [32, 33],
              width := 28,
              height := 3,
              x := 0,
              y := 0 },
            { upward := [28, 29],
              downward := [33],
              is_connector := false,
              padding := 1,
              layer := 15,
              row := 1,
              downward_closure := [33, 35, 37, 39, 41, 43, 45],
              upward_sorted := [28, 29],
              downward_sorted := [33],
              width := 8,
              height := 3,
              x := 28,
              y := 0 },
            { upward := [30],
              downward := [34, 35],
              is_connector := false,
              padding := 1,
              layer := 16,
              row := 0,
              downward_closure := [34, 36, 38, 40, 42, 44, 45, 43, 41, 39, 37, 35],
              upward_sorted := [30],
              downward_sorted := [34, 35],
              width := 24,
              height := 3,
              x := 0,
              y := 0 },
            { upward := [30, 31],
              downward := [35],
              is_connector := false,
              padding := 1,
              layer := 16,
              row := 1,
              downward_closure := [35, 37, 39, 41, 43, 45],
              upward_sorted := [30, 31],
              downward_sorted := [35],
              width := 8,
              height := 3,
              x := 24,
              y := 0 },
            { upward := [32],
              downward := [36, 37],
              is_connector := false,
              padding := 1,
              layer := 17,
              row := 0,
              downward_closure := [36, 38, 40, 42, 44, 45, 43, 41, 39, 37],
              upward_sorted := [32],
              downward_sorted := [36, 37],
              width := 20,
              height := 3,
              x := 0,
              y := 0 },
            { upward := [32, 33],
              downward := [37],
              is_connector := false,
              padding := 1,
              layer := 17,
              row := 1,
              downward_closure := [37, 39, 41, 43, 45],
              upward_sorted := [32, 33],
              downward_sorted := [37],
              width := 8,
              height := 3,
              x := 20,
              y := 0 },
            { upward := [34],
              downward := [38, 39],
              is_connector := false,
              padding := 1,
              layer := 18,
              row := 0,
              downward_closure := [38, 40, 42, 44, 45, 43, 41, 39],
              upward_sorted := [34],
              downward_sorted := [38, 39],
              width := 16,
              height := 3,
              x := 0,
              y := 0 },
            { upward := [34, 35],
              downward := [39],
              is_connector := false,
              padding := 1,
              layer := 18,
              row := 1,
              downward_closure := [39, 41, 43, 45],
              upward_sorted := [34, 35],
              downward_sorted := [39],
              width := 8,
              height := 3,
              x := 16,
              y := 0 },
            { upward := [36],
              downward := [40, 41],
              is_connector := false,
              padding := 1,
              layer := 19,
              row := 0,
              downward_closure := [40, 42, 44, 45, 43, 41],
              upward_sorted := [36],
              downward_sorted := [40, 41],
              width := 12,
              height := 3,
              x := 0,
              y := 0 },
            { upward := [36, 37],
              downward := [41],
              is_connector := false,
              padding := 1,
              layer := 19,
              row := 1,
              downward_closure := [41, 43, 45],
              upward_sorted := [36, 37],
              downward_sorted := [41],
              width := 8,
              height := 3,
              x := 12,
              y := 0 },
            { upward := [38],
              downward := [42, 43],
              is_connector := false,
              padding := 1,
              layer := 20,
              row := 0,
              downward_closure := [42, 44, 45, 43],
              upward_sorted := [38],
              downward_sorted := [42, 43],
              width := 8,
              height := 3,
              x := 0,
              y := 0 },
            { upward := [38, 39],
              downward := [43],
              is_connector := false,
              padding := 1,
              layer := 20,
              row := 1,
              downward_closure := [43, 45],
              upward_sorted := [38, 39],
              downward_sorted := [43],
              width := 8,
              height := 3,
              x := 8,
              y := 0 },
            { upward := [40],
              downward := [44, 45],
              is_connector := false,
              padding := 1,
              layer := 21,
              row := 0,
              downward_closure := [44, 45],
              upward_sorted := [40],
              downward_sorted := [44, 45],
              width := 8,
              height := 3,
              x := 0,
              y := 0 },
            { upward := [40, 41],
              downward := [45],
              is_connector := false,
              padding := 1,
              layer := 21,
              row := 1,
              downward_closure := [45],
              upward_sorted := [40, 41],
              downward_sorted := [45],
              width := 8,
              height := 3,
              x := 8,
              y := 0 },
            { upward := [42],
              downward := [],
              is_connector := false,
              padding := 1,
              layer := 22,
              row := 0,
              downward_closure := [],
              upward_sorted := [42],
              downward_sorted := [],
              width := 8,
              height := 3,
              x := 0,
              y := 0 },
            { upward := [42, 43],
              downward := [],
              is_connector := false,
              padding := 1,
              layer := 22,
              row := 1,
              downward_closure := [],
              upward_sorted := [42, 43],
              downward_sorted := [],
              width := 8,
              height := 3,
              x := 8,
              y := 0 }],
  layers := [{ nodes := [0, 3],
               edges := [{ up := 0, down := 1, x := 1, y := 0 },
                         { up := 0, down := 2, x := 80, y := 0 },
                         { up := 3, down := 2, x := 84, y := 0 }],
               adapter := { enabled := false, inputs := [], outputs := [], height := 0, y := 0, rendering := [] } },
             { nodes := [1, 2],
               edges := [{ up := 1, down := 4, x := 1, y := 0 },
                         { up := 1, down := 5, x := 76, y := 0 },
                         { up := 2, down := 5, x := 80, y := 0 }],
               adapter := { enabled := false, inputs := [], outputs := [], height := 0, y := 0, rendering := [] } },
             { nodes := [4, 5],
               edges := [{ up := 4, down := 6, x := 1, y := 0 },
                         { up := 4, down := 7, x := 72, y := 0 },
                         { up := 5, down := 7, x := 76, y := 0 }],
               adapter := { enabled := false, inputs := [], outputs := [], height := 0, y := 0, rendering := [] } },
             { nodes := [6, 7],
               edges := [{ up := 6, down := 8, x := 1, y := 0 },
                         { up := 6, down := 9, x := 68, y := 0 },
                         { up := 7, down := 9, x := 72, y := 0 }],
               adapter := { enabled := false, inputs := [], outputs := [], height := 0, y := 0, rendering := [] } },
             { nodes := [8, 9],
               edges := [{ up := 8, down := 10, x := 1, y := 0 },
                         { up := 8, down := 11, x := 64, y := 0 },
                         { up := 9, down := 11, x := 68, y := 0 }],
               adapter := { enabled := false, inputs := [], outputs := [], height := 0, y := 0, rendering := [] } },
             { nodes := [10, 11],
               edges := [{ up := 10, down := 12, x := 1, y := 0 },
                         { up := 10, down := 13, x := 60, y := 0 },
                         { up := 11, down := 13, x := 64, y := 0 }],
               adapter := { enabled := false, inputs := [], outputs := [], height := 0, y := 0, rendering := [] } },
             { nodes := [12, 13],
               edges := [{ up := 12, down := 14, x := 1, y := 0 },
                         { up := 12, down := 15, x := 56, y := 0 },
                         { up := 13, down := 15, x := 60, y := 0 }],
               adapter := { enabled := false, inputs := [], outputs := [], height := 0, y := 0, rendering := [] } },
             { nodes := [14, 15],
               edges := [{ up := 14, down := 16, x := 1, y := 0 },
                         { up := 14, down := 17, x := 52, y := 0 },
                         { up := 15, down := 17, x := 56, y := 0 }],
               adapter := { enabled := false, inputs := [], outputs := [], height := 0, y := 0, rendering := [] } },
             { nodes := [16, 17],
               edges := [{ up := 16, down := 18, x := 1, y := 0 },
                         { up := 16, down := 19, x := 48, y := 0 },
                         { up := 17, down := 19, x := 52, y := 0 }],
               adapter := { enabled := false, inputs := [], outputs := [], height := 0, y := 0, rendering := [] } },
             { nodes := [18, 19],
               edges := [{ up := 18, down := 20, x := 1, y := 0 },
                         { up := 18, down := 21, x := 45, y := 0 },
                         { up := 19, down := 21, x := 48, y := 0 }],
               adapter := { enabled := false, inputs := [], outputs := [], height := 0, y := 0, rendering := [] } },
             { nodes := [20, 21],
               edges := [{ up := 20, down := 22, x := 1, y := 0 },
                         { up := 20, down := 23, x := 41, y := 0 },
                         { up := 21, down := 23, x := 45, y := 0 }],
               adapter := { enabled := false, inputs := [], outputs := [], height := 0, y := 0, rendering := [] } },
             { nodes := [22, 23],
               edges := [{ up := 22, down := 24, x := 1, y := 0 },
                         { up := 22, down := 25, x := 37, y := 0 },
                         { up := 23, down := 25, x := 41, y := 0 }],
               adapter := { enabled := false, inputs := [], outputs := [], height := 0, y := 0, rendering := [] } },
             { nodes := [24, 25],
               edges := [{ up := 24, down := 26, x := 1, y := 0 },
                         { up := 24, down := 27, x := 33, y := 0 },
                         { up := 25, down := 27, x := 37, y := 0 }],
               adapter := { enabled := false, inputs := [], outputs := [], height := 0, y := 0, rendering := [] } },
             { nodes := [26, 27],
               edges := [{ up := 26, down := 28, x := 1, y := 0 },
                         { up := 26, down := 29, x := 33, y := 0 },
                         { up := 27, down := 29, x := 33, y := 0 }],
               adapter := { enabled := false, inputs := [], outputs := [], height := 0, y := 0, rendering := [] } },
             { nodes := [28, 29],
               edges := [{ up := 28, down := 30, x := 1, y := 0 },
                         { up := 28, down := 31, x := 29, y := 0 },
                         { up := 29, down := 31, x := 29, y := 0 }],
               adapter := { enabled := false, inputs := [], outputs := [], height := 0, y := 0, rendering := [] } },
             { nodes := [30, 31],
               edges := [{ up := 30, down := 32, x := 1, y := 0 },
                         { up := 30, down := 33, x := 25, y := 0 },
                         { up := 31, down := 33, x := 25, y := 0 }],
               adapter := { enabled := false, inputs := [], outputs := [], height := 0, y := 0, rendering := [] } },
             { nodes := [32, 33],
               edges := [{ up := 32, down := 34, x := 1, y := 0 },
                         { up := 32, down := 35, x := 21, y := 0 },
                         { up := 33, down := 35, x := 21, y := 0 }],
               adapter := { enabled := false, inputs := [], outputs := [], height := 0, y := 0, rendering := [] } },
             { nodes := [34, 35],
               edges := [{ up := 34, down := 36, x := 1, y := 0 },
                         { up := 34, down := 37, x := 17, y := 0 },
                         { up := 35, down := 37, x := 17, y := 0 }],
               adapter := { enabled := false, inputs := [], outputs := [], height := 0, y := 0, rendering := [] } },
             { nodes := [36, 37],
               edges := [{ up := 36, down := 38, x := 1, y := 0 },
                         { up := 36, down := 39, x := 13, y := 0 },
                         { up := 37, down := 39, x := 13, y := 0 }],
               adapter := { enabled := false, inputs := [], outputs := [], height := 0, y := 0, rendering := [] } },
             { nodes := [38, 39],
               edges := [{ up := 38, down := 40, x := 1, y := 0 },
                         { up := 38, down := 41, x := 9, y := 0 },
                         { up := 39, down := 41, x := 0, y := 0 }],
               adapter := { enabled := false, inputs := [], outputs := [], height := 0, y := 0, rendering := [] } },
             { nodes := [40, 41],
               edges := [{ up := 40, down := 42, x := 0, y := 0 },
                         { up := 40, down := 43, x := 0, y := 0 },
                         { up := 41, down := 43, x := 0, y := 0 }],
               adapter := { enabled := false, inputs := [], outputs := [], height := 0, y := 0, rendering := [] } },
             { nodes := [42, 43],
               edges := [{ up := 42, down := 44, x := 0, y := 0 },
                         { up := 42, down := 45, x := 0, y := 0 },
                         { up := 43, down := 45, x := 0, y := 0 }],
               adapter := { enabled := false, inputs := [], outputs := [], height := 0, y := 0, rendering := [] } },
             { nodes := [44, 45],
               edges := [],
               adapter := { enabled := false, inputs := [], outputs := [], height := 0, y := 0, rendering := [] } }] }

def c9s1000 : Context :=
{ labels := [['X', '0', '0'],
             ['X', '1', '0'],
             ['X', '1', '1'],
             ['X', '0', '1'],
             ['X', '2', '0'],
             ['X', '2', '1'],
             ['X', '3', '0'],
             ['X', '3', '1'],
             ['X', '4', '0'],
             ['X', '4', '1'],
             ['X', '5', '0'],
             ['X', '5', '1'],
             ['X', '6', '0'],
             ['X', '6', '1'],
             ['X', '7', '0'],
             ['X', '7', '1'],
             ['X', '8', '0'],
             ['X', '8', '1'],
             ['X', '9', '0'],
             ['X', '9', '1'],
             ['X', '1', '0', '0'],
             ['X', '1', '0', '1'],
             ['X', '1', '1', '0'],
             ['X', '1', '1', '1'],
             ['X', '1', '2', '0'],
             ['X', '1', '2', '1'],
             ['X', '1', '3', '0'],
             ['X', '1', '3', '1'],
             ['X', '1', '4', '0'],
             ['X', '1', '4', '1'],
             ['X', '1', '5', '0'],
             ['X', '1', '5', '1'],
             ['X', '1', '6', '0'],
             ['X', '1', '6', '1'],
             ['X', '1', '7', '0'],
             ['X', '1', '7', '1'],
             ['X', '1', '8', '0'],
             ['X', '1', '8', '1'],
             ['X', '1', '9', '0'],
             ['X', '1', '9', '1'],
             ['X', '2', '0', '0'],
             ['X', '2', '0', '1'],
             ['X', '2', '1', '0'],
             ['X', '2', '1', '1'],
             ['X', '2', '2', '0'],
             ['X', '2', '2', '1']],
  id := [(['X', '0', '0'], 0),
         (['X', '1', '0'], 1),
         (['X', '1', '1'], 2),
         (['X', '0', '1'], 3),
         (['X', '2', '0'], 4),
         (['X', '2', '1'], 5),
         (['X', '3', '0'], 6),
         (['X', '3', '1'], 7),
         (['X', '4', '0'], 8),
         (['X', '4', '1'], 9),
         (['X', '5', '0'], 10),
         (['X', '5', '1'], 11),
         (['X', '6', '0'], 12),
         (['X', '6', '1'], 13),
         (['X', '7', '0'], 14),
         (['X', '7', '1'], 15),
         (['X', '8', '0'], 16),
         (['X', '8', '1'], 17),
         (['X', '9', '0'], 18),
         (['X', '9', '1'], 19),
         (['X', '1', '0', '0'], 20),
         (['X', '1', '0', '1'], 21),
         (['X', '1', '1', '0'], 22),
         (['X', '1', '1', '1'], 23),
         (['X', '1', '2', '0'], 24),
         (['X', '1', '2', '1'], 25),
         (['X', '1', '3', '0'], 26),
         (['X', '1', '3', '1'], 27),
         (['X', '1', '4', '0'], 28),
         (['X', '1', '4', '1'], 29),
         (['X', '1', '5', '0'], 30),
         (['X', '1', '5', '1'], 31),
         (['X', '1', '6', '0'], 32),
         (['X', '1', '6', '1'], 33),
         (['X', '1', '7', '0'], 34),
         (['X', '1', '7', '1'], 35),
         (['X', '1', '8', '0'], 36),
         (['X', '1', '8', '1'], 37),
         (['X', '1', '9', '0'], 38),
         (['X', '1', '9', '1'], 39),
         (['X', '2', '0', '0'], 40),
         (['X', '2', '0', '1'], 41),
         (['X', '2', '1', '0'], 42),
         (['X', '2', '1', '1'], 43),
         (['X', '2', '2', '0'], 44),
         (['X', '2', '2', '1'], 45)],
  nodes := [{ upward := [],
              downward := [1, 2],
              is_connector := false,
              padding := 1,
              layer := 0,
              row := 0,
              downward_closure := [1, 4, 6, 8, 10, 12, 14, 16, 18, 20, 22, 24, 26, 28, 30, 32, 34, 36, 38, 40, 42, 44,
                                   45, 43, 41, 39, 37, 35, 33, 31, 29, 27, 25, 23, 21, 19, 17, 15, 13, 11, 9, 7, 5, 2],
              upward_sorted := [],
              downward_sorted := [1, 2],
              width := 91,
              height := 3,
              x := 0,
              y := 0 },
            { upward := [0],
              downward := [4, 5],
              is_connector := false,
              padding := 1,
              layer := 1,
              row := 0,
              downward_closure := [4, 6, 8, 10, 12, 14, 16, 18, 20, 22, 24, 26, 28, 30, 32, 34, 36, 38, 40, 42, 44, 45,
                                   43, 41, 39, 37, 35, 33, 31, 29, 27, 25, 23, 21, 19, 17, 15, 13, 11, 9, 7, 5],
              upward_sorted := [0],
              downward_sorted := [4, 5],
              width := 87,
              height := 3,
              x := 0,
              y := 0 },
            { upward := [0, 3],
              downward := [5],
              is_connector := false,
              padding := 1,
              layer := 1,
              row := 1,
              downward_closure := [5, 7, 9, 11, 13, 15, 17, 19, 21, 23, 25, 27, 29, 31, 33, 35, 37, 39, 41, 43, 45],
              upward_sorted := [0, 3],
              downward_sorted := [5],
              width := 7,
              height := 3,
              x := 87,
              y := 0 },
            { upward := [],
              downward := [2],
              is_connector := false,
              padding := 1,
              layer := 0,
              row := 1,
              downward_closure := [2, 5, 7, 9, 11, 13, 15, 17, 19, 21, 23, 25, 27, 29, 31, 33, 35, 37, 39, 41, 43, 45],
              upward_sorted := [],
              downward_sorted := [2],
              width := 7,
              height := 3,
              x := 91,
              y := 0 },
            { upward := [1],
              downward := [6, 7],
              is_connector := false,
              padding := 1,
              layer := 2,
              row := 0,
              downward_closure := [6, 8, 10, 12, 14, 16, 18, 20, 22, 24, 26, 28, 30, 32, 34, 36, 38, 40, 42, 44, 45, 43,
                                   41, 39, 37, 35, 33, 31, 29, 27, 25, 23, 21, 19, 17, 15, 13, 11, 9, 7],
              upward_sorted := [1],
              downward_sorted := [6, 7],
              width := 83,
              height := 3,
              x := 0,
              y := 0 },
            { upward := [1, 2],
              downward := [7],
              is_connector := false,
              padding := 1,
              layer := 2,
              row := 1,
              downward_closure := [7, 9, 11, 13, 15, 17, 19, 21, 23, 25, 27, 29, 31, 33, 35, 37, 39, 41, 43, 45],
              upward_sorted := [1, 2],
              downward_sorted := [7],
              width := 7,
              height := 3,
              x := 83,
              y := 0 },
            { upward := [4],
              downward := [8, 9],
              is_connector := false,
              padding := 1,
              layer := 3,
              row := 0,
              downward_closure := [8, 10, 12, 14, 16, 18, 20, 22, 24, 26, 28, 30, 32, 34, 36, 38, 40, 42, 44, 45, 43,
                                   41, 39, 37, 35, 33, 31, 29, 27, 25, 23, 21, 19, 17, 15, 13, 11, 9],
              upward_sorted := [4],
              downward_sorted := [8, 9],
              width := 79,
              height := 3,
              x := 0,
              y := 0 },
            { upward := [4, 5],
              downward := [9],
              is_connector := false,
              padding := 1,
              layer := 3,
              row := 1,
              downward_closure := [9, 11, 13, 15, 17, 19, 21, 23, 25, 27, 29, 31, 33, 35, 37, 39, 41, 43, 45],
              upward_sorted := [4, 5],
              downward_sorted := [9],
              width := 7,
              height := 3,
              x := 79,
              y := 0 },
            { upward := [6],
              downward := [10, 11],
              is_connector := false,
              padding := 1,
              layer := 4,
              row := 0,
              downward_closure := [10, 12, 14, 16, 18, 20, 22, 24, 26, 28, 30, 32, 34, 36, 38, 40, 42, 44, 45, 43, 41,
                                   39, 37, 35, 33, 31, 29, 27, 25, 23, 21, 19, 17, 15, 13, 11],
              upward_sorted := [6],
              downward_sorted := [10, 11],
              width := 79,
              height := 3,
              x := 0,
              y := 0 },
            { upward := [6, 7],
              downward := [11],
              is_connector := false,
              padding := 1,
              layer := 4,
              row := 1,
              downward_closure := [11, 13, 15, 17, 19, 21, 23, 25, 27, 29, 31, 33, 35, 37, 39, 41, 43, 45],
              upward_sorted := [6, 7],
              downward_sorted := [11],
              width := 7,
              height := 3,
              x := 75,
              y := 0 },
            { upward := [8],
              downward := [12, 13],
              is_connector := false,
              padding := 1,
              layer := 5,
              row := 0,
              downward_closure := [12, 14, 16, 18, 20, 22, 24, 26, 28, 30, 32, 34, 36, 38, 40, 42, 44, 45, 43, 41, 39,
                                   37, 35, 33, 31, 29, 27, 25, 23, 21, 19, 17, 15, 13],
              upward_sorted := [8],
              downward_sorted := [12, 13],
              width := 75,
              height := 3,
              x := 0,
              y := 0 },
            { upward := [8, 9],
              downward := [13],
              is_connector := false,
              padding := 1,
              layer := 5,
              row := 1,
              downward_closure := [13, 15, 17, 19, 21, 23, 25, 27, 29, 31, 33, 35, 37, 39, 41, 43, 45],
              upward_sorted := [8, 9],
              downward_sorted := [13],
              width := 7,
              height := 3,
              x := 75,
              y := 0 },
            { upward := [10],
              downward := [14, 15],
              is_connector := false,
              padding := 1,
              layer := 6,
              row := 0,
              downward_closure := [14, 16, 18, 20, 22, 24, 26, 28, 30, 32, 34, 36, 38, 40, 42, 44, 45, 43, 41, 39, 37,
                                   35, 33, 31, 29, 27, 25, 23, 21, 19, 17, 15],
              upward_sorted := [10],
              downward_sorted := [14, 15],
              width := 71,
              height := 3,
              x := 0,
              y := 0 },
            { upward := [10, 11],
              downward := [15],
              is_connector := false,
              padding := 1,
              layer := 6,
              row := 1,
              downward_closure := [15, 17, 19, 21, 23, 25, 27, 29, 31, 33, 35, 37, 39, 41, 43, 45],
              upward_sorted := [10, 11],
              downward_sorted := [15],
              width := 7,
              height := 3,
              x := 71,
              y := 0 },
            { upward := [12],
              downward := [16, 17],
              is_connector := false,
              padding := 1,
              layer := 7,
              row := 0,
              downward_closure := [16, 18, 20, 22, 24, 26, 28, 30, 32, 34, 36, 38, 40, 42, 44, 45, 43, 41, 39, 37, 35,
                                   33, 31, 29, 27, 25, 23, 21, 19, 17],
              upward_sorted := [12],
              downward_sorted := [16, 17],
              width := 67,
              height := 3,
              x := 0,
              y := 0 },
            { upward := [12, 13],
              downward := [17],
              is_connector := false,
              padding := 1,
              layer := 7,
              row := 1,
              downward_closure := [17, 19, 21, 23, 25, 27, 29, 31, 33, 35, 37, 39, 41, 43, 45],
              upward_sorted := [12, 13],
              downward_sorted := [17],
              width := 7,
              height := 3,
              x := 67,
              y := 0 },
            { upward := [14],
              downward := [18, 19],
              is_connector := false,
              padding := 1,
              layer := 8,
              row := 0,
              downward_closure := [18, 20, 22, 24, 26, 28, 30, 32, 34, 36, 38, 40, 42, 44, 45, 43, 41, 39, 37, 35, 33,
                                   31, 29, 27, 25, 23, 21, 19],
              upward_sorted := [14],
              downward_sorted := [18, 19],
              width := 63,
              height := 3,
              x := 0,
              y := 0 },
            { upward := [14, 15],
              downward := [19],
              is_connector := false,
              padding := 1,
              layer := 8,
              row := 1,
              downward_closure := [19, 21, 23, 25, 27, 29, 31, 33, 35, 37, 39, 41, 43, 45],
              upward_sorted := [14, 15],
              downward_sorted := [19],
              width := 7,
              height := 3,
              x := 63,
              y := 0 },
            { upward := [16],
              downward := [20, 21],
              is_connector := false,
              padding := 1,
              layer := 9,
              row := 0,
              downward_closure := [20, 22, 24, 26, 28, 30, 32, 34, 36, 38, 40, 42, 44, 45, 43, 41, 39, 37, 35, 33, 31,
                                   29, 27, 25, 23, 21],
              upward_sorted := [16],
              downward_sorted := [20, 21],
              width := 59,
              height := 3,
              x := 0,
              y := 0 },
            { upward := [16, 17],
              downward := [21],
              is_connector := false,
              padding := 1,
              layer := 9,
              row := 1,
              downward_closure := [21, 23, 25, 27, 29, 31, 33, 35, 37, 39, 41, 43, 45],
              upward_sorted := [16, 17],
              downward_sorted := [21],
              width := 7,
              height := 3,
              x := 59,
              y := 0 },
            { upward := [18],
              downward := [22, 23],
              is_connector := false,
              padding := 1,
              layer := 10,
              row := 0,
              downward_closure := [22, 24, 26, 28, 30, 32, 34, 36, 38, 40, 42, 44, 45, 43, 41, 39, 37, 35, 33, 31, 29,
                                   27, 25, 23],
              upward_sorted := [18],
              downward_sorted := [22, 23],
              width := 56,
              height := 3,
              x := 0,
              y := 0 },
            { upward := [18, 19],
              downward := [23],
              is_connector := false,
              padding := 1,
              layer := 10,
              row := 1,
              downward_closure := [23, 25, 27, 29, 31, 33, 35, 37, 39, 41, 43, 45],
              upward_sorted := [18, 19],
              downward_sorted := [23],
              width := 8,
              height := 3,
              x := 56,
              y := 0 },
            { upward := [20],
              downward := [24, 25],
              is_connector := false,
              padding := 1,
              layer := 11,
              row := 0,
              downward_closure := [24, 26, 28, 30, 32, 34, 36, 38, 40, 42, 44, 45, 43, 41, 39, 37, 35, 33, 31, 29, 27,
                                   25],
              upward_sorted := [20],
              downward_sorted := [24, 25],
              width := 52,
              height := 3,
              x := 0,
              y := 0 },
            { upward := [20, 21],
              downward := [25],
              is_connector := false,
              padding := 1,
              layer := 11,
              row := 1,
              downward_closure := [25, 27, 29, 31, 33, 35, 37, 39, 41, 43, 45],
              upward_sorted := [20, 21],
              downward_sorted := [25],
              width := 8,
              height := 3,
              x := 52,
              y := 0 },
            { upward := [22],
              downward := [26, 27],
              is_connector := false,
              padding := 1,
              layer := 12,
              row := 0,
              downward_closure := [26, 28, 30, 32, 34, 36, 38, 40, 42, 44, 45, 43, 41, 39, 37, 35, 33, 31, 29, 27],
              upward_sorted := [22],
              downward_sorted := [26, 27],
              width := 48,
              height := 3,
              x := 0,
              y := 0 },
            { upward := [22, 23],
              downward := [27],
              is_connector := false,
              padding := 1,
              layer := 12,
              row := 1,
              downward_closure := [27, 29, 31, 33, 35, 37, 39, 41, 43, 45],
              upward_sorted := [22, 23],
              downward_sorted := [27],
              width := 8,
              height := 3,
              x := 48,
              y := 0 },
            { upward := [24],
              downward := [28, 29],
              is_connector := false,
              padding := 1,
              layer := 13,
              row := 0,
              downward_closure := [28, 30, 32, 34, 36, 38, 40, 42, 44, 45, 43, 41, 39, 37, 35, 33, 31, 29],
              upward_sorted := [24],
              downward_sorted := [28, 29],
              width := 44,
              height := 3,
              x := 0,
              y := 0 },
            { upward := [24, 25],
              downward := [29],
              is_connector := false,
              padding := 1,
              layer := 13,
              row := 1,
              downward_closure := [29, 31, 33, 35, 37, 39, 41, 43, 45],
              upward_sorted := [24, 25],
              downward_sorted := [29],
              width := 8,
              height := 3,
              x := 44,
              y := 0 },
            { upward := [26],
              downward := [30, 31],
              is_connector := false,
              padding := 1,
              layer := 14,
              row := 0,
              downward_closure := [30, 32, 34, 36, 38, 40, 42, 44, 45, 43, 41, 39, 37, 35, 33, 31],
              upward_sorted := [26],
              downward_sorted := [30, 31],
              width := 40,
              height := 3,
              x := 0,
              y := 0 },
            { upward := [26, 27],
              downward := [31],
              is_connector := false,
              padding := 1,
              layer := 14,
              row := 1,
              downward_closure := [31, 33, 35, 37, 39, 41, 43, 45],
              upward_sorted := [26, 27],
              downward_sorted := [31],
              width := 8,
              height := 3,
              x := 40,
              y := 0 },
            { upward := [28],
              downward := [32, 33],
              is_connector := false,
              padding := 1,
              layer := 15,
              row := 0,
              downward_closure := [32, 34, 36, 38, 40, 42, 44, 45, 43, 41, 39, 37, 35, 33],
              upward_sorted := [28],
              downward_sorted := [32, 33],
              width := 36,
              height := 3,
              x := 0,
              y := 0 },
            { upward := [28, 29],
              downward := [33],
              is_connector := false,
              padding := 1,
              layer := 15,
              row := 1,
              downward_closure := [33, 35, 37, 39, 41, 43, 45],
              upward_sorted := [28, 29],
              downward_sorted := [33],
              width := 8,
              height := 3,
              x := 36,
              y := 0 },
            { upward := [30],
              downward := [34, 35],
              is_connector := false,
              padding := 1,
              layer := 16,
              row := 0,
              downward_closure := [34, 36, 38, 40, 42, 44, 45, 43, 41, 39, 37, 35],
              upward_sorted := [30],
              downward_sorted := [34, 35],
              width := 32,
              height := 3,
              x := 0,
              y := 0 },
            { upward := [30, 31],
              downward := [35],
              is_connector := false,
              padding := 1,
              layer := 16,
              row := 1,
              downward_closure := [35, 37, 39, 41, 43, 45],
              upward_sorted := [30, 31],
              downward_sorted := [35],
              width := 8,
              height := 3,
              x := 32,
              y := 0 },
            { upward := [32],
              downward := [36, 37],
              is_connector := false,
              padding := 1,
              layer := 17,
              row := 0,
              downward_closure := [36, 38, 40, 42, 44, 45, 43, 41, 39, 37],
              upward_sorted := [32],
              downward_sorted := [36, 37],
              width := 28,
              height := 3,
              x := 0,
              y := 0 },
            { upward := [32, 33],
              downward := [37],
              is_connector := false,
              padding := 1,
              layer := 17,
              row := 1,
              downward_closure := [37, 39, 41, 43, 45],
              upward_sorted := [32, 33],
              downward_sorted := [37],
              width := 8,
              height := 3,
              x := 28,
              y := 0 },
            { upward := [34],
              downward := [38, 39],
              is_connector := false,
              padding := 1,
              layer := 18,
              row := 0,
              downward_closure := [38, 40, 42, 44, 45, 43, 41, 39],
              upward_sorted := [34],
              downward_sorted := [38, 39],
              width := 24,
              height := 3,
              x := 0,
              y := 0 },
            { upward := [34, 35],
              downward := [39],
              is_connector := false,
              padding := 1,
              layer := 18,
              row := 1,
              downward_closure := [39, 41, 43, 45],
              upward_sorted := [34, 35],
              downward_sorted := [39],
              width := 8,
              height := 3,
              x := 24,
              y := 0 },
            { upward := [36],
              downward := [40, 41],
              is_connector := false,
              padding := 1,
              layer := 19,
              row := 0,
              downward_closure := [40, 42, 44, 45, 43, 41],
              upward_sorted := [36],
              downward_sorted := [40, 41],
              width := 20,
              height := 3,
              x := 0,
              y := 0 },
            { upward := [36, 37],
              downward := [41],
              is_connector := false,
              padding := 1,
              layer := 19,
              row := 1,
              downward_closure := [41, 43, 45],
              upward_sorted := [36, 37],
              downward_sorted := [41],
              width := 8,
              height := 3,
              x := 20,
              y := 0 },
            { upward := [38],
              downward := [42, 43],
              is_connector := false,
              padding := 1,
              layer := 20,
              row := 0,
              downward_closure := [42, 44, 45, 43],
              upward_sorted := [38],
              downward_sorted := [42, 43],
              width := 16,
              height := 3,
              x := 0,
              y := 0 },
            { upward := [38, 39],
              downward := [43],
              is_connector := false,
              padding := 1,
              layer := 20,
              row := 1,
              downward_closure := [43, 45],
              upward_sorted := [38, 39],
              downward_sorted := [43],
              width := 8,
              height := 3,
              x := 16,
              y := 0 },
            { upward := [40],
              downward := [44, 45],
              is_connector := false,
              padding := 1,
              layer := 21,
              row := 0,
              downward_closure := [44, 45],
              upward_sorted := [40],
              downward_sorted := [44, 45],
              width := 12,
              height := 3,
              x := 0,
              y := 0 },
            { upward := [40, 41],
              downward := [45],
              is_connector := false,
              padding := 1,
              layer := 21,
              row := 1,
              downward_closure := [45],
              upward_sorted := [40, 41],
              downward_sorted := [45],
              width := 8,
              height := 3,
              x := 12,
              y := 0 },
            { upward := [42],
              downward := [],
              is_connector := false,
              padding := 1,
              layer := 22,
              row := 0,
              downward_closure := [],
              upward_sorted := [42],
              downward_sorted := [],
              width := 8,
              height := 3,
              x := 0,
              y := 0 },
            { upward := [42, 43],
              downward := [],
              is_connector := false,
              padding := 1,
              layer := 22,
              row := 1,
              downward_closure := [],
              upward_sorted := [42, 43],
              downward_sorted := [],
              width := 8,
              height := 3,
              x := 8,
              y := 0 }],
  layers := [{ nodes := [0, 3],
               edges := [{ up := 0, down := 1, x := 1, y := 0 },
                         { up := 0, down := 2, x := 88, y := 0 },
                         { up := 3, down := 2, x := 92, y := 0 }],
               adapter := { enabled := false, inputs := [], outputs := [], height := 0, y := 0, rendering := [] } },
             { nodes := [1, 2],
               edges := [{ up := 1, down := 4, x := 1, y := 0 },
                         { up := 1, down := 5, x := 84, y := 0 },
                         { up := 2, down := 5, x := 88, y := 0 }],
               adapter := { enabled := false, inputs := [], outputs := [], height := 0, y := 0, rendering := [] } },
             { nodes := [4, 5],
               edges := [{ up := 4, down := 6, x := 1, y := 0 },
                         { up := 4, down := 7, x := 80, y := 0 },
                         { up := 5, down := 7, x := 84, y := 0 }],
               adapter := { enabled := false, inputs := [], outputs := [], height := 0, y := 0, rendering := [] } },
             { nodes := [6, 7],
               edges := [{ up := 6, down := 8, x := 1, y := 0 },
                         { up := 6, down := 9, x := 76, y := 0 },
                         { up := 7, down := 9, x := 80, y := 0 }],
               adapter := { enabled := false, inputs := [], outputs := [], height := 0, y := 0, rendering := [] } },
             { nodes := [8, 9],
               edges := [{ up := 8, down := 10, x := 1, y := 0 },
                         { up := 8, down := 11, x := 76, y := 0 },
                         { up := 9, down := 11, x := 76, y := 0 }],
               adapter := { enabled := false, inputs := [], outputs := [], height := 0, y := 0, rendering := [] } },
             { nodes := [10, 11],
               edges := [{ up := 10, down := 12, x := 1, y := 0 },
                         { up := 10, down := 13, x := 72, y := 0 },
                         { up := 11, down := 13, x := 72, y := 0 }],
               adapter := { enabled := false, inputs := [], outputs := [], height := 0, y := 0, rendering := [] } },
             { nodes := [12, 13],
               edges := [{ up := 12, down := 14, x := 1, y := 0 },
                         { up := 12, down := 15, x := 68, y := 0 },
                         { up := 13, down := 15, x := 68, y := 0 }],
               adapter := { enabled := false, inputs := [], outputs := [], height := 0, y := 0, rendering := [] } },
             { nodes := [14, 15],
               edges := [{ up := 14, down := 16, x := 1, y := 0 },
                         { up := 14, down := 17, x := 64, y := 0 },
                         { up := 15, down := 17, x := 64, y := 0 }],
               adapter := { enabled := false, inputs := [], outputs := [], height := 0, y := 0, rendering := [] } },
             { nodes := [16, 17],
               edges := [{ up := 16, down := 18, x := 1, y := 0 },
                         { up := 16, down := 19, x := 60, y := 0 },
                         { up := 17, down := 19, x := 60, y := 0 }],
               adapter := { enabled := false, inputs := [], outputs := [], height := 0, y := 0, rendering := [] } },
             { nodes := [18, 19],
               edges := [{ up := 18, down := 20, x := 1, y := 0 },
                         { up := 18, down := 21, x := 57, y := 0 },
                         { up := 19, down := 21, x := 56, y := 0 }],
               adapter := { enabled := false, inputs := [], outputs := [], height := 0, y := 0, rendering := [] } },
             { nodes := [20, 21],
               edges := [{ up := 20, down := 22, x := 1, y := 0 },
                         { up := 20, down := 23, x := 53, y := 0 },
                         { up := 21, down := 23, x := 53, y := 0 }],
               adapter := { enabled := false, inputs := [], outputs := [], height := 0, y := 0, rendering := [] } },
             { nodes := [22, 23],
               edges := [{ up := 22, down := 24, x := 1, y := 0 },
                         { up := 22, down := 25, x := 49, y := 0 },
                         { up := 23, down := 25, x := 49, y := 0 }],
               adapter := { enabled := false, inputs := [], outputs := [], height := 0, y := 0, rendering := [] } },
             { nodes := [24, 25],
               edges := [{ up := 24, down := 26, x := 1, y := 0 },
                         { up := 24, down := 27, x := 45, y := 0 },
                         { up := 25, down := 27, x := 45, y := 0 }],
               adapter := { enabled := false, inputs := [], outputs := [], height := 0, y := 0, rendering := [] } },
             { nodes := [26, 27],
               edges := [{ up := 26, down := 28, x := 1, y := 0 },
                         { up := 26, down := 29, x := 41, y := 0 },
                         { up := 27, down := 29, x := 41, y := 0 }],
               adapter := { enabled := false, inputs := [], outputs := [], height := 0, y := 0, rendering := [] } },
             { nodes := [28, 29],
               edges := [{ up := 28, down := 30, x := 1, y := 0 },
                         { up := 28, down := 31, x := 37, y := 0 },
                         { up := 29, down := 31, x := 37, y := 0 }],
               adapter := { enabled := false, inputs := [], outputs := [], height := 0, y := 0, rendering := [] } },
             { nodes := [30, 31],
               edges := [{ up := 30, down := 32, x := 1, y := 0 },
                         { up := 30, down := 33, x := 33, y := 0 },
                         { up := 31, down := 33, x := 33, y := 0 }],
               adapter := { enabled := false, inputs := [], outputs := [], height := 0, y := 0, rendering := [] } },
             { nodes := [32, 33],
               edges := [{ up := 32, down := 34, x := 1, y := 0 },
                         { up := 32, down := 35, x := 29, y := 0 },
                         { up := 33, down := 35, x := 29, y := 0 }],
               adapter := { enabled := false, inputs := [], outputs := [], height := 0, y := 0, rendering := [] } },
             { nodes := [34, 35],
               edges := [{ up := 34, down := 36, x := 1, y := 0 },
                         { up := 34, down := 37, x := 25, y := 0 },
                         { up := 35, down := 37, x := 25, y := 0 }],
               adapter := { enabled := false, inputs := [], outputs := [], height := 0, y := 0, rendering := [] } },
             { nodes := [36, 37],
               edges := [{ up := 36, down := 38, x := 1, y := 0 },
                         { up := 36, down := 39, x := 21, y := 0 },
                         { up := 37, down := 39, x := 21, y := 0 }],
               adapter := { enabled := false, inputs := [], outputs := [], height := 0, y := 0, rendering := [] } },
             { nodes := [38, 39],
               edges := [{ up := 38, down := 40, x := 1, y := 0 },
                         { up := 38, down := 41, x := 17, y := 0 },
                         { up := 39, down := 41, x := 17, y := 0 }],
               adapter := { enabled := false, inputs := [], outputs := [], height := 0, y := 0, rendering := [] } },
             { nodes := [40, 41],
               edges := [{ up := 40, down := 42, x := 1, y := 0 },
                         { up := 40, down := 43, x := 13, y := 0 },
                         { up := 41, down := 43, x := 13, y := 0 }],
               adapter := { enabled := false, inputs := [], outputs := [], height := 0, y := 0, rendering := [] } },
             { nodes := [42, 43],
               edges := [{ up := 42, down := 44, x := 1, y := 0 },
                         { up := 42, down := 45, x := 9, y := 0 },
                         { up := 43, down := 45, x := 0, y := 0 }],
               adapter := { enabled := false, inputs := [], outputs := [], height := 0, y := 0, rendering := [] } },
             { nodes := [44, 45],
               edges := [],
               adapter := { enabled := false, inputs := [], outputs := [], height := 0, y := 0, rendering := [] } }] }

/-- The direct-edge relation of a context: `b` is a downward
neighbour of `a`. -/
def stepRel (ctx : Context) (a b : Nat) : Prop :=
  b ∈ (getNode ctx a).downward

/-- A directed walk from `u` through the successive vertices `l`:
each list element is a downward neighbour of its predecessor. -/
def pathL (ctx : Context) : Nat → List Nat → Prop
  | _, [] => True
  | u, w :: rest => stepRel ctx u w ∧ pathL ctx w rest

/-- The last vertex of the walk `u :: l`. -/
def pathEnd : Nat → List Nat → Nat
  | u, [] => u
  | _, w :: rest => pathEnd w rest

/-- The input graph contains a directed cycle: a nonempty walk from
some vertex back to itself. -/
def HasCycle (ctx : Context) : Prop :=
  ∃ x l, pathL ctx x (l ++ [x])

/-- The sum of all layer values, the progress measure of `toposort`. -/
def layerSum (ctx : Context) : Nat := (ctx.nodes.map Node.layer).sum

/-- Every downward edge joins two in-range vertices (the second
component of `AdjInv`). -/
def DownBnd (ctx : Context) : Prop :=
  ∀ i j : Nat, j ∈ (getNode ctx i).downward →
    i < ctx.nodes.length ∧ j < ctx.nodes.length

/-- Every layer value is witnessed by a walk of that length ending at
the vertex — the invariant `toposort`'s passes maintain, which bounds
layers by the longest walk of an acyclic graph. -/
def LayerPathInv (ctx : Context) : Prop :=
  ∀ v : Nat, ∃ u l, pathL ctx u l ∧ pathEnd u l = v ∧
    l.length = (getNode ctx v).layer

/-!
# Theorems

Everything below is a proof about the embedding above: first a small
library of lemmas about the list helpers, then the claim theorems and
their witnesses.
-/

/-! ## Helper lemmas -/

theorem updN_nil (i : Nat) (f : α → α) : updN i f [] = [] := rfl

theorem updN_zero (f : α → α) (a : α) (l : List α) :
    updN 0 f (a :: l) = f a :: l := rfl

theorem updN_succ (i : Nat) (f : α → α) (a : α) (l : List α) :
    updN (i + 1) f (a :: l) = a :: updN i f l := rfl

theorem getIdx_nil (d : α) (i : Nat) : getIdx d [] i = d := rfl

theorem getIdx_zero (d : α) (a : α) (l : List α) : getIdx d (a :: l) 0 = a := rfl

theorem getIdx_succ (d : α) (a : α) (l : List α) (i : Nat) :
    getIdx d (a :: l) (i + 1) = getIdx d l i := rfl

theorem foldl_congr_id {f : β → α → β} {l : List α}
    (h : ∀ acc x, x ∈ l → f acc x = acc) : ∀ a : β, l.foldl f a = a := by
  induction l with
  | nil => intro a; rfl
  | cons x xs ih =>
    intro a
    rw [List.foldl_cons, h a x (List.mem_cons_self x xs)]
    exact ih (fun acc y hy => h acc y (List.mem_cons_of_mem x hy)) a

theorem getIdx_map_lt {f : α → β} (d : α) (e : β) {l : List α} {i : Nat}
    (h : i < l.length) : getIdx e (l.map f) i = f (getIdx d l i) := by
  induction l generalizing i with
  | nil => exact absurd h (Nat.not_lt_zero i)
  | cons a l ih =>
    cases i with
    | zero => rfl
    | succ i =>
      rw [List.map_cons, getIdx_succ, getIdx_succ]
      exact ih (Nat.lt_of_succ_lt_succ h)

theorem length_updN (i : Nat) (f : α → α) (l : List α) :
    (updN i f l).length = l.length := by
  induction l generalizing i with
  | nil => rfl
  | cons a l ih =>
    cases i with
    | zero => rfl
    | succ i => rw [updN_succ, List.length_cons, List.length_cons, ih]

theorem getIdx_updN_eq (d : α) (f : α → α) {l : List α} {j : Nat}
    (h : j < l.length) : getIdx d (updN j f l) j = f (getIdx d l j) := by
  induction l generalizing j with
  | nil => exact absurd h (Nat.not_lt_zero j)
  | cons a l ih =>
    cases j with
    | zero => rfl
    | succ j =>
      rw [updN_succ, getIdx_succ, getIdx_succ]
      exact ih (Nat.lt_of_succ_lt_succ h)

theorem getIdx_updN_ne (d : α) (f : α → α) (l : List α) {i j : Nat}
    (h : i ≠ j) : getIdx d (updN j f l) i = getIdx d l i := by
  induction l generalizing i j with
  | nil => rw [updN_nil]
  | cons a l ih =>
    cases j with
    | zero =>
      cases i with
      | zero => exact absurd rfl h
      | succ i => rfl
    | succ j =>
      cases i with
      | zero => rfl
      | succ i =>
        rw [updN_succ, getIdx_succ, getIdx_succ]
        exact ih (fun he => h (congrArg Nat.succ he))

theorem getIdx_replicate (d e : α) {n i : Nat} (h : i < n) :
    getIdx d (List.replicate n e) i = e := by
  induction n generalizing i with
  | zero => exact absurd h (Nat.not_lt_zero i)
  | succ n ih =>
    rw [List.replicate_succ]
    cases i with
    | zero => rfl
    | succ i => exact (getIdx_succ d e _ i).trans (ih (Nat.lt_of_succ_lt_succ h))

theorem aindex_mod {w h : Nat} {x : Nat} (hx : x < w) (y l : Nat) :
    aindex w h x y l % w = x := by
  unfold aindex
  rw [Nat.add_mul_mod_self_left, Nat.mod_eq_of_lt hx]

theorem aindex_div {w h : Nat} {x : Nat} (hx : x < w) (y l : Nat) :
    aindex w h x y l / w = y + h * l := by
  unfold aindex
  rw [Nat.add_mul_div_left _ _ (Nat.lt_of_le_of_lt (Nat.zero_le x) hx),
    Nat.div_eq_of_lt hx, Nat.zero_add]

theorem aindex_inj {w h x₁ y₁ l₁ x₂ y₂ l₂ : Nat}
    (hx₁ : x₁ < w) (hy₁ : y₁ < h) (hx₂ : x₂ < w) (hy₂ : y₂ < h)
    (he : aindex w h x₁ y₁ l₁ = aindex w h x₂ y₂ l₂) :
    x₁ = x₂ ∧ y₁ = y₂ ∧ l₁ = l₂ := by
  have hmx : x₁ = x₂ := by
    have := congrArg (· % w) he
    simpa [aindex_mod hx₁, aindex_mod hx₂] using this
  have hd : y₁ + h * l₁ = y₂ + h * l₂ := by
    have := congrArg (· / w) he
    simpa [aindex_div hx₁, aindex_div hx₂] using this
  have hmy : y₁ = y₂ := by
    have := congrArg (· % h) hd
    simpa [Nat.add_mul_mod_self_left, Nat.mod_eq_of_lt hy₁,
      Nat.mod_eq_of_lt hy₂] using this
  have hml : l₁ = l₂ := by
    have h0 : 0 < h := Nat.lt_of_le_of_lt (Nat.zero_le y₁) hy₁
    have := congrArg (· / h) hd
    simpa [Nat.add_mul_div_left _ _ h0, Nat.div_eq_of_lt hy₁,
      Nat.div_eq_of_lt hy₂] using this
  exact ⟨hmx, hmy, hml⟩

theorem aindex_lt {w h x y l : Nat} (hx : x < w) (hy : y < h) (hl : l < 3) :
    aindex w h x y l < w * h * 3 := by
  unfold aindex
  have h1 : y + h * l + 1 ≤ h * 3 := by
    have h2 : h * l ≤ h * 2 := Nat.mul_le_mul_left h (Nat.lt_succ_iff.mp hl)
    omega
  have h3 : w * (y + h * l + 1) ≤ w * (h * 3) := Nat.mul_le_mul_left w h1
  have h4 : w * (y + h * l + 1) = w * (y + h * l) + w := by ring
  have h5 : w * (h * 3) = w * h * 3 := by ring
  omega

theorem connect_edges (idx a b wt : Nat) (g : List ANode × List AEdge) :
    (connect idx a b wt g).2 =
      updN idx (fun e => { e with a := a, b := b, weight := wt }) g.2 := by
  obtain ⟨ns, es⟩ := g
  rfl

theorem updN_id (i : Nat) (l : List α) : updN i (fun a => a) l = l := by
  induction l generalizing i with
  | nil => rfl
  | cons a l ih =>
    cases i with
    | zero => rfl
    | succ i => rw [updN_succ, ih]

theorem if_updN (c : Prop) [Decidable c] (s : Nat) (f : α → α) (l : List α) :
    (if c then updN s f l else l) =
      updN s (fun e => if c then f e else e) l := by
  split_ifs with hc
  · rfl
  · exact (updN_id s l).symm

theorem gridCell_edges_eq (w h y : Nat) (g : List ANode × List AEdge)
    (x : Nat) :
    (gridCell w h y g x).2 =
      updN (aindex w h x y 2) (cWrite w h x y)
        (updN (aindex w h x y 1) (hWrite w h x y)
          (updN (aindex w h x y 0) (vWrite w h x y) g.2)) := by
  show (connect (aindex w h x y 2) (aindex w h x y 0) (aindex w h x y 1)
      (10 + ((h : Int) / 2 - (y : Int)) * ((h : Int) / 2 - (y : Int))).toNat
      (if 1 ≤ y ∧ y ≤ h - 3 ∧ x ≠ w - 1 then
        connect (aindex w h x y 1) (aindex w h x y 1)
          (aindex w h (x + 1) y 1) 1
          (if y ≠ h - 1 then
            connect (aindex w h x y 0) (aindex w h x y 0)
              (aindex w h x (y + 1) 0) 1 g
          else g)
      else
        (if y ≠ h - 1 then
          connect (aindex w h x y 0) (aindex w h x y 0)
            (aindex w h x (y + 1) 0) 1 g
        else g))).2 = _
  rw [connect_edges, apply_ite Prod.snd, connect_edges, apply_ite Prod.snd,
    connect_edges, if_updN, if_updN]
  rfl

theorem gridCell_edges_length (w h y : Nat) (g : List ANode × List AEdge)
    (x : Nat) : (gridCell w h y g x).2.length = g.2.length := by
  rw [gridCell_edges_eq, length_updN, length_updN, length_updN]

theorem gridCell_read_other (d : AEdge) (w h y x : Nat)
    (g : List ANode × List AEdge) (s : Nat)
    (h0 : s ≠ aindex w h x y 0) (h1 : s ≠ aindex w h x y 1)
    (h2 : s ≠ aindex w h x y 2) :
    getIdx d (gridCell w h y g x).2 s = getIdx d g.2 s := by
  rw [gridCell_edges_eq, getIdx_updN_ne d _ _ h2, getIdx_updN_ne d _ _ h1,
    getIdx_updN_ne d _ _ h0]

theorem gridCell_read_lanes (d : AEdge) {w h x y : Nat}
    (g : List ANode × List AEdge) (hlen : g.2.length = w * h * 3)
    (hx : x < w) (hy : y < h) :
    (getIdx d (gridCell w h y g x).2 (aindex w h x y 0) =
      vWrite w h x y (getIdx d g.2 (aindex w h x y 0))) ∧
    (getIdx d (gridCell w h y g x).2 (aindex w h x y 1) =
      hWrite w h x y (getIdx d g.2 (aindex w h x y 1))) ∧
    (getIdx d (gridCell w h y g x).2 (aindex w h x y 2) =
      cWrite w h x y (getIdx d g.2 (aindex w h x y 2))) := by
  have hne : ∀ l₁ l₂ : Nat, l₁ ≠ l₂ →
      aindex w h x y l₁ ≠ aindex w h x y l₂ := fun l₁ l₂ hl he =>
    hl (aindex_inj hx hy hx hy he).2.2
  have hb : ∀ l : Nat, l < 3 → aindex w h x y l < g.2.length := fun l hl =>
    hlen ▸ aindex_lt hx hy hl
  refine ⟨?_, ?_, ?_⟩
  · rw [gridCell_edges_eq, getIdx_updN_ne d _ _ (hne 0 2 (by omega)),
      getIdx_updN_ne d _ _ (hne 0 1 (by omega)),
      getIdx_updN_eq d _ (hb 0 (by omega))]
  · rw [gridCell_edges_eq, getIdx_updN_ne d _ _ (hne 1 2 (by omega)),
      getIdx_updN_eq d _ (by rw [length_updN]; exact hb 1 (by omega)),
      getIdx_updN_ne d _ _ (hne 1 0 (by omega))]
  · rw [gridCell_edges_eq,
      getIdx_updN_eq d _
        (by rw [length_updN, length_updN]; exact hb 2 (by omega)),
      getIdx_updN_ne d _ _ (hne 2 1 (by omega)),
      getIdx_updN_ne d _ _ (hne 2 0 (by omega))]

theorem rowFold_length (w h y : Nat) :
    ∀ (n : Nat) (g : List ANode × List AEdge),
      ((List.range n).foldl (gridCell w h y) g).2.length = g.2.length := by
  intro n
  induction n with
  | zero => intro g; rfl
  | succ n ih =>
    intro g
    rw [List.range_succ, List.foldl_append, List.foldl_cons, List.foldl_nil,
      gridCell_edges_length, ih]

theorem rowFold_other (d : AEdge) (w h y : Nat) :
    ∀ (n : Nat) (g : List ANode × List AEdge) (s : Nat),
      (∀ x l : Nat, x < n → l < 3 → s ≠ aindex w h x y l) →
      getIdx d ((List.range n).foldl (gridCell w h y) g).2 s =
        getIdx d g.2 s := by
  intro n
  induction n with
  | zero => intro g s _; rfl
  | succ n ih =>
    intro g s hs
    rw [List.range_succ, List.foldl_append, List.foldl_cons, List.foldl_nil,
      gridCell_read_other d w h y n _ s
        (hs n 0 (Nat.lt_succ_self n) (by omega))
        (hs n 1 (Nat.lt_succ_self n) (by omega))
        (hs n 2 (Nat.lt_succ_self n) (by omega)),
      ih g s (fun x l hx hl => hs x l (Nat.lt_succ_of_lt hx) hl)]

theorem rowFold_read (d : AEdge) {w h y : Nat} (hy : y < h) :
    ∀ (n : Nat) (g : List ANode × List AEdge) (x₀ : Nat), x₀ < n → n ≤ w →
      g.2.length = w * h * 3 →
      (getIdx d ((List.range n).foldl (gridCell w h y) g).2
          (aindex w h x₀ y 0) =
        vWrite w h x₀ y (getIdx d g.2 (aindex w h x₀ y 0))) ∧
      (getIdx d ((List.range n).foldl (gridCell w h y) g).2
          (aindex w h x₀ y 1) =
        hWrite w h x₀ y (getIdx d g.2 (aindex w h x₀ y 1))) ∧
      (getIdx d ((List.range n).foldl (gridCell w h y) g).2
          (aindex w h x₀ y 2) =
        cWrite w h x₀ y (getIdx d g.2 (aindex w h x₀ y 2))) := by
  intro n
  induction n with
  | zero => intro g x₀ hx₀ _ _; exact absurd hx₀ (Nat.not_lt_zero x₀)
  | succ n ih =>
    intro g x₀ hx₀ hnw hlen
    have hnlt : n < w := Nat.lt_of_lt_of_le (Nat.lt_succ_self n) hnw
    rw [List.range_succ, List.foldl_append, List.foldl_cons, List.foldl_nil]
    by_cases hxn : x₀ = n
    · subst hxn
      have huntouched : ∀ l₀ : Nat,
          getIdx d ((List.range x₀).foldl (gridCell w h y) g).2
            (aindex w h x₀ y l₀) = getIdx d g.2 (aindex w h x₀ y l₀) := by
        intro l₀
        refine rowFold_other d w h y x₀ g _ fun x l hx _ he => ?_
        exact absurd (aindex_inj hnlt hy (Nat.lt_of_lt_of_le
          (Nat.lt_of_lt_of_le hx (Nat.le_of_lt (Nat.lt_succ_self x₀))) hnw)
          hy he).1.symm (Nat.ne_of_lt hx)
      have hflen : ((List.range x₀).foldl (gridCell w h y) g).2.length =
          w * h * 3 := by rw [rowFold_length, hlen]
      obtain ⟨r0, r1, r2⟩ := gridCell_read_lanes d _ hflen hnlt hy
      exact ⟨by rw [r0, huntouched 0], by rw [r1, huntouched 1],
        by rw [r2, huntouched 2]⟩
    · have hx₀n : x₀ < n := by omega
      have hx₀w : x₀ < w := Nat.lt_of_lt_of_le hx₀n (Nat.le_of_lt hnw)
      have hcell : ∀ l₀ : Nat,
          getIdx d
            (gridCell w h y ((List.range n).foldl (gridCell w h y) g) n).2
            (aindex w h x₀ y l₀) =
          getIdx d ((List.range n).foldl (gridCell w h y) g).2
            (aindex w h x₀ y l₀) := by
        intro l₀
        refine gridCell_read_other d w h y n _ _ ?_ ?_ ?_ <;>
          exact fun he => hxn (aindex_inj hx₀w hy hnlt hy he).1
      obtain ⟨r0, r1, r2⟩ := ih g x₀ hx₀n (Nat.le_of_lt hnw) hlen
      exact ⟨by rw [hcell 0, r0], by rw [hcell 1, r1], by rw [hcell 2, r2]⟩

theorem gridRow_eq (w h : Nat) (g : List ANode × List AEdge) (y : Nat) :
    gridRow w h g y = (List.range w).foldl (gridCell w h y) g := rfl

theorem colFold_length (w h : Nat) :
    ∀ (n : Nat) (g : List ANode × List AEdge),
      ((List.range n).foldl (gridRow w h) g).2.length = g.2.length := by
  intro n
  induction n with
  | zero => intro g; rfl
  | succ n ih =>
    intro g
    rw [List.range_succ, List.foldl_append, List.foldl_cons, List.foldl_nil,
      gridRow_eq, rowFold_length, ih]

theorem colFold_other (d : AEdge) (w h : Nat) :
    ∀ (n : Nat) (g : List ANode × List AEdge) (s : Nat),
      (∀ x y l : Nat, x < w → y < n → l < 3 → s ≠ aindex w h x y l) →
      getIdx d ((List.range n).foldl (gridRow w h) g).2 s =
        getIdx d g.2 s := by
  intro n
  induction n with
  | zero => intro g s _; rfl
  | succ n ih =>
    intro g s hs
    rw [List.range_succ, List.foldl_append, List.foldl_cons, List.foldl_nil,
      gridRow_eq,
      rowFold_other d w h n w _ s
        (fun x l hx hl => hs x n l hx (Nat.lt_succ_self n) hl),
      ih g s (fun x y l hx hy hl => hs x y l hx (Nat.lt_succ_of_lt hy) hl)]

theorem colFold_read (d : AEdge) {w h x₀ y₀ : Nat} (hx₀ : x₀ < w) :
    ∀ (n : Nat) (g : List ANode × List AEdge), y₀ < n → n ≤ h →
      g.2.length = w * h * 3 →
      (getIdx d ((List.range n).foldl (gridRow w h) g).2
          (aindex w h x₀ y₀ 0) =
        vWrite w h x₀ y₀ (getIdx d g.2 (aindex w h x₀ y₀ 0))) ∧
      (getIdx d ((List.range n).foldl (gridRow w h) g).2
          (aindex w h x₀ y₀ 1) =
        hWrite w h x₀ y₀ (getIdx d g.2 (aindex w h x₀ y₀ 1))) ∧
      (getIdx d ((List.range n).foldl (gridRow w h) g).2
          (aindex w h x₀ y₀ 2) =
        cWrite w h x₀ y₀ (getIdx d g.2 (aindex w h x₀ y₀ 2))) := by
  intro n
  induction n with
  | zero => intro g hy₀ _ _; exact absurd hy₀ (Nat.not_lt_zero y₀)
  | succ n ih =>
    intro g hy₀ hnh hlen
    have hnlt : n < h := Nat.lt_of_lt_of_le (Nat.lt_succ_self n) hnh
    rw [List.range_succ, List.foldl_append, List.foldl_cons, List.foldl_nil]
    by_cases hyn : y₀ = n
    · subst hyn
      have huntouched : ∀ l₀ : Nat,
          getIdx d ((List.range y₀).foldl (gridRow w h) g).2
            (aindex w h x₀ y₀ l₀) = getIdx d g.2 (aindex w h x₀ y₀ l₀) := by
        intro l₀
        refine colFold_other d w h y₀ g _ fun x y l hx hy _ he => ?_
        exact absurd (aindex_inj hx₀ hnlt hx (Nat.lt_of_lt_of_le
          (Nat.lt_of_lt_of_le hy (Nat.le_of_lt (Nat.lt_succ_self y₀))) hnh)
          he).2.1.symm (Nat.ne_of_lt hy)
      have hflen : ((List.range y₀).foldl (gridRow w h) g).2.length =
          w * h * 3 := by rw [colFold_length, hlen]
      have hrow := rowFold_read d hnlt w _ x₀ hx₀ (Nat.le_refl w) hflen
      refine ⟨?_, ?_, ?_⟩ <;>
        [rw [gridRow_eq, hrow.1, huntouched 0];
         rw [gridRow_eq, hrow.2.1, huntouched 1];
         rw [gridRow_eq, hrow.2.2, huntouched 2]]
    · have hy₀n : y₀ < n := by omega
      have hy₀h : y₀ < h := Nat.lt_of_lt_of_le hy₀n (Nat.le_of_lt hnh)
      have hrowne : ∀ l₀ : Nat,
          getIdx d
            (gridRow w h ((List.range n).foldl (gridRow w h) g) n).2
            (aindex w h x₀ y₀ l₀) =
          getIdx d ((List.range n).foldl (gridRow w h) g).2
            (aindex w h x₀ y₀ l₀) := by
        intro l₀
        rw [gridRow_eq]
        refine rowFold_other d w h n w _ _ fun x l hx _ he => ?_
        exact hyn (aindex_inj hx₀ hy₀h hx hnlt he).2.1
      obtain ⟨r0, r1, r2⟩ := ih g hy₀n (Nat.le_of_lt hnh) hlen
      exact ⟨by rw [hrowne 0, r0], by rw [hrowne 1, r1], by rw [hrowne 2, r2]⟩

theorem buildGraph_read {w h x y : Nat} (hx : x < w) (hy : y < h) :
    (getIdx ({} : AEdge) (buildGraph w h).2 (aindex w h x y 0) =
      vWrite w h x y {}) ∧
    (getIdx ({} : AEdge) (buildGraph w h).2 (aindex w h x y 1) =
      hWrite w h x y {}) ∧
    (getIdx ({} : AEdge) (buildGraph w h).2 (aindex w h x y 2) =
      cWrite w h x y {}) := by
  have hbase : ∀ l : Nat, l < 3 →
      getIdx ({} : AEdge) (List.replicate (w * h * 3) ({} : AEdge))
        (aindex w h x y l) = ({} : AEdge) := fun l hl =>
    getIdx_replicate _ _ (aindex_lt hx hy hl)
  have hcol := colFold_read ({} : AEdge) hx h
    (List.replicate (w * h * 2) ({} : ANode),
      List.replicate (w * h * 3) ({} : AEdge))
    hy (Nat.le_refl h) (List.length_replicate _ _)
  have hbg : buildGraph w h = (List.range h).foldl (gridRow w h)
      (List.replicate (w * h * 2) ({} : ANode),
        List.replicate (w * h * 3) ({} : AEdge)) := rfl
  refine ⟨?_, ?_, ?_⟩
  · rw [hbg, hcol.1]; exact congrArg _ (hbase 0 (by omega))
  · rw [hbg, hcol.2.1]; exact congrArg _ (hbase 1 (by omega))
  · rw [hbg, hcol.2.2]; exact congrArg _ (hbase 2 (by omega))

/-! ## C2: determinism of `process` across hash-iteration orders -/

/-- Claim C2 (code-level falsification): with the insertion iteration
order, `process` renders `C` left of `D`; with the reversed order of
`A`'s downward set in `complete`, it renders `D` left of `C` — two runs
of the Rust program, whose per-instance `RandomState` seeds make both
orders possible, can therefore return different bytes for the same
input. -/
theorem c2_order_dependence :
    Context.processOrd (fun l => l) c2input ≠
      Context.processOrd (fun l => l.reverse) c2input := by
  have e1 : Context.processOrd (fun l => l) c2input = .ok "\u250c\u2500\u2500\u2500\u2500\u2500\u2500\u2500\u2500\u2500\u2510 \n\u2502    A    \u2502 \n\u2514\u252c\u2500\u252c\u2500\u2500\u2500\u2500\u2500\u252c\u2518 \n \u2502\u250c\u25bd\u2500\u2500\u2500\u2500\u2510\u2502  \n \u2502\u2502  B  \u2502\u2502  \n \u2502\u2514\u252c\u2500\u2500\u252c\u2500\u2518\u2502  \n\u250c\u25bd\u2500\u25bd\u2510\u250c\u25bd\u2500\u2500\u25bd\u2500\u2510\n\u2502 C \u2502\u2502  D  \u2502\n\u2514\u2500\u2500\u2500\u2518\u2514\u2500\u2500\u2500\u2500\u2500\u2518\n" := by rfl
  have e2 : Context.processOrd (fun l => l.reverse) c2input = .ok "\u250c\u2500\u2500\u2500\u2500\u2500\u2500\u2500\u2500\u2500\u2510 \n\u2502    A    \u2502 \n\u2514\u252c\u2500\u252c\u2500\u2500\u2500\u2500\u2500\u252c\u2518 \n \u2502\u250c\u25bd\u2500\u2500\u2500\u2500\u2510\u2502  \n \u2502\u2502  B  \u2502\u2502  \n \u2502\u2514\u252c\u2500\u2500\u252c\u2500\u2518\u2502  \n\u250c\u25bd\u2500\u25bd\u2510\u250c\u25bd\u2500\u2500\u25bd\u2500\u2510\n\u2502 D \u2502\u2502  C  \u2502\n\u2514\u2500\u2500\u2500\u2518\u2514\u2500\u2500\u2500\u2500\u2500\u2518\n" := by rfl
  rw [e1, e2]
  intro h
  exact absurd (Except.ok.inj h) (by decide)

/-! ## C4: empty inputs render to the empty string -/

/-- Claim C4: an input that parses to zero vertices (in particular any
input all of whose line tokens trim to nothing, which covers the empty
and whitespace-only strings) makes `process` return `Ok` with the empty
string. -/
theorem c4_empty_input (s : String) :
    ((({ } : Context).parse s.toList).nodes = [] → Context.process s = .ok "") ∧
    (blankTokensB s = true → Context.process s = .ok "") := by
  constructor
  · intro h
    show Context.processOrd (fun l => l) s = .ok ""
    rw [Context.processOrd]
    simp only [Context.is_empty, h, List.isEmpty_nil, if_true]
  · intro h
    have hparse : ∀ ctx : Context, ctx.parse s.toList = ctx := by
      intro ctx
      rw [Context.parse]
      apply foldl_congr_id
      intro acc line hline
      have hline2 : line ∈ splitNl [] s.toList := List.mem_of_mem_filter hline
      have hblank := (List.all_eq_true.mp h) line hline2
      have hparts := List.all_eq_true.mp hblank
      by_cases hempty : (trimChars line).isEmpty
      · simp only [hempty, if_true]
      · simp only [hempty, if_false]
        rw [Context.parseLine]
        have : ∀ (a : Context × Option (List Char)) (part : List Char),
            part ∈ (splitArrow [] (trimChars line)).filter (fun x => ¬x.isEmpty) →
            (fun (acc : Context × Option (List Char)) (part : List Char) =>
              if (trimChars part).isEmpty then acc
              else
                let ctx := acc.1.add_node (trimChars part)
                let ctx :=
                  match acc.2 with
                  | some p => (ctx.add_vertex p (trimChars part)).getD ctx
                  | none => ctx
                (ctx, some (trimChars part))) a part = a := by
          intro a part hpart
          have := hparts part (List.mem_of_mem_filter hpart)
          simp only [this]
          rfl
        rw [foldl_congr_id this]
        rfl
    have : (({ } : Context).parse s.toList).nodes = [] := by rw [hparse]
    show Context.processOrd (fun l => l) s = .ok ""
    rw [Context.processOrd]
    simp only [Context.is_empty, this, List.isEmpty_nil, if_true]

/-- Witness for C4 at the whitespace-and-empty-token input. -/
theorem c4_empty_input_witness :
    Context.process "  \n-> ->" = .ok "" ∧ blankTokensB "  \n-> ->" = true :=
  ⟨(c4_empty_input _).2 (by decide), by decide⟩

/-! ## C7: crossing resolution -/

/-- Claim C7: after `resolve_crossings`, a layer (bus-disabled
beforehand, as every layer is when `process` reaches this phase) is
marked bus-enabled exactly when its edge list sorted by
`(parent row, child row)` differs from the same list sorted by
`(child row, parent row)`; a bus-enabled layer has its direct-edge list
cleared, any other layer keeps it unchanged. -/
theorem c7_resolve_crossings (ctx : Context) (i : Nat)
    (h : i < ctx.layers.length)
    (h0 : (getLayer ctx i).adapter.enabled = false) :
    ((getLayer ctx.resolve_crossings i).adapter.enabled = true ↔
      sortByKey (fun e => ((getNode ctx e.up).row, (getNode ctx e.down).row))
          Context.pairLe (getLayer ctx i).edges ≠
        sortByKey (fun e => ((getNode ctx e.down).row, (getNode ctx e.up).row))
          Context.pairLe (getLayer ctx i).edges) ∧
    ((getLayer ctx.resolve_crossings i).adapter.enabled = true →
      (getLayer ctx.resolve_crossings i).edges = []) ∧
    ((getLayer ctx.resolve_crossings i).adapter.enabled = false →
      (getLayer ctx.resolve_crossings i).edges = (getLayer ctx i).edges) := by
  have hmap :
      getLayer ctx.resolve_crossings i =
        (fun L =>
          if sortByKey (fun e => ((getNode ctx e.up).row, (getNode ctx e.down).row))
                Context.pairLe L.edges =
              sortByKey (fun e => ((getNode ctx e.down).row, (getNode ctx e.up).row))
                Context.pairLe L.edges
          then L
          else { L with edges := [], adapter := { L.adapter with enabled := true } })
          (getLayer ctx i) := by
    show getLayerL (ctx.resolve_crossings).layers i = _
    rw [Context.resolve_crossings]
    exact getIdx_map_lt ({ } : Layer) ({ } : Layer) h
  by_cases hc :
      sortByKey (fun e => ((getNode ctx e.up).row, (getNode ctx e.down).row))
          Context.pairLe (getLayer ctx i).edges =
        sortByKey (fun e => ((getNode ctx e.down).row, (getNode ctx e.up).row))
          Context.pairLe (getLayer ctx i).edges
  · rw [hmap]
    beta_reduce
    rw [if_pos hc]
    refine ⟨?_, ?_, fun _ => rfl⟩
    · rw [h0]
      simp [hc]
    · intro hen
      rw [h0] at hen
      exact absurd hen (by decide)
  · rw [hmap]
    beta_reduce
    rw [if_neg hc]
    refine ⟨?_, fun _ => rfl, ?_⟩
    · simp [hc]
    · intro hen
      simp at hen

/-- Witness for C7: the crossing pair of `c7ctx` enables the bus and
clears the edge list. -/
theorem c7_resolve_crossings_witness :
    (getLayer c7ctx.resolve_crossings 0).adapter.enabled = true ∧
      (getLayer c7ctx.resolve_crossings 0).edges = [] := by
  have h := c7_resolve_crossings c7ctx 0 (by decide) rfl
  have hen : (getLayer c7ctx.resolve_crossings 0).adapter.enabled = true :=
    h.1.mpr (by decide)
  exact ⟨hen, h.2.1 hen⟩


/-! ## C5: lanes of the bus router's grid -/

/-- Claim C5, amended.  The spec says horizontal lane edges exist at the
interior rows excluding the top *two* rows and the bottom *one*
(`2 ≤ y ≤ h - 2`); the code's condition in `Adapter::construct` is
`y >= 1 && y <= height - 3 && x != width - 1`, i.e. it excludes the top
*one* row and the bottom *two* (and the last column).  This theorem
states the code's actual rule: a horizontal lane edge from column `x` to
`x + 1` exists at row `y` iff `1 ≤ y ∧ y ≤ h - 3 ∧ x ≠ w - 1` (with
weight 1), and a vertical lane edge from row `y` to `y + 1` exists iff
`y ≠ h - 1` (with weight 1). -/
theorem c5_grid_lanes {w h x y : Nat} (hx : x < w) (hy : y < h) :
    (getIdx ({} : AEdge) (buildGraph w h).2 (aindex w h x y 1) =
      if 1 ≤ y ∧ y ≤ h - 3 ∧ x ≠ w - 1 then
        { a := aindex w h x y 1, b := aindex w h (x + 1) y 1,
          weight := 1, assigned := 0 }
      else {}) ∧
    (getIdx ({} : AEdge) (buildGraph w h).2 (aindex w h x y 0) =
      if y ≠ h - 1 then
        { a := aindex w h x y 0, b := aindex w h x (y + 1) 0,
          weight := 1, assigned := 0 }
      else {}) := by
  obtain ⟨h0, h1, _⟩ := buildGraph_read hx hy
  exact ⟨h1, h0⟩

/-- Witness for C5: at `w = 3`, `h = 5`, the cell `(x, y) = (1, 2)` has
both a horizontal and a vertical lane edge. -/
theorem c5_grid_lanes_witness :
    (getIdx ({} : AEdge) (buildGraph 3 5).2 (aindex 3 5 1 2 1) =
      if 1 ≤ 2 ∧ 2 ≤ 5 - 3 ∧ 1 ≠ 3 - 1 then
        { a := aindex 3 5 1 2 1, b := aindex 3 5 (1 + 1) 2 1,
          weight := 1, assigned := 0 }
      else {}) ∧
    (getIdx ({} : AEdge) (buildGraph 3 5).2 (aindex 3 5 1 2 0) =
      if 2 ≠ 5 - 1 then
        { a := aindex 3 5 1 2 0, b := aindex 3 5 1 (2 + 1) 0,
          weight := 1, assigned := 0 }
      else {}) :=
  c5_grid_lanes (by decide) (by decide)

/-- Counterexample to C5 as stated: in a `w = 2`, `h = 5` grid, row
`y = 1` carries a horizontal lane edge (the slot holds a weight-1 edge,
not the empty default), yet the spec's excluded-top-two reading
`2 ≤ y ≤ h - 2` says it should not. -/
theorem c5_spec_counterexample :
    ¬ ((getIdx ({} : AEdge) (buildGraph 2 5).2 (aindex 2 5 0 1 1) ≠
        ({} : AEdge)) ↔ (2 ≤ 1 ∧ 1 ≤ 5 - 2)) := by
  decide

/-! ## C10: adjacency symmetry of the construction operations -/

theorem getIdx_ge (d : α) : ∀ {l : List α} {i : Nat}, l.length ≤ i →
    getIdx d l i = d := by
  intro l
  induction l with
  | nil => intro i _; rfl
  | cons a l ih =>
    intro i hi
    cases i with
    | zero => exact absurd hi (by simp)
    | succ i => rw [getIdx_succ]; exact ih (Nat.le_of_succ_le_succ hi)

theorem getIdx_append_lt (d : α) {l : List α} (l' : List α) :
    ∀ {i : Nat}, i < l.length → getIdx d (l ++ l') i = getIdx d l i := by
  induction l with
  | nil => intro i hi; exact absurd hi (Nat.not_lt_zero i)
  | cons a l ih =>
    intro i hi
    cases i with
    | zero => rfl
    | succ i =>
      rw [List.cons_append, getIdx_succ, getIdx_succ]
      exact ih (Nat.lt_of_succ_lt_succ hi)

theorem getIdx_append_at (d a : α) : ∀ l : List α,
    getIdx d (l ++ [a]) l.length = a := by
  intro l
  induction l with
  | nil => rfl
  | cons b l ih => rw [List.cons_append, List.length_cons, getIdx_succ]; exact ih

theorem getIdx_updN_read (d : α) (f : α → α) (l : List α) (j : Nat) :
    getIdx d (updN j f l) j =
      if j < l.length then f (getIdx d l j) else d := by
  split_ifs with h
  · exact getIdx_updN_eq d f h
  · rw [getIdx_ge d (by rw [length_updN]; omega)]

theorem getIdx_updN_comp (d : α) (π : α → β) (f : α → α)
    (hf : ∀ x, π (f x) = π x) (j : Nat) (l : List α) (i : Nat) :
    π (getIdx d (updN j f l) i) = π (getIdx d l i) := by
  by_cases hij : i = j
  · subst hij
    by_cases hlt : i < l.length
    · rw [getIdx_updN_eq d f hlt, hf]
    · rw [getIdx_ge d (by rw [length_updN]; omega), getIdx_ge d (by omega)]
  · rw [getIdx_updN_ne d f l hij]

theorem getNodeL_updN_ne (f : Node → Node) (l : List Node) {i j : Nat}
    (h : i ≠ j) : getNodeL (updN j f l) i = getNodeL l i := by
  unfold getNodeL
  exact getIdx_updN_ne _ f l h

theorem updN_down_read (g : List Nat → List Nat) (l : List Node) (j : Nat)
    (hj : j < l.length) :
    (getNodeL (updN j (fun n => { n with downward := g n.downward }) l)
      j).downward = g (getNodeL l j).downward := by
  unfold getNodeL
  rw [getIdx_updN_eq _ _ hj]

theorem updN_up_read (g : List Nat → List Nat) (l : List Node) (j : Nat)
    (hj : j < l.length) :
    (getNodeL (updN j (fun n => { n with upward := g n.upward }) l)
      j).upward = g (getNodeL l j).upward := by
  unfold getNodeL
  rw [getIdx_updN_eq _ _ hj]

theorem updN_up_keeps_down (g : List Nat → List Nat) (j : Nat)
    (l : List Node) (i : Nat) :
    (getNodeL (updN j (fun n => { n with upward := g n.upward }) l)
      i).downward = (getNodeL l i).downward := by
  unfold getNodeL
  exact getIdx_updN_comp ({} : Node) Node.downward
    (fun n => { n with upward := g n.upward }) (fun x => rfl) j l i

theorem updN_down_keeps_up (g : List Nat → List Nat) (j : Nat)
    (l : List Node) (i : Nat) :
    (getNodeL (updN j (fun n => { n with downward := g n.downward }) l)
      i).upward = (getNodeL l i).upward := by
  unfold getNodeL
  exact getIdx_updN_comp ({} : Node) Node.upward
    (fun n => { n with downward := g n.downward }) (fun x => rfl) j l i

theorem mem_sinsert {x v : Nat} {l : List Nat} :
    x ∈ sinsert v l ↔ x = v ∨ x ∈ l := by
  unfold sinsert
  split_ifs with hv
  · constructor
    · exact fun h => Or.inr h
    · rintro (rfl | h)
      · exact hv
      · exact h
  · rw [List.mem_append, List.mem_singleton]
    tauto

theorem mem_sremove {x v : Nat} {l : List Nat} :
    x ∈ sremove v l ↔ x ∈ l ∧ x ≠ v := by
  unfold sremove
  rw [List.mem_filter]
  simp

theorem foldl_pres {P : β → Prop} {f : β → α → β}
    (hf : ∀ b a, P b → P (f b a)) :
    ∀ (l : List α) (b : β), P b → P (l.foldl f b) := by
  intro l
  induction l with
  | nil => intro b hb; exact hb
  | cons a l ih => intro b hb; exact ih _ (hf b a hb)

theorem getNodeL_append_quiet {nd : Node} (h1 : nd.downward = [])
    (h2 : nd.upward = []) (ns : List Node) (i : Nat) :
    (getNodeL (ns ++ [nd]) i).downward = (getNodeL ns i).downward ∧
    (getNodeL (ns ++ [nd]) i).upward = (getNodeL ns i).upward := by
  unfold getNodeL
  rcases Nat.lt_trichotomy i ns.length with hlt | heq | hgt
  · rw [getIdx_append_lt _ _ hlt]
    exact ⟨rfl, rfl⟩
  · rw [heq, getIdx_append_at, getIdx_ge _ (Nat.le_refl _)]
    exact ⟨h1, h2⟩
  · rw [getIdx_ge _ (by rw [List.length_append, List.length_singleton]; omega),
      getIdx_ge _ (Nat.le_of_lt hgt)]
    exact ⟨rfl, rfl⟩

theorem adjInv_add_node {ctx : Context} (h : AdjInv ctx) (name : List Char) :
    AdjInv (ctx.add_node name) := by
  obtain ⟨hsym, hbnd, hid⟩ := h
  unfold Context.add_node
  cases hl : idLookup ctx.id name with
  | some k => exact ⟨hsym, hbnd, hid⟩
  | none =>
    have key := @getNodeL_append_quiet { padding := 1 } rfl rfl ctx.nodes
    refine ⟨fun i j => ?_, fun i j hj => ?_, fun p hp => ?_⟩
    · show j ∈ (getNodeL (ctx.nodes ++ [({ padding := 1 } : Node)]) i).downward ↔
        i ∈ (getNodeL (ctx.nodes ++ [({ padding := 1 } : Node)]) j).upward
      rw [(key i).1, (key j).2]
      exact hsym i j
    · have hj' : j ∈ (getNodeL (ctx.nodes ++ [({ padding := 1 } : Node)]) i).downward := hj
      rw [(key i).1] at hj'
      have := hbnd i j hj'
      show i < (ctx.nodes ++ [({ padding := 1 } : Node)]).length ∧
        j < (ctx.nodes ++ [({ padding := 1 } : Node)]).length
      rw [List.length_append, List.length_singleton]
      omega
    · have hp' : p ∈ ctx.id ++ [(name, ctx.nodes.length)] := hp
      show p.2 < (ctx.nodes ++ [({ padding := 1 } : Node)]).length
      rw [List.length_append, List.length_singleton]
      rcases List.mem_append.mp hp' with hin | hnew
      · have := hid p hin; omega
      · rw [List.mem_singleton] at hnew
        rw [hnew]
        omega

theorem idLookup_lt {ctx : Context}
    (hid : ∀ p ∈ ctx.id, p.2 < ctx.nodes.length) {name : List Char} {k : Nat}
    (h : idLookup ctx.id name = some k) : k < ctx.nodes.length := by
  unfold idLookup at h
  cases hf : ctx.id.find? (fun p => p.1 = name) with
  | none => rw [hf] at h; exact absurd h (by simp)
  | some p =>
    rw [hf] at h
    have hk : p.2 = k := by injection h
    rw [← hk]
    exact hid p (List.mem_of_find?_eq_some hf)

theorem adjInv_add_vertex {ctx ctx' : Context} (h : AdjInv ctx)
    {a b : List Char} (he : ctx.add_vertex a b = some ctx') : AdjInv ctx' := by
  obtain ⟨hsym, hbnd, hid⟩ := h
  have hsym' : ∀ i j : Nat, j ∈ (getNodeL ctx.nodes i).downward ↔
      i ∈ (getNodeL ctx.nodes j).upward := hsym
  have hbnd' : ∀ i j : Nat, j ∈ (getNodeL ctx.nodes i).downward →
      i < ctx.nodes.length ∧ j < ctx.nodes.length := hbnd
  unfold Context.add_vertex at he
  cases hla : idLookup ctx.id a with
  | none => rw [hla] at he; exact absurd he (by simp)
  | some ia =>
  cases hlb : idLookup ctx.id b with
  | none => rw [hla, hlb] at he; exact absurd he (by simp)
  | some ib =>
  rw [hla, hlb] at he
  have hia : ia < ctx.nodes.length := idLookup_lt hid hla
  have hib : ib < ctx.nodes.length := idLookup_lt hid hlb
  set ns : List Node :=
    updN ia (fun n => { n with downward := sinsert ib n.downward })
      (updN ib (fun n => { n with upward := sinsert ia n.upward })
        ctx.nodes) with hns
  have hctx' : ctx' = { ctx with nodes := ns } := by
    injection he with he'
    exact he'.symm
  have hlen : ns.length = ctx.nodes.length := by
    rw [hns, length_updN, length_updN]
  have hb1 : ia <
      (updN ib (fun n => { n with upward := sinsert ia n.upward })
        ctx.nodes).length := by
    rw [length_updN]; exact hia
  have hdw : ∀ i, (getNodeL ns i).downward =
      if i = ia then sinsert ib (getNodeL ctx.nodes i).downward
      else (getNodeL ctx.nodes i).downward := by
    intro i
    by_cases hiia : i = ia
    · rw [if_pos hiia, hiia, hns, updN_down_read _ _ _ hb1,
        updN_up_keeps_down]
    · rw [if_neg hiia, hns, getNodeL_updN_ne _ _ hiia, updN_up_keeps_down]
  have hup : ∀ j, (getNodeL ns j).upward =
      if j = ib then sinsert ia (getNodeL ctx.nodes j).upward
      else (getNodeL ctx.nodes j).upward := by
    intro j
    rw [hns, updN_down_keeps_up]
    by_cases hjib : j = ib
    · rw [if_pos hjib, hjib, updN_up_read _ _ _ hib]
    · rw [if_neg hjib, getNodeL_updN_ne _ _ hjib]
  rw [hctx']
  refine ⟨fun i j => ?_, fun i j hj => ?_, fun p hp => ?_⟩
  · show j ∈ (getNodeL ns i).downward ↔ i ∈ (getNodeL ns j).upward
    rw [hdw i, hup j]
    by_cases hiia : i = ia <;> by_cases hjib : j = ib
    · rw [if_pos hiia, if_pos hjib, mem_sinsert, mem_sinsert]
      have := hsym' i j
      tauto
    · rw [if_pos hiia, if_neg hjib, mem_sinsert]
      have := hsym' i j
      tauto
    · rw [if_neg hiia, if_pos hjib, mem_sinsert]
      have := hsym' i j
      tauto
    · rw [if_neg hiia, if_neg hjib]
      exact hsym' i j
  · replace hj : j ∈ (getNodeL ns i).downward := hj
    rw [hdw i] at hj
    show i < ns.length ∧ j < ns.length
    rw [hlen]
    by_cases hiia : i = ia
    · rw [if_pos hiia] at hj
      rcases mem_sinsert.mp hj with rfl | hmem
      · exact ⟨hiia ▸ hia, hib⟩
      · exact hbnd' i j hmem
    · rw [if_neg hiia] at hj
      exact hbnd' i j hj
  · replace hp : p ∈ ctx.id := hp
    show p.2 < ns.length
    rw [hlen]
    exact hid p hp

theorem adjInv_add_connector {ctx : Context} (h : AdjInv ctx) {a b : Nat}
    (ha : a < ctx.nodes.length) (hb : b < ctx.nodes.length) :
    AdjInv (ctx.add_connector a b) := by
  obtain ⟨hsym, hbnd, hid⟩ := h
  have hsym' : ∀ i j : Nat, j ∈ (getNodeL ctx.nodes i).downward ↔
      i ∈ (getNodeL ctx.nodes j).upward := hsym
  have hbnd' : ∀ i j : Nat, j ∈ (getNodeL ctx.nodes i).downward →
      i < ctx.nodes.length ∧ j < ctx.nodes.length := hbnd
  set cc := ctx.nodes.length with hcc
  set nd : Node :=
    { is_connector := true, padding := 0,
      layer := (getNode ctx a).layer + 1 } with hnd
  set ns0 : List Node := ctx.nodes ++ [nd] with hns0
  set ns1 : List Node :=
    updN a (fun n => { n with downward := sremove b n.downward })
      (updN b (fun n => { n with upward := sremove a n.upward }) ns0) with hns1
  set ns2 : List Node :=
    updN a (fun n => { n with downward := sinsert cc n.downward })
      (updN cc (fun n => { n with upward := sinsert a n.upward }) ns1) with hns2
  set ns3 : List Node :=
    updN cc (fun n => { n with downward := sinsert b n.downward })
      (updN b (fun n => { n with upward := sinsert cc n.upward }) ns2) with hns3
  have hlen0 : ns0.length = cc + 1 := by
    rw [hns0, List.length_append, List.length_singleton]
  have hlen1 : ns1.length = cc + 1 := by rw [hns1, length_updN, length_updN, hlen0]
  have hlen2 : ns2.length = cc + 1 := by rw [hns2, length_updN, length_updN, hlen1]
  have hlen3 : ns3.length = cc + 1 := by rw [hns3, length_updN, length_updN, hlen2]
  have hq := @getNodeL_append_quiet nd rfl rfl ctx.nodes
  have hD0 : ∀ i, (getNodeL ns0 i).downward = (getNodeL ctx.nodes i).downward :=
    fun i => (hq i).1
  have hU0 : ∀ i, (getNodeL ns0 i).upward = (getNodeL ctx.nodes i).upward :=
    fun i => (hq i).2
  have hbu1 : b < (updN b
      (fun n => { n with upward := sremove a n.upward }) ns0).length := by
    rw [length_updN, hlen0]; omega
  have hba1 : a < (updN b
      (fun n => { n with upward := sremove a n.upward }) ns0).length := by
    rw [length_updN, hlen0]; omega
  have hD1 : ∀ i, (getNodeL ns1 i).downward =
      if i = a then sremove b (getNodeL ns0 i).downward
      else (getNodeL ns0 i).downward := by
    intro i
    by_cases hiia : i = a
    · rw [if_pos hiia, hiia, hns1, updN_down_read _ _ _ hba1,
        updN_up_keeps_down]
    · rw [if_neg hiia, hns1, getNodeL_updN_ne _ _ hiia, updN_up_keeps_down]
  have hbns0 : b < ns0.length := by rw [hlen0]; omega
  have hU1 : ∀ i, (getNodeL ns1 i).upward =
      if i = b then sremove a (getNodeL ns0 i).upward
      else (getNodeL ns0 i).upward := by
    intro i
    rw [hns1, updN_down_keeps_up]
    by_cases hib : i = b
    · rw [if_pos hib, hib, updN_up_read _ _ _ hbns0]
    · rw [if_neg hib, getNodeL_updN_ne _ _ hib]
  have hca2 : a < (updN cc
      (fun n => { n with upward := sinsert a n.upward }) ns1).length := by
    rw [length_updN, hlen1]; omega
  have hD2 : ∀ i, (getNodeL ns2 i).downward =
      if i = a then sinsert cc (getNodeL ns1 i).downward
      else (getNodeL ns1 i).downward := by
    intro i
    by_cases hiia : i = a
    · rw [if_pos hiia, hiia, hns2, updN_down_read _ _ _ hca2,
        updN_up_keeps_down]
    · rw [if_neg hiia, hns2, getNodeL_updN_ne _ _ hiia, updN_up_keeps_down]
  have hcns1 : cc < ns1.length := by rw [hlen1]; omega
  have hU2 : ∀ i, (getNodeL ns2 i).upward =
      if i = cc then sinsert a (getNodeL ns1 i).upward
      else (getNodeL ns1 i).upward := by
    intro i
    rw [hns2, updN_down_keeps_up]
    by_cases hic : i = cc
    · rw [if_pos hic, hic, updN_up_read _ _ _ hcns1]
    · rw [if_neg hic, getNodeL_updN_ne _ _ hic]
  have hbc3 : cc < (updN b
      (fun n => { n with upward := sinsert cc n.upward }) ns2).length := by
    rw [length_updN, hlen2]; omega
  have hD3 : ∀ i, (getNodeL ns3 i).downward =
      if i = cc then sinsert b (getNodeL ns2 i).downward
      else (getNodeL ns2 i).downward := by
    intro i
    by_cases hic : i = cc
    · rw [if_pos hic, hic, hns3, updN_down_read _ _ _ hbc3,
        updN_up_keeps_down]
    · rw [if_neg hic, hns3, getNodeL_updN_ne _ _ hic, updN_up_keeps_down]
  have hbns2 : b < ns2.length := by rw [hlen2]; omega
  have hU3 : ∀ i, (getNodeL ns3 i).upward =
      if i = b then sinsert cc (getNodeL ns2 i).upward
      else (getNodeL ns2 i).upward := by
    intro i
    rw [hns3, updN_down_keeps_up]
    by_cases hib : i = b
    · rw [if_pos hib, hib, updN_up_read _ _ _ hbns2]
    · rw [if_neg hib, getNodeL_updN_ne _ _ hib]
  have hanec : a ≠ cc := by omega
  have hbnec : b ≠ cc := by omega
  have hDcc : (getNodeL ctx.nodes cc).downward = [] := by
    show (getIdx ({} : Node) ctx.nodes cc).downward = []
    rw [getIdx_ge _ (Nat.le_refl _)]
  have hUcc : (getNodeL ctx.nodes cc).upward = [] := by
    show (getIdx ({} : Node) ctx.nodes cc).upward = []
    rw [getIdx_ge _ (Nat.le_refl _)]
  have hDfin : ∀ i, (getNodeL ns3 i).downward =
      if i = cc then sinsert b []
      else if i = a then
        sinsert cc (sremove b (getNodeL ctx.nodes i).downward)
      else (getNodeL ctx.nodes i).downward := by
    intro i
    rw [hD3, hD2, hD1, hD0]
    by_cases hic : i = cc
    · rw [if_pos hic, if_pos hic, if_neg (hic ▸ hanec.symm :  i ≠  a),
        if_neg (hic ▸ hanec.symm :  i ≠  a), hic, hDcc]
    · rw [if_neg hic, if_neg hic]
      by_cases hiia : i = a
      · rw [if_pos hiia, if_pos hiia, if_pos hiia]
      · rw [if_neg hiia, if_neg hiia, if_neg hiia]
  have hUfin : ∀ j, (getNodeL ns3 j).upward =
      if j = cc then sinsert a []
      else if j = b then
        sinsert cc (sremove a (getNodeL ctx.nodes j).upward)
      else (getNodeL ctx.nodes j).upward := by
    intro j
    rw [hU3, hU2, hU1, hU0]
    by_cases hjc : j = cc
    · rw [if_pos hjc, if_neg (hjc ▸ hbnec.symm :  j ≠  b),
        if_pos hjc, if_neg (hjc ▸ hbnec.symm :  j ≠  b), hjc, hUcc]
    · rw [if_neg hjc, if_neg hjc]
      by_cases hjb : j = b
      · rw [if_pos hjb, if_pos hjb, if_pos hjb]
      · rw [if_neg hjb, if_neg hjb, if_neg hjb]
  have hnodes : (ctx.add_connector a b).nodes = ns3 := rfl
  have hids : (ctx.add_connector a b).id = ctx.id := rfl
  refine ⟨fun i j => ?_, fun i j hj => ?_, fun p hp => ?_⟩
  · show j ∈ (getNodeL ns3 i).downward ↔ i ∈ (getNodeL ns3 j).upward
    rw [hDfin i, hUfin j]
    by_cases hic : i = cc
    · rw [if_pos hic]
      by_cases hjc : j = cc
      · rw [if_pos hjc, mem_sinsert, mem_sinsert]
        constructor
        · rintro (rfl | hf)
          · exact absurd hjc hbnec
          · exact absurd hf (List.not_mem_nil _)
        · rintro (rfl | hf)
          · exact absurd hic hanec
          · exact absurd hf (List.not_mem_nil _)
      · rw [if_neg hjc]
        by_cases hjb : j = b
        · rw [if_pos hjb, mem_sinsert, mem_sinsert]
          constructor
          · intro _; exact Or.inl hic
          · intro _; exact Or.inl hjb
        · rw [if_neg hjb, mem_sinsert]
          constructor
          · rintro (rfl | hf)
            · exact absurd rfl hjb
            · exact absurd hf (List.not_mem_nil _)
          · intro hmem
            have hJD : j ∈ (getNodeL ctx.nodes i).downward :=
              (hsym' i j).mpr hmem
            have := (hbnd' i j hJD).1
            omega
    · rw [if_neg hic]
      by_cases hiia : i = a
      · rw [if_pos hiia]
        by_cases hjc : j = cc
        · rw [if_pos hjc, mem_sinsert, mem_sinsert]
          constructor
          · intro _; exact Or.inl hiia
          · intro _; exact Or.inl hjc
        · rw [if_neg hjc]
          by_cases hjb : j = b
          · rw [if_pos hjb, mem_sinsert, mem_sinsert, mem_sremove,
              mem_sremove]
            constructor
            · rintro (rfl | hf)
              · exact absurd rfl hjc
              · exact absurd hf.2 (fun hne => hne hjb)
            · rintro (rfl | hf)
              · exact absurd rfl hic
              · exact absurd hf.2 (fun hne => hne hiia)
          · rw [if_neg hjb, mem_sinsert, mem_sremove]
            have := hsym' i j
            tauto
      · rw [if_neg hiia]
        by_cases hjc : j = cc
        · rw [if_pos hjc, mem_sinsert]
          constructor
          · intro hmem
            have := (hbnd' i j hmem).2
            omega
          · rintro (rfl | hf)
            · exact absurd rfl hiia
            · exact absurd hf (List.not_mem_nil _)
        · rw [if_neg hjc]
          by_cases hjb : j = b
          · rw [if_pos hjb, mem_sinsert, mem_sremove]
            have := hsym' i j
            tauto
          · rw [if_neg hjb]
            exact hsym' i j
  · replace hj : j ∈ (getNodeL ns3 i).downward := hj
    rw [hDfin i] at hj
    show i < ns3.length ∧ j < ns3.length
    rw [hlen3]
    by_cases hic : i = cc
    · rw [if_pos hic] at hj
      rcases mem_sinsert.mp hj with rfl | hf
      · omega
      · exact absurd hf (List.not_mem_nil _)
    · rw [if_neg hic] at hj
      by_cases hiia : i = a
      · rw [if_pos hiia] at hj
        rcases mem_sinsert.mp hj with rfl | hf
        · omega
        · have := hbnd' i j (mem_sremove.mp hf).1
          omega
      · rw [if_neg hiia] at hj
        have := hbnd' i j hj
        omega
  · replace hp : p ∈ ctx.id := hp
    have := hid p hp
    show p.2 < ns3.length
    rw [hlen3]
    omega

theorem adjInv_parseLine {ctx : Context} (h : AdjInv ctx) (line : List Char) :
    AdjInv (ctx.parseLine line) := by
  unfold Context.parseLine
  have hstep : ∀ (acc : Context × Option (List Char)) (part : List Char),
      AdjInv acc.1 →
      AdjInv ((fun (acc : Context × Option (List Char)) (part : List Char) =>
        let (ctx, prev) := acc
        let name := trimChars part
        if name.isEmpty then acc
        else
          let ctx := ctx.add_node name
          let ctx :=
            match prev with
            | some p => (ctx.add_vertex p name).getD ctx
            | none => ctx
          (ctx, some name)) acc part).1 := by
    intro acc part hacc
    obtain ⟨cur, prev⟩ := acc
    by_cases hemp : (trimChars part).isEmpty
    · simp only [hemp, if_true, ite_true]
      exact hacc
    · simp only [hemp, if_false, ite_false]
      have h1 : AdjInv (cur.add_node (trimChars part)) :=
        adjInv_add_node hacc (trimChars part)
      cases prev with
      | none => exact h1
      | some pn =>
        cases hv : (cur.add_node (trimChars part)).add_vertex pn
            (trimChars part) with
        | none => simpa [hv] using h1
        | some c' =>
          have := adjInv_add_vertex h1 hv
          simpa [hv] using this
  exact foldl_pres
    (P := fun acc : Context × Option (List Char) => AdjInv acc.1) hstep _ _ h

theorem adjInv_parse {ctx : Context} (h : AdjInv ctx) (input : List Char) :
    AdjInv (ctx.parse input) := by
  unfold Context.parse
  refine foldl_pres (P := AdjInv) (fun b a hb => ?_) _ _ h
  by_cases hemp : (trimChars a).isEmpty
  · simpa [hemp] using hb
  · simpa [hemp] using adjInv_parseLine hb (trimChars a)

theorem adjInv_empty : AdjInv ({} : Context) := by
  refine ⟨fun i j => ?_, fun i j hj => ?_, fun p hp => ?_⟩
  · show j ∈ (getIdx ({} : Node) [] i).downward ↔
      i ∈ (getIdx ({} : Node) [] j).upward
    rw [getIdx_nil, getIdx_nil]
    simp
  · exact absurd (show j ∈ (getIdx ({} : Node) [] i).downward from hj)
      (by rw [getIdx_nil]; simp)
  · exact absurd (show p ∈ ([] : List (List Char × Nat)) from hp) (by simp)

theorem reached_adjInv {ctx : Context} (h : Reached ctx) : AdjInv ctx := by
  induction h with
  | empty => exact adjInv_empty
  | node name _ ih => exact adjInv_add_node ih name
  | vertex _ he ih => exact adjInv_add_vertex ih he
  | connector _ ha hb ih => exact adjInv_add_connector ih ha hb
  | parsed input _ ih => exact adjInv_parse ih input

/-- Claim C10: in every context reachable through `add_node`,
`add_vertex`, `add_connector` (with in-range indices, as at its only
call site) or `parse`, the adjacency lists are symmetric: `j` is in
`nodes[i].downward` iff `i` is in `nodes[j].upward`. -/
theorem c10_adjacency_symmetry {ctx : Context} (h : Reached ctx)
    (i j : Nat) :
    j ∈ (getNode ctx i).downward ↔ i ∈ (getNode ctx j).upward :=
  (reached_adjInv h).1 i j

/-- Witness for C10 at the parsed input `"A -> B"`, indices 0 and 1. -/
theorem c10_adjacency_symmetry_witness :
    (1 : Nat) ∈ (getNode (Context.parse {}
        ('A' :: ' ' :: '-' :: '>' :: ' ' :: 'B' :: [])) 0).downward ↔
    (0 : Nat) ∈ (getNode (Context.parse {}
        ('A' :: ' ' :: '-' :: '>' :: ' ' :: 'B' :: [])) 1).upward :=
  c10_adjacency_symmetry (.parsed _ .empty) 0 1

/-! ## C6: the row invariant established by `build_layers` -/

theorem updN_set (v : α) : ∀ (l : List α) (i : Nat),
    updN i (fun _ => v) l = l.set i v := by
  intro l
  induction l with
  | nil => intro i; rfl
  | cons a l ih =>
    intro i
    cases i with
    | zero => rfl
    | succ i =>
      show a :: updN i _ l = a :: l.set i v
      rw [ih]

theorem count_set (l : List Nat) (i v x : Nat) (h : i < l.length) :
    (l.set i v).count x + (if l.getD i 0 = x then 1 else 0) =
      l.count x + (if v = x then 1 else 0) := by
  induction l generalizing i with
  | nil => exact absurd h (Nat.not_lt_zero i)
  | cons a l ih =>
    cases i with
    | zero => simp [List.set, List.count_cons]; omega
    | succ i =>
      have hi : i < l.length := Nat.lt_of_succ_lt_succ h
      simp only [List.set, List.count_cons, List.getD_cons_succ]
      have := ih i hi
      omega

theorem getD_set (l : List Nat) (i j v : Nat) :
    (l.set i v).getD j 0 =
      if j = i ∧ j < l.length then v else l.getD j 0 := by
  induction l generalizing i j with
  | nil => simp [List.set]
  | cons a l ih =>
    cases i with
    | zero =>
      cases j with
      | zero => simp
      | succ j => simp [List.set]
    | succ i =>
      cases j with
      | zero => simp [List.set, Nat.succ_ne_zero]
      | succ j =>
        simp only [List.set, List.getD_cons_succ, List.length_cons, ih i j]
        by_cases hji : j = i ∧ j < l.length
        · rw [if_pos hji,
            if_pos ⟨congrArg Nat.succ hji.1, Nat.succ_lt_succ hji.2⟩]
        · rw [if_neg hji, if_neg (fun hc =>
            hji ⟨Nat.succ_injective hc.1, Nat.lt_of_succ_lt_succ hc.2⟩)]

theorem listSwap_perm {a b : Nat} {l : List Nat} (ha : a < l.length)
    (hb : b < l.length) : (Context.listSwap a b l).Perm l := by
  refine List.perm_iff_count.mpr fun x => ?_
  show (updN a (fun _ => l.getD b 0) (updN b (fun _ => l.getD a 0) l)).count x = _
  rw [updN_set, updN_set]
  have c1 := count_set l b (l.getD a 0) x hb
  have c2 := count_set (l.set b (l.getD a 0)) a (l.getD b 0) x
    (by rw [List.length_set]; exact ha)
  rw [getD_set, ite_self] at c2
  omega

theorem getIdx_getElem (d : α) : ∀ (l : List α) (i : Nat), i < l.length →
    l[i]? = some (getIdx d l i) := by
  intro l
  induction l with
  | nil => intro i hi; exact absurd hi (Nat.not_lt_zero i)
  | cons a l ih =>
    intro i hi
    cases i with
    | zero => rw [List.getElem?_cons_zero, getIdx_zero]
    | succ i =>
      rw [List.getElem?_cons_succ, getIdx_succ]
      exact ih i (Nat.lt_of_succ_lt_succ hi)

theorem getIdx_getD (d : α) : ∀ (l : List α) (i : Nat),
    l.getD i d = getIdx d l i := by
  intro l
  induction l with
  | nil => intro i; rfl
  | cons a l ih =>
    intro i
    cases i with
    | zero => rfl
    | succ i => rw [List.getD_cons_succ, getIdx_succ, ih]

theorem range_map_getD (l : List Nat) :
    (List.range l.length).map (fun i => l.getD i 0) = l := by
  refine List.ext_get (by simp) fun n h1 h2 => ?_
  rw [List.get_map, List.get_range]
  exact List.getD_eq_get l 0 h2

theorem foldl_pres_mem {P : β → Prop} {f : β → α → β} :
    ∀ {l : List α}, (∀ b a, a ∈ l → P b → P (f b a)) →
      ∀ b, P b → P (l.foldl f b) := by
  intro l
  induction l with
  | nil => intro _ b hb; exact hb
  | cons a l ih =>
    intro hf b hb
    exact ih (fun b x hx hb => hf b x (List.mem_cons_of_mem a hx) hb) _
      (hf b a (List.mem_cons_self a l) hb)

theorem sweepOnce_perm (score : List Nat → Frac) (w : Nat)
    (st : List Nat × Frac × Bool) (h : st.1.Perm (List.range w)) :
    (Context.sweepOnce score w st).1.Perm (List.range w) := by
  unfold Context.sweepOnce
  refine foldl_pres_mem
    (P := fun st : List Nat × Frac × Bool => st.1.Perm (List.range w))
    (fun st a ha hst => ?_) st h
  rw [List.mem_range] at ha
  refine foldl_pres_mem
    (P := fun st : List Nat × Frac × Bool => st.1.Perm (List.range w))
    (fun st k hk hstk => ?_) st hst
  rw [List.mem_range] at hk
  obtain ⟨perm, cur, imp⟩ := st
  have hlen : perm.length = w := by
    rw [hstk.length_eq, List.length_range]
  dsimp only
  split_ifs with hblt
  · exact (listSwap_perm (by omega) (by omega)).trans hstk
  · exact hstk

theorem sweepLoop_perm (score : List Nat → Frac) (w : Nat) :
    ∀ (fuel : Nat) (st : List Nat × Frac), st.1.Perm (List.range w) →
      (Context.sweepLoop score w fuel st).Perm (List.range w) := by
  intro fuel
  induction fuel with
  | zero => intro st h; exact h
  | succ fuel ih =>
    intro st h
    show (match Context.sweepOnce score w (st.1, st.2, false) with
      | (perm, current, improved) =>
        if improved then Context.sweepLoop score w fuel (perm, current)
        else perm).Perm (List.range w)
    have hso := sweepOnce_perm score w (st.1, st.2, false) h
    rcases hres : Context.sweepOnce score w (st.1, st.2, false) with
      ⟨perm, current, improved⟩
    rw [hres] at hso
    cases improved with
    | false => exact hso
    | true => exact ih (perm, current) hso

theorem getIdx_mem (d : α) : ∀ (l : List α) (i : Nat), i < l.length →
    getIdx d l i ∈ l := by
  intro l
  induction l with
  | nil => intro i hi; exact absurd hi (Nat.not_lt_zero i)
  | cons a l ih =>
    intro i hi
    cases i with
    | zero => exact List.mem_cons_self a l
    | succ i =>
      rw [getIdx_succ]
      exact List.mem_cons_of_mem a (ih i (Nat.lt_of_succ_lt_succ hi))

theorem getIdx_eq_getElem (d : α) (l : List α) (i : Nat) (h : i < l.length) :
    getIdx d l i = l[i] := by
  rw [← getIdx_getD, List.getD_eq_getElem l d h]

theorem rowCommit_layers : ∀ (ps : List (Nat × Nat)) (ctx : Context),
    (ps.foldl (fun ctx p =>
      { ctx with nodes := updN p.2 (fun m => { m with row := p.1 }) ctx.nodes })
      ctx).layers = ctx.layers := by
  intro ps
  induction ps with
  | nil => intro ctx; rfl
  | cons p ps ih => intro ctx; rw [List.foldl_cons, ih]

theorem rowCommit_len : ∀ (ps : List (Nat × Nat)) (ctx : Context),
    (ps.foldl (fun ctx p =>
      { ctx with nodes := updN p.2 (fun m => { m with row := p.1 }) ctx.nodes })
      ctx).nodes.length = ctx.nodes.length := by
  intro ps
  induction ps with
  | nil => intro ctx; rfl
  | cons p ps ih =>
    intro ctx
    rw [List.foldl_cons, ih]
    show (updN p.2 _ ctx.nodes).length = _
    rw [length_updN]

theorem rowCommit_skip : ∀ (ps : List (Nat × Nat)) (ctx : Context) (m : Nat),
    m ∉ ps.map Prod.snd →
    getNodeL (ps.foldl (fun ctx p =>
      { ctx with nodes := updN p.2 (fun m => { m with row := p.1 }) ctx.nodes })
      ctx).nodes m = getNodeL ctx.nodes m := by
  intro ps
  induction ps with
  | nil => intro ctx m _; rfl
  | cons p ps ih =>
    intro ctx m hm
    rw [List.map_cons] at hm
    have hne : m ≠ p.2 := fun he => hm (he ▸ List.mem_cons_self p.2 _)
    rw [List.foldl_cons, ih _ m (fun hc => hm (List.mem_cons_of_mem _ hc))]
    show getNodeL (updN p.2 _ ctx.nodes) m = _
    exact getNodeL_updN_ne _ _ hne

theorem rowCommit_row : ∀ (ps : List (Nat × Nat)) (ctx : Context) (k m : Nat),
    (ps.map Prod.snd).Nodup → (k, m) ∈ ps → m < ctx.nodes.length →
    (getNodeL (ps.foldl (fun ctx p =>
      { ctx with nodes := updN p.2 (fun m => { m with row := p.1 }) ctx.nodes })
      ctx).nodes m).row = k := by
  intro ps
  induction ps with
  | nil => intro ctx k m _ hm _; exact absurd hm (List.not_mem_nil _)
  | cons p ps ih =>
    intro ctx k m hnd hm hlt
    rw [List.map_cons, List.nodup_cons] at hnd
    rw [List.foldl_cons]
    rcases List.mem_cons.mp hm with he | hrest
    · have hm2 : m = p.2 := by rw [← he]
      have hk : p.1 = k := by rw [← he]
      have hnotin : m ∉ ps.map Prod.snd := hm2 ▸ hnd.1
      rw [rowCommit_skip ps _ m hnotin]
      show (getNodeL (updN p.2 _ ctx.nodes) m).row = k
      rw [hm2]
      unfold getNodeL
      rw [getIdx_updN_eq _ _ (hm2 ▸ hlt)]
      exact hk
    · exact ih _ k m hnd.2 hrest
        (by show m < (updN p.2 _ ctx.nodes).length; rw [length_updN]; exact hlt)

theorem commitPhase_facts (ctx : Context) (li : Nat) (ns : List Nat)
    (hperm : ns.Perm ((getLayerL ctx.layers li).nodes))
    (hli : li < ctx.layers.length) :
    ((ns.enum).foldl (fun (ctx : Context) p =>
      { ctx with nodes := updN p.2 (fun m => { m with row := p.1 }) ctx.nodes })
      { ctx with
        layers := updN li (fun L => { L with nodes := ns }) ctx.layers
      }).nodes.length = ctx.nodes.length ∧
    ((ns.enum).foldl (fun (ctx : Context) p =>
      { ctx with nodes := updN p.2 (fun m => { m with row := p.1 }) ctx.nodes })
      { ctx with
        layers := updN li (fun L => { L with nodes := ns }) ctx.layers
      }).layers.length = ctx.layers.length ∧
    (∀ lj, lj ≠ li →
      getLayerL ((ns.enum).foldl (fun (ctx : Context) p =>
        { ctx with nodes := updN p.2 (fun m => { m with row := p.1 }) ctx.nodes })
        { ctx with
          layers := updN li (fun L => { L with nodes := ns }) ctx.layers
        }).layers lj = getLayerL ctx.layers lj) ∧
    (getLayerL ((ns.enum).foldl (fun (ctx : Context) p =>
      { ctx with nodes := updN p.2 (fun m => { m with row := p.1 }) ctx.nodes })
      { ctx with
        layers := updN li (fun L => { L with nodes := ns }) ctx.layers
      }).layers li).nodes = ns ∧
    (∀ m, m ∉ (getLayerL ctx.layers li).nodes →
      getNodeL ((ns.enum).foldl (fun (ctx : Context) p =>
        { ctx with nodes := updN p.2 (fun m => { m with row := p.1 }) ctx.nodes })
        { ctx with
          layers := updN li (fun L => { L with nodes := ns }) ctx.layers
        }).nodes m = getNodeL ctx.nodes m) ∧
    (((getLayerL ctx.layers li).nodes).Nodup →
      (∀ m ∈ (getLayerL ctx.layers li).nodes, m < ctx.nodes.length) →
      ∀ k, k < ns.length →
        (getNodeL ((ns.enum).foldl (fun (ctx : Context) p =>
          { ctx with nodes := updN p.2 (fun m => { m with row := p.1 }) ctx.nodes })
          { ctx with
            layers := updN li (fun L => { L with nodes := ns }) ctx.layers
          }).nodes (getIdx 0 ns k)).row = k) := by
  refine ⟨?_, ?_, ?_, ?_, ?_, ?_⟩
  · rw [rowCommit_len]
  · rw [rowCommit_layers]
    show (updN li _ ctx.layers).length = _
    rw [length_updN]
  · intro lj hlj
    rw [rowCommit_layers]
    show getLayerL (updN li _ ctx.layers) lj = _
    exact getIdx_updN_ne _ _ _ hlj
  · rw [rowCommit_layers]
    show (getIdx ({} : Layer) (updN li _ ctx.layers) li).nodes = ns
    rw [getIdx_updN_eq _ _ hli]
  · intro m hm
    have hm2 : m ∉ ns := fun hc => hm (hperm.mem_iff.mp hc)
    have hm3 : m ∉ ns.enum.map Prod.snd := by
      rw [List.enum_map_snd]; exact hm2
    rw [rowCommit_skip _ _ m hm3]
  · intro hnd hrange k hk
    have hnsnd : ns.Nodup := hperm.nodup_iff.mpr hnd
    have hmem : (k, getIdx 0 ns k) ∈ ns.enum :=
      List.mk_mem_enum_iff_getElem?.mpr (getIdx_getElem 0 ns k hk)
    have hlt : getIdx 0 ns k < ctx.nodes.length :=
      hrange _ (hperm.mem_iff.mp (getIdx_mem 0 ns k hk))
    have hmapnd : (ns.enum.map Prod.snd).Nodup := by
      rw [List.enum_map_snd]; exact hnsnd
    exact rowCommit_row _ _ k _ hmapnd hmem hlt

theorem orderLayer_small (ctx : Context) (li : Nat)
    (h : (getLayerL ctx.layers li).nodes.length ≤ 1) :
    Context.orderLayer ctx li = ctx := by
  have h2 : ((getLayer ctx li).nodes.length ≤ 1) := h
  simp only [Context.orderLayer]
  rw [if_pos h2]

theorem orderLayer_eq_commit (ctx : Context) (li : Nat)
    (h : ¬((getLayerL ctx.layers li).nodes.length ≤ 1)) :
    ∃ ns : List Nat, ns.Perm ((getLayerL ctx.layers li).nodes) ∧
      Context.orderLayer ctx li =
        (ns.enum).foldl (fun (ctx : Context) p =>
          { ctx with
            nodes := updN p.2 (fun m => { m with row := p.1 }) ctx.nodes })
          { ctx with
            layers := updN li (fun L => { L with nodes := ns }) ctx.layers } := by
  have h2 : ¬((getLayer ctx li).nodes.length ≤ 1) := h
  simp only [Context.orderLayer]
  rw [if_neg h2]
  refine ⟨_, ?_, rfl⟩
  exact ((sweepLoop_perm _ _ _ _ (List.Perm.refl _)).map
    (fun i => (getLayer ctx li).nodes.getD i 0)).trans
    (by rw [range_map_getD]; exact List.Perm.refl _)

theorem closurePhase_spec (ctx : Context) :
    (Context.closurePhase ctx).layers = ctx.layers ∧
    (Context.closurePhase ctx).nodes.length = ctx.nodes.length ∧
    (∀ m, (getNodeL (Context.closurePhase ctx).nodes m).row =
      (getNodeL ctx.nodes m).row) := by
  unfold Context.closurePhase
  refine foldl_pres (P := fun c : Context => c.layers = ctx.layers ∧
      c.nodes.length = ctx.nodes.length ∧
      ∀ m, (getNodeL c.nodes m).row = (getNodeL ctx.nodes m).row)
    (fun c y hc => ?_) _ _ ⟨rfl, rfl, fun m => rfl⟩
  refine foldl_pres (P := fun c : Context => c.layers = ctx.layers ∧
      c.nodes.length = ctx.nodes.length ∧
      ∀ m, (getNodeL c.nodes m).row = (getNodeL ctx.nodes m).row)
    (fun c up hc => ?_) _ _ hc
  refine ⟨hc.1, ?_, fun m => ?_⟩
  · show (updN up _ c.nodes).length = _
    rw [length_updN]
    exact hc.2.1
  · show (getIdx ({} : Node) (updN up _ c.nodes) m).row = _
    rw [getIdx_updN_comp ({} : Node) Node.row
      (fun n => { n with downward_closure := Context.closureOf c up })
      (fun x => rfl) up c.nodes m]
    exact hc.2.2 m

theorem le_foldl_max_acc : ∀ (l : List Nat) (acc : Nat),
    acc ≤ l.foldl max acc := by
  intro l
  induction l with
  | nil => intro acc; exact Nat.le_refl acc
  | cons a l ih =>
    intro acc
    exact Nat.le_trans (Nat.le_max_left acc a) (ih (max acc a))

theorem le_foldl_max : ∀ (l : List Nat) (acc x : Nat), x ∈ l →
    x ≤ l.foldl max acc := by
  intro l
  induction l with
  | nil => intro acc x hx; exact absurd hx (List.not_mem_nil x)
  | cons a l ih =>
    intro acc x hx
    rcases List.mem_cons.mp hx with rfl | hx
    · exact Nat.le_trans (Nat.le_max_right acc x) (le_foldl_max_acc l (max acc x))
    · exact ih (max acc a) x hx

theorem pushFold_len : ∀ (ps : List (Nat × Node)) (ls : List Layer),
    (ps.foldl (fun ls p =>
      updN p.2.layer (fun L => { L with nodes := L.nodes ++ [p.1] }) ls)
      ls).length = ls.length := by
  intro ps
  induction ps with
  | nil => intro ls; rfl
  | cons p ps ih =>
    intro ls
    rw [List.foldl_cons, ih, length_updN]

theorem pushFold_nodes : ∀ (ps : List (Nat × Node)) (ls : List Layer),
    (∀ p ∈ ps, p.2.layer < ls.length) → ∀ ℓ,
    (getLayerL (ps.foldl (fun ls p =>
      updN p.2.layer (fun L => { L with nodes := L.nodes ++ [p.1] }) ls)
      ls) ℓ).nodes =
    (getLayerL ls ℓ).nodes ++
      (ps.filter (fun p => p.2.layer == ℓ)).map Prod.fst := by
  intro ps
  induction ps with
  | nil =>
    intro ls _ ℓ
    rw [List.filter_nil, List.map_nil, List.append_nil]
    rfl
  | cons p ps ih =>
    intro ls hin ℓ
    have hplt : p.2.layer < ls.length := hin p (List.mem_cons_self p ps)
    have hin' : ∀ q ∈ ps,
        q.2.layer < (updN p.2.layer
          (fun L => { L with nodes := L.nodes ++ [p.1] }) ls).length := by
      intro q hq
      rw [length_updN]
      exact hin q (List.mem_cons_of_mem p hq)
    rw [List.foldl_cons, ih _ hin' ℓ, List.filter_cons]
    by_cases hp : p.2.layer = ℓ
    · have hbeq : (p.2.layer == ℓ) = true := beq_iff_eq.mpr hp
      rw [hbeq, if_pos rfl]
      have : getLayerL (updN p.2.layer
          (fun L => { L with nodes := L.nodes ++ [p.1] }) ls) ℓ =
          { getLayerL ls ℓ with
            nodes := (getLayerL ls ℓ).nodes ++ [p.1] } := by
        unfold getLayerL
        rw [← hp, getIdx_updN_eq _ _ hplt]
      rw [this, List.map_cons]
      show ((getLayerL ls ℓ).nodes ++ [p.1]) ++ _ = _
      rw [List.append_assoc, List.singleton_append]
    · have hbeq : (p.2.layer == ℓ) = false := beq_eq_false_iff_ne.mpr hp
      rw [hbeq, if_neg (by simp)]
      have : getLayerL (updN p.2.layer
          (fun L => { L with nodes := L.nodes ++ [p.1] }) ls) ℓ =
          getLayerL ls ℓ := by
        unfold getLayerL
        exact getIdx_updN_ne _ _ _ (fun he => hp he.symm)
      rw [this]

theorem enum_snd_mem {p : Nat × α} {l : List α} (h : p ∈ l.enum) : p.2 ∈ l := by
  have := List.mem_map_of_mem Prod.snd h
  rwa [List.enum_map_snd] at this

theorem mem_pushFilter {l : List Node} {ℓ m : Nat} :
    m ∈ ((l.enum.filter (fun p => p.2.layer == ℓ)).map Prod.fst) ↔
      ∃ x : Node, l[m]? = some x ∧ x.layer = ℓ := by
  constructor
  · intro hm
    obtain ⟨p, hp, hfst⟩ := List.mem_map.mp hm
    obtain ⟨hpe, hpl⟩ := List.mem_filter.mp hp
    refine ⟨p.2, ?_, beq_iff_eq.mp hpl⟩
    rw [← hfst]
    exact List.mk_mem_enum_iff_getElem?.mp (by
      show (p.1, p.2) ∈ l.enum
      exact hpe)
  · rintro ⟨x, hx, hl⟩
    refine List.mem_map.mpr ⟨(m, x), List.mem_filter.mpr
      ⟨List.mk_mem_enum_iff_getElem?.mpr hx, beq_iff_eq.mpr hl⟩, rfl⟩

theorem orderFold_master (c0 : Context)
    (hnodup : ∀ li, ((getLayerL c0.layers li).nodes).Nodup)
    (hdisj : ∀ li lj m, m ∈ (getLayerL c0.layers li).nodes →
      m ∈ (getLayerL c0.layers lj).nodes → li = lj)
    (hrange : ∀ li m, m ∈ (getLayerL c0.layers li).nodes →
      m < c0.nodes.length)
    (hzero : ∀ li m, m ∈ (getLayerL c0.layers li).nodes →
      (getNodeL c0.nodes m).row = 0) :
    ∀ n : Nat,
      (∀ li, ((getLayerL ((List.range n).foldl Context.orderLayer c0).layers
          li).nodes).Perm ((getLayerL c0.layers li).nodes)) ∧
      ((List.range n).foldl Context.orderLayer c0).nodes.length =
        c0.nodes.length ∧
      (∀ li, n ≤ li →
        ∀ m ∈ (getLayerL ((List.range n).foldl Context.orderLayer c0).layers
          li).nodes,
        (getNodeL ((List.range n).foldl Context.orderLayer c0).nodes m).row
          = 0) ∧
      (∀ li, li < n →
        ((getLayerL ((List.range n).foldl Context.orderLayer c0).layers
            li).nodes).map
          (fun m => (getNodeL ((List.range n).foldl Context.orderLayer
            c0).nodes m).row) =
        List.range ((getLayerL ((List.range n).foldl Context.orderLayer
          c0).layers li).nodes.length)) := by
  intro n
  induction n with
  | zero =>
    exact ⟨fun li => List.Perm.refl _, rfl,
      fun li _ m hm => hzero li m hm, fun li h => absurd h (Nat.not_lt_zero li)⟩
  | succ n ih =>
    obtain ⟨ihP, ihL, ihZ, ihR⟩ := ih
    rw [List.range_succ, List.foldl_append, List.foldl_cons, List.foldl_nil]
    set cn := (List.range n).foldl Context.orderLayer c0 with hcn
    have hnod_n : ((getLayerL cn.layers n).nodes).Nodup :=
      (ihP n).nodup_iff.mpr (hnodup n)
    have hrange_n : ∀ m ∈ (getLayerL cn.layers n).nodes,
        m < cn.nodes.length := by
      intro m hm
      rw [ihL]
      exact hrange n m ((ihP n).mem_iff.mp hm)
    have hdisj_cn : ∀ li m, m ∈ (getLayerL cn.layers li).nodes →
        m ∈ (getLayerL cn.layers n).nodes → li = n := by
      intro li m h1 h2
      exact hdisj li n m ((ihP li).mem_iff.mp h1) ((ihP n).mem_iff.mp h2)
    by_cases hsmall : (getLayerL cn.layers n).nodes.length ≤ 1
    · rw [orderLayer_small cn n hsmall]
      refine ⟨ihP, ihL, fun li hle m hm => ihZ li (by omega) m hm,
        fun li hlt => ?_⟩
      by_cases hli : li < n
      · exact ihR li hli
      · have hlin : li = n := by omega
        subst hlin
        cases hL : (getLayerL cn.layers li).nodes with
        | nil => rfl
        | cons m rest =>
          have hrest : rest = [] := by
            rw [hL, List.length_cons] at hsmall
            exact List.length_eq_zero.mp (by omega)
          subst hrest
          show [(getNodeL cn.nodes m).row] = List.range 1
          rw [ihZ li (Nat.le_refl li) m
            (by rw [hL]; exact List.mem_cons_self m [])]
          rfl
    · obtain ⟨ns, hnsperm, heq⟩ := orderLayer_eq_commit cn n hsmall
      rw [heq]
      have hli : n < cn.layers.length := by
        by_contra hc
        have : getLayerL cn.layers n = ({} : Layer) := by
          unfold getLayerL
          rw [getIdx_ge _ (by omega)]
        rw [this] at hsmall
        exact hsmall (by simp)
      obtain ⟨f1, f2, f3, f4, f5, f6⟩ := commitPhase_facts cn n ns hnsperm hli
      have hrows := f6 hnod_n hrange_n
      refine ⟨fun li => ?_, by rw [f1, ihL], fun li hle m hm => ?_,
        fun li hlt => ?_⟩
      · by_cases hlin : li = n
        · subst hlin
          rw [f4]
          exact hnsperm.trans (ihP li)
        · rw [f3 li hlin]
          exact ihP li
      · have hlin : li ≠ n := by omega
        rw [f3 li hlin] at hm
        have hnotn : m ∉ (getLayerL cn.layers n).nodes := fun hc =>
          hlin (hdisj_cn li m hm hc)
        rw [f5 m hnotn]
        exact ihZ li (by omega) m hm
      · by_cases hlin : li = n
        · subst hlin
          rw [f4]
          refine List.ext_get (by rw [List.length_map, List.length_range])
            fun k h1 h2 => ?_
          rw [List.get_map, List.get_range]
          have hk : k < ns.length := by
            rw [List.length_map] at h1
            exact h1
          have : ns.get ⟨k, hk⟩ = getIdx 0 ns k := by
            rw [List.get_eq_getElem, getIdx_eq_getElem 0 ns k hk]
          rw [this]
          exact hrows k hk
        · have hlt' : li < n := by omega
          rw [f3 li hlin]
          have hcong : ∀ m ∈ (getLayerL cn.layers li).nodes,
              (getNodeL ((ns.enum).foldl (fun (ctx : Context) p =>
                  { ctx with
                    nodes := updN p.2 (fun m => { m with row := p.1 })
                      ctx.nodes })
                { cn with
                  layers := updN n (fun L => { L with nodes := ns })
                    cn.layers }).nodes m).row =
              (getNodeL cn.nodes m).row := by
            intro m hm
            have hnotn : m ∉ (getLayerL cn.layers n).nodes := fun hc =>
              hlin (hdisj_cn li m hm hc)
            rw [f5 m hnotn]
          rw [List.map_congr_left hcong]
          exact ihR li hlt'

theorem layers_map_nodes {f : Layer → Layer} (hf : ∀ L, (f L).nodes = L.nodes)
    (ls : List Layer) (li : Nat) :
    (getLayerL (ls.map f) li).nodes = (getLayerL ls li).nodes := by
  by_cases h : li < ls.length
  · unfold getLayerL
    rw [getIdx_map_lt ({} : Layer) ({} : Layer) h]
    exact hf _
  · unfold getLayerL
    rw [getIdx_ge _ (by rw [List.length_map]; omega), getIdx_ge _ (by omega)]

theorem nodes_map_row {f : Node → Node} (hf : ∀ n, (f n).row = n.row)
    (ns : List Node) (m : Nat) :
    (getNodeL (ns.map f) m).row = (getNodeL ns m).row := by
  by_cases h : m < ns.length
  · unfold getNodeL
    rw [getIdx_map_lt ({} : Node) ({} : Node) h]
    exact hf _
  · unfold getNodeL
    rw [getIdx_ge _ (by rw [List.length_map]; omega), getIdx_ge _ (by omega)]

theorem layers_map_edges_nodes (g : Layer → List Edge) (ls : List Layer)
    (li : Nat) :
    (getLayerL (ls.map (fun L => { L with edges := g L })) li).nodes =
      (getLayerL ls li).nodes :=
  layers_map_nodes (f := fun L => { L with edges := g L }) (fun L => rfl) ls li

theorem nodes_map_sorted_row (g h : Node → List Nat) (ns : List Node)
    (m : Nat) :
    (getNodeL (ns.map (fun n =>
      { n with upward_sorted := g n, downward_sorted := h n })) m).row =
      (getNodeL ns m).row :=
  nodes_map_row
    (f := fun n => { n with upward_sorted := g n, downward_sorted := h n })
    (fun n => rfl) ns m

theorem optimize_rows (c0 : Context)
    (hnodup : ∀ li, ((getLayerL c0.layers li).nodes).Nodup)
    (hdisj : ∀ li lj m, m ∈ (getLayerL c0.layers li).nodes →
      m ∈ (getLayerL c0.layers lj).nodes → li = lj)
    (hrange : ∀ li m, m ∈ (getLayerL c0.layers li).nodes →
      m < c0.nodes.length)
    (hzero : ∀ li m, m ∈ (getLayerL c0.layers li).nodes →
      (getNodeL c0.nodes m).row = 0) (li : Nat) :
    ((getLayerL (Context.optimize_row_order c0).layers li).nodes).map
        (fun m => (getNodeL (Context.optimize_row_order c0).nodes m).row) =
      List.range
        ((getLayerL (Context.optimize_row_order c0).layers li).nodes.length)
    := by
  obtain ⟨hc1lay, hc1len, hc1row⟩ := closurePhase_spec c0
  have h1 : ∀ li, ((getLayerL (Context.closurePhase c0).layers li).nodes).Nodup
    := by
    intro li
    rw [hc1lay]
    exact hnodup li
  have h2 : ∀ li lj m,
      m ∈ (getLayerL (Context.closurePhase c0).layers li).nodes →
      m ∈ (getLayerL (Context.closurePhase c0).layers lj).nodes → li = lj := by
    intro li lj m hm1 hm2
    rw [hc1lay] at hm1 hm2
    exact hdisj li lj m hm1 hm2
  have h3 : ∀ li m,
      m ∈ (getLayerL (Context.closurePhase c0).layers li).nodes →
      m < (Context.closurePhase c0).nodes.length := by
    intro li m hm
    rw [hc1lay] at hm
    rw [hc1len]
    exact hrange li m hm
  have h4 : ∀ li m,
      m ∈ (getLayerL (Context.closurePhase c0).layers li).nodes →
      (getNodeL (Context.closurePhase c0).nodes m).row = 0 := by
    intro li m hm
    rw [hc1lay] at hm
    rw [hc1row]
    exact hzero li m hm
  obtain ⟨mP, mL, mZ, mR⟩ := orderFold_master (Context.closurePhase c0)
    h1 h2 h3 h4 ((Context.closurePhase c0).layers.length)
  simp only [Context.optimize_row_order]
  by_cases hlt : li < (Context.closurePhase c0).layers.length
  · exact mR li hlt
  · have hnil : (getLayerL (Context.closurePhase c0).layers li).nodes = [] := by
      unfold getLayerL
      rw [getIdx_ge _ (by omega)]
    have hn2 := (mP li)
    rw [hnil] at hn2
    rw [hn2.eq_nil]
    rfl

theorem replicate_layer_nodes (k ℓ : Nat) :
    (getLayerL (List.replicate k ({} : Layer)) ℓ).nodes = [] := by
  unfold getLayerL
  by_cases h : ℓ < k
  · rw [getIdx_replicate _ _ h]
  · rw [getIdx_ge _ (by rw [List.length_replicate]; omega)]

/-- Claim C6: after `build_layers` (from a pipeline state: no layers
yet, all rows zero), every layer's vertex rows, read off in node-list
order, are exactly `0, 1, ..., size - 1` — so the rows of a layer form
`{0, ..., size-1}` with no duplicates and `layer.nodes[i]` has
`row = i`. -/
theorem c6_row_invariant {ctx : Context} (hlay : ctx.layers = [])
    (hrow : ∀ nd ∈ ctx.nodes, nd.row = 0) (li : Nat) :
    ((getLayerL (ctx.build_layers).layers li).nodes).map
        (fun m => (getNodeL (ctx.build_layers).nodes m).row) =
      List.range ((getLayerL (ctx.build_layers).layers li).nodes.length) := by
  set BLX : List Layer := (ctx.nodes.enum).foldl
    (fun ls p =>
      updN p.2.layer (fun L => { L with nodes := L.nodes ++ [p.1] }) ls)
    (ctx.layers.take (((ctx.nodes.map (fun n => n.layer)).foldl max 0) + 1) ++
      List.replicate
        (((ctx.nodes.map (fun n => n.layer)).foldl max 0) + 1 -
          ctx.layers.length)
        ({} : Layer)) with hBLX
  set cO : Context := Context.optimize_row_order { ctx with layers := BLX }
    with hcO
  set NS : List Node := cO.nodes.map (fun n =>
    { n with
      upward_sorted :=
        sortByKey (fun i => (cO.nodes.map (fun n => n.row)).getD i 0)
          Nat.ble n.upward
      downward_sorted :=
        sortByKey (fun i => (cO.nodes.map (fun n => n.row)).getD i 0)
          Nat.ble n.downward }) with hNS
  have hdecomp : ctx.build_layers =
      { cO with
        nodes := NS
        layers := cO.layers.map (fun L =>
          { L with
            edges := L.edges ++ L.nodes.flatMap (fun up =>
              ((getNode { cO with nodes := NS } up).downward_sorted).map
                (fun down =>
                  ({ up := up, down := down, x := 0, y := 0 } : Edge))) }) }
    := rfl
  -- facts about the freshly built layer lists
  have hBL_nodes : ∀ ℓ, (getLayerL BLX ℓ).nodes =
      ((ctx.nodes.enum).filter (fun p => p.2.layer == ℓ)).map Prod.fst := by
    intro ℓ
    have hbase : ctx.layers.take
          (((ctx.nodes.map (fun n => n.layer)).foldl max 0) + 1) ++
        List.replicate
          (((ctx.nodes.map (fun n => n.layer)).foldl max 0) + 1 -
            ctx.layers.length) ({} : Layer) =
        List.replicate
          (((ctx.nodes.map (fun n => n.layer)).foldl max 0) + 1)
          ({} : Layer) := by
      rw [hlay]
      simp
    have hin : ∀ p ∈ ctx.nodes.enum, p.2.layer <
        (ctx.layers.take
          (((ctx.nodes.map (fun n => n.layer)).foldl max 0) + 1) ++
        List.replicate
          (((ctx.nodes.map (fun n => n.layer)).foldl max 0) + 1 -
            ctx.layers.length) ({} : Layer)).length := by
      intro p hp
      rw [hbase, List.length_replicate]
      have : p.2.layer ≤ (ctx.nodes.map (fun n => n.layer)).foldl max 0 :=
        le_foldl_max _ 0 _ (List.mem_map_of_mem _ (enum_snd_mem hp))
      omega
    rw [hBLX, pushFold_nodes _ _ hin ℓ, hbase, replicate_layer_nodes,
      List.nil_append]
  have hlayBL : ({ ctx with layers := BLX } : Context).layers = BLX := rfl
  have f_nodup : ∀ ℓ,
      ((getLayerL ({ ctx with layers := BLX } : Context).layers ℓ).nodes).Nodup
    := by
    intro ℓ
    rw [hlayBL, hBL_nodes]
    refine List.Nodup.sublist ((List.filter_sublist _).map Prod.fst) ?_
    rw [List.enum_map_fst]
    exact List.nodup_range _
  have f_disj : ∀ ℓ1 ℓ2 m,
      m ∈ (getLayerL ({ ctx with layers := BLX } : Context).layers ℓ1).nodes →
      m ∈ (getLayerL ({ ctx with layers := BLX } : Context).layers ℓ2).nodes →
      ℓ1 = ℓ2 := by
    intro ℓ1 ℓ2 m hm1 hm2
    rw [hlayBL, hBL_nodes] at hm1 hm2
    obtain ⟨x1, hx1, hl1⟩ := mem_pushFilter.mp hm1
    obtain ⟨x2, hx2, hl2⟩ := mem_pushFilter.mp hm2
    rw [hx1] at hx2
    have : x1 = x2 := Option.some_injective _ hx2
    rw [← hl1, ← hl2, this]
  have f_range : ∀ ℓ m,
      m ∈ (getLayerL ({ ctx with layers := BLX } : Context).layers ℓ).nodes →
      m < ({ ctx with layers := BLX } : Context).nodes.length := by
    intro ℓ m hm
    rw [hlayBL, hBL_nodes] at hm
    obtain ⟨x, hx, _⟩ := mem_pushFilter.mp hm
    exact (List.getElem?_eq_some.mp hx).1
  have f_zero : ∀ ℓ m,
      m ∈ (getLayerL ({ ctx with layers := BLX } : Context).layers ℓ).nodes →
      (getNodeL ({ ctx with layers := BLX } : Context).nodes m).row = 0 := by
    intro ℓ m hm
    rw [hlayBL, hBL_nodes] at hm
    obtain ⟨x, hx, _⟩ := mem_pushFilter.mp hm
    obtain ⟨hmlt, hxe⟩ := List.getElem?_eq_some.mp hx
    show (getIdx ({} : Node) ctx.nodes m).row = 0
    rw [getIdx_eq_getElem ({} : Node) ctx.nodes m hmlt]
    exact hrow _ (List.getElem_mem hmlt)
  have hopt := optimize_rows ({ ctx with layers := BLX } : Context)
    f_nodup f_disj f_range f_zero li
  rw [hdecomp]
  have hproj1 : ({ cO with
      nodes := NS
      layers := cO.layers.map (fun L =>
        { L with
          edges := L.edges ++ L.nodes.flatMap (fun up =>
            ((getNode { cO with nodes := NS } up).downward_sorted).map
              (fun down =>
                ({ up := up, down := down, x := 0, y := 0 } : Edge))) }) }
      : Context).layers = cO.layers.map (fun L =>
        { L with
          edges := L.edges ++ L.nodes.flatMap (fun up =>
            ((getNode { cO with nodes := NS } up).downward_sorted).map
              (fun down =>
                ({ up := up, down := down, x := 0, y := 0 } : Edge))) }) := rfl
  rw [hproj1]
  rw [layers_map_edges_nodes]
  have hfun : (fun m => (getNodeL ({ cO with
      nodes := NS
      layers := cO.layers.map (fun L =>
        { L with
          edges := L.edges ++ L.nodes.flatMap (fun up =>
            ((getNode { cO with nodes := NS } up).downward_sorted).map
              (fun down =>
                ({ up := up, down := down, x := 0, y := 0 } : Edge))) }) }
      : Context).nodes m).row) = (fun m => (getNodeL cO.nodes m).row) := by
    funext m
    show (getNodeL NS m).row = _
    rw [hNS, nodes_map_sorted_row]
  rw [hfun]
  exact hopt

/-- Witness for C6: a three-vertex context (one vertex on layer 0, two
on layer 1) whose second layer gets rows `0, 1`. -/
theorem c6_row_invariant_witness :
    ((getLayerL (Context.build_layers
        { nodes := [{ padding := 1 }, { padding := 1, layer := 1 },
          { padding := 1, layer := 1 }] }).layers 1).nodes).map
      (fun m => (getNodeL (Context.build_layers
        { nodes := [{ padding := 1 }, { padding := 1, layer := 1 },
          { padding := 1, layer := 1 }] }).nodes m).row) =
    List.range ((getLayerL (Context.build_layers
        { nodes := [{ padding := 1 }, { padding := 1, layer := 1 },
          { padding := 1, layer := 1 }] }).layers 1).nodes.length) :=
  c6_row_invariant rfl (by decide) 1

/-! ## C3: layer completion postcondition and termination -/

theorem getNodeL_append (nd : Node) (ns : List Node) (i : Nat) :
    getNodeL (ns ++ [nd]) i =
      if i < ns.length then getNodeL ns i
      else if i = ns.length then nd else {} := by
  unfold getNodeL
  rcases Nat.lt_trichotomy i ns.length with hlt | heq | hgt
  · rw [if_pos hlt, getIdx_append_lt _ _ hlt]
  · rw [if_neg (by omega), if_pos heq, heq, getIdx_append_at]
  · rw [if_neg (by omega), if_neg (by omega),
      getIdx_ge _ (by rw [List.length_append, List.length_singleton]; omega)]

theorem sinsert_eq_append {v : Nat} {l : List Nat} (h : v ∉ l) :
    sinsert v l = l ++ [v] := by
  unfold sinsert
  rw [if_neg h]

theorem sinsert_nodup {v : Nat} {l : List Nat} (h : l.Nodup) :
    (sinsert v l).Nodup := by
  unfold sinsert
  split_ifs with hv
  · exact h
  · rw [List.nodup_append]
    exact ⟨h, List.nodup_singleton v, by
      intro x hx hx2
      rw [List.mem_singleton] at hx2
      exact hv (hx2 ▸ hx)⟩

theorem sremove_nodup {v : Nat} {l : List Nat} (h : l.Nodup) :
    (sremove v l).Nodup := h.filter _

theorem foldl_add_eq_sum (f : β → Nat) :
    ∀ (l : List β) (s : Nat), l.foldl (fun s b => s + f b) s = s + (l.map f).sum := by
  intro l
  induction l with
  | nil => intro s; rfl
  | cons b l ih =>
    intro s
    rw [List.foldl_cons, ih, List.map_cons, List.sum_cons]
    omega

theorem sum_filter_ne {x : Nat} (f : Nat → Nat) :
    ∀ {l : List Nat}, l.Nodup → x ∈ l →
      (l.map f).sum = ((l.filter (fun y => y ≠ x)).map f).sum + f x := by
  intro l
  induction l with
  | nil => intro _ hx; exact absurd hx (List.not_mem_nil x)
  | cons a l ih =>
    intro hnd hx
    rw [List.nodup_cons] at hnd
    rw [List.filter_cons]
    rcases List.mem_cons.mp hx with rfl | hx
    · rw [if_neg (by simp)]
      have : l.filter (fun y => y ≠ x) = l :=
        List.filter_eq_self.mpr (fun a ha => by
          simp only [ne_eq, decide_eq_true_eq]
          exact fun he => hnd.1 (he ▸ ha))
      rw [this, List.map_cons, List.sum_cons]
      omega
    · have hax : a ≠ x := fun he => hnd.1 (he ▸ hx)
      rw [if_pos (by simp [hax]), List.map_cons, List.map_cons,
        List.sum_cons, List.sum_cons, ih hnd.2 hx]
      omega

/-- Per-vertex span excess. -/
theorem spanExcess_eq (ctx : Context) :
    Context.spanExcess ctx =
      ((List.range ctx.nodes.length).map (fun a =>
        (((getNode ctx a).downward).map (fun b =>
          (getNode ctx b).layer - ((getNode ctx a).layer + 1))).sum)).sum := by
  unfold Context.spanExcess
  have gen : ∀ (l : List Nat) (s : Nat),
      l.foldl (fun s a => ((getNode ctx a).downward).foldl
        (fun s b => s + ((getNode ctx b).layer - ((getNode ctx a).layer + 1)))
        s) s =
      s + (l.map (fun a => (((getNode ctx a).downward).map (fun b =>
        (getNode ctx b).layer - ((getNode ctx a).layer + 1))).sum)).sum := by
    intro l
    induction l with
    | nil => intro s; rfl
    | cons a l ih =>
      intro s
      rw [List.foldl_cons, foldl_add_eq_sum, ih, List.map_cons, List.sum_cons]
      omega
  rw [gen]
  omega

theorem sinsert_nil (v : Nat) : sinsert v [] = [v] := by
  unfold sinsert
  rw [if_neg (List.not_mem_nil v)]
  rfl

theorem add_connector_down (ctx : Context) {a b : Nat}
    (ha : a < ctx.nodes.length) (hb : b < ctx.nodes.length) :
    (∀ i, (getNodeL (ctx.add_connector a b).nodes i).downward =
      if i = ctx.nodes.length then [b]
      else if i = a then
        sinsert ctx.nodes.length (sremove b (getNodeL ctx.nodes i).downward)
      else (getNodeL ctx.nodes i).downward) ∧
    (∀ i, (getNodeL (ctx.add_connector a b).nodes i).layer =
      if i = ctx.nodes.length then (getNodeL ctx.nodes a).layer + 1
      else (getNodeL ctx.nodes i).layer) ∧
    (ctx.add_connector a b).nodes.length = ctx.nodes.length + 1 := by
  set cc := ctx.nodes.length with hcc
  set nd : Node :=
    { is_connector := true, padding := 0,
      layer := (getNode ctx a).layer + 1 } with hnd
  set ns0 : List Node := ctx.nodes ++ [nd] with hns0
  set ns1 : List Node :=
    updN a (fun n => { n with downward := sremove b n.downward })
      (updN b (fun n => { n with upward := sremove a n.upward }) ns0) with hns1
  set ns2 : List Node :=
    updN a (fun n => { n with downward := sinsert cc n.downward })
      (updN cc (fun n => { n with upward := sinsert a n.upward }) ns1) with hns2
  set ns3 : List Node :=
    updN cc (fun n => { n with downward := sinsert b n.downward })
      (updN b (fun n => { n with upward := sinsert cc n.upward }) ns2) with hns3
  have hlen0 : ns0.length = cc + 1 := by
    rw [hns0, List.length_append, List.length_singleton]
  have hlen1 : ns1.length = cc + 1 := by rw [hns1, length_updN, length_updN, hlen0]
  have hlen2 : ns2.length = cc + 1 := by rw [hns2, length_updN, length_updN, hlen1]
  have hlen3 : ns3.length = cc + 1 := by rw [hns3, length_updN, length_updN, hlen2]
  have hnodes : (ctx.add_connector a b).nodes = ns3 := rfl
  have hq := @getNodeL_append_quiet nd rfl rfl ctx.nodes
  have hD0 : ∀ i, (getNodeL ns0 i).downward = (getNodeL ctx.nodes i).downward :=
    fun i => (hq i).1
  have hL0 : ∀ i, (getNodeL ns0 i).layer =
      if i = cc then (getNodeL ctx.nodes a).layer + 1
      else (getNodeL ctx.nodes i).layer := by
    intro i
    rw [hns0, getNodeL_append]
    rcases Nat.lt_trichotomy i cc with hlt | heq | hgt
    · rw [if_pos hlt, if_neg (by omega)]
    · rw [if_neg (by omega), if_pos heq, if_pos heq]
      rfl
    · rw [if_neg (by omega), if_neg (by omega), if_neg (by omega)]
      show ({} : Node).layer = (getNodeL ctx.nodes i).layer
      unfold getNodeL
      rw [getIdx_ge _ (by omega)]
  have hkeepD : ∀ (g : List Nat → List Nat) (j : Nat) (l : List Node) (i : Nat),
      (getNodeL (updN j (fun n => { n with downward := g n.downward }) l)
        i).layer = (getNodeL l i).layer := fun g j l i =>
    getIdx_updN_comp ({} : Node) Node.layer
      (fun n => { n with downward := g n.downward }) (fun x => rfl) j l i
  have hkeepU : ∀ (g : List Nat → List Nat) (j : Nat) (l : List Node) (i : Nat),
      (getNodeL (updN j (fun n => { n with upward := g n.upward }) l)
        i).layer = (getNodeL l i).layer := fun g j l i =>
    getIdx_updN_comp ({} : Node) Node.layer
      (fun n => { n with upward := g n.upward }) (fun x => rfl) j l i
  have hbu1 : a < (updN b
      (fun n => { n with upward := sremove a n.upward }) ns0).length := by
    rw [length_updN, hlen0]; omega
  have hD1 : ∀ i, (getNodeL ns1 i).downward =
      if i = a then sremove b (getNodeL ns0 i).downward
      else (getNodeL ns0 i).downward := by
    intro i
    by_cases hiia : i = a
    · rw [if_pos hiia, hiia, hns1, updN_down_read _ _ _ hbu1,
        updN_up_keeps_down]
    · rw [if_neg hiia, hns1, getNodeL_updN_ne _ _ hiia, updN_up_keeps_down]
  have hca2 : a < (updN cc
      (fun n => { n with upward := sinsert a n.upward }) ns1).length := by
    rw [length_updN, hlen1]; omega
  have hD2 : ∀ i, (getNodeL ns2 i).downward =
      if i = a then sinsert cc (getNodeL ns1 i).downward
      else (getNodeL ns1 i).downward := by
    intro i
    by_cases hiia : i = a
    · rw [if_pos hiia, hiia, hns2, updN_down_read _ _ _ hca2,
        updN_up_keeps_down]
    · rw [if_neg hiia, hns2, getNodeL_updN_ne _ _ hiia, updN_up_keeps_down]
  have hbc3 : cc < (updN b
      (fun n => { n with upward := sinsert cc n.upward }) ns2).length := by
    rw [length_updN, hlen2]; omega
  have hD3 : ∀ i, (getNodeL ns3 i).downward =
      if i = cc then sinsert b (getNodeL ns2 i).downward
      else (getNodeL ns2 i).downward := by
    intro i
    by_cases hic : i = cc
    · rw [if_pos hic, hic, hns3, updN_down_read _ _ _ hbc3,
        updN_up_keeps_down]
    · rw [if_neg hic, hns3, getNodeL_updN_ne _ _ hic, updN_up_keeps_down]
  have hanec : a ≠ cc := by omega
  have hDcc : (getNodeL ctx.nodes cc).downward = [] := by
    show (getIdx ({} : Node) ctx.nodes cc).downward = []
    rw [getIdx_ge _ (Nat.le_refl _)]
  refine ⟨fun i => ?_, fun i => ?_, by rw [hnodes, hlen3]⟩
  · rw [hnodes, hD3, hD2, hD1, hD0]
    by_cases hic : i = cc
    · rw [if_pos hic, if_pos hic, if_neg (hic ▸ hanec.symm :  i ≠  a),
        if_neg (hic ▸ hanec.symm :  i ≠  a), hic, hDcc, sinsert_nil]
    · rw [if_neg hic, if_neg hic]
      by_cases hiia : i = a
      · rw [if_pos hiia, if_pos hiia, if_pos hiia]
      · rw [if_neg hiia, if_neg hiia, if_neg hiia]
  · rw [hnodes, hns3, hkeepD, hns2, hkeepU, hkeepD, hns1, hkeepU, hkeepD,
      hkeepU, hL0]

theorem connector_splice_facts {ctx : Context} {a b : Nat}
    (hinv : DownInv ctx) (hok : SpanOk ctx)
    (ha : a < ctx.nodes.length) (hmem : b ∈ (getNodeL ctx.nodes a).downward)
    (hne : (getNodeL ctx.nodes a).layer + 1 ≠ (getNodeL ctx.nodes b).layer) :
    DownInv (ctx.add_connector a b) ∧ SpanOk (ctx.add_connector a b) ∧
      Context.spanExcess (ctx.add_connector a b) + 1 =
        Context.spanExcess ctx := by
  obtain ⟨hbnd, hnd⟩ := hinv
  have hb : b < ctx.nodes.length := (hbnd a b hmem).2
  have hgt : (getNodeL ctx.nodes a).layer < (getNodeL ctx.nodes b).layer :=
    hok a b hmem
  have hge2 : (getNodeL ctx.nodes a).layer + 2 ≤ (getNodeL ctx.nodes b).layer
    := by omega
  obtain ⟨hD, hL, hlen⟩ := add_connector_down ctx ha hb
  set cc := ctx.nodes.length with hcc
  have hsubD : ∀ i, i ≠ cc →
      ((getNodeL (ctx.add_connector a b).nodes i).downward = (if i = a then
        sinsert cc (sremove b (getNodeL ctx.nodes i).downward)
      else (getNodeL ctx.nodes i).downward)) := by
    intro i hic
    rw [hD i, if_neg hic]
  have hnotc : ∀ i, cc ∉ (getNodeL ctx.nodes i).downward := fun i hc => by
    have := (hbnd i cc hc).2
    omega
  -- DownInv
  have hinv' : DownInv (ctx.add_connector a b) := by
    constructor
    · intro i j hj
      rw [hlen]
      rw [hD i] at hj
      by_cases hic : i = cc
      · rw [if_pos hic] at hj
        rw [List.mem_singleton] at hj
        omega
      · rw [if_neg hic] at hj
        by_cases hia : i = a
        · rw [if_pos hia] at hj
          rcases mem_sinsert.mp hj with rfl | hj2
          · have := (hbnd a b hmem).1
            omega
          · have := (hbnd i j (mem_sremove.mp hj2).1)
            omega
        · rw [if_neg hia] at hj
          have := hbnd i j hj
          omega
    · intro i
      rw [hD i]
      by_cases hic : i = cc
      · rw [if_pos hic]
        exact List.nodup_singleton b
      · rw [if_neg hic]
        by_cases hia : i = a
        · rw [if_pos hia]
          exact sinsert_nodup (sremove_nodup (hnd i))
        · rw [if_neg hia]
          exact hnd i
  refine ⟨hinv', ?_, ?_⟩
  -- SpanOk
  · intro i j hj
    rw [hD i] at hj
    rw [hL i, hL j]
    by_cases hic : i = cc
    · rw [if_pos hic] at hj
      rw [List.mem_singleton] at hj
      rw [if_pos hic, if_neg (by omega : j ≠ cc), hj]
      omega
    · rw [if_neg hic] at hj
      rw [if_neg hic]
      by_cases hia : i = a
      · rw [if_pos hia] at hj
        rcases mem_sinsert.mp hj with rfl | hj2
        · rw [if_pos rfl, hia]
          omega
        · obtain ⟨hj3, hjb⟩ := mem_sremove.mp hj2
          rw [if_neg (by have := (hbnd i j hj3).2; omega : j ≠ cc)]
          exact hok i j hj3
      · rw [if_neg hia] at hj
        rw [if_neg (by have := (hbnd i j hj).2; omega : j ≠ cc)]
        exact hok i j hj
  -- span excess decrease
  · have hgetN : ∀ (c' : Context) (i : Nat), getNode c' i = getNodeL c'.nodes i
      := fun c' i => rfl
    rw [spanExcess_eq, spanExcess_eq, hlen, List.range_succ, List.map_append,
      List.sum_append]
    simp only [hgetN]
    -- the appended connector term
    have hconn : ([cc].map (fun a' =>
        (((getNodeL (ctx.add_connector a b).nodes a').downward).map (fun b' =>
          (getNodeL (ctx.add_connector a b).nodes b').layer -
            ((getNodeL (ctx.add_connector a b).nodes a').layer + 1))).sum)).sum
        = (getNodeL ctx.nodes b).layer -
          ((getNodeL ctx.nodes a).layer + 2) := by
      show (((getNodeL (ctx.add_connector a b).nodes cc).downward).map
          (fun b' => (getNodeL (ctx.add_connector a b).nodes b').layer -
            ((getNodeL (ctx.add_connector a b).nodes cc).layer + 1))).sum + 0 =
        _
      rw [hD cc, if_pos rfl, hL cc, if_pos rfl]
      show ((getNodeL (ctx.add_connector a b).nodes b).layer -
        ((getNodeL ctx.nodes a).layer + 1 + 1)) + 0 + 0 = _
      rw [hL b, if_neg (by omega : b ≠ cc)]
      omega
    rw [hconn]
    -- per-node sums over the original range
    have hrangend : (List.range cc).Nodup := List.nodup_range cc
    have hamem : a ∈ List.range cc := List.mem_range.mpr ha
    have e1 : ((List.range cc).map (fun i =>
        (((getNodeL (ctx.add_connector a b).nodes i).downward).map (fun b' =>
          (getNodeL (ctx.add_connector a b).nodes b').layer -
            ((getNodeL (ctx.add_connector a b).nodes i).layer + 1))).sum)).sum
        =
        (((List.range cc).filter (fun y => y ≠ a)).map (fun i =>
          (((getNodeL (ctx.add_connector a b).nodes i).downward).map
            (fun b' => (getNodeL (ctx.add_connector a b).nodes b').layer -
              ((getNodeL (ctx.add_connector a b).nodes i).layer + 1))).sum)).sum
        + (((getNodeL (ctx.add_connector a b).nodes a).downward).map
            (fun b' => (getNodeL (ctx.add_connector a b).nodes b').layer -
              ((getNodeL (ctx.add_connector a b).nodes a).layer + 1))).sum
        := by
      rw [sum_filter_ne _ hrangend hamem]
    have e2 : ((List.range cc).map (fun i =>
        (((getNodeL ctx.nodes i).downward).map (fun b' =>
          (getNodeL ctx.nodes b').layer -
            ((getNodeL ctx.nodes i).layer + 1))).sum)).sum =
        (((List.range cc).filter (fun y => y ≠ a)).map (fun i =>
          (((getNodeL ctx.nodes i).downward).map (fun b' =>
            (getNodeL ctx.nodes b').layer -
              ((getNodeL ctx.nodes i).layer + 1))).sum)).sum
        + (((getNodeL ctx.nodes a).downward).map (fun b' =>
            (getNodeL ctx.nodes b').layer -
              ((getNodeL ctx.nodes a).layer + 1))).sum := by
      rw [sum_filter_ne _ hrangend hamem]
    rw [e1, e2]
    -- untouched vertices agree
    have hsame : ((List.range cc).filter (fun y => y ≠ a)).map (fun i =>
        (((getNodeL (ctx.add_connector a b).nodes i).downward).map (fun b' =>
          (getNodeL (ctx.add_connector a b).nodes b').layer -
            ((getNodeL (ctx.add_connector a b).nodes i).layer + 1))).sum) =
        ((List.range cc).filter (fun y => y ≠ a)).map (fun i =>
        (((getNodeL ctx.nodes i).downward).map (fun b' =>
          (getNodeL ctx.nodes b').layer -
            ((getNodeL ctx.nodes i).layer + 1))).sum) := by
      refine List.map_congr_left fun i hi => ?_
      obtain ⟨hirange, hine⟩ := List.mem_filter.mp hi
      have hia : i ≠ a := by simpa using hine
      have hilt : i < cc := List.mem_range.mp hirange
      rw [hD i, if_neg (by omega : i ≠ cc), if_neg hia,
        hL i, if_neg (by omega : i ≠ cc)]
      refine congrArg List.sum (List.map_congr_left fun j hj => ?_)
      rw [hL j, if_neg (by have := (hbnd i j hj).2; omega : j ≠ cc)]
    rw [hsame]
    -- the spliced vertex: remove b's term, add a zero term for the connector
    have hDa : (getNodeL (ctx.add_connector a b).nodes a).downward =
        sremove b (getNodeL ctx.nodes a).downward ++ [cc] := by
      rw [hD a, if_neg (by omega : a ≠ cc), if_pos rfl,
        sinsert_eq_append (fun hc => hnotc a (mem_sremove.mp hc).1)]
    have hterm_a : (((getNodeL (ctx.add_connector a b).nodes a).downward).map
        (fun b' => (getNodeL (ctx.add_connector a b).nodes b').layer -
          ((getNodeL (ctx.add_connector a b).nodes a).layer + 1))).sum =
        (((sremove b (getNodeL ctx.nodes a).downward)).map (fun b' =>
          (getNodeL ctx.nodes b').layer -
            ((getNodeL ctx.nodes a).layer + 1))).sum := by
      rw [hDa, List.map_append, List.sum_append]
      have hz : ([cc].map (fun b' =>
          (getNodeL (ctx.add_connector a b).nodes b').layer -
            ((getNodeL (ctx.add_connector a b).nodes a).layer + 1))).sum = 0
        := by
        show ((getNodeL (ctx.add_connector a b).nodes cc).layer -
          ((getNodeL (ctx.add_connector a b).nodes a).layer + 1)) + 0 = 0
        rw [hL cc, if_pos rfl, hL a, if_neg (by omega : a ≠ cc)]
        omega
      rw [hz]
      have : (sremove b (getNodeL ctx.nodes a).downward).map
          (fun b' => (getNodeL (ctx.add_connector a b).nodes b').layer -
            ((getNodeL (ctx.add_connector a b).nodes a).layer + 1)) =
          (sremove b (getNodeL ctx.nodes a).downward).map
          (fun b' => (getNodeL ctx.nodes b').layer -
            ((getNodeL ctx.nodes a).layer + 1)) := by
        refine List.map_congr_left fun j hj => ?_
        obtain ⟨hj1, _⟩ := mem_sremove.mp hj
        rw [hL j, if_neg (by have := (hbnd a j hj1).2; omega : j ≠ cc),
          hL a, if_neg (by omega : a ≠ cc)]
      rw [this]
      omega
    rw [hterm_a]
    have hsplit : (((getNodeL ctx.nodes a).downward).map (fun b' =>
        (getNodeL ctx.nodes b').layer -
          ((getNodeL ctx.nodes a).layer + 1))).sum =
        ((((getNodeL ctx.nodes a).downward.filter (fun y => y ≠ b))).map
          (fun b' => (getNodeL ctx.nodes b').layer -
            ((getNodeL ctx.nodes a).layer + 1))).sum +
        ((getNodeL ctx.nodes b).layer - ((getNodeL ctx.nodes a).layer + 1))
        := by
      rw [sum_filter_ne _ (hnd a) hmem]
    have hsrem : sremove b (getNodeL ctx.nodes a).downward =
        (getNodeL ctx.nodes a).downward.filter (fun y => y ≠ b) := rfl
    rw [hsrem, hsplit]
    omega

theorem completeFindBad_none {ctx : Context} {la : Nat} :
    ∀ {bs : List Nat}, Context.completeFindBad ctx la bs = none →
      ∀ b ∈ bs, la + 1 = (getNode ctx b).layer := by
  intro bs
  induction bs with
  | nil => intro _ b hb; exact absurd hb (List.not_mem_nil b)
  | cons b0 bs ih =>
    intro h b hb
    unfold Context.completeFindBad at h
    by_cases hc : la + 1 ≠ (getNode ctx b0).layer
    · rw [if_pos hc] at h
      exact Option.noConfusion h
    · rw [if_neg hc] at h
      rcases List.mem_cons.mp hb with rfl | hb2
      · omega
      · exact ih h b hb2

theorem completeFindBad_some {ctx : Context} {la b : Nat} :
    ∀ {bs : List Nat}, Context.completeFindBad ctx la bs = some b →
      b ∈ bs ∧ la + 1 ≠ (getNode ctx b).layer := by
  intro bs
  induction bs with
  | nil => intro h; exact Option.noConfusion h
  | cons b0 bs ih =>
    intro h
    unfold Context.completeFindBad at h
    split_ifs at h with hc
    · have : b0 = b := by injection h
      subst this
      exact ⟨List.mem_cons_self b0 bs, hc⟩
    · obtain ⟨h1, h2⟩ := ih h
      exact ⟨List.mem_cons_of_mem b0 h1, h2⟩

theorem completeStep_true (rho : List Nat → List Nat) (ctx : Context)
    (a : Nat) : (Context.completeStep rho (ctx, true) a).2 = true := by
  show (match Context.completeFindBad ctx (getNode ctx a).layer
      (rho (getNode ctx a).downward) with
    | some b => (ctx.add_connector a b, true)
    | none => (ctx, true)).2 = true
  cases Context.completeFindBad ctx (getNode ctx a).layer
      (rho (getNode ctx a).downward) with
  | some b => rfl
  | none => rfl

theorem completeStep_false {rho : List Nat → List Nat} {ctx ctx1 : Context}
    {g : Bool} {a : Nat}
    (h : Context.completeStep rho (ctx, g) a = (ctx1, false)) :
    ctx1 = ctx ∧ g = false ∧ ∀ b ∈ rho ((getNode ctx a).downward),
      (getNode ctx a).layer + 1 = (getNode ctx b).layer := by
  have h' : (match Context.completeFindBad ctx (getNode ctx a).layer
      (rho (getNode ctx a).downward) with
    | some b => (ctx.add_connector a b, true)
    | none => (ctx, g)) = (ctx1, false) := h
  cases hfb : Context.completeFindBad ctx (getNode ctx a).layer
      (rho (getNode ctx a).downward) with
  | some b =>
    rw [hfb] at h'
    have : true = false := congrArg Prod.snd h'
    exact absurd this (by simp)
  | none =>
    rw [hfb] at h'
    have h1 : ctx = ctx1 := congrArg Prod.fst h'
    have h2 : g = false := congrArg Prod.snd h'
    exact ⟨h1.symm, h2, completeFindBad_none hfb⟩

theorem completeFold_false (rho : List Nat → List Nat) :
    ∀ (l : List Nat) (ctx : Context),
      (l.foldl (Context.completeStep rho) (ctx, false)).2 = false →
      (l.foldl (Context.completeStep rho) (ctx, false)).1 = ctx ∧
      ∀ a ∈ l, ∀ b ∈ rho ((getNode ctx a).downward),
        (getNode ctx a).layer + 1 = (getNode ctx b).layer := by
  intro l
  induction l with
  | nil => intro ctx _; exact ⟨rfl, by simp⟩
  | cons a l ih =>
    intro ctx hflag
    rw [List.foldl_cons] at hflag ⊢
    rcases hstep : Context.completeStep rho (ctx, false) a with ⟨ctx1, g1⟩
    rw [hstep] at hflag
    cases g1 with
    | true =>
      have htrue : (l.foldl (Context.completeStep rho) (ctx1, true)).2 = true
        := by
        refine foldl_pres (P := fun acc : Context × Bool => acc.2 = true)
          (fun acc x hacc => ?_) l _ rfl
        have : acc = (acc.1, true) := by
          rcases acc with ⟨c', fl⟩
          rw [show fl = true from hacc]
        rw [this]
        exact completeStep_true rho acc.1 x
      rw [htrue] at hflag
      exact absurd hflag (by simp)
    | false =>
      obtain ⟨he, _, hprop⟩ := completeStep_false hstep
      rw [he] at hflag ⊢
      obtain ⟨h1, h2⟩ := ih ctx hflag
      exact ⟨h1, fun a' ha' b hb => by
        rcases List.mem_cons.mp ha' with rfl | ha2
        · exact hprop b hb
        · exact h2 a' ha2 b hb⟩

theorem completeGo_post (rho : List Nat → List Nat)
    (hrho : ∀ (l : List Nat) (x : Nat), x ∈ rho l ↔ x ∈ l) :
    ∀ (fuel : Nat) (ctx : Context),
      (Context.completeGo rho fuel ctx).2 = true →
      ∀ a b, b ∈ (getNode (Context.completeGo rho fuel ctx).1 a).downward →
        (getNode (Context.completeGo rho fuel ctx).1 a).layer + 1 =
          (getNode (Context.completeGo rho fuel ctx).1 b).layer := by
  intro fuel
  induction fuel with
  | zero => intro ctx h; exact absurd h (by simp [Context.completeGo])
  | succ fuel ih =>
    intro ctx hflag a b hb
    rcases hps : Context.completePass rho ctx with ⟨ctx1, again⟩
    have hred : Context.completeGo rho (fuel + 1) ctx =
        (if again then Context.completeGo rho fuel ctx1 else (ctx1, true))
      := by
      show (match Context.completePass rho ctx with
        | (c, ag) =>
          if ag then Context.completeGo rho fuel c else (c, true)) = _
      rw [hps]
    rw [hred] at hflag hb ⊢
    cases again with
    | true => exact ih ctx1 hflag a b hb
    | false =>
      replace hb : b ∈ (getNode ctx1 a).downward := by
        rw [if_neg (by simp)] at hb
        exact hb
      show (getNode (if false = true then Context.completeGo rho fuel ctx1
          else (ctx1, true)).1 a).layer + 1 =
        (getNode (if false = true then Context.completeGo rho fuel ctx1
          else (ctx1, true)).1 b).layer
      rw [if_neg (by simp)]
      have h2 : (List.range ctx.nodes.length).foldl
          (Context.completeStep rho) (ctx, false) = (ctx1, false) := hps
      obtain ⟨heq, hprop⟩ := completeFold_false rho _ ctx (by rw [h2])
      have hctx1 : ctx1 = ctx := by
        rw [h2] at heq
        exact heq
      show (getNode ctx1 a).layer + 1 = (getNode ctx1 b).layer
      rw [hctx1] at hb ⊢
      by_cases halt : a < ctx.nodes.length
      · exact hprop a (List.mem_range.mpr halt) b ((hrho _ _).mpr hb)
      · exfalso
        have : getNode ctx a = ({} : Node) := by
          show getIdx ({} : Node) ctx.nodes a = _
          rw [getIdx_ge _ (by omega)]
        rw [this] at hb
        exact absurd hb (List.not_mem_nil b)

theorem completePass_facts (rho : List Nat → List Nat)
    (hrho : ∀ (l : List Nat) (x : Nat), x ∈ rho l ↔ x ∈ l)
    (ctx0 : Context) (hinv : DownInv ctx0) (hok : SpanOk ctx0) :
    DownInv (Context.completePass rho ctx0).1 ∧
    SpanOk (Context.completePass rho ctx0).1 ∧
    ((Context.completePass rho ctx0).2 = true →
      Context.spanExcess (Context.completePass rho ctx0).1 <
        Context.spanExcess ctx0) ∧
    ((Context.completePass rho ctx0).2 = false →
      (Context.completePass rho ctx0).1 = ctx0) := by
  have h := foldl_pres_mem
    (P := fun acc : Context × Bool =>
      DownInv acc.1 ∧ SpanOk acc.1 ∧
      ctx0.nodes.length ≤ acc.1.nodes.length ∧
      (acc.2 = true →
        Context.spanExcess acc.1 < Context.spanExcess ctx0) ∧
      (acc.2 = false → acc.1 = ctx0))
    (l := List.range ctx0.nodes.length)
    (f := Context.completeStep rho)
    (fun acc a hamem hP => ?_) (ctx0, false)
    ⟨hinv, hok, Nat.le_refl _, fun h => absurd h (by simp), fun _ => rfl⟩
  · exact ⟨h.1, h.2.1, h.2.2.2.1, h.2.2.2.2⟩
  rcases acc with ⟨c, g⟩
  obtain ⟨pinv, pok, plen, ptrue, pfalse⟩ := hP
  replace pinv : DownInv c := pinv
  replace pok : SpanOk c := pok
  replace plen : ctx0.nodes.length ≤ c.nodes.length := plen
  replace ptrue : g = true →
    Context.spanExcess c < Context.spanExcess ctx0 := ptrue
  replace pfalse : g = false → c = ctx0 := pfalse
  cases hfb : Context.completeFindBad c (getNode c a).layer
      (rho (getNode c a).downward) with
  | none =>
    have heq : Context.completeStep rho (c, g) a = (c, g) := by
      show (match Context.completeFindBad c (getNode c a).layer
          (rho (getNode c a).downward) with
        | some b => (c.add_connector a b, true)
        | none => (c, g)) = (c, g)
      rw [hfb]
    rw [heq]
    exact ⟨pinv, pok, plen, ptrue, pfalse⟩
  | some b =>
    have heq : Context.completeStep rho (c, g) a =
        (c.add_connector a b, true) := by
      show (match Context.completeFindBad c (getNode c a).layer
          (rho (getNode c a).downward) with
        | some b => (c.add_connector a b, true)
        | none => (c, g)) = _
      rw [hfb]
    rw [heq]
    obtain ⟨hbrho, hbne⟩ := completeFindBad_some hfb
    have hbmem : b ∈ (getNodeL c.nodes a).downward := (hrho _ _).mp hbrho
    have halt : a < c.nodes.length :=
      Nat.lt_of_lt_of_le (List.mem_range.mp hamem) plen
    have hblt : b < c.nodes.length := (pinv.1 a b hbmem).2
    obtain ⟨hinv', hok', hdec⟩ :=
      connector_splice_facts pinv pok halt hbmem hbne
    have hlen' := (add_connector_down c halt hblt).2.2
    have hle : Context.spanExcess c ≤ Context.spanExcess ctx0 := by
      cases g with
      | true => exact Nat.le_of_lt (ptrue rfl)
      | false => rw [pfalse rfl]
    refine ⟨hinv', hok', ?_, ?_, ?_⟩
    · show ctx0.nodes.length ≤ (c.add_connector a b).nodes.length
      omega
    · intro _
      show Context.spanExcess (c.add_connector a b) <
        Context.spanExcess ctx0
      omega
    · intro hcontra
      exact absurd (show true = false from hcontra) (by simp)

theorem completeGo_term (rho : List Nat → List Nat)
    (hrho : ∀ (l : List Nat) (x : Nat), x ∈ rho l ↔ x ∈ l) :
    ∀ (fuel : Nat) (ctx : Context),
      DownInv ctx → SpanOk ctx → Context.spanExcess ctx < fuel →
      (Context.completeGo rho fuel ctx).2 = true := by
  intro fuel
  induction fuel with
  | zero => intro ctx _ _ h; omega
  | succ fuel ih =>
    intro ctx hinv hok hfu
    have pf := completePass_facts rho hrho ctx hinv hok
    rcases hps : Context.completePass rho ctx with ⟨ctx1, again⟩
    rw [hps] at pf
    have hred : Context.completeGo rho (fuel + 1) ctx =
        (if again then Context.completeGo rho fuel ctx1 else (ctx1, true))
      := by
      show (match Context.completePass rho ctx with
        | (c, ag) =>
          if ag then Context.completeGo rho fuel c else (c, true)) = _
      rw [hps]
    rw [hred]
    cases again with
    | false => rfl
    | true =>
      apply ih ctx1 pf.1 pf.2.1
      have hdec : Context.spanExcess ctx1 < Context.spanExcess ctx :=
        pf.2.2.1 rfl
      omega

/-- Claim C3: from a strictly layered, well-formed adjacency state (the
state `toposort` leaves: spans at least 1, in-range duplicate-free
downward sets), `complete` terminates with a clean exit of its
`loop` — the flag is `true`, reached only by a pass without splices,
each splice having removed exactly one unit of the total span excess —
and afterwards every direct edge spans exactly one layer:
`layer(b) = layer(a) + 1` for every `b` in `a`'s downward set. -/
theorem c3_complete_layering {ctx : Context} {rho : List Nat → List Nat}
    (hrho : ∀ (l : List Nat) (x : Nat), x ∈ rho l ↔ x ∈ l)
    (hbnd : ∀ i, i < ctx.nodes.length →
      ∀ j ∈ (getNode ctx i).downward, j < ctx.nodes.length)
    (hnd : ∀ i, i < ctx.nodes.length → ((getNode ctx i).downward).Nodup)
    (hspan : ∀ i, i < ctx.nodes.length → ∀ j ∈ (getNode ctx i).downward,
      (getNode ctx i).layer < (getNode ctx j).layer) :
    (ctx.complete rho).2 = true ∧
    ∀ a b : Nat, b ∈ (getNode (ctx.complete rho).1 a).downward →
      (getNode (ctx.complete rho).1 b).layer =
        (getNode (ctx.complete rho).1 a).layer + 1 := by
  have hout : ∀ i, ¬(i < ctx.nodes.length) →
      getNodeL ctx.nodes i = ({} : Node) := by
    intro i hi
    show getIdx ({} : Node) ctx.nodes i = _
    rw [getIdx_ge _ (by omega)]
  have hinv : DownInv ctx := by
    constructor
    · intro i j hj
      by_cases hi : i < ctx.nodes.length
      · exact ⟨hi, hbnd i hi j hj⟩
      · rw [hout i hi] at hj
        exact absurd hj (List.not_mem_nil j)
    · intro i
      by_cases hi : i < ctx.nodes.length
      · exact hnd i hi
      · rw [hout i hi]
        exact List.nodup_nil
  have hok : SpanOk ctx := by
    intro i j hj
    by_cases hi : i < ctx.nodes.length
    · exact hspan i hi j hj
    · rw [hout i hi] at hj
      exact absurd hj (List.not_mem_nil j)
  have hterm : (ctx.complete rho).2 = true :=
    completeGo_term rho hrho _ ctx hinv hok (Nat.lt_succ_self _)
  refine ⟨hterm, fun a b hb => ?_⟩
  exact (completeGo_post rho hrho _ ctx hterm a b hb).symm

/-- Witness for C3: a three-vertex chain with the extra long edge
`0 -> 2` (layers 0, 1, 2), which `complete` must splice. -/
theorem c3_complete_layering_witness :
    (Context.complete
      { nodes := [
          { padding := 1, downward := [1, 2], layer := 0 },
          { padding := 1, upward := [0], downward := [2], layer := 1 },
          { padding := 1, upward := [1, 0], layer := 2 } ] }
      (fun l => l)).2 = true ∧
    ∀ a b : Nat, b ∈ (getNode (Context.complete
      { nodes := [
          { padding := 1, downward := [1, 2], layer := 0 },
          { padding := 1, upward := [0], downward := [2], layer := 1 },
          { padding := 1, upward := [1, 0], layer := 2 } ] }
      (fun l => l)).1 a).downward →
      (getNode (Context.complete
        { nodes := [
            { padding := 1, downward := [1, 2], layer := 0 },
            { padding := 1, upward := [0], downward := [2], layer := 1 },
            { padding := 1, upward := [1, 0], layer := 2 } ] }
        (fun l => l)).1 b).layer =
      (getNode (Context.complete
        { nodes := [
            { padding := 1, downward := [1, 2], layer := 0 },
            { padding := 1, upward := [0], downward := [2], layer := 1 },
            { padding := 1, upward := [1, 0], layer := 2 } ] }
        (fun l => l)).1 a).layer + 1 :=
  c3_complete_layering (fun l x => Iff.rfl) (by decide) (by decide) (by decide)

/-! ## C9: the geometry invariant after `layout` -/

theorem relaxLoop_zero (ctx : Context) :
    Context.relaxLoop 0 ctx = (ctx, false) := rfl

theorem relaxLoop_succ (m : Nat) (ctx : Context) :
    Context.relaxLoop (m + 1) ctx =
      (match Context.relaxStep ctx with
       | (ctx2, true) => (ctx2, true)
       | (ctx2, false) => Context.relaxLoop m ctx2) := rfl

theorem relaxLoop_true_exists : ∀ (fuel : Nat) (c S : Context),
    Context.relaxLoop fuel c = (S, true) →
    ∃ p, Context.relaxStep p = (S, true) := by
  intro fuel
  induction fuel with
  | zero =>
    intro c S h
    rw [relaxLoop_zero] at h
    exact absurd (congrArg Prod.snd h) (by simp)
  | succ fuel ih =>
    intro c S h
    rw [relaxLoop_succ] at h
    rcases hrs : Context.relaxStep c with ⟨c2, flag⟩
    rw [hrs] at h
    cases flag with
    | true =>
      have hc2 : c2 = S := congrArg Prod.fst h
      exact ⟨c, by rw [hrs, hc2]⟩
    | false => exact ih c2 S h

theorem touchNodes_cons (ns : List Node) (x : Nat) (st : Bool) (n : Nat)
    (rest : List Nat) :
    Context.touchNodes ns x st (n :: rest) =
      (if (getNodeL ns n).x < x then
        Context.touchNodes (updN n (fun m => { m with x := x }) ns)
          ((getNodeL (updN n (fun m => { m with x := x }) ns) n).x +
            (getNodeL (updN n (fun m => { m with x := x }) ns) n).width)
          false rest
      else
        Context.touchNodes ns ((getNodeL ns n).x + (getNodeL ns n).width) st rest)
    := rfl

theorem touchNodes_false : ∀ (idx : List Nat) (ns : List Node) (x : Nat),
    (Context.touchNodes ns x false idx).2 = false := by
  intro idx
  induction idx with
  | nil => intro ns x; rfl
  | cons n rest ih =>
    intro ns x
    rw [touchNodes_cons]
    split_ifs
    · exact ih _ _
    · exact ih _ _

theorem touchNodes_stable : ∀ (idx : List Nat) (ns : List Node) (x : Nat)
    (st : Bool), (Context.touchNodes ns x st idx).2 = true →
    (Context.touchNodes ns x st idx).1 = ns ∧ st = true ∧
      consecFrom ns x idx = true := by
  intro idx
  induction idx with
  | nil => intro ns x st h; exact ⟨rfl, h, rfl⟩
  | cons n rest ih =>
    intro ns x st h
    rw [touchNodes_cons] at h ⊢
    by_cases hlt : (getNodeL ns n).x < x
    · rw [if_pos hlt] at h
      rw [touchNodes_false] at h
      exact absurd h (by simp)
    · rw [if_neg hlt] at h ⊢
      obtain ⟨h1, h2, h3⟩ := ih ns _ st h
      refine ⟨h1, h2, ?_⟩
      unfold consecFrom
      rw [h3, decide_eq_true (by omega : x ≤ (getNodeL ns n).x)]
      rfl

theorem touchLayers_cons (ns : List Node) (st : Bool) (L : Layer)
    (rest : List Layer) :
    Context.touchLayers ns st (L :: rest) =
      (match Context.touchNodes ns 0 st L.nodes with
       | (ns, stable) => Context.touchLayers ns stable rest) := rfl

theorem touchLayers_false : ∀ (ls : List Layer) (ns : List Node),
    (Context.touchLayers ns false ls).2 = false := by
  intro ls
  induction ls with
  | nil => intro ns; rfl
  | cons L rest ih =>
    intro ns
    rw [touchLayers_cons]
    rcases ht : Context.touchNodes ns 0 false L.nodes with ⟨ns1, st1⟩
    have : st1 = false := by
      have := touchNodes_false L.nodes ns 0
      rw [ht] at this
      exact this
    rw [this]
    exact ih ns1

theorem touchLayers_stable : ∀ (ls : List Layer) (ns : List Node) (st : Bool),
    (Context.touchLayers ns st ls).2 = true →
    (Context.touchLayers ns st ls).1 = ns ∧ st = true ∧
      ∀ L ∈ ls, consecFrom ns 0 L.nodes = true := by
  intro ls
  induction ls with
  | nil => intro ns st h; exact ⟨rfl, h, by simp⟩
  | cons L rest ih =>
    intro ns st h
    rw [touchLayers_cons] at h ⊢
    rcases ht : Context.touchNodes ns 0 st L.nodes with ⟨ns1, st1⟩
    rw [ht] at h
    cases st1 with
    | false =>
      replace h : (Context.touchLayers ns1 false rest).2 = true := h
      rw [touchLayers_false] at h
      exact absurd h (by simp)
    | true =>
      replace h : (Context.touchLayers ns1 true rest).2 = true := h
      have hstable := touchNodes_stable L.nodes ns 0 st (by rw [ht])
      obtain ⟨hns1, hst, hcf⟩ := hstable
      rw [ht] at hns1
      have hns1' : ns1 = ns := hns1
      subst hns1'
      obtain ⟨h1, _, h3⟩ := ih ns1 true h
      refine ⟨?_, hst, fun L' hL' => ?_⟩
      · show (Context.touchLayers ns1 true rest).1 = ns1
        exact h1
      · rcases List.mem_cons.mp hL' with rfl | hL2
        · exact hcf
        · exact h3 L' hL2

theorem p1_stable {c S : Context}
    (h : Context.layout_nodes_do_not_touch c = (S, true)) :
    S = c ∧ ∀ L ∈ c.layers, consecFrom c.nodes 0 L.nodes = true := by
  have h' : (match Context.touchLayers c.nodes true c.layers with
    | (ns, stable) => ({ c with nodes := ns }, stable)) = (S, true) := h
  rcases ht : Context.touchLayers c.nodes true c.layers with ⟨ns1, st1⟩
  rw [ht] at h'
  have hst : st1 = true := congrArg Prod.snd h'
  subst hst
  obtain ⟨h1, _, h3⟩ := touchLayers_stable c.layers c.nodes true (by rw [ht])
  rw [ht] at h1
  have hns : ns1 = c.nodes := h1
  subst hns
  have hSc : ({ c with nodes := c.nodes } : Context) = S :=
    congrArg Prod.fst h'
  exact ⟨hSc.symm.trans rfl, h3⟩

theorem consecFrom_consecOk (ns : List Node) : ∀ (l : List Nat) (x : Nat),
    consecFrom ns x l = true → consecOk ns l = true := by
  intro l
  induction l with
  | nil => intro x _; rfl
  | cons a rest ih =>
    intro x h
    unfold consecFrom at h
    rw [Bool.and_eq_true] at h
    cases rest with
    | nil => rfl
    | cons b rest2 =>
      have h2 := h.2
      unfold consecFrom at h2
      rw [Bool.and_eq_true] at h2
      show (decide ((getNodeL ns a).x + (getNodeL ns a).width ≤
        (getNodeL ns b).x) && consecOk ns (b :: rest2)) = true
      rw [Bool.and_eq_true]
      exact ⟨h2.1, ih _ h.2⟩

theorem growFindEdges_cons (ns : List Node) (e : Edge) (rest : List Edge) :
    Context.growFindEdges ns (e :: rest) =
      (if (getNodeL ns e.up).x + (getNodeL ns e.up).width - 1 - 1 < e.x &&
          !(getNodeL ns e.up).is_connector then some (e.up, e.x)
      else if (getNodeL ns e.down).x + (getNodeL ns e.down).width - 1 - 1
          < e.x && !(getNodeL ns e.down).is_connector then some (e.down, e.x)
      else Context.growFindEdges ns rest) := rfl

theorem growFindEdges_none {ns : List Node} : ∀ {es : List Edge},
    Context.growFindEdges ns es = none → ∀ e ∈ es,
      ((getNodeL ns e.up).is_connector ||
        decide (e.x ≤ (getNodeL ns e.up).x + (getNodeL ns e.up).width - 2))
        = true ∧
      ((getNodeL ns e.down).is_connector ||
        decide (e.x ≤ (getNodeL ns e.down).x + (getNodeL ns e.down).width - 2))
        = true := by
  intro es
  induction es with
  | nil => intro _ e he; exact absurd he (List.not_mem_nil e)
  | cons e0 rest ih =>
    intro h e he
    rw [growFindEdges_cons] at h
    by_cases h1 : (getNodeL ns e0.up).x + (getNodeL ns e0.up).width - 1 - 1
        < e0.x && !(getNodeL ns e0.up).is_connector
    · rw [if_pos h1] at h
      exact Option.noConfusion h
    · rw [if_neg h1] at h
      by_cases h2 : (getNodeL ns e0.down).x +
          (getNodeL ns e0.down).width - 1 - 1 < e0.x &&
          !(getNodeL ns e0.down).is_connector
      · rw [if_pos h2] at h
        exact Option.noConfusion h
      · rw [if_neg h2] at h
        rcases List.mem_cons.mp he with rfl | he2
        · constructor
          · cases hc : (getNodeL ns e.up).is_connector with
            | true => rfl
            | false =>
              rw [hc] at h1
              simp only [Bool.not_false, Bool.and_true,
                decide_eq_true_eq] at h1
              simp only [hc, Bool.false_or, decide_eq_true_eq]
              omega
          · cases hc : (getNodeL ns e.down).is_connector with
            | true => rfl
            | false =>
              rw [hc] at h2
              simp only [Bool.not_false, Bool.and_true,
                decide_eq_true_eq] at h2
              simp only [hc, Bool.false_or, decide_eq_true_eq]
              omega
        · exact ih h e he2

theorem growFind_cons (ns : List Node) (L : Layer) (rest : List Layer) :
    Context.growFind ns (L :: rest) =
      (match Context.growFindEdges ns L.edges with
       | some r => some r
       | none => Context.growFind ns rest) := rfl

theorem growFind_none {ns : List Node} : ∀ {ls : List Layer},
    Context.growFind ns ls = none → ∀ L ∈ ls, Context.growFindEdges ns L.edges = none := by
  intro ls
  induction ls with
  | nil => intro _ L hL; exact absurd hL (List.not_mem_nil L)
  | cons L0 rest ih =>
    intro h L hL
    rw [growFind_cons] at h
    cases hfe : Context.growFindEdges ns L0.edges with
    | some r =>
      rw [hfe] at h
      exact Option.noConfusion h
    | none =>
      rw [hfe] at h
      rcases List.mem_cons.mp hL with rfl | hL2
      · exact hfe
      · exact ih h L hL2

theorem p3_stable {c S : Context}
    (h : Context.layout_grow_nodes c = (S, true)) :
    S = c ∧ Context.growFind c.nodes c.layers = none := by
  have h' : (match Context.growFind c.nodes c.layers with
    | none => (c, true)
    | some (n, ex) =>
      ({ c with
        nodes := updN n (fun m =>
          let parity := m.width % 2
          let w := ex + 1 + 1 - m.x
          let w := if parity ≠ w % 2 then w + 1 else w
          { m with width := w }) c.nodes }, false)) = (S, true) := h
  cases hg : Context.growFind c.nodes c.layers with
  | none =>
    rw [hg] at h'
    exact ⟨(congrArg Prod.fst h').symm, rfl⟩
  | some r =>
    rcases r with ⟨n, ex⟩
    rw [hg] at h'
    exact absurd (congrArg Prod.snd h') (by simp)

theorem shiftFindEdges_cons (ns : List Node) (i : Nat) (e : Edge)
    (rest : List Edge) :
    Context.shiftFindEdges ns i (e :: rest) =
      (if e.x < max ((getNodeL ns e.up).x + (getNodeL ns e.up).padding)
          ((getNodeL ns e.down).x + (getNodeL ns e.down).padding) then
        some (i, max ((getNodeL ns e.up).x + (getNodeL ns e.up).padding)
          ((getNodeL ns e.down).x + (getNodeL ns e.down).padding))
      else Context.shiftFindEdges ns (i + 1) rest) := rfl

theorem shiftFindEdges_none {ns : List Node} : ∀ {es : List Edge} {i : Nat},
    Context.shiftFindEdges ns i es = none → ∀ e ∈ es,
      decide ((getNodeL ns e.up).x + (getNodeL ns e.up).padding ≤ e.x)
        = true ∧
      decide ((getNodeL ns e.down).x + (getNodeL ns e.down).padding ≤ e.x)
        = true := by
  intro es
  induction es with
  | nil => intro _ _ e he; exact absurd he (List.not_mem_nil e)
  | cons e0 rest ih =>
    intro i h e he
    rw [shiftFindEdges_cons] at h
    by_cases hc : e0.x < max ((getNodeL ns e0.up).x +
        (getNodeL ns e0.up).padding)
        ((getNodeL ns e0.down).x + (getNodeL ns e0.down).padding)
    · rw [if_pos hc] at h
      exact Option.noConfusion h
    · rw [if_neg hc] at h
      rcases List.mem_cons.mp he with rfl | he2
      · constructor
        · rw [decide_eq_true_eq]
          omega
        · rw [decide_eq_true_eq]
          omega
      · exact ih h e he2

theorem shiftFind_cons (ns : List Node) (li : Nat) (L : Layer)
    (rest : List Layer) :
    Context.shiftFind ns li (L :: rest) =
      (match Context.shiftFindEdges ns 0 L.edges with
       | some (i, v) => some (li, i, v)
       | none => Context.shiftFind ns (li + 1) rest) := rfl

theorem shiftFind_none {ns : List Node} : ∀ {ls : List Layer} {li : Nat},
    Context.shiftFind ns li ls = none →
    ∀ L ∈ ls, Context.shiftFindEdges ns 0 L.edges = none := by
  intro ls
  induction ls with
  | nil => intro _ _ L hL; exact absurd hL (List.not_mem_nil L)
  | cons L0 rest ih =>
    intro li h L hL
    rw [shiftFind_cons] at h
    cases hfe : Context.shiftFindEdges ns 0 L0.edges with
    | some r =>
      rcases r with ⟨i, v⟩
      rw [hfe] at h
      exact Option.noConfusion h
    | none =>
      rw [hfe] at h
      rcases List.mem_cons.mp hL with rfl | hL2
      · exact hfe
      · exact ih h L hL2

theorem p4_stable {c S : Context}
    (h : Context.layout_shift_edges c = (S, true)) :
    S = c ∧ Context.shiftFind c.nodes 0 c.layers = none := by
  have h' : (match Context.shiftFind c.nodes 0 c.layers with
    | none => (c, true)
    | some (li, i, v) =>
      ({ c with
        layers := updN li (fun L =>
          { L with edges := updN i (fun e => { e with x := v }) L.edges })
          c.layers }, false)) = (S, true) := h
  cases hg : Context.shiftFind c.nodes 0 c.layers with
  | none =>
    rw [hg] at h'
    exact ⟨(congrArg Prod.fst h').symm, rfl⟩
  | some r =>
    rcases r with ⟨li, i, v⟩
    rw [hg] at h'
    exact absurd (congrArg Prod.snd h') (by simp)

theorem p5_stable {c S : Context}
    (h : Context.layout_shift_connector_nodes c = (S, true)) : S = c := by
  have h' : (match Context.shiftConnFind c.layers 0 c.nodes with
    | none => (c, true)
    | some (i, v) =>
      ({ c with nodes := updN i (fun m => { m with x := v }) c.nodes },
        false)) = (S, true) := h
  cases hg : Context.shiftConnFind c.layers 0 c.nodes with
  | none =>
    rw [hg] at h'
    exact (congrArg Prod.fst h').symm
  | some r =>
    rcases r with ⟨i, v⟩
    rw [hg] at h'
    exact absurd (congrArg Prod.snd h') (by simp)

theorem relaxStep_true {c S : Context}
    (h : Context.relaxStep c = (S, true)) :
    S = c ∧ (∀ L ∈ c.layers, consecFrom c.nodes 0 L.nodes = true) ∧
    Context.growFind c.nodes c.layers = none ∧
    Context.shiftFind c.nodes 0 c.layers = none := by
  unfold Context.relaxStep at h
  rcases h1 : c.layout_nodes_do_not_touch with ⟨c1, f1⟩
  rw [h1] at h
  cases f1 with
  | false => exact absurd (congrArg Prod.snd h) (by simp)
  | true =>
    obtain ⟨hc1, hp1⟩ := p1_stable h1
    replace h : (match c1.layout_edges_do_not_touch with
      | (ctx, false) => (ctx, false)
      | (ctx, true) =>
      match ctx.layout_grow_nodes with
      | (ctx, false) => (ctx, false)
      | (ctx, true) =>
      match ctx.layout_shift_edges with
      | (ctx, false) => (ctx, false)
      | (ctx, true) => ctx.layout_shift_connector_nodes) = (S, true) := h
    rw [hc1] at h
    rcases h2 : c.layout_edges_do_not_touch with ⟨c2, f2⟩
    rw [h2] at h
    cases f2 with
    | false => exact absurd (congrArg Prod.snd h) (by simp)
    | true =>
      obtain ⟨hc2, _⟩ := p1_stable h2
      replace h : (match c2.layout_grow_nodes with
        | (ctx, false) => (ctx, false)
        | (ctx, true) =>
        match ctx.layout_shift_edges with
        | (ctx, false) => (ctx, false)
        | (ctx, true) => ctx.layout_shift_connector_nodes) = (S, true) := h
      rw [hc2] at h
      rcases h3 : c.layout_grow_nodes with ⟨c3, f3⟩
      rw [h3] at h
      cases f3 with
      | false => exact absurd (congrArg Prod.snd h) (by simp)
      | true =>
        obtain ⟨hc3, hp3⟩ := p3_stable h3
        replace h : (match c3.layout_shift_edges with
          | (ctx, false) => (ctx, false)
          | (ctx, true) => ctx.layout_shift_connector_nodes) = (S, true) := h
        rw [hc3] at h
        rcases h4 : c.layout_shift_edges with ⟨c4, f4⟩
        rw [h4] at h
        cases f4 with
        | false => exact absurd (congrArg Prod.snd h) (by simp)
        | true =>
          obtain ⟨hc4, hp4⟩ := p4_stable h4
          replace h : c4.layout_shift_connector_nodes = (S, true) := h
          rw [hc4] at h
          exact ⟨p5_stable h, hp1, hp3, hp4⟩

theorem geomOkB_of_stable {c : Context}
    (h1 : ∀ L ∈ c.layers, consecFrom c.nodes 0 L.nodes = true)
    (h3 : Context.growFind c.nodes c.layers = none)
    (h4 : Context.shiftFind c.nodes 0 c.layers = none) :
    geomOkB c = true := by
  unfold geomOkB
  rw [List.all_eq_true]
  intro L hL
  rw [Bool.and_eq_true]
  refine ⟨consecFrom_consecOk _ _ _ (h1 L hL), ?_⟩
  rw [List.all_eq_true]
  intro e he
  obtain ⟨hg1, hg2⟩ := growFindEdges_none (growFind_none h3 L hL) e he
  obtain ⟨hs1, hs2⟩ := shiftFindEdges_none (shiftFind_none h4 L hL) e he
  unfold edgeInSpanB
  rw [Bool.and_eq_true, Bool.and_eq_true, Bool.and_eq_true]
  exact ⟨⟨⟨hs1, hs2⟩, hg1⟩, hg2⟩

theorem all_congr {α : Type} {p q : α → Bool} (h : ∀ x, p x = q x)
    (l : List α) : l.all p = l.all q := by
  rw [show p = q from funext h]

theorem all_updN_pres {α : Type} (p : α → Bool) (f : α → α)
    (hf : ∀ x, p (f x) = p x) : ∀ (l : List α) (j : Nat),
    (updN j f l).all p = l.all p := by
  intro l
  induction l with
  | nil => intro j; rfl
  | cons a rest ih =>
    intro j
    cases j with
    | zero =>
      show (f a :: rest).all p = (a :: rest).all p
      rw [List.all_cons, List.all_cons, hf]
    | succ j =>
      show (a :: updN j f rest).all p = (a :: rest).all p
      rw [List.all_cons, List.all_cons, ih j]

theorem map_updN_pres {α β : Type} (g : α → β) (f : α → α)
    (hf : ∀ x, g (f x) = g x) : ∀ (l : List α) (j : Nat),
    (updN j f l).map g = l.map g := by
  intro l
  induction l with
  | nil => intro j; rfl
  | cons a rest ih =>
    intro j
    cases j with
    | zero =>
      show g (f a) :: rest.map g = g a :: rest.map g
      rw [hf]
    | succ j =>
      show g a :: (updN j f rest).map g = g a :: rest.map g
      rw [ih j]

theorem all_map_gen {α β : Type} (f : α → β) (p : β → Bool) :
    ∀ l : List α, (l.map f).all p = l.all (fun a => p (f a)) := by
  intro l
  induction l with
  | nil => rfl
  | cons a rest ih =>
    show (p (f a) && (rest.map f).all p) =
      (p (f a) && rest.all (fun a => p (f a)))
    rw [ih]

theorem getNodeL_updN_comp {β : Type} (π : Node → β) (f : Node → Node)
    (hf : ∀ x, π (f x) = π x) (j : Nat) (ns : List Node) (m : Nat) :
    π (getNodeL (updN j f ns) m) = π (getNodeL ns m) := by
  unfold getNodeL
  exact getIdx_updN_comp { } π f hf j ns m

theorem consecOk_congr {ns1 ns2 : List Node}
    (hx : ∀ m, (getNodeL ns1 m).x = (getNodeL ns2 m).x)
    (hw : ∀ m, (getNodeL ns1 m).width = (getNodeL ns2 m).width) :
    ∀ l, consecOk ns1 l = consecOk ns2 l := by
  intro l
  induction l with
  | nil => rfl
  | cons a rest ih =>
    cases rest with
    | nil => rfl
    | cons b rest2 =>
      show (decide ((getNodeL ns1 a).x + (getNodeL ns1 a).width ≤
          (getNodeL ns1 b).x) && consecOk ns1 (b :: rest2)) =
        (decide ((getNodeL ns2 a).x + (getNodeL ns2 a).width ≤
          (getNodeL ns2 b).x) && consecOk ns2 (b :: rest2))
      rw [hx a, hw a, hx b, ih]

theorem edgeTripleOk_congr {ns1 ns2 : List Node}
    (hx : ∀ m, (getNodeL ns1 m).x = (getNodeL ns2 m).x)
    (hw : ∀ m, (getNodeL ns1 m).width = (getNodeL ns2 m).width)
    (hp : ∀ m, (getNodeL ns1 m).padding = (getNodeL ns2 m).padding)
    (hcn : ∀ m, (getNodeL ns1 m).is_connector =
      (getNodeL ns2 m).is_connector) (t : Nat × Nat × Nat) :
    edgeTripleOk ns1 t = edgeTripleOk ns2 t := by
  unfold edgeTripleOk
  rw [hx t.1, hx t.2.1, hw t.1, hw t.2.1, hp t.1, hp t.2.1, hcn t.1,
    hcn t.2.1]

theorem geomOkB_skelForm (c : Context) :
    geomOkB c = (c.layers.map
        (fun L => (L.nodes, L.edges.map (fun e => (e.up, e.down, e.x))))).all
      (fun s => consecOk c.nodes s.1 && s.2.all (edgeTripleOk c.nodes)) := by
  unfold geomOkB
  rw [all_map_gen]
  refine all_congr (fun L => ?_) _
  show (consecOk c.nodes L.nodes && L.edges.all (edgeInSpanB c.nodes)) =
    (consecOk c.nodes L.nodes &&
      (L.edges.map (fun e => (e.up, e.down, e.x))).all
        (edgeTripleOk c.nodes))
  rw [all_map_gen]
  exact congrArg (fun b => consecOk c.nodes L.nodes && b)
    (all_congr (fun e => rfl) L.edges)

theorem geomOkB_ext {c1 c2 : Context}
    (hx : ∀ m, (getNodeL c1.nodes m).x = (getNodeL c2.nodes m).x)
    (hw : ∀ m, (getNodeL c1.nodes m).width = (getNodeL c2.nodes m).width)
    (hp : ∀ m, (getNodeL c1.nodes m).padding = (getNodeL c2.nodes m).padding)
    (hcn : ∀ m, (getNodeL c1.nodes m).is_connector =
      (getNodeL c2.nodes m).is_connector)
    (hl : c1.layers.map
        (fun L => (L.nodes, L.edges.map (fun e => (e.up, e.down, e.x)))) =
      c2.layers.map
        (fun L => (L.nodes, L.edges.map (fun e => (e.up, e.down, e.x))))) :
    geomOkB c1 = geomOkB c2 := by
  rw [geomOkB_skelForm c1, geomOkB_skelForm c2, hl]
  refine all_congr (fun s => ?_) _
  rw [consecOk_congr hx hw s.1]
  exact congrArg (fun b => consecOk c2.nodes s.1 && b)
    (all_congr (fun t => edgeTripleOk_congr hx hw hp hcn t) s.2)

theorem adapterPhase_nodes_skel (rho : List Nat → List Nat) (c : Context) :
    (Context.adapterPhase rho c).nodes = c.nodes ∧
    (Context.adapterPhase rho c).layers.map
        (fun L => (L.nodes, L.edges.map (fun e => (e.up, e.down, e.x)))) =
      c.layers.map
        (fun L => (L.nodes, L.edges.map (fun e => (e.up, e.down, e.x)))) := by
  unfold Context.adapterPhase
  refine foldl_pres (P := fun c2 : Context => c2.nodes = c.nodes ∧
      c2.layers.map
        (fun L => (L.nodes, L.edges.map (fun e => (e.up, e.down, e.x)))) =
      c.layers.map
        (fun L => (L.nodes, L.edges.map (fun e => (e.up, e.down, e.x)))))
    ?_ _ c ⟨rfl, rfl⟩
  intro c2 y hP
  dsimp only []
  by_cases hen : !(getLayer c2 y).adapter.enabled
  · rw [if_pos hen]
    exact hP
  · rw [if_neg hen]
    refine ⟨hP.1, ?_⟩
    refine Eq.trans (map_updN_pres _ _ ?_ _ _) hP.2
    intro L
    rfl

theorem geomOkB_adapterPhase (rho : List Nat → List Nat) (c : Context) :
    geomOkB (Context.adapterPhase rho c) = geomOkB c := by
  obtain ⟨h1, h2⟩ := adapterPhase_nodes_skel rho c
  exact geomOkB_ext (fun m => by rw [h1]) (fun m => by rw [h1])
    (fun m => by rw [h1]) (fun m => by rw [h1]) h2

theorem layoutYPos_props (c : Context) :
    (∀ m, (getNodeL (Context.layoutYPos c).nodes m).x =
      (getNodeL c.nodes m).x) ∧
    (∀ m, (getNodeL (Context.layoutYPos c).nodes m).width =
      (getNodeL c.nodes m).width) ∧
    (∀ m, (getNodeL (Context.layoutYPos c).nodes m).padding =
      (getNodeL c.nodes m).padding) ∧
    (∀ m, (getNodeL (Context.layoutYPos c).nodes m).is_connector =
      (getNodeL c.nodes m).is_connector) ∧
    (Context.layoutYPos c).layers.map
        (fun L => (L.nodes, L.edges.map (fun e => (e.up, e.down, e.x)))) =
      c.layers.map
        (fun L => (L.nodes, L.edges.map (fun e => (e.up, e.down, e.x)))) := by
  unfold Context.layoutYPos
  refine foldl_pres (P := fun acc : Context × Nat =>
      (∀ m, (getNodeL acc.1.nodes m).x = (getNodeL c.nodes m).x) ∧
      (∀ m, (getNodeL acc.1.nodes m).width = (getNodeL c.nodes m).width) ∧
      (∀ m, (getNodeL acc.1.nodes m).padding =
        (getNodeL c.nodes m).padding) ∧
      (∀ m, (getNodeL acc.1.nodes m).is_connector =
        (getNodeL c.nodes m).is_connector) ∧
      acc.1.layers.map
          (fun L => (L.nodes, L.edges.map (fun e => (e.up, e.down, e.x)))) =
        c.layers.map
          (fun L => (L.nodes, L.edges.map (fun e => (e.up, e.down, e.x)))))
    ?_ (List.range c.layers.length) (c, 0)
    ⟨fun m => rfl, fun m => rfl, fun m => rfl, fun m => rfl, rfl⟩
  intro acc li hacc
  obtain ⟨hx, hw, hp, hcn, hl⟩ := hacc
  dsimp only []
  have hinner := foldl_pres (f := fun ctx n =>
      { ctx with nodes := updN n (fun m => { m with y := acc.2 }) ctx.nodes })
    (P := fun c2 : Context =>
      (∀ m, (getNodeL c2.nodes m).x = (getNodeL acc.1.nodes m).x) ∧
      (∀ m, (getNodeL c2.nodes m).width = (getNodeL acc.1.nodes m).width) ∧
      (∀ m, (getNodeL c2.nodes m).padding =
        (getNodeL acc.1.nodes m).padding) ∧
      (∀ m, (getNodeL c2.nodes m).is_connector =
        (getNodeL acc.1.nodes m).is_connector) ∧
      c2.layers = acc.1.layers)
    (fun c2 n h2 => ⟨
      fun m => (getNodeL_updN_comp Node.x
        (fun mm => { mm with y := acc.2 }) (fun v => rfl) n c2.nodes
        m).trans (h2.1 m),
      fun m => (getNodeL_updN_comp Node.width
        (fun mm => { mm with y := acc.2 }) (fun v => rfl) n c2.nodes
        m).trans (h2.2.1 m),
      fun m => (getNodeL_updN_comp Node.padding
        (fun mm => { mm with y := acc.2 }) (fun v => rfl) n c2.nodes
        m).trans (h2.2.2.1 m),
      fun m => (getNodeL_updN_comp Node.is_connector
        (fun mm => { mm with y := acc.2 }) (fun v => rfl) n
        c2.nodes m).trans (h2.2.2.2.1 m),
      h2.2.2.2.2⟩)
    (getLayer acc.1 li).nodes acc.1
    ⟨fun m => rfl, fun m => rfl, fun m => rfl, fun m => rfl, rfl⟩
  obtain ⟨ix, iw, ip, icn, il⟩ := hinner
  have hskE : ∀ L : Layer,
      (fun L : Layer =>
        (L.nodes, L.edges.map (fun e => (e.up, e.down, e.x))))
        ({ L with edges :=
          L.edges.map (fun e => { e with y := acc.2 + 2 }) }) =
      (fun L : Layer =>
        (L.nodes, L.edges.map (fun e => (e.up, e.down, e.x)))) L := by
    intro L
    show (L.nodes, (L.edges.map (fun e => { e with y := acc.2 + 2 })).map
        (fun e => (e.up, e.down, e.x))) =
      (L.nodes, L.edges.map (fun e => (e.up, e.down, e.x)))
    rw [List.map_map]
    exact congrArg (fun es => (L.nodes, es))
      (List.map_congr_left (fun e _ => rfl))
  by_cases hen : (getLayer acc.1 li).adapter.enabled
  · rw [if_pos hen]
    refine ⟨fun m => (ix m).trans (hx m), fun m => (iw m).trans (hw m),
      fun m => (ip m).trans (hp m), fun m => (icn m).trans (hcn m), ?_⟩
    refine Eq.trans (map_updN_pres _ _ ?_ _ _)
      (Eq.trans (map_updN_pres _ _ hskE _ _) ?_)
    · intro L
      rfl
    · rw [il]
      exact hl
  · rw [if_neg hen]
    refine ⟨fun m => (ix m).trans (hx m), fun m => (iw m).trans (hw m),
      fun m => (ip m).trans (hp m), fun m => (icn m).trans (hcn m), ?_⟩
    refine Eq.trans (map_updN_pres _ _ hskE _ _) ?_
    rw [il]
    exact hl

theorem geomOkB_layoutYPos (c : Context) :
    geomOkB (Context.layoutYPos c) = geomOkB c := by
  obtain ⟨hx, hw, hp, hcn, hl⟩ := layoutYPos_props c
  exact geomOkB_ext hx hw hp hcn hl

/-- C9.  Amended claim: when the relaxation loop exits through the
stability break (all five passes stable within the 1000-iteration
budget), the laid-out context satisfies the geometry invariant: within
every layer consecutive vertex boxes do not overlap and every edge
column lies inside the padded horizontal span of both endpoint boxes.
(The original claim also asserted this when the iteration ceiling is
hit, which is refuted by `c9_ceiling_counterexample`.) -/
theorem c9_geometry {ctx : Context} (rho : List Nat → List Nat)
    (hconv : (Context.relaxLoop 1000 ctx.layoutInitWidths).2 = true) :
    geomOkB (ctx.layout rho) = true := by
  rcases hrl : Context.relaxLoop 1000 ctx.layoutInitWidths with ⟨S, flag⟩
  rw [hrl] at hconv
  replace hconv : flag = true := hconv
  subst hconv
  have hdec : ctx.layout rho =
      Context.layoutYPos (Context.adapterPhase rho S) := by
    show Context.layoutYPos (Context.adapterPhase rho
      (Context.relaxLoop 1000 ctx.layoutInitWidths).1) =
      Context.layoutYPos (Context.adapterPhase rho S)
    rw [hrl]
  rw [hdec, geomOkB_layoutYPos, geomOkB_adapterPhase]
  obtain ⟨prev, hprev⟩ := relaxLoop_true_exists 1000 _ S hrl
  obtain ⟨hS, hp1, hp3, hp4⟩ := relaxStep_true hprev
  rw [hS]
  exact geomOkB_of_stable hp1 hp3 hp4

theorem c9_geometry_witness :
    (Context.relaxLoop 1000 ({} : Context).layoutInitWidths).2 = true ∧
    geomOkB (Context.layout {} (fun l => l)) = true :=
  ⟨rfl, c9_geometry (fun l => l) rfl⟩

theorem runK_zero (ctx : Context) : runK 0 ctx = some ctx := rfl

theorem runK_succ (k : Nat) (ctx : Context) :
    runK (k + 1) ctx =
      (match Context.relaxStep ctx with
       | (_, true) => none
       | (ctx2, false) => runK k ctx2) := rfl

theorem runK_relaxLoop (k : Nat) :
    ∀ (a b : Context), runK k a = some b →
      ∀ m, Context.relaxLoop (m + k) a = Context.relaxLoop m b := by
  induction k with
  | zero =>
    intro a b h m
    rw [runK_zero] at h
    cases h
    rfl
  | succ k ih =>
    intro a b h m
    rw [runK_succ] at h
    rcases hrs : Context.relaxStep a with ⟨c, flag⟩
    rw [hrs] at h
    cases flag with
    | true => simp at h
    | false =>
      have : m + (k + 1) = (m + k) + 1 := by omega
      rw [this, relaxLoop_succ, hrs]
      exact ih c b h m

set_option maxRecDepth 100000 in
set_option maxHeartbeats 12000000 in
theorem c9mid_eq : layoutMid (fun l => l) c9input = some c9mid0 := by rfl

set_option maxRecDepth 100000 in
theorem c9init_eq : c9mid0.layoutInitWidths = c9s0 := by rfl

set_option maxRecDepth 100000 in
set_option maxHeartbeats 64000000 in
theorem c9chunk0 : runK 200 c9s0 = some c9s200 := by rfl

set_option maxRecDepth 100000 in
set_option maxHeartbeats 64000000 in
theorem c9chunk200 : runK 200 c9s200 = some c9s400 := by rfl

set_option maxRecDepth 100000 in
set_option maxHeartbeats 64000000 in
theorem c9chunk400 : runK 200 c9s400 = some c9s600 := by rfl

set_option maxRecDepth 100000 in
set_option maxHeartbeats 64000000 in
theorem c9chunk600 : runK 200 c9s600 = some c9s800 := by rfl

set_option maxRecDepth 100000 in
set_option maxHeartbeats 64000000 in
theorem c9chunk800 : runK 200 c9s800 = some c9s1000 := by rfl

theorem c9relax : Context.relaxLoop 1000 c9s0 = (c9s1000, false) := by
  have h1 := runK_relaxLoop 200 c9s0 c9s200 c9chunk0 800
  have h2 := runK_relaxLoop 200 c9s200 c9s400 c9chunk200 600
  have h3 := runK_relaxLoop 200 c9s400 c9s600 c9chunk400 400
  have h4 := runK_relaxLoop 200 c9s600 c9s800 c9chunk600 200
  have h5 := runK_relaxLoop 200 c9s800 c9s1000 c9chunk800 0
  norm_num at h1 h2 h3 h4 h5
  rw [h1, h2, h3, h4, h5, relaxLoop_zero]

set_option maxRecDepth 100000 in
set_option maxHeartbeats 12000000 in
theorem c9_ceiling_counterexample :
    (layoutMid (fun l => l) c9input).map
        (fun m => (Context.relaxLoop 1000 m.layoutInitWidths).2) =
      some false ∧
    (pipelineAfterLayout (fun l => l) c9input).map geomOkB = some false := by
  constructor
  · rw [c9mid_eq]
    show some ((Context.relaxLoop 1000 c9mid0.layoutInitWidths).2) =
      some false
    rw [c9init_eq, c9relax]
  · rw [pipelineAfterLayout, c9mid_eq]
    show some (geomOkB (Context.layout c9mid0 (fun l => l))) = some false
    have hl : Context.layout c9mid0 (fun l => l) =
        Context.layoutYPos (Context.adapterPhase (fun l => l)
          (Context.relaxLoop 1000 c9mid0.layoutInitWidths).1) := rfl
    rw [hl, c9init_eq, c9relax]
    rfl

/-! ## C1: cycle detection (`Context::toposort`) -/

theorem pathL_congr {c1 c2 : Context}
    (h : ∀ i, (getNode c1 i).downward = (getNode c2 i).downward) :
    ∀ (l : List Nat) (u : Nat), pathL c1 u l ↔ pathL c2 u l := by
  intro l
  induction l with
  | nil => intro u; exact Iff.rfl
  | cons w rest ih =>
    intro u
    show (stepRel c1 u w ∧ pathL c1 w rest) ↔
      (stepRel c2 u w ∧ pathL c2 w rest)
    unfold stepRel
    rw [h u, ih w]

theorem hasCycle_congr {c1 c2 : Context}
    (h : ∀ i, (getNode c1 i).downward = (getNode c2 i).downward) :
    HasCycle c1 ↔ HasCycle c2 := by
  unfold HasCycle
  constructor
  · rintro ⟨x, l, hp⟩
    exact ⟨x, l, (pathL_congr h _ _).mp hp⟩
  · rintro ⟨x, l, hp⟩
    exact ⟨x, l, (pathL_congr h _ _).mpr hp⟩

theorem pathL_append (ctx : Context) : ∀ (l1 l2 : List Nat) (u : Nat),
    pathL ctx u (l1 ++ l2) ↔
      (pathL ctx u l1 ∧ pathL ctx (pathEnd u l1) l2) := by
  intro l1
  induction l1 with
  | nil =>
    intro l2 u
    show pathL ctx u l2 ↔ (True ∧ pathL ctx u l2)
    rw [true_and]
  | cons w rest ih =>
    intro l2 u
    show (stepRel ctx u w ∧ pathL ctx w (rest ++ l2)) ↔
      ((stepRel ctx u w ∧ pathL ctx w rest) ∧
        pathL ctx (pathEnd w rest) l2)
    rw [ih l2 w, and_assoc]

theorem pathEnd_concat (x : Nat) : ∀ (l : List Nat) (u : Nat),
    pathEnd u (l ++ [x]) = x := by
  intro l
  induction l with
  | nil => intro u; rfl
  | cons w rest ih => intro u; exact ih w

theorem pathL_snoc {ctx : Context} {a b : Nat} (hs : stepRel ctx a b) :
    ∀ (l : List Nat) (u : Nat), pathL ctx u (l ++ [a]) →
      pathL ctx u ((l ++ [a]) ++ [b]) := by
  intro l u hp
  rw [pathL_append]
  exact ⟨hp, by rw [pathEnd_concat]; exact ⟨hs, trivial⟩⟩

theorem pathL_mem_lt {ctx : Context}
    (hbnd : ∀ i j : Nat, j ∈ (getNode ctx i).downward →
      i < ctx.nodes.length ∧ j < ctx.nodes.length) :
    ∀ (l : List Nat) (u : Nat), pathL ctx u l →
      ∀ w ∈ l, w < ctx.nodes.length := by
  intro l
  induction l with
  | nil => intro u _ w hw; exact absurd hw (List.not_mem_nil w)
  | cons v rest ih =>
    intro u hp w hw
    obtain ⟨hs, hrest⟩ := hp
    rcases List.mem_cons.mp hw with rfl | hw2
    · exact (hbnd u w hs).2
    · exact ih v hrest w hw2

theorem pathL_head_lt {ctx : Context}
    (hbnd : ∀ i j : Nat, j ∈ (getNode ctx i).downward →
      i < ctx.nodes.length ∧ j < ctx.nodes.length)
    {u w : Nat} {rest : List Nat} (hp : pathL ctx u (w :: rest)) :
    u < ctx.nodes.length :=
  (hbnd u w hp.1).1

theorem dup_split {l : List Nat} : ¬ l.Nodup →
    ∃ x l1 l2 l3, l = l1 ++ x :: l2 ++ x :: l3 := by
  induction l with
  | nil => intro h; exact absurd List.nodup_nil h
  | cons a rest ih =>
    intro h
    rw [List.nodup_cons] at h
    by_cases hmem : a ∈ rest
    · obtain ⟨s, t, hst⟩ := List.append_of_mem hmem
      exact ⟨a, [], s, t, by rw [hst]; rfl⟩
    · have hnd : ¬ rest.Nodup := fun hn => h ⟨hmem, hn⟩
      obtain ⟨x, l1, l2, l3, hdec⟩ := ih hnd
      exact ⟨x, a :: l1, l2, l3, by rw [hdec]; rfl⟩

theorem pathL_dup_cycle {ctx : Context} : ∀ (l : List Nat) (u : Nat),
    pathL ctx u l → ¬ (u :: l).Nodup → HasCycle ctx := by
  intro l u hp hnd
  obtain ⟨x, l1, l2, l3, hdec⟩ := dup_split hnd
  cases l1 with
  | nil =>
    have hux : u = x := by
      have := congrArg (fun t => t.headI) hdec
      exact this
    have hl : l = l2 ++ x :: l3 := by
      have := congrArg (fun t => t.tail) hdec
      exact this
    subst hux
    rw [show l2 ++ u :: l3 = (l2 ++ [u]) ++ l3 by simp] at hl
    rw [hl, pathL_append] at hp
    exact ⟨u, l2, hp.1⟩
  | cons c l1' =>
    have huc : u = c := by
      have := congrArg (fun t => t.headI) hdec
      exact this
    have hl : l = l1' ++ x :: l2 ++ x :: l3 := by
      have := congrArg (fun t => t.tail) hdec
      exact this
    rw [show l1' ++ x :: l2 ++ x :: l3 =
      (l1' ++ [x]) ++ ((l2 ++ [x]) ++ l3) by simp] at hl
    rw [hl] at hp
    rw [pathL_append ctx (l1' ++ [x]) ((l2 ++ [x]) ++ l3) u] at hp
    rw [pathL_append ctx (l2 ++ [x]) l3 (pathEnd u (l1' ++ [x]))] at hp
    rw [pathEnd_concat x l1' u] at hp
    exact ⟨x, l2, hp.2.1⟩

theorem updN_ge (f : α → α) : ∀ {l : List α} {j : Nat}, l.length ≤ j →
    updN j f l = l := by
  intro l
  induction l with
  | nil => intro j _; rw [updN_nil]
  | cons a rest ih =>
    intro j hj
    cases j with
    | zero => exact absurd hj (by simp)
    | succ j =>
      rw [updN_succ]
      rw [ih (by exact Nat.le_of_succ_le_succ hj)]

theorem toposortVisit_false {ctx : Context} {a b : Nat}
    (h : (Context.toposortVisit ctx a b).2 = false) :
    (Context.toposortVisit ctx a b).1 = ctx ∧
    (getNode ctx a).layer < (getNode ctx b).layer := by
  unfold Context.toposortVisit at h ⊢
  by_cases hc : (getNode ctx b).layer ≤ (getNode ctx a).layer
  · rw [if_pos hc] at h
    exact absurd h (by simp)
  · rw [if_neg hc]
    exact ⟨rfl, by omega⟩

theorem toposortVisit_graph (ctx : Context) (a b : Nat) :
    (Context.toposortVisit ctx a b).1.nodes.length = ctx.nodes.length ∧
    ∀ i, (getNode (Context.toposortVisit ctx a b).1 i).downward =
      (getNode ctx i).downward := by
  unfold Context.toposortVisit
  by_cases hc : (getNode ctx b).layer ≤ (getNode ctx a).layer
  · rw [if_pos hc]
    refine ⟨length_updN _ _ _, fun i => ?_⟩
    exact getNodeL_updN_comp Node.downward
      (fun n => { n with layer := (getNode ctx a).layer + 1 })
      (fun v => rfl) b ctx.nodes i
  · rw [if_neg hc]
    exact ⟨rfl, fun i => rfl⟩

theorem scanFoldF_eq (a : Nat) (c : Context) (s : Bool) (b : Nat) :
    Context.scanFoldF a (c, s) b =
      ((Context.toposortVisit c a b).1,
        s || (Context.toposortVisit c a b).2) := rfl

theorem scanFold_true (a : Nat) (l : List Nat) (c0 : Context) :
    (l.foldl (Context.scanFoldF a) (c0, true)).2 = true := by
  refine foldl_pres (P := fun acc : Context × Bool => acc.2 = true)
    ?_ l (c0, true) rfl
  intro acc b hb
  show (acc.2 || _) = true
  rw [hb]
  rfl

theorem scanFold_false (a : Nat) : ∀ (l : List Nat) (c0 : Context)
    (s0 : Bool),
    (l.foldl (Context.scanFoldF a) (c0, s0)).2 = false →
    (l.foldl (Context.scanFoldF a) (c0, s0)).1 = c0 ∧ s0 = false ∧
      ∀ b ∈ l, (getNode c0 a).layer < (getNode c0 b).layer := by
  intro l
  induction l with
  | nil => intro c0 s0 h; exact ⟨rfl, h, by simp⟩
  | cons b rest ih =>
    intro c0 s0 h
    rw [List.foldl_cons, scanFoldF_eq] at h ⊢
    rcases hv : Context.toposortVisit c0 a b with ⟨c1, flag⟩
    rw [hv] at h
    cases flag with
    | true =>
      replace h : (rest.foldl (Context.scanFoldF a) (c1, s0 || true)).2
          = false := h
      rw [Bool.or_true, scanFold_true] at h
      exact absurd h (by simp)
    | false =>
      replace h : (rest.foldl (Context.scanFoldF a) (c1, s0 || false)).2
          = false := h
      rw [Bool.or_false] at h
      obtain ⟨hveq, hlt⟩ := toposortVisit_false
        (show (Context.toposortVisit c0 a b).2 = false by rw [hv])
      have hc1 : c1 = c0 := by rw [hv] at hveq; exact hveq
      rw [hc1] at h
      obtain ⟨h1, h2, h3⟩ := ih c0 s0 h
      refine ⟨?_, h2, fun w hw => ?_⟩
      · show (rest.foldl (Context.scanFoldF a) (c1, s0 || false)).1 = c0
        rw [Bool.or_false, hc1]
        exact h1
      · rcases List.mem_cons.mp hw with rfl | hw2
        · exact hlt
        · exact h3 w hw2

theorem toposortScan_false {st : Context × Bool} {a : Nat}
    (h : (Context.toposortScan st a).2 = false) :
    (Context.toposortScan st a).1 = st.1 ∧ st.2 = false ∧
      ∀ b ∈ (getNode st.1 a).downward,
        (getNode st.1 a).layer < (getNode st.1 b).layer :=
  scanFold_false a ((getNode st.1 a).downward) st.1 st.2 h

theorem toposortScan_true (c : Context) (a : Nat) :
    (Context.toposortScan (c, true) a).2 = true :=
  scanFold_true a _ c

theorem passFold_true (l : List Nat) (c0 : Context) :
    ((l.foldl (fun (acc : Context × Bool) a =>
      Context.toposortScan (acc.1, acc.2) a) (c0, true)).2) = true := by
  refine foldl_pres (P := fun acc : Context × Bool => acc.2 = true)
    ?_ l (c0, true) rfl
  intro acc a ha
  show (Context.toposortScan (acc.1, acc.2) a).2 = true
  rw [ha]
  exact toposortScan_true acc.1 a

theorem passFold_false : ∀ (l : List Nat) (c0 : Context) (s0 : Bool),
    ((l.foldl (fun (acc : Context × Bool) a =>
      Context.toposortScan (acc.1, acc.2) a) (c0, s0)).2 = false) →
    (l.foldl (fun (acc : Context × Bool) a =>
      Context.toposortScan (acc.1, acc.2) a) (c0, s0)).1 = c0 ∧ s0 = false ∧
      ∀ a ∈ l, ∀ b ∈ (getNode c0 a).downward,
        (getNode c0 a).layer < (getNode c0 b).layer := by
  intro l
  induction l with
  | nil => intro c0 s0 h; exact ⟨rfl, h, by simp⟩
  | cons a rest ih =>
    intro c0 s0 h
    rw [List.foldl_cons] at h ⊢
    rcases hs : Context.toposortScan (c0, s0) a with ⟨c1, s1⟩
    rw [hs] at h
    cases s1 with
    | true =>
      rw [passFold_true] at h
      exact absurd h (by simp)
    | false =>
      obtain ⟨hseq, hs0, hlt⟩ := toposortScan_false
        (show (Context.toposortScan (c0, s0) a).2 = false by rw [hs])
      have hc1 : c1 = c0 := by rw [hs] at hseq; exact hseq
      rw [hc1] at h
      obtain ⟨h1, h2, h3⟩ := ih c0 false h
      refine ⟨?_, hs0, fun x hx w hw => ?_⟩
      · show (rest.foldl (fun (acc : Context × Bool) a =>
          Context.toposortScan (acc.1, acc.2) a) (c1, false)).1 = c0
        rw [hc1]
        exact h1
      · rcases List.mem_cons.mp hx with rfl | hx2
        · exact hlt w hw
        · exact h3 x hx2 w hw

theorem toposortPass_false {ctx : Context}
    (h : (Context.toposortPass ctx).2 = false) :
    (Context.toposortPass ctx).1 = ctx ∧
    ∀ a b, stepRel ctx a b →
      (getNode ctx a).layer < (getNode ctx b).layer := by
  unfold Context.toposortPass at h ⊢
  obtain ⟨h1, _, h3⟩ :=
    passFold_false (List.range ctx.nodes.length) ctx false h
  refine ⟨h1, fun a b hs => ?_⟩
  by_cases ha : a < ctx.nodes.length
  · exact h3 a (List.mem_range.mpr ha) b hs
  · unfold stepRel at hs
    have hd : (getNode ctx a).downward = [] := by
      unfold getNode getNodeL
      rw [getIdx_ge { } (Nat.le_of_not_lt ha)]
    rw [hd] at hs
    exact absurd hs (List.not_mem_nil b)

theorem pathL_layer_lt {ctx : Context}
    (hfix : ∀ a b, stepRel ctx a b →
      (getNode ctx a).layer < (getNode ctx b).layer) :
    ∀ (l : List Nat) (u : Nat), pathL ctx u l → l ≠ [] →
      (getNode ctx u).layer < (getNode ctx (pathEnd u l)).layer := by
  intro l
  induction l with
  | nil => intro u _ hne; exact absurd rfl hne
  | cons w rest ih =>
    intro u hp _
    obtain ⟨hs, hrest⟩ := hp
    cases rest with
    | nil => exact hfix u w hs
    | cons w2 rest2 =>
      exact Nat.lt_trans (hfix u w hs)
        (ih w hrest (by simp))

theorem hasCycle_pass_true {ctx : Context} (hc : HasCycle ctx) :
    (Context.toposortPass ctx).2 = true := by
  by_contra h
  rw [Bool.not_eq_true] at h
  obtain ⟨_, hfix⟩ := toposortPass_false h
  obtain ⟨x, l, hp⟩ := hc
  have hlt := pathL_layer_lt hfix (l ++ [x]) x hp (by simp)
  rw [pathEnd_concat] at hlt
  omega

theorem toposortScan_graph (st : Context × Bool) (a : Nat) :
    (Context.toposortScan st a).1.nodes.length = st.1.nodes.length ∧
    ∀ i, (getNode (Context.toposortScan st a).1 i).downward =
      (getNode st.1 i).downward := by
  unfold Context.toposortScan
  refine foldl_pres (P := fun acc : Context × Bool =>
      acc.1.nodes.length = st.1.nodes.length ∧
      ∀ i, (getNode acc.1 i).downward = (getNode st.1 i).downward)
    ?_ _ st ⟨rfl, fun i => rfl⟩
  intro acc b hb
  obtain ⟨hg1, hg2⟩ := toposortVisit_graph acc.1 a b
  exact ⟨hg1.trans hb.1, fun i => (hg2 i).trans (hb.2 i)⟩

theorem toposortPass_graph (ctx : Context) :
    (Context.toposortPass ctx).1.nodes.length = ctx.nodes.length ∧
    ∀ i, (getNode (Context.toposortPass ctx).1 i).downward =
      (getNode ctx i).downward := by
  unfold Context.toposortPass
  refine foldl_pres (P := fun acc : Context × Bool =>
      acc.1.nodes.length = ctx.nodes.length ∧
      ∀ i, (getNode acc.1 i).downward = (getNode ctx i).downward)
    ?_ _ (ctx, false) ⟨rfl, fun i => rfl⟩
  intro acc a ha
  obtain ⟨hg1, hg2⟩ := toposortScan_graph (acc.1, acc.2) a
  exact ⟨hg1.trans ha.1, fun i => (hg2 i).trans (ha.2 i)⟩

theorem toposortGo_cyclic : ∀ (budget : Nat) (ctx : Context),
    HasCycle ctx → Context.toposortGo budget ctx = .error .CycleFound := by
  intro budget
  induction budget with
  | zero => intro ctx _; rfl
  | succ budget ih =>
    intro ctx hc
    show (if (Context.toposortPass ctx).2 = true then
        Context.toposortGo budget (Context.toposortPass ctx).1
      else .ok (Context.toposortPass ctx).1) = .error .CycleFound
    rw [hasCycle_pass_true hc, if_pos rfl]
    exact ih _ ((hasCycle_congr (toposortPass_graph ctx).2).mpr hc)

theorem sum_updN_ge (d : α) (g : α → Nat) (f : α → α) :
    ∀ (l : List α) (j : Nat),
      g (getIdx d l j) ≤ g (f (getIdx d l j)) →
      (l.map g).sum ≤ ((updN j f l).map g).sum := by
  intro l
  induction l with
  | nil => intro j _; rw [updN_nil]
  | cons a rest ih =>
    intro j h
    cases j with
    | zero =>
      rw [updN_zero]
      rw [getIdx_zero] at h
      show g a + (rest.map g).sum ≤ g (f a) + (rest.map g).sum
      omega
    | succ j =>
      rw [updN_succ]
      rw [getIdx_succ] at h
      have := ih j h
      show g a + (rest.map g).sum ≤ g a + ((updN j f rest).map g).sum
      omega

theorem sum_updN_succ (d : α) (g : α → Nat) (f : α → α) :
    ∀ (l : List α) (j : Nat), j < l.length →
      g (getIdx d l j) < g (f (getIdx d l j)) →
      (l.map g).sum + 1 ≤ ((updN j f l).map g).sum := by
  intro l
  induction l with
  | nil => intro j hj _; exact absurd hj (Nat.not_lt_zero j)
  | cons a rest ih =>
    intro j hj h
    cases j with
    | zero =>
      rw [updN_zero]
      rw [getIdx_zero] at h
      show g a + (rest.map g).sum + 1 ≤ g (f a) + (rest.map g).sum
      omega
    | succ j =>
      rw [updN_succ]
      rw [getIdx_succ] at h
      have := ih j (Nat.lt_of_succ_lt_succ hj) h
      show g a + (rest.map g).sum + 1 ≤ g a + ((updN j f rest).map g).sum
      omega

theorem toposortVisit_sum_mono (ctx : Context) (a b : Nat) :
    layerSum ctx ≤ layerSum (Context.toposortVisit ctx a b).1 := by
  unfold Context.toposortVisit
  by_cases hc : (getNode ctx b).layer ≤ (getNode ctx a).layer
  · rw [if_pos hc]
    show layerSum ctx ≤ ((updN b (fun n =>
      { n with layer := (getNode ctx a).layer + 1 }) ctx.nodes).map
        Node.layer).sum
    refine sum_updN_ge { } Node.layer _ ctx.nodes b ?_
    show (getNode ctx b).layer ≤ (getNode ctx a).layer + 1
    omega
  · rw [if_neg hc]

theorem toposortVisit_sum_true {ctx : Context} {a b : Nat}
    (hblt : b < ctx.nodes.length)
    (h : (Context.toposortVisit ctx a b).2 = true) :
    layerSum ctx + 1 ≤ layerSum (Context.toposortVisit ctx a b).1 := by
  unfold Context.toposortVisit at h ⊢
  by_cases hc : (getNode ctx b).layer ≤ (getNode ctx a).layer
  · rw [if_pos hc]
    show layerSum ctx + 1 ≤ ((updN b (fun n =>
      { n with layer := (getNode ctx a).layer + 1 }) ctx.nodes).map
        Node.layer).sum
    refine sum_updN_succ { } Node.layer _ ctx.nodes b hblt ?_
    show (getNode ctx b).layer < (getNode ctx a).layer + 1
    omega
  · rw [if_neg hc] at h
    exact absurd h (by simp)

theorem scanFold_sum_mono (a : Nat) (l : List Nat) (acc : Context × Bool) :
    layerSum acc.1 ≤ layerSum (l.foldl (Context.scanFoldF a) acc).1 := by
  refine foldl_pres (P := fun st : Context × Bool =>
    layerSum acc.1 ≤ layerSum st.1) ?_ l acc (Nat.le_refl _)
  intro st b hst
  exact Nat.le_trans hst (toposortVisit_sum_mono st.1 a b)

theorem passFold_sum_mono (l : List Nat) (acc : Context × Bool) :
    layerSum acc.1 ≤ layerSum (l.foldl (fun (acc : Context × Bool) a =>
      Context.toposortScan (acc.1, acc.2) a) acc).1 := by
  refine foldl_pres (P := fun st : Context × Bool =>
    layerSum acc.1 ≤ layerSum st.1) ?_ l acc (Nat.le_refl _)
  intro st a hst
  exact Nat.le_trans hst (scanFold_sum_mono a _ (st.1, st.2))

theorem scanFold_sum_strict {ctx0 : Context} {a : Nat}
    (hbnd : DownBnd ctx0) :
    ∀ (l : List Nat) (c0 : Context),
      (∀ i, (getNode c0 i).downward = (getNode ctx0 i).downward) →
      c0.nodes.length = ctx0.nodes.length →
      (∀ b ∈ l, b ∈ (getNode ctx0 a).downward) →
      (l.foldl (Context.scanFoldF a) (c0, false)).2 = true →
      layerSum c0 + 1 ≤
        layerSum (l.foldl (Context.scanFoldF a) (c0, false)).1 := by
  intro l
  induction l with
  | nil => intro c0 _ _ _ h; exact absurd h (by simp)
  | cons b rest ih =>
    intro c0 hg hlen hmem hflag
    rw [List.foldl_cons, scanFoldF_eq] at hflag ⊢
    cases hv : (Context.toposortVisit c0 a b).2 with
    | true =>
      have hblt : b < c0.nodes.length := by
        rw [hlen]
        exact (hbnd a b (hmem b (List.mem_cons_self b rest))).2
      have h1 := toposortVisit_sum_true hblt hv
      have h2 := scanFold_sum_mono a rest
        ((Context.toposortVisit c0 a b).1, false || true)
      replace h2 : layerSum (Context.toposortVisit c0 a b).1 ≤
        layerSum (rest.foldl (Context.scanFoldF a)
          ((Context.toposortVisit c0 a b).1, false || true)).1 := h2
      omega
    | false =>
      obtain ⟨hveq, _⟩ := toposortVisit_false hv
      rw [hv] at hflag
      rw [Bool.or_false] at hflag ⊢
      rw [hveq] at hflag ⊢
      exact ih c0 hg hlen
        (fun x hx => hmem x (List.mem_cons_of_mem b hx)) hflag

theorem passFold_sum_strict {ctx0 : Context} (hbnd : DownBnd ctx0) :
    ∀ (l : List Nat) (c0 : Context),
      (∀ i, (getNode c0 i).downward = (getNode ctx0 i).downward) →
      c0.nodes.length = ctx0.nodes.length →
      ((l.foldl (fun (acc : Context × Bool) a =>
        Context.toposortScan (acc.1, acc.2) a) (c0, false)).2 = true) →
      layerSum c0 + 1 ≤
        layerSum (l.foldl (fun (acc : Context × Bool) a =>
          Context.toposortScan (acc.1, acc.2) a) (c0, false)).1 := by
  intro l
  induction l with
  | nil => intro c0 _ _ h; exact absurd h (by simp)
  | cons a rest ih =>
    intro c0 hg hlen
    rw [List.foldl_cons]
    intro hflag
    rcases hs : Context.toposortScan (c0, false) a with ⟨c1, s1⟩
    rw [hs] at hflag
    have hfold : ((getNode c0 a).downward.foldl (Context.scanFoldF a)
        (c0, false)) = (c1, s1) := hs
    cases s1 with
    | true =>
      have h1 : layerSum c0 + 1 ≤ layerSum c1 := by
        have key := scanFold_sum_strict hbnd ((getNode c0 a).downward)
          c0 hg hlen (fun b hb => by rw [← hg a]; exact hb)
          (by rw [hfold])
        rw [hfold] at key
        exact key
      have h2 := passFold_sum_mono rest (c1, true)
      replace h2 : layerSum c1 ≤
        layerSum (rest.foldl (fun (acc : Context × Bool) a =>
          Context.toposortScan (acc.1, acc.2) a) (c1, true)).1 := h2
      omega
    | false =>
      obtain ⟨hseq, _, _⟩ := toposortScan_false
        (show (Context.toposortScan (c0, false) a).2 = false by rw [hs])
      have hc1 : c1 = c0 := by rw [hs] at hseq; exact hseq
      subst hc1
      exact ih c1 hg hlen hflag

theorem toposortPass_sum {ctx : Context} (hbnd : DownBnd ctx)
    (h : (Context.toposortPass ctx).2 = true) :
    layerSum ctx + 1 ≤ layerSum (Context.toposortPass ctx).1 := by
  unfold Context.toposortPass at h ⊢
  exact passFold_sum_strict hbnd (List.range ctx.nodes.length) ctx
    (fun i => rfl) rfl h

theorem pathL_extend {ctx : Context} {a b : Nat} (hs : stepRel ctx a b) :
    ∀ (l : List Nat) (u : Nat), pathL ctx u l → pathEnd u l = a →
      pathL ctx u (l ++ [b]) := by
  intro l
  induction l with
  | nil =>
    intro u _ hend
    have hu : u = a := hend
    subst hu
    exact ⟨hs, trivial⟩
  | cons w rest ih =>
    intro u hp hend
    exact ⟨hp.1, ih w hp.2 hend⟩

theorem toposortVisit_inv {ctx : Context} {a b : Nat}
    (hb : b ∈ (getNode ctx a).downward) (hinv : LayerPathInv ctx) :
    LayerPathInv (Context.toposortVisit ctx a b).1 := by
  unfold Context.toposortVisit
  by_cases hc : (getNode ctx b).layer ≤ (getNode ctx a).layer
  · rw [if_pos hc]
    by_cases hblt : b < ctx.nodes.length
    · intro v
      have hgraph : ∀ i, (getNode { ctx with
          nodes := updN b (fun n =>
            { n with layer := (getNode ctx a).layer + 1 }) ctx.nodes }
          i).downward = (getNode ctx i).downward := fun i =>
        getNodeL_updN_comp Node.downward
          (fun n => { n with layer := (getNode ctx a).layer + 1 })
          (fun v => rfl) b ctx.nodes i
      by_cases hvb : v = b
      · subst hvb
        obtain ⟨u, l, hp, hend, hlen⟩ := hinv a
        refine ⟨u, l ++ [v], (pathL_congr hgraph _ _).mpr
          (pathL_extend hb l u hp hend), pathEnd_concat v l u, ?_⟩
        rw [List.length_append]
        show l.length + 1 = (getNodeL (updN v (fun n =>
          { n with layer := (getNode ctx a).layer + 1 }) ctx.nodes)
          v).layer
        unfold getNodeL
        rw [getIdx_updN_eq { } _ hblt]
        show l.length + 1 = (getNode ctx a).layer + 1
        omega
      · obtain ⟨u, l, hp, hend, hlen⟩ := hinv v
        refine ⟨u, l, (pathL_congr hgraph _ _).mpr hp, hend, ?_⟩
        show l.length = (getNodeL (updN b (fun n =>
          { n with layer := (getNode ctx a).layer + 1 }) ctx.nodes)
          v).layer
        unfold getNodeL
        rw [getIdx_updN_ne { } _ ctx.nodes hvb]
        exact hlen
    · have hupd : updN b (fun n =>
          { n with layer := (getNode ctx a).layer + 1 }) ctx.nodes =
          ctx.nodes := updN_ge _ (Nat.le_of_not_lt hblt)
      rw [hupd]
      exact hinv
  · rw [if_neg hc]
    exact hinv

theorem scanFold_inv {a : Nat} : ∀ (l : List Nat) (acc : Context × Bool)
    (ctx0 : Context),
    (∀ i, (getNode acc.1 i).downward = (getNode ctx0 i).downward) →
    (∀ b ∈ l, b ∈ (getNode ctx0 a).downward) →
    LayerPathInv acc.1 →
    LayerPathInv (l.foldl (Context.scanFoldF a) acc).1 := by
  intro l
  induction l with
  | nil => intro acc ctx0 _ _ h; exact h
  | cons b rest ih =>
    intro acc ctx0 hg hmem hinv
    rw [List.foldl_cons]
    refine ih (Context.scanFoldF a acc b) ctx0 (fun i => ?_)
      (fun x hx => hmem x (List.mem_cons_of_mem b hx)) ?_
    · show (getNode (Context.toposortVisit acc.1 a b).1 i).downward = _
      exact ((toposortVisit_graph acc.1 a b).2 i).trans (hg i)
    · show LayerPathInv (Context.toposortVisit acc.1 a b).1
      refine toposortVisit_inv ?_ hinv
      rw [hg a]
      exact hmem b (List.mem_cons_self b rest)

theorem toposortScan_inv (st : Context × Bool) (a : Nat)
    (hinv : LayerPathInv st.1) :
    LayerPathInv (Context.toposortScan st a).1 :=
  scanFold_inv ((getNode st.1 a).downward) st st.1
    (fun i => rfl) (fun b hb => hb) hinv

theorem toposortPass_inv (ctx : Context) (hinv : LayerPathInv ctx) :
    LayerPathInv (Context.toposortPass ctx).1 := by
  unfold Context.toposortPass
  refine foldl_pres (P := fun acc : Context × Bool =>
    LayerPathInv acc.1) ?_ (List.range ctx.nodes.length)
    (ctx, false) hinv
  intro acc a hacc
  exact toposortScan_inv (acc.1, acc.2) a hacc

theorem downBnd_pass {ctx : Context} (h : DownBnd ctx) :
    DownBnd (Context.toposortPass ctx).1 := by
  obtain ⟨hlen, hdown⟩ := toposortPass_graph ctx
  intro i j hj
  rw [hdown i] at hj
  rw [hlen]
  exact h i j hj

theorem layerInv_bound {ctx : Context} (hbnd : DownBnd ctx)
    (hacyc : ¬ HasCycle ctx) (hinv : LayerPathInv ctx) (v : Nat) :
    (getNode ctx v).layer ≤ ctx.nodes.length - 1 := by
  by_contra hgt
  rw [Nat.not_le] at hgt
  obtain ⟨u, l, hp, hend, hlen⟩ := hinv v
  have hlpos : 0 < l.length := by omega
  have hmem : ∀ w ∈ u :: l, w < ctx.nodes.length := by
    intro w hw
    rcases List.mem_cons.mp hw with rfl | hw2
    · cases hl : l with
      | nil => rw [hl] at hlpos; exact absurd hlpos (by simp)
      | cons w0 rest =>
        rw [hl] at hp
        exact pathL_head_lt hbnd hp
    · exact pathL_mem_lt hbnd l u hp w hw2
  by_cases hnd : (u :: l).Nodup
  · have hsub : (u :: l) ⊆ List.range ctx.nodes.length := by
      intro w hw
      rw [List.mem_range]
      exact hmem w hw
    have hle := (List.subperm_of_subset hnd hsub).length_le
    rw [List.length_range, List.length_cons] at hle
    omega
  · exact hacyc (pathL_dup_cycle l u hp hnd)

theorem layerSum_le {ctx : Context} {k : Nat}
    (h : ∀ v, v < ctx.nodes.length → (getNode ctx v).layer ≤ k) :
    layerSum ctx ≤ ctx.nodes.length * k := by
  unfold layerSum
  have hmem : ∀ x ∈ ctx.nodes.map Node.layer, x ≤ k := by
    intro x hx
    obtain ⟨nd, hnd, hxe⟩ := List.mem_map.mp hx
    obtain ⟨i, hi, hie⟩ := List.mem_iff_getElem.mp hnd
    have hv := h i hi
    unfold getNode getNodeL at hv
    rw [getIdx_eq_getElem { } ctx.nodes i hi, hie] at hv
    rw [← hxe]
    exact hv
  have hs := List.sum_le_card_nsmul (ctx.nodes.map Node.layer) k hmem
  rw [List.length_map] at hs
  simpa using hs

theorem toposortGo_acyclic : ∀ (budget : Nat) (ctx : Context),
    DownBnd ctx → LayerPathInv ctx → ¬ HasCycle ctx →
    ctx.nodes.length * (ctx.nodes.length - 1) < layerSum ctx + budget →
    ∃ c, Context.toposortGo budget ctx = .ok c := by
  intro budget
  induction budget with
  | zero =>
    intro ctx hbnd hinv hacyc hlt
    have hb := layerSum_le (fun v _ => layerInv_bound hbnd hacyc hinv v)
    exact absurd hb (by omega)
  | succ budget ih =>
    intro ctx hbnd hinv hacyc hlt
    show ∃ c, (if (Context.toposortPass ctx).2 = true then
        Context.toposortGo budget (Context.toposortPass ctx).1
      else .ok (Context.toposortPass ctx).1) = .ok c
    cases hpf : (Context.toposortPass ctx).2 with
    | false =>
      exact ⟨(Context.toposortPass ctx).1, by rw [if_neg (by simp)]⟩
    | true =>
      rw [if_pos rfl]
      obtain ⟨hlen, hgr⟩ := toposortPass_graph ctx
      refine ih (Context.toposortPass ctx).1 (downBnd_pass hbnd)
        (toposortPass_inv ctx hinv)
        (fun hc => hacyc ((hasCycle_congr hgr).mp hc)) ?_
      have hsum := toposortPass_sum hbnd hpf
      rw [hlen]
      omega

theorem layer0_add_node {ctx : Context}
    (h : ∀ v, (getNode ctx v).layer = 0) (name : List Char) :
    ∀ v, (getNode (ctx.add_node name) v).layer = 0 := by
  intro v
  unfold Context.add_node
  cases hl : idLookup ctx.id name with
  | some k => exact h v
  | none =>
    show (getNodeL (ctx.nodes ++ [{ padding := 1 }]) v).layer = 0
    unfold getNodeL
    by_cases hv : v < ctx.nodes.length
    · rw [getIdx_append_lt { } _ hv]
      have hv' := h v
      unfold getNode getNodeL at hv'
      exact hv'
    · by_cases hv2 : v = ctx.nodes.length
      · subst hv2
        rw [getIdx_append_at]
      · have hbound : (ctx.nodes ++ [({ padding := 1 } : Node)]).length
            ≤ v := by
          rw [List.length_append, List.length_singleton]
          omega
        rw [getIdx_ge { } hbound]

theorem layer0_add_vertex {ctx ctx' : Context}
    (h : ∀ v, (getNode ctx v).layer = 0) {a b : List Char}
    (he : ctx.add_vertex a b = some ctx') :
    ∀ v, (getNode ctx' v).layer = 0 := by
  unfold Context.add_vertex at he
  cases h1 : idLookup ctx.id a with
  | none =>
    rw [h1] at he
    exact Option.noConfusion he
  | some ia =>
    cases h2 : idLookup ctx.id b with
    | none =>
      rw [h1, h2] at he
      exact Option.noConfusion he
    | some ib =>
      rw [h1, h2] at he
      replace he : some
          { ctx with
            nodes := updN ia
              (fun n => { n with downward := sinsert ib n.downward })
              (updN ib (fun n => { n with upward := sinsert ia n.upward })
                ctx.nodes) } = some ctx' := he
      injection he with he'
      intro v
      rw [← he']
      show (getNodeL (updN ia
        (fun n => { n with downward := sinsert ib n.downward })
        (updN ib (fun n => { n with upward := sinsert ia n.upward })
          ctx.nodes)) v).layer = 0
      rw [getNodeL_updN_comp Node.layer
        (fun n => { n with downward := sinsert ib n.downward })
        (fun x => rfl) ia _ v]
      rw [getNodeL_updN_comp Node.layer
        (fun n => { n with upward := sinsert ia n.upward })
        (fun x => rfl) ib ctx.nodes v]
      have hv' := h v
      unfold getNode getNodeL at hv'
      exact hv'

theorem layer0_parseLine {ctx : Context}
    (h : ∀ v, (getNode ctx v).layer = 0) (line : List Char) :
    ∀ v, (getNode (ctx.parseLine line) v).layer = 0 := by
  unfold Context.parseLine
  refine foldl_pres (P := fun acc : Context × Option (List Char) =>
    ∀ w, (getNode acc.1 w).layer = 0) ?_ _ (ctx, none) h
  intro acc part hacc
  dsimp only []
  by_cases he : (trimChars part).isEmpty
  · rw [if_pos he]
    exact hacc
  · rw [if_neg he]
    intro w
    cases hprev : acc.2 with
    | none =>
      show (getNode (acc.1.add_node (trimChars part)) w).layer = 0
      exact layer0_add_node hacc (trimChars part) w
    | some p =>
      cases hav : (acc.1.add_node (trimChars part)).add_vertex p
          (trimChars part) with
      | none =>
        show (getNode (((acc.1.add_node (trimChars part)).add_vertex p
          (trimChars part)).getD (acc.1.add_node (trimChars part)))
          w).layer = 0
        rw [hav]
        show (getNode (acc.1.add_node (trimChars part)) w).layer = 0
        exact layer0_add_node hacc (trimChars part) w
      | some c2 =>
        show (getNode (((acc.1.add_node (trimChars part)).add_vertex p
          (trimChars part)).getD (acc.1.add_node (trimChars part)))
          w).layer = 0
        rw [hav]
        show (getNode c2 w).layer = 0
        exact layer0_add_vertex (layer0_add_node hacc (trimChars part))
          hav w

theorem layer0_parse {ctx : Context}
    (h : ∀ v, (getNode ctx v).layer = 0) (input : List Char) :
    ∀ v, (getNode (ctx.parse input) v).layer = 0 := by
  unfold Context.parse
  refine foldl_pres (P := fun c2 : Context =>
    ∀ v, (getNode c2 v).layer = 0) ?_ _ ctx h
  intro c2 line hc2
  dsimp only []
  by_cases he : (trimChars line).isEmpty
  · rw [if_pos he]
    exact hc2
  · rw [if_neg he]
    exact layer0_parseLine hc2 (trimChars line)

/-- C1.  `Context::process` (hence `dag_to_text`) returns the error
`CycleFound` exactly when the parsed input graph contains a directed
cycle, for every hash-iteration order `rho`; and `CycleFound` is the
only error it can return (so on an acyclic input the full diagram is
produced, and on a cyclic one no partial output exists).  This covers
both halves of the claim: the `n^2` pass budget of `toposort` never
misfires on an acyclic graph and always fires on a cyclic one. -/
theorem c1_cycle_detection (rho : List Nat → List Nat) (input : String) :
    (Context.processOrd rho input = .error .CycleFound ↔
      HasCycle (Context.parse { } input.toList)) ∧
    (∀ e, Context.processOrd rho input = .error e →
      e = .CycleFound) := by
  refine ⟨?_, fun e _ => by cases e; rfl⟩
  have hred : Context.processOrd rho input =
      (if (Context.parse { } input.toList).is_empty = true then .ok ""
      else
        match Context.toposort (Context.parse { } input.toList) with
        | .error e => .error e
        | .ok ctx => .ok (Context.render (Context.layout
            (Context.resolve_crossings (Context.build_layers
              (Context.complete ctx rho).1)) rho))) := rfl
  rw [hred]
  have hadj := reached_adjInv (Reached.parsed input.toList Reached.empty)
  have hbnd : DownBnd (Context.parse { } input.toList) := hadj.2.1
  by_cases hemp : (Context.parse { } input.toList).is_empty = true
  · rw [if_pos hemp]
    constructor
    · intro h
      exact Except.noConfusion h
    · intro hc
      exfalso
      obtain ⟨x, l, hp⟩ := hc
      have hstep : ∃ a2 b2,
          stepRel (Context.parse { } input.toList) a2 b2 := by
        cases l with
        | nil => exact ⟨x, x, hp.1⟩
        | cons w rest => exact ⟨x, w, hp.1⟩
      obtain ⟨a2, b2, hs⟩ := hstep
      have halt := (hbnd a2 b2 hs).1
      unfold Context.is_empty at hemp
      cases hnl : (Context.parse { } input.toList).nodes with
      | nil =>
        rw [hnl] at halt
        exact absurd halt (by simp)
      | cons y ys =>
        rw [hnl] at hemp
        exact absurd hemp (by simp)
  · rw [if_neg hemp]
    have hn1 : 0 < (Context.parse { } input.toList).nodes.length := by
      cases hnl : (Context.parse { } input.toList).nodes with
      | nil =>
        exfalso
        apply hemp
        unfold Context.is_empty
        rw [hnl]
        rfl
      | cons y ys => simp
    cases htp : Context.toposort (Context.parse { } input.toList) with
    | error e =>
      cases e
      constructor
      · intro _
        by_contra hnc
        have hinv : LayerPathInv (Context.parse { } input.toList) := by
          intro v
          exact ⟨v, [], trivial, rfl,
            (@layer0_parse { } (fun w => rfl) input.toList v).symm⟩
        have harith : (Context.parse { } input.toList).nodes.length *
            ((Context.parse { } input.toList).nodes.length - 1) <
            layerSum (Context.parse { } input.toList) +
            (Context.parse { } input.toList).nodes.length *
              (Context.parse { } input.toList).nodes.length := by
          have hmul : (Context.parse { } input.toList).nodes.length *
              (((Context.parse { } input.toList).nodes.length - 1) + 1) =
              (Context.parse { } input.toList).nodes.length *
                ((Context.parse { } input.toList).nodes.length - 1) +
              (Context.parse { } input.toList).nodes.length :=
            Nat.mul_succ (Context.parse { } input.toList).nodes.length
              ((Context.parse { } input.toList).nodes.length - 1)
          have hsucc : ((Context.parse { } input.toList).nodes.length - 1)
              + 1 = (Context.parse { } input.toList).nodes.length := by
            omega
          rw [hsucc] at hmul
          omega
        obtain ⟨cok, hok⟩ := toposortGo_acyclic
          ((Context.parse { } input.toList).nodes.length *
            (Context.parse { } input.toList).nodes.length)
          (Context.parse { } input.toList) hbnd hinv hnc harith
        unfold Context.toposort at htp
        rw [hok] at htp
        exact Except.noConfusion htp
      · intro _
        rfl
    | ok cok =>
      constructor
      · intro h
        exact Except.noConfusion h
      · intro hc
        exfalso
        have herr := toposortGo_cyclic
          ((Context.parse { } input.toList).nodes.length *
            (Context.parse { } input.toList).nodes.length)
          (Context.parse { } input.toList) hc
        unfold Context.toposort at htp
        rw [herr] at htp
        exact Except.noConfusion htp

end GraphDag
